import Mathlib

/-!
# Network stream transport layer of cryptlib (io/net.c, io/net_trans.c)

A shallow embedding of the buffered transport read/write engine, the direct
access functions, the proxy detector, the descriptor sanity check and the
functions that establish and shut down a connection, together with theorems
about them.

Conventions of the embedding:

* C `int` values are `Int`; flag words are `Nat` and are combined with the
  bitwise operators.  Pointers are addresses (`Nat`), `NULL` is `0`.
* A `(pointer, length)` pair of C becomes a `List`; a store into a buffer at
  an offset is `store`, a copy out of a buffer is `slice`.
* Constants, enumeration values and helper macros that live in headers which
  are not part of the sources at hand are fields of `Consts`: every
  definition takes them as the parameter `K`.
* The raw transport driver and the kernel configuration store are external
  collaborators: they are the parameters `T : Transport σ` and
  `kern : Kernel`.  Every function that calls them also returns the list of
  calls it made, in order.
* The collaborators of the connect path (URL parser, proxy discovery,
  allocator, driver-ready gate, the functions that fill in the operation
  table and the operations it refers to, the tunnel handshake) are the
  parameter `env : NetEnv σ`; the calls made are recorded as `NetEvent`s.
* A failed `REQUIRES` / `ENSURES` check makes the function return at once,
  with `CRYPT_ERROR_INTERNAL` unless it is a `void` function, and leaves
  everything as it is at that point.  Checks on a `BOOLEAN` argument being
  `TRUE` or `FALSE` hold for every `Bool` and are left out.
-/

namespace Cryptlib

/-! ## Basic types -/

/-- A byte of a buffer. -/
abbrev BYTE := UInt8

/-- Header constants used by io/net.c and io/net_trans.c.  Their defining
headers are not among the sources, so they are parameters of the model. -/
structure Consts where
  /-- Width in bits of `uintptr_t`. -/
  PTR_BITS : Nat
  CRYPT_OK : Int
  CRYPT_ERROR : Int
  CRYPT_ERROR_INTERNAL : Int
  CRYPT_ERROR_MEMORY : Int
  CRYPT_ERROR_NOTINITED : Int
  CRYPT_ERROR_NOTAVAIL : Int
  CRYPT_ERROR_OPEN : Int
  OK_SPECIAL : Int
  MAX_BUFFER_SIZE : Int
  MAX_INTLENGTH_SHORT : Int
  MAX_INTLENGTH : Int
  MAX_NETWORK_TIMEOUT : Int
  MAX_DNS_SIZE : Int
  MIN_HOST_SIZE : Int
  MAX_HOST_SIZE : Int
  MIN_LOCATION_SIZE : Int
  MAX_LOCATION_SIZE : Int
  MIN_PORT_NUMBER : Int
  MAX_PORT_NUMBER : Int
  STREAM_PROTOCOL_NONE : Int
  STREAM_PROTOCOL_TCP : Int
  STREAM_PROTOCOL_UDP : Int
  STREAM_PROTOCOL_HTTP : Int
  STREAM_PROTOCOL_LAST : Int
  STREAM_PEER_NONE : Int
  STREAM_PEER_LAST : Int
  NET_OPTION_NONE : Int
  NET_OPTION_HOSTNAME : Int
  NET_OPTION_TRANSPORTSESSION : Int
  NET_OPTION_NETWORKSOCKET : Int
  NET_OPTION_NETWORKSOCKET_DUMMY : Int
  NET_OPTION_LAST : Int
  STREAM_NFLAG_NONE : Nat
  STREAM_NFLAG_ISSERVER : Nat
  STREAM_NFLAG_USERSOCKET : Nat
  STREAM_NFLAG_HTTPPROXY : Nat
  STREAM_NFLAG_HTTPTUNNEL : Nat
  STREAM_NFLAG_DGRAM : Nat
  STREAM_NFLAG_MAX : Nat
  TRANSPORT_FLAG_NONE : Nat
  TRANSPORT_FLAG_FLUSH : Nat
  TRANSPORT_FLAG_NONBLOCKING : Nat
  TRANSPORT_FLAG_BLOCKING : Nat
  TRANSPORT_FLAG_MAX : Nat
  CRYPT_OPTION_NET_HTTP_PROXY : Int
  CRYPT_OPTION_NET_SOCKS_SERVER : Int
  /-- The `rangeCheck( start, length, maxLength )` macro. -/
  rangeCheck : Int → Int → Int → Bool
  /-- The `rangeCheckZ( start, length, maxLength )` macro. -/
  rangeCheckZ : Int → Int → Int → Bool
  /-- The `isHandleRangeValid( handle )` macro. -/
  isHandleRangeValid : Int → Bool
  DEFAULTUSER_OBJECT_HANDLE : Int
  STREAM_TYPE_NETWORK : Int
  URL_TYPE_NONE : Int
  URL_TYPE_HTTP : Int
  INVALID_SOCKET : Int
  CRYPT_OPTION_NET_CONNECTTIMEOUT : Int
  CRYPT_OPTION_NET_READTIMEOUT : Int
  /-- The value of `sizeof( NET_STREAM_INFO )`. -/
  SIZEOF_NET_STREAM_INFO : Int

/-- The `cryptStatusError( status )` macro: a status below `CRYPT_OK`. -/
def cryptStatusError (K : Consts) (status : Int) : Bool :=
  decide (status < K.CRYPT_OK)

/-- The `cryptStatusOK( status )` macro. -/
def cryptStatusOK (K : Consts) (status : Int) : Bool :=
  decide (status = K.CRYPT_OK)

/-- The `NULL` pointer. -/
def NULL : Nat := 0

/-- Copy `len` bytes out of `buf` starting at offset `off`
(`memcpy( dest, buf + off, len )`, seen from the destination). -/
def slice {α : Type} (buf : List α) (off len : Int) : List α :=
  (buf.drop off.toNat).take len.toNat

/-- Store the bytes `d` into `buf` at offset `off`
(`memcpy( buf + off, d, |d| )`). -/
def store {α : Type} (buf : List α) (off : Int) (d : List α) : List α :=
  buf.take off.toNat ++ d ++ buf.drop (off.toNat + d.length)

/-! ## Safe pointers (misc/safety.h) -/

/-- A pointer stored by `FNPTR_DECLARE` / `DATAPTR_DECLARE`: the value
`name##1` and the check word `name##2`. -/
structure SafePtr where
  ptr1 : Nat
  ptr2 : Nat
deriving DecidableEq, Repr

/-- The value `~0` as a `uintptr_t`: all bits set. -/
def allOnes (K : Consts) : Nat := 2 ^ K.PTR_BITS - 1

/-- The macro `FNPTR_SET( name, value )`. -/
def FNPTR_SET (K : Consts) (value : Nat) : SafePtr :=
  { ptr1 := value, ptr2 := (value % 2 ^ K.PTR_BITS) ^^^ allOnes K }

/-- The macro `FNPTR_ISVALID( name )`. -/
def FNPTR_ISVALID (K : Consts) (p : SafePtr) : Bool :=
  decide (((p.ptr1 % 2 ^ K.PTR_BITS) ^^^ p.ptr2) = allOnes K)

/-- The macro `FNPTR_GET( name )`. -/
def FNPTR_GET (K : Consts) (p : SafePtr) : Nat :=
  if FNPTR_ISVALID K p then p.ptr1 else NULL

/-- The macro `DATAPTR_SET( name, value )`. -/
def DATAPTR_SET (K : Consts) (value : Nat) : SafePtr :=
  { ptr1 := value, ptr2 := (value % 2 ^ K.PTR_BITS) ^^^ allOnes K }

/-- The macro `DATAPTR_ISVALID( name )`. -/
def DATAPTR_ISVALID (K : Consts) (p : SafePtr) : Bool :=
  decide (((p.ptr1 % 2 ^ K.PTR_BITS) ^^^ p.ptr2) = allOnes K)

/-- The macro `DATAPTR_GET( name )`. -/
def DATAPTR_GET (K : Consts) (p : SafePtr) : Nat :=
  if DATAPTR_ISVALID K p then p.ptr1 else NULL

/-! ## Descriptor and stream records -/

/-- The error record `ERROR_INFO`: the message it holds, empty when the
record is cleared. -/
structure ERROR_INFO where
  errorString : List Char
deriving DecidableEq, Repr

/-- The connection descriptor `NET_STREAM_INFO`. -/
structure NET_STREAM_INFO where
  protocol : Int
  nFlags : Nat
  timeout : Int
  savedTimeout : Int
  systemType : Int
  host : Option (List Char)
  hostLen : Int
  path : Option (List Char)
  pathLen : Int
  port : Int
  netSocket : Int
  listenSocket : Int
  iTransportSession : Int
  writeBuffer : Option (List BYTE)
  writeBufSize : Int
  writeBufEnd : Int
  storageSize : Int
  writeFunction : SafePtr
  readFunction : SafePtr
  transportConnectFunction : SafePtr
  transportDisconnectFunction : SafePtr
  transportReadFunction : SafePtr
  transportWriteFunction : SafePtr
  transportOKFunction : SafePtr
  transportCheckFunction : SafePtr
  errorInfo : ERROR_INFO
deriving DecidableEq, Repr

/-- The upper stream handle `STREAM`, with the descriptor its `netStream`
pointer refers to held in `netStreamInfo`. -/
structure STREAM where
  type : Int
  buffer : List BYTE
  bufSize : Int
  bufPos : Int
  bufEnd : Int
  netStream : SafePtr
  netStreamInfo : NET_STREAM_INFO
deriving DecidableEq, Repr

/-! ## External collaborators -/

/-- What one transport read reports: its status and the bytes it stored at
the destination (`bytesRead` is their number). -/
structure ReadReply where
  status : Int
  data : List BYTE
deriving DecidableEq, Repr

/-- What one transport write reports: its status and `bytesWritten`. -/
structure WriteReply where
  status : Int
  bytesWritten : Int
deriving DecidableEq, Repr

/-- The raw transport driver over a state `σ`: `read st maxLength flags` and
`write st payload flags`. -/
structure Transport (σ : Type) where
  read : σ → Int → Nat → ReadReply × σ
  write : σ → List BYTE → Nat → WriteReply × σ

/-- One transport read as the buffering layer issued it. -/
structure ReadCall where
  maxLength : Int
  flags : Nat
  reply : ReadReply
deriving DecidableEq, Repr

/-- One transport write as the buffering layer issued it. -/
structure WriteCall where
  payload : List BYTE
  flags : Nat
  reply : WriteReply
deriving DecidableEq, Repr

/-- What `krnlSendMessage( handle, IMESSAGE_GETATTRIBUTE_S, &msgData,
attribute )` reports: its status and the string it stored at `msgData.data`
(`msgData.length` is its length). -/
structure AttrReply where
  status : Int
  data : List Char
deriving DecidableEq, Repr

/-- The kernel's configuration store, read through
`IMESSAGE_GETATTRIBUTE_S`: `getAttributeS handle attribute maxLength`. -/
structure Kernel where
  getAttributeS : Int → Int → Int → AttrReply

/-- One string-attribute query as sent to the kernel. -/
structure AttrQuery where
  handle : Int
  attributeId : Int
deriving DecidableEq, Repr

/-- The connect-options record `NET_CONNECT_INFO`. -/
structure NET_CONNECT_INFO where
  name : Option (List Char)
  nameLength : Int
  interface : Option (List Char)
  interfaceLength : Int
  port : Int
  options : Int
  iUserObject : Int
  iCryptSession : Int
  networkSocket : Int
  timeout : Int
  connectTimeout : Int
deriving DecidableEq, Repr

/-! ## io/net.c: sanityCheckNetStream -/

/-- The function `sanityCheckNetStream( netStream )`. -/
def sanityCheckNetStream (K : Consts) (netStream : NET_STREAM_INFO) : Bool :=
  if netStream.protocol ≤ K.STREAM_PROTOCOL_NONE ∨
      netStream.protocol ≥ K.STREAM_PROTOCOL_LAST ∨
      netStream.nFlags < K.STREAM_NFLAG_NONE ∨
      netStream.nFlags > K.STREAM_NFLAG_MAX then false
  else if (netStream.timeout < 0 ∨ netStream.timeout > K.MAX_NETWORK_TIMEOUT) ∧
      ¬ (netStream.nFlags &&& K.STREAM_NFLAG_ISSERVER ≠ 0 ∧
          netStream.timeout = K.MAX_INTLENGTH) then false
  else if netStream.savedTimeout < 0 ∨
      netStream.savedTimeout > K.MAX_NETWORK_TIMEOUT then false
  else if netStream.systemType < K.STREAM_PEER_NONE ∨
      netStream.systemType ≥ K.STREAM_PEER_LAST then false
  else if netStream.host = none ∧ netStream.hostLen ≠ 0 then false
  else if netStream.host ≠ none ∧
      (netStream.hostLen < K.MIN_HOST_SIZE ∨
        netStream.hostLen > K.MAX_HOST_SIZE) then false
  else if netStream.path = none ∧ netStream.pathLen ≠ 0 then false
  else if netStream.path ≠ none ∧
      (netStream.pathLen < K.MIN_LOCATION_SIZE ∨
        netStream.pathLen > K.MAX_LOCATION_SIZE) then false
  else if netStream.nFlags &&& K.STREAM_NFLAG_USERSOCKET = 0 ∧
      (netStream.port < K.MIN_PORT_NUMBER ∨
        netStream.port > K.MAX_PORT_NUMBER) then false
  else if netStream.writeBuffer = none then
    if netStream.writeBufSize ≠ 0 ∨ netStream.writeBufEnd ≠ 0 then false
    else true
  else if netStream.writeBufSize ≤ 0 ∨
      netStream.writeBufSize ≥ K.MAX_BUFFER_SIZE then false
  else if netStream.writeBufEnd < 0 ∨
      netStream.writeBufEnd > netStream.writeBufSize then false
  else if FNPTR_GET K netStream.writeFunction = NULL ∨
      FNPTR_GET K netStream.readFunction = NULL ∨
      FNPTR_GET K netStream.transportConnectFunction = NULL ∨
      FNPTR_GET K netStream.transportDisconnectFunction = NULL ∨
      FNPTR_GET K netStream.transportReadFunction = NULL ∨
      FNPTR_GET K netStream.transportWriteFunction = NULL ∨
      FNPTR_GET K netStream.transportOKFunction = NULL ∨
      FNPTR_GET K netStream.transportCheckFunction = NULL then false
  else true

/-- The checks of `sanityCheckNetStream` up to and including the port check
("Check overall network stream data" and "Check network-related
information"), on their own. -/
def sanityCheckGeneral (K : Consts) (netStream : NET_STREAM_INFO) : Bool :=
  if netStream.protocol ≤ K.STREAM_PROTOCOL_NONE ∨
      netStream.protocol ≥ K.STREAM_PROTOCOL_LAST ∨
      netStream.nFlags < K.STREAM_NFLAG_NONE ∨
      netStream.nFlags > K.STREAM_NFLAG_MAX then false
  else if (netStream.timeout < 0 ∨ netStream.timeout > K.MAX_NETWORK_TIMEOUT) ∧
      ¬ (netStream.nFlags &&& K.STREAM_NFLAG_ISSERVER ≠ 0 ∧
          netStream.timeout = K.MAX_INTLENGTH) then false
  else if netStream.savedTimeout < 0 ∨
      netStream.savedTimeout > K.MAX_NETWORK_TIMEOUT then false
  else if netStream.systemType < K.STREAM_PEER_NONE ∨
      netStream.systemType ≥ K.STREAM_PEER_LAST then false
  else if netStream.host = none ∧ netStream.hostLen ≠ 0 then false
  else if netStream.host ≠ none ∧
      (netStream.hostLen < K.MIN_HOST_SIZE ∨
        netStream.hostLen > K.MAX_HOST_SIZE) then false
  else if netStream.path = none ∧ netStream.pathLen ≠ 0 then false
  else if netStream.path ≠ none ∧
      (netStream.pathLen < K.MIN_LOCATION_SIZE ∨
        netStream.pathLen > K.MAX_LOCATION_SIZE) then false
  else if netStream.nFlags &&& K.STREAM_NFLAG_USERSOCKET = 0 ∧
      (netStream.port < K.MIN_PORT_NUMBER ∨
        netStream.port > K.MAX_PORT_NUMBER) then false
  else true

/-- The checks of `sanityCheckNetStream` from "If it's an unbuffered network
stream" on (write buffer and access functions), on their own. -/
def sanityCheckBuffers (K : Consts) (netStream : NET_STREAM_INFO) : Bool :=
  if netStream.writeBuffer = none then
    if netStream.writeBufSize ≠ 0 ∨ netStream.writeBufEnd ≠ 0 then false
    else true
  else if netStream.writeBufSize ≤ 0 ∨
      netStream.writeBufSize ≥ K.MAX_BUFFER_SIZE then false
  else if netStream.writeBufEnd < 0 ∨
      netStream.writeBufEnd > netStream.writeBufSize then false
  else if FNPTR_GET K netStream.writeFunction = NULL ∨
      FNPTR_GET K netStream.readFunction = NULL ∨
      FNPTR_GET K netStream.transportConnectFunction = NULL ∨
      FNPTR_GET K netStream.transportDisconnectFunction = NULL ∨
      FNPTR_GET K netStream.transportReadFunction = NULL ∨
      FNPTR_GET K netStream.transportWriteFunction = NULL ∨
      FNPTR_GET K netStream.transportOKFunction = NULL ∨
      FNPTR_GET K netStream.transportCheckFunction = NULL then false
  else true

/-- The write-buffer checks of `sanityCheckNetStream` ("If it's an unbuffered
network stream, all buffer values must be zero", else "Make sure that the
write buffer position is within bounds"), on their own. -/
def sanityCheckWriteBuffer (K : Consts) (netStream : NET_STREAM_INFO) : Bool :=
  if netStream.writeBuffer = none then
    if netStream.writeBufSize ≠ 0 ∨ netStream.writeBufEnd ≠ 0 then false
    else true
  else if netStream.writeBufSize ≤ 0 ∨
      netStream.writeBufSize ≥ K.MAX_BUFFER_SIZE then false
  else if netStream.writeBufEnd < 0 ∨
      netStream.writeBufEnd > netStream.writeBufSize then false
  else true

/-! ## io/net_trans.c: bufferedTransportRead -/

/-- Everything a call of `bufferedTransportRead` leaves behind: the returned
status, the value of `*length`, the bytes the call stored in the caller's
buffer (from offset 0), the stream, the transport state and the transport
reads issued. -/
structure ReadOutcome (σ : Type) where
  status : Int
  length : Int
  out : List BYTE
  stream : STREAM
  tstate : σ
  calls : List ReadCall
deriving DecidableEq

/-- The part of `bufferedTransportRead` from "Read as much as we can from the
buffer" to the end: drain the refilled buffer and, if the request is still
not satisfied, read the remainder directly into the caller's buffer. -/
def bufferedTransportReadDrain {σ : Type} (K : Consts) (T : Transport σ)
    (stream : STREAM) (ts : σ) (maxLength : Int) (calls : List ReadCall) :
    ReadOutcome σ :=
  -- ENSURES_S( sanityCheckNetStream( netStream ) )
  if sanityCheckNetStream K stream.netStreamInfo = false then
    ⟨K.CRYPT_ERROR_INTERNAL, 0, [], stream, ts, calls⟩
  else
    let bufferBytesRead := min maxLength stream.bufEnd
    let out := slice stream.buffer 0 bufferBytesRead
    let stream1 := { stream with bufPos := bufferBytesRead }
    if maxLength ≤ bufferBytesRead then
      if sanityCheckNetStream K stream1.netStreamInfo = false then
        ⟨K.CRYPT_ERROR_INTERNAL, bufferBytesRead, out, stream1, ts, calls⟩
      else
        ⟨K.CRYPT_OK, bufferBytesRead, out, stream1, ts, calls⟩
    else
      let r := T.read ts (maxLength - bufferBytesRead) K.TRANSPORT_FLAG_BLOCKING
      let calls1 := calls ++
        [⟨maxLength - bufferBytesRead, K.TRANSPORT_FLAG_BLOCKING, r.1⟩]
      if cryptStatusError K r.1.status then
        ⟨r.1.status, bufferBytesRead, out ++ r.1.data, stream1, r.2, calls1⟩
      else if sanityCheckNetStream K stream1.netStreamInfo = false then
        ⟨K.CRYPT_ERROR_INTERNAL, bufferBytesRead + r.1.data.length,
          out ++ r.1.data, stream1, r.2, calls1⟩
      else
        ⟨K.CRYPT_OK, bufferBytesRead + r.1.data.length, out ++ r.1.data,
          stream1, r.2, calls1⟩

/-- The part of `bufferedTransportRead` under "If there's more room in the
buffer, refill it": one blocking read and, if room is left, one
opportunistic non-blocking read, followed by the drain. -/
def bufferedTransportReadRefill {σ : Type} (K : Consts) (T : Transport σ)
    (stream : STREAM) (ts : σ) (maxLength : Int) : ReadOutcome σ :=
  if stream.bufEnd < stream.bufSize then
    let bytesToRead :=
      if stream.bufSize - stream.bufEnd > maxLength then maxLength
      else stream.bufSize - stream.bufEnd
    let r1 := T.read ts bytesToRead K.TRANSPORT_FLAG_BLOCKING
    let call1 : ReadCall := ⟨bytesToRead, K.TRANSPORT_FLAG_BLOCKING, r1.1⟩
    let stream1 :=
      { stream with buffer := store stream.buffer stream.bufEnd r1.1.data }
    if cryptStatusError K r1.1.status then
      ⟨r1.1.status, 0, [], stream1, r1.2, [call1]⟩
    else
      let stream2 := { stream1 with bufEnd := stream1.bufEnd + r1.1.data.length }
      if stream2.bufEnd < stream2.bufSize then
        let r2 := T.read r1.2 (stream2.bufSize - stream2.bufEnd)
          K.TRANSPORT_FLAG_NONBLOCKING
        let call2 : ReadCall :=
          ⟨stream2.bufSize - stream2.bufEnd, K.TRANSPORT_FLAG_NONBLOCKING, r2.1⟩
        let stream3 :=
          { stream2 with buffer := store stream2.buffer stream2.bufEnd r2.1.data }
        let stream4 :=
          if cryptStatusOK K r2.1.status then
            { stream3 with bufEnd := stream3.bufEnd + r2.1.data.length }
          else stream3
        bufferedTransportReadDrain K T stream4 r2.2 maxLength [call1, call2]
      else
        bufferedTransportReadDrain K T stream2 r1.2 maxLength [call1]
  else
    bufferedTransportReadDrain K T stream ts maxLength []

/-- The function `bufferedTransportRead( stream, buffer, maxLength, length, flags )`.
`ts` is the state of the transport and `length0` the value `*length` holds on
entry. -/
def bufferedTransportRead {σ : Type} (K : Consts) (T : Transport σ)
    (stream : STREAM) (ts : σ) (maxLength : Int) (length0 : Int)
    (flags : Nat) : ReadOutcome σ :=
  let netStream := DATAPTR_GET K stream.netStream
  let bytesLeft := stream.bufEnd - stream.bufPos
  if netStream = NULL then
    ⟨K.CRYPT_ERROR_INTERNAL, length0, [], stream, ts, []⟩
  else if sanityCheckNetStream K stream.netStreamInfo = false then
    ⟨K.CRYPT_ERROR_INTERNAL, length0, [], stream, ts, []⟩
  else if ¬ (maxLength > 0 ∧ maxLength < K.MAX_BUFFER_SIZE) then
    ⟨K.CRYPT_ERROR_INTERNAL, length0, [], stream, ts, []⟩
  else if ¬ (bytesLeft ≥ 0 ∧ bytesLeft < K.MAX_INTLENGTH_SHORT) then
    ⟨K.CRYPT_ERROR_INTERNAL, length0, [], stream, ts, []⟩
  else if ¬ (flags ≥ K.TRANSPORT_FLAG_NONE ∧ flags ≤ K.TRANSPORT_FLAG_MAX) then
    ⟨K.CRYPT_ERROR_INTERNAL, length0, [], stream, ts, []⟩
  else if FNPTR_GET K stream.netStreamInfo.transportReadFunction = NULL then
    ⟨K.CRYPT_ERROR_INTERNAL, length0, [], stream, ts, []⟩
  else if maxLength ≤ bytesLeft then
    -- enough data in the buffer, return it directly
    let out :=
      if maxLength = 1 then slice stream.buffer stream.bufPos 1
      else slice stream.buffer stream.bufPos maxLength
    let stream1 :=
      if maxLength = 1 then { stream with bufPos := stream.bufPos + 1 }
      else { stream with bufPos := stream.bufPos + maxLength }
    if sanityCheckNetStream K stream1.netStreamInfo = false then
      ⟨K.CRYPT_ERROR_INTERNAL, maxLength, out, stream1, ts, []⟩
    else
      ⟨K.CRYPT_OK, maxLength, out, stream1, ts, []⟩
  else if stream.bufPos > 0 ∧ bytesLeft > 0 ∧
      K.rangeCheck stream.bufPos bytesLeft stream.bufEnd = false then
    ⟨K.CRYPT_ERROR_INTERNAL, 0, [], stream, ts, []⟩
  else
    -- move the unconsumed data down to the start of the buffer
    let stream1 :=
      if stream.bufPos > 0 then
        { stream with
          buffer :=
            if bytesLeft > 0 then
              store stream.buffer 0 (slice stream.buffer stream.bufPos bytesLeft)
            else stream.buffer
          bufEnd := bytesLeft
          bufPos := 0 }
      else stream
    if stream1.bufPos ≠ 0 then
      ⟨K.CRYPT_ERROR_INTERNAL, 0, [], stream1, ts, []⟩
    else if ¬ (maxLength > bytesLeft) then
      ⟨K.CRYPT_ERROR_INTERNAL, 0, [], stream1, ts, []⟩
    else
      bufferedTransportReadRefill K T stream1 ts maxLength

/-! ## io/net_trans.c: processIncompleteWrite and bufferedTransportWrite -/

/-- What `processIncompleteWrite` leaves behind: the returned status, the
value of `*newDataWritten` and the descriptor. -/
structure IncompleteWriteOutcome where
  status : Int
  newDataWritten : Int
  netStream : NET_STREAM_INFO
deriving DecidableEq, Repr

/-- The function `processIncompleteWrite( netStream, bytesWritten, newDataToWrite,
newDataWritten )`; `newDataWritten0` is the value `*newDataWritten` holds on
entry. -/
def processIncompleteWrite (K : Consts) (netStream : NET_STREAM_INFO)
    (bytesWritten newDataToWrite newDataWritten0 : Int) :
    IncompleteWriteOutcome :=
  let bytesLeftToWrite := netStream.writeBufEnd - bytesWritten
  if ¬ (bytesWritten > 0 ∧ bytesWritten < netStream.writeBufEnd ∧
      bytesWritten < K.MAX_BUFFER_SIZE) then
    ⟨K.CRYPT_ERROR_INTERNAL, newDataWritten0, netStream⟩
  else if ¬ (newDataToWrite ≥ 0 ∧ newDataToWrite < K.MAX_BUFFER_SIZE) then
    ⟨K.CRYPT_ERROR_INTERNAL, newDataWritten0, netStream⟩
  else
    let newDataWritten :=
      if bytesLeftToWrite < newDataToWrite then newDataToWrite - bytesLeftToWrite
      else 0
    if K.rangeCheck bytesWritten bytesLeftToWrite netStream.writeBufEnd = false then
      ⟨K.CRYPT_ERROR_INTERNAL, newDataWritten, netStream⟩
    else
      ⟨K.CRYPT_OK, newDataWritten,
        { netStream with
          writeBuffer := netStream.writeBuffer.map fun wb =>
            store wb 0 (slice wb bytesWritten bytesLeftToWrite)
          writeBufEnd := bytesLeftToWrite }⟩

/-- Everything a call of `bufferedTransportWrite` leaves behind: the returned
status, the value of `*length`, the stream, the transport state and the
transport writes issued. -/
structure WriteOutcome (σ : Type) where
  status : Int
  length : Int
  stream : STREAM
  tstate : σ
  calls : List WriteCall

/-- The part of `bufferedTransportWrite` under "Write anything that's left
directly": `byteCount` bytes of the caller's data are still unwritten, they
are the tail of `buffer`. -/
def bufferedTransportWriteDirect {σ : Type} (K : Consts) (T : Transport σ)
    (stream : STREAM) (ts : σ) (buffer : List BYTE) (byteCount : Int)
    (calls : List WriteCall) : WriteOutcome σ :=
  let maxLength : Int := buffer.length
  -- ENSURES( netStream->writeBufEnd == 0 )
  if stream.netStreamInfo.writeBufEnd ≠ 0 then
    ⟨K.CRYPT_ERROR_INTERNAL, 0, stream, ts, calls⟩
  else
    let payload := slice buffer (maxLength - byteCount) byteCount
    let r := T.write ts payload K.TRANSPORT_FLAG_NONE
    let calls1 := calls ++ [⟨payload, K.TRANSPORT_FLAG_NONE, r.1⟩]
    if cryptStatusError K r.1.status then
      ⟨r.1.status, 0, stream, r.2, calls1⟩
    else
      let length :=
        if r.1.bytesWritten < byteCount then
          maxLength - (byteCount - r.1.bytesWritten)
        else maxLength
      if sanityCheckNetStream K stream.netStreamInfo = false then
        ⟨K.CRYPT_ERROR_INTERNAL, length, stream, r.2, calls1⟩
      else
        ⟨K.CRYPT_OK, length, stream, r.2, calls1⟩

/-- The local `bytesToCopy` of `bufferedTransportWrite`: how much of the
caller's `byteCount` bytes can still be added to the write buffer. -/
def writeBytesToCopy (netStream : NET_STREAM_INFO) (byteCount : Int) : Int :=
  if netStream.writeBufSize - netStream.writeBufEnd > byteCount then byteCount
  else netStream.writeBufSize - netStream.writeBufEnd

/-- The descriptor of `bufferedTransportWrite` after the first
`writeBytesToCopy` bytes of the caller's data were added to the write
buffer. -/
def writeAssemble (netStream : NET_STREAM_INFO) (buffer : List BYTE) :
    NET_STREAM_INFO :=
  if writeBytesToCopy netStream buffer.length > 0 then
    { netStream with
      writeBuffer := netStream.writeBuffer.map fun wb =>
        store wb netStream.writeBufEnd
          (slice buffer 0 (writeBytesToCopy netStream buffer.length))
      writeBufEnd :=
        netStream.writeBufEnd + writeBytesToCopy netStream buffer.length }
  else netStream

/-- The write buffer contents `writeBuffer[0..writeBufEnd)` of a
descriptor. -/
def NET_STREAM_INFO.pending (netStream : NET_STREAM_INFO) : List BYTE :=
  slice (netStream.writeBuffer.getD []) 0 netStream.writeBufEnd

/-- The function `bufferedTransportWrite( stream, buffer, maxLength, length, flags )`.
The caller's data is the list `buffer`, `maxLength` is its length; `ts` is
the state of the transport and `length0` the value `*length` holds on
entry. -/
def bufferedTransportWrite {σ : Type} (K : Consts) (T : Transport σ)
    (stream : STREAM) (ts : σ) (buffer : List BYTE) (length0 : Int)
    (flags : Nat) : WriteOutcome σ :=
  let maxLength : Int := buffer.length
  let netStream := stream.netStreamInfo
  let byteCount := maxLength
  if DATAPTR_GET K stream.netStream = NULL then
    ⟨K.CRYPT_ERROR_INTERNAL, length0, stream, ts, []⟩
  else if sanityCheckNetStream K netStream = false then
    ⟨K.CRYPT_ERROR_INTERNAL, length0, stream, ts, []⟩
  else if ¬ (maxLength > 0 ∧ maxLength < K.MAX_BUFFER_SIZE) then
    ⟨K.CRYPT_ERROR_INTERNAL, length0, stream, ts, []⟩
  else if ¬ (flags ≥ K.TRANSPORT_FLAG_NONE ∧ flags ≤ K.TRANSPORT_FLAG_MAX) then
    ⟨K.CRYPT_ERROR_INTERNAL, length0, stream, ts, []⟩
  else if FNPTR_GET K netStream.transportWriteFunction = NULL then
    ⟨K.CRYPT_ERROR_INTERNAL, length0, stream, ts, []⟩
  else if flags &&& K.TRANSPORT_FLAG_FLUSH = 0 ∧
      netStream.writeBufEnd + byteCount ≤ netStream.writeBufSize then
    -- not a flush and the buffer can absorb the data
    let netStream1 :=
      { netStream with
        writeBuffer := netStream.writeBuffer.map fun wb =>
          store wb netStream.writeBufEnd (slice buffer 0 byteCount)
        writeBufEnd := netStream.writeBufEnd + byteCount }
    let stream1 := { stream with netStreamInfo := netStream1 }
    if sanityCheckNetStream K netStream1 = false then
      ⟨K.CRYPT_ERROR_INTERNAL, byteCount, stream1, ts, []⟩
    else
      ⟨K.CRYPT_OK, byteCount, stream1, ts, []⟩
  else if netStream.writeBufEnd > 0 then
    -- assemble a complete buffer and write it
    let bytesToCopy := writeBytesToCopy netStream byteCount
    let netStream1 := writeAssemble netStream buffer
    let payload := netStream1.pending
    let r := T.write ts payload K.TRANSPORT_FLAG_NONE
    let calls1 : List WriteCall := [⟨payload, K.TRANSPORT_FLAG_NONE, r.1⟩]
    if cryptStatusError K r.1.status then
      ⟨r.1.status, 0, { stream with netStreamInfo := netStream1 }, r.2, calls1⟩
    else if r.1.bytesWritten < netStream1.writeBufEnd then
      let p := processIncompleteWrite K netStream1 r.1.bytesWritten bytesToCopy 0
      let stream2 := { stream with netStreamInfo := p.netStream }
      if cryptStatusError K p.status then
        ⟨p.status, p.newDataWritten, stream2, r.2, calls1⟩
      else if sanityCheckNetStream K p.netStream = false then
        ⟨K.CRYPT_ERROR_INTERNAL, p.newDataWritten, stream2, r.2, calls1⟩
      else
        ⟨K.CRYPT_OK, p.newDataWritten, stream2, r.2, calls1⟩
    else
      let netStream2 := { netStream1 with writeBufEnd := 0 }
      let stream2 := { stream with netStreamInfo := netStream2 }
      if bytesToCopy > 0 ∧ byteCount - bytesToCopy ≤ 0 then
        -- we have written everything
        if sanityCheckNetStream K netStream2 = false then
          ⟨K.CRYPT_ERROR_INTERNAL, maxLength, stream2, r.2, calls1⟩
        else
          ⟨K.CRYPT_OK, maxLength, stream2, r.2, calls1⟩
      else
        bufferedTransportWriteDirect K T stream2 r.2 buffer
          (if bytesToCopy > 0 then byteCount - bytesToCopy else byteCount) calls1
  else
    bufferedTransportWriteDirect K T stream ts buffer byteCount []

/-! ## io/net_trans.c: transport-layer direct access functions -/

/-- The function `transportDirectReadFunction( stream, buffer, maxLength, length )`:
the upper-layer read mapped directly to the transport-layer read.  `length0`
is the value `*length` holds on entry; the transport stores the number of
bytes it read there. -/
def transportDirectReadFunction {σ : Type} (K : Consts) (T : Transport σ)
    (stream : STREAM) (ts : σ) (maxLength : Int) (length0 : Int) :
    ReadOutcome σ :=
  if DATAPTR_GET K stream.netStream = NULL then
    ⟨K.CRYPT_ERROR_INTERNAL, length0, [], stream, ts, []⟩
  else if sanityCheckNetStream K stream.netStreamInfo = false then
    ⟨K.CRYPT_ERROR_INTERNAL, length0, [], stream, ts, []⟩
  else if ¬ (maxLength > 0 ∧ maxLength < K.MAX_BUFFER_SIZE) then
    ⟨K.CRYPT_ERROR_INTERNAL, length0, [], stream, ts, []⟩
  else if FNPTR_GET K stream.netStreamInfo.transportReadFunction = NULL then
    ⟨K.CRYPT_ERROR_INTERNAL, length0, [], stream, ts, []⟩
  else
    let r := T.read ts maxLength K.TRANSPORT_FLAG_NONE
    ⟨r.1.status, r.1.data.length, r.1.data, stream, r.2,
      [⟨maxLength, K.TRANSPORT_FLAG_NONE, r.1⟩]⟩

/-- The function `transportDirectWriteFunction( stream, buffer, maxLength, length )`:
the upper-layer write mapped directly to the transport-layer write.  The
caller's data is the list `buffer`, `maxLength` is its length; `length0` is
the value `*length` holds on entry, the transport stores the number of bytes
it wrote there. -/
def transportDirectWriteFunction {σ : Type} (K : Consts) (T : Transport σ)
    (stream : STREAM) (ts : σ) (buffer : List BYTE) (length0 : Int) :
    WriteOutcome σ :=
  let maxLength : Int := buffer.length
  if DATAPTR_GET K stream.netStream = NULL then
    ⟨K.CRYPT_ERROR_INTERNAL, length0, stream, ts, []⟩
  else if sanityCheckNetStream K stream.netStreamInfo = false then
    ⟨K.CRYPT_ERROR_INTERNAL, length0, stream, ts, []⟩
  else if ¬ (maxLength > 0 ∧ maxLength < K.MAX_BUFFER_SIZE) then
    ⟨K.CRYPT_ERROR_INTERNAL, length0, stream, ts, []⟩
  else if FNPTR_GET K stream.netStreamInfo.transportWriteFunction = NULL then
    ⟨K.CRYPT_ERROR_INTERNAL, length0, stream, ts, []⟩
  else
    let r := T.write ts buffer K.TRANSPORT_FLAG_NONE
    ⟨r.1.status, r.1.bytesWritten, stream, r.2,
      [⟨buffer, K.TRANSPORT_FLAG_NONE, r.1⟩]⟩

/-! ## io/net.c: checkForProxy -/

/-- Modelled from the spec: `strCompare( src, dest, length )` is a macro of a
header outside the sources; the spec describes its use here as a
case-insensitive compare.  It yields 0 exactly when the first `length`
characters of the two strings agree up to letter case. -/
def strCompare (src dest : List Char) (length : Int) : Int :=
  if (slice src 0 length).map Char.toLower =
      (slice dest 0 length).map Char.toLower then 0 else 1

/-- What `checkForProxy` leaves behind: the returned status, the proxy URL
buffer, the value of `*proxyUrlLen`, the descriptor and the configuration
queries issued. -/
structure ProxyOutcome where
  status : Int
  proxyUrlBuffer : List Char
  proxyUrlLen : Int
  netStream : NET_STREAM_INFO
  queries : List AttrQuery
deriving DecidableEq, Repr

/-- The function `checkForProxy( netStream, protocol, connectInfo, host, hostLen,
proxyUrlBuffer, proxyUrlMaxLen, proxyUrlLen )`.  `host` is the host name of
`hostLen` characters, `proxyUrlBuffer` the caller's buffer of
`proxyUrlMaxLen` characters and `proxyUrlLen0` the value `*proxyUrlLen`
holds on entry. -/
def checkForProxy (K : Consts) (kern : Kernel) (netStream : NET_STREAM_INFO)
    (protocol : Int) (connectInfo : NET_CONNECT_INFO) (host : List Char)
    (proxyUrlBuffer : List Char) (proxyUrlLen0 : Int) : ProxyOutcome :=
  let hostLen : Int := host.length
  let proxyUrlMaxLen : Int := proxyUrlBuffer.length
  if ¬ (protocol > K.STREAM_PROTOCOL_NONE ∧ protocol < K.STREAM_PROTOCOL_LAST) then
    ⟨K.CRYPT_ERROR_INTERNAL, proxyUrlBuffer, proxyUrlLen0, netStream, []⟩
  else if ¬ (proxyUrlMaxLen > 10 ∧ proxyUrlMaxLen ≤ K.MAX_DNS_SIZE) then
    ⟨K.CRYPT_ERROR_INTERNAL, proxyUrlBuffer, proxyUrlLen0, netStream, []⟩
  else
    -- clear return value
    let buf0 := store proxyUrlBuffer 0
      (List.replicate (min 16 proxyUrlMaxLen).toNat (Char.ofNat 0))
    if (hostLen > 4 ∧ slice host 0 4 = "127.".toList) ∨
        (hostLen = 3 ∧ slice host 0 3 = "::1".toList) ∨
        (hostLen = 9 ∧ strCompare host "localhost".toList 9 = 0) ∨
        (hostLen = 10 ∧ strCompare host "localhost.".toList 10 = 0) then
      -- a local connection always bypasses the proxy
      ⟨K.CRYPT_OK, buf0, 0, netStream, []⟩
    else
      let q1 : AttrQuery :=
        ⟨connectInfo.iUserObject, K.CRYPT_OPTION_NET_HTTP_PROXY⟩
      let r1 := kern.getAttributeS connectInfo.iUserObject
        K.CRYPT_OPTION_NET_HTTP_PROXY proxyUrlMaxLen
      if protocol = K.STREAM_PROTOCOL_HTTP ∧ cryptStatusOK K r1.status then
        ⟨K.OK_SPECIAL, store buf0 0 r1.data, r1.data.length,
          { netStream with
            nFlags := netStream.nFlags |||
              (if connectInfo.options = K.NET_OPTION_HOSTNAME then
                K.STREAM_NFLAG_HTTPPROXY else K.STREAM_NFLAG_HTTPTUNNEL) },
          [q1]⟩
      else
        let buf1 :=
          if protocol = K.STREAM_PROTOCOL_HTTP then store buf0 0 r1.data else buf0
        let queries1 := if protocol = K.STREAM_PROTOCOL_HTTP then [q1] else []
        -- check whether there is a SOCKS proxy configured
        let q2 : AttrQuery :=
          ⟨connectInfo.iUserObject, K.CRYPT_OPTION_NET_SOCKS_SERVER⟩
        let r2 := kern.getAttributeS connectInfo.iUserObject
          K.CRYPT_OPTION_NET_SOCKS_SERVER proxyUrlMaxLen
        if cryptStatusOK K r2.status then
          ⟨K.OK_SPECIAL, store buf1 0 r2.data, r2.data.length, netStream,
            queries1 ++ [q2]⟩
        else
          ⟨K.CRYPT_OK, store buf1 0 r2.data, 0, netStream, queries1 ++ [q2]⟩

/-- The proxy selection step of `sNetConnect` for a named-host connect: call
`checkForProxy` and, if it reports `OK_SPECIAL`, go via the proxy it found.
The result is `none` when `sNetConnect` returns at this point with the given
error status, otherwise the `proxyURL` (absent when it is `NULL`) and
`proxyUrlLen` handed to `completeConnect`, next to the outcome of
`checkForProxy`. -/
def sNetConnectProxy (K : Consts) (kern : Kernel) (netStream : NET_STREAM_INFO)
    (protocol : Int) (connectInfo : NET_CONNECT_INFO) (host : List Char)
    (proxyUrlBuffer : List Char) (proxyUrlLength0 : Int) :
    ProxyOutcome × Option (Option (List Char) × Int) :=
  let o := checkForProxy K kern netStream protocol connectInfo host
    proxyUrlBuffer proxyUrlLength0
  if cryptStatusError K o.status then
    if o.status ≠ K.OK_SPECIAL then (o, none)
    else (o, some (some o.proxyUrlBuffer, o.proxyUrlLen))
  else (o, some (none, 0))

/-! ## io/net.c: establishing and shutting down a connection -/

/-- The value of `NETWORK_BUFFER_SIZE` (io/net.c, line 25). -/
def NETWORK_BUFFER_SIZE : Int := 4096

/-- The endpoint record `URL_INFO` that `parseURL` fills in, with the fields
the connect functions read. -/
structure URL_INFO where
  host : Option (List Char)
  hostLen : Int
  location : Option (List Char)
  locationLen : Int
  port : Int
deriving DecidableEq, Repr

/-- One call that the connect and disconnect functions make to a
collaborator outside io/net.c, with what it reported. -/
inductive NetEvent where
  /-- The message `krnlSendMessage( handle, IMESSAGE_GETATTRIBUTE, &value,
  attributeId )`. -/
  | getAttribute (handle attributeId status value : Int)
  /-- The message `krnlSendMessage( handle, IMESSAGE_GETATTRIBUTE_S, &msgData,
  attributeId )`. -/
  | getAttributeS (handle attributeId status : Int) (data : List Char)
  /-- The call `parseURL( &urlInfo, url, urlLen, defaultPort, urlType, FALSE )`. -/
  | parseURL (url : List Char) (defaultPort urlType status : Int)
  /-- The call `findProxyUrl( urlBuffer, MAX_DNS_SIZE, &urlLen, host, hostLen )`. -/
  | findProxyUrl (status : Int) (url : List Char)
  /-- The call `krnlWaitSemaphore( SEMAPHORE_DRIVERBIND )`. -/
  | waitSemaphore (signalled : Bool)
  /-- The call `transportOKFunction()`. -/
  | transportOK (ok : Bool)
  /-- The call `clAlloc( "completeConnect", size )`. -/
  | clAlloc (size : Int) (address : Nat)
  /-- The call `transportConnectFunction( netStream, host, hostLen, port )`. -/
  | transportConnect (host : Option (List Char)) (hostLen port status : Int)
  /-- The call `transportCheckFunction( netStream )`. -/
  | transportCheck (status : Int)
  /-- The call `connectViaHttpProxy( stream, errorInfo )`. -/
  | connectViaHttpProxy (status : Int)
  /-- The call `transportDisconnectFunction( netStream, fullDisconnect )`. -/
  | transportDisconnect (fullDisconnect : Bool)
  /-- The call `zeroise( netStream, size )` on the descriptor. -/
  | zeroise (size : Int)
  /-- The call `clFree( "cleanupStream", netStream )`. -/
  | clFree (address : Nat)
deriving DecidableEq, Repr

/-- What `krnlSendMessage( handle, IMESSAGE_GETATTRIBUTE, &value, attribute )`
reports: its status and the integer it stored at `value`. -/
structure IntAttrReply where
  status : Int
  value : Int
deriving DecidableEq, Repr

/-- What `parseURL` reports: its status and the endpoint record it filled
in. -/
structure ParseReply where
  status : Int
  urlInfo : URL_INFO
deriving DecidableEq, Repr

/-- What `findProxyUrl` reports: its status and the URL it stored in the
caller's buffer (`*urlLen` is its length). -/
structure DiscoveryReply where
  status : Int
  url : List Char
deriving DecidableEq, Repr

/-- What the transport connect operation reports: its status and the
descriptor as it leaves it. -/
structure ConnectReply where
  status : Int
  netStream : NET_STREAM_INFO
deriving DecidableEq, Repr

/-- What `connectViaHttpProxy( stream, errorInfo )` reports: its status, the
stream (with its descriptor) and the caller's error record as it leaves
them. -/
structure HandshakeReply where
  status : Int
  stream : STREAM
  errorInfo : ERROR_INFO
deriving DecidableEq, Repr

/-- The collaborators of the connect and disconnect functions whose code is
not part of io/net.c or io/net_trans.c: the kernel, the URL parser, proxy
discovery, the allocator, the functions that fill in the operation table, and
the operations that table refers to.  The state of the transport is `σ`. -/
structure NetEnv (σ : Type) where
  /-- Whether the build defines `USE_HTTP`. -/
  USE_HTTP : Bool
  kern : Kernel
  /-- The message `IMESSAGE_GETATTRIBUTE`: `getAttribute handle attributeId`. -/
  getAttribute : Int → Int → IntAttrReply
  /-- The call `parseURL( &urlInfo, url, urlLen, defaultPort, urlType, FALSE )`:
  `parseURL url defaultPort urlType`, with `url` the `urlLen` characters. -/
  parseURL : List Char → Int → Int → ParseReply
  /-- The call `findProxyUrl( urlBuffer, maxLen, &urlLen, host, hostLen )`:
  `findProxyUrl maxLen host hostLen`. -/
  findProxyUrl : Int → Option (List Char) → Int → DiscoveryReply
  /-- The result of `krnlWaitSemaphore( SEMAPHORE_DRIVERBIND )`. -/
  krnlWaitSemaphore : Bool
  /-- The address `clAlloc( "completeConnect", size )` returns (`NULL` when it
  fails). -/
  clAlloc : Int → Nat
  setAccessMethodTCP : NET_STREAM_INFO → NET_STREAM_INFO
  setAccessMethodTransportSession : NET_STREAM_INFO → NET_STREAM_INFO
  setStreamLayerHTTP : NET_STREAM_INFO → NET_STREAM_INFO
  /-- The address of `transportDirectReadFunction`. -/
  transportDirectReadFunction : Nat
  /-- The address of `transportDirectWriteFunction`. -/
  transportDirectWriteFunction : Nat
  /-- The result of the liveness check `transportOKFunction()`. -/
  transportOK : Bool
  /-- The operation `transportConnectFunction( netStream, host, hostLen, port )`. -/
  transportConnect :
    σ → NET_STREAM_INFO → Option (List Char) → Int → Int → ConnectReply × σ
  /-- The operation `transportCheckFunction( netStream )`. -/
  transportCheck : σ → NET_STREAM_INFO → Int × σ
  /-- The operation `transportDisconnectFunction( netStream, fullDisconnect )`. -/
  transportDisconnect : σ → NET_STREAM_INFO → Bool → σ
  /-- The call `connectViaHttpProxy( stream, errorInfo )`. -/
  connectViaHttpProxy : σ → STREAM → ERROR_INFO → HandshakeReply × σ

/-- A stored pointer whose two words are zero, as `memset` leaves it. -/
def zeroSafePtr : SafePtr := ⟨0, 0⟩

/-- An error record cleared by `memset( errorInfo, 0, sizeof( ERROR_INFO ) )`. -/
def zeroErrorInfo : ERROR_INFO := ⟨[]⟩

/-- A descriptor cleared by `memset( netStream, 0, sizeof( NET_STREAM_INFO ) )`. -/
def zeroNetStreamInfo : NET_STREAM_INFO where
  protocol := 0
  nFlags := 0
  timeout := 0
  savedTimeout := 0
  systemType := 0
  host := none
  hostLen := 0
  path := none
  pathLen := 0
  port := 0
  netSocket := 0
  listenSocket := 0
  iTransportSession := 0
  writeBuffer := none
  writeBufSize := 0
  writeBufEnd := 0
  storageSize := 0
  writeFunction := zeroSafePtr
  readFunction := zeroSafePtr
  transportConnectFunction := zeroSafePtr
  transportDisconnectFunction := zeroSafePtr
  transportReadFunction := zeroSafePtr
  transportWriteFunction := zeroSafePtr
  transportOKFunction := zeroSafePtr
  transportCheckFunction := zeroSafePtr
  errorInfo := zeroErrorInfo

/-- A stream handle cleared by `memset( stream, 0, sizeof( STREAM ) )` or
`zeroise( stream, sizeof( STREAM ) )`. -/
def zeroStream : STREAM where
  type := 0
  buffer := []
  bufSize := 0
  bufPos := 0
  bufEnd := 0
  netStream := zeroSafePtr
  netStreamInfo := zeroNetStreamInfo

/-- An endpoint record cleared by `memset( urlInfo, 0, sizeof( URL_INFO ) )`. -/
def zeroUrlInfo : URL_INFO := ⟨none, 0, none, 0, 0⟩

/-- Modelled from the spec: `retExt( status, ( status, errorInfo, format, ... ) )`
is a macro of a header outside the sources; the spec describes it as
recording a human-readable message next to the status that is returned.
This is the record it leaves for the formatted message `message`. -/
def retExtRecord (message : String) : ERROR_INFO := ⟨message.toList⟩

/-- Modelled from the spec: `strCompareZ( src, dest )` is a macro of a header
outside the sources; the spec describes its use here as the test whether the
proxy string is the sentinel.  It is the case-insensitive compare of two
zero-terminated strings: 0 exactly when `src`, up to its terminating NUL,
agrees with `dest` up to letter case. -/
def strCompareZ (src dest : List Char) : Int :=
  if (src.takeWhile fun c => c ≠ Char.ofNat 0).map Char.toLower =
      dest.map Char.toLower then 0 else 1

/-- What `initStream` leaves behind: the returned status, the stream, the
descriptor and the kernel messages sent. -/
structure InitOutcome where
  status : Int
  stream : STREAM
  netStream : NET_STREAM_INFO
  events : List NetEvent
deriving DecidableEq, Repr

/-- The function `initStream( stream, netStream, protocol, connectInfo, isServer )`.
`stream` and `netStream` are what the two output records hold on entry. -/
def initStream {σ : Type} (K : Consts) (env : NetEnv σ) (stream : STREAM)
    (netStream : NET_STREAM_INFO) (protocol : Int)
    (connectInfo : NET_CONNECT_INFO) (isServer : Bool) : InitOutcome :=
  if ¬ (protocol > K.STREAM_PROTOCOL_NONE ∧ protocol < K.STREAM_PROTOCOL_LAST) then
    ⟨K.CRYPT_ERROR_INTERNAL, stream, netStream, []⟩
  else
    -- set up the basic network stream info
    let nFlags0 : Nat := if isServer then K.STREAM_NFLAG_ISSERVER else 0
    let nFlags1 : Nat :=
      if protocol = K.STREAM_PROTOCOL_UDP then nFlags0 ||| K.STREAM_NFLAG_DGRAM
      else nFlags0
    -- the connect timeout
    let r1 := env.getAttribute connectInfo.iUserObject
      K.CRYPT_OPTION_NET_CONNECTTIMEOUT
    let timeout0 : Int :=
      if connectInfo.connectTimeout ≠ K.CRYPT_ERROR then connectInfo.connectTimeout
      else if cryptStatusError K r1.status then 30 else r1.value
    let events1 : List NetEvent :=
      if connectInfo.connectTimeout ≠ K.CRYPT_ERROR then []
      else [.getAttribute connectInfo.iUserObject
        K.CRYPT_OPTION_NET_CONNECTTIMEOUT r1.status r1.value]
    let timeout1 : Int := if timeout0 < 5 then 5 else timeout0
    -- the data transfer timeout
    let r2 := env.getAttribute connectInfo.iUserObject
      K.CRYPT_OPTION_NET_READTIMEOUT
    let timeout2 : Int :=
      if connectInfo.timeout ≠ K.CRYPT_ERROR then connectInfo.timeout
      else if cryptStatusError K r2.status then 30 else r2.value
    let events2 : List NetEvent :=
      if connectInfo.timeout ≠ K.CRYPT_ERROR then []
      else [.getAttribute connectInfo.iUserObject
        K.CRYPT_OPTION_NET_READTIMEOUT r2.status r2.value]
    ⟨K.CRYPT_OK, { zeroStream with type := K.STREAM_TYPE_NETWORK },
      { zeroNetStreamInfo with
        protocol := protocol
        port := connectInfo.port
        netSocket := K.INVALID_SOCKET
        listenSocket := K.INVALID_SOCKET
        iTransportSession := K.CRYPT_ERROR
        nFlags := nFlags1
        timeout := timeout1
        savedTimeout := timeout2 },
      events1 ++ events2⟩

/-- What `cleanupStream` leaves behind: the stream, the transport state and
the calls made. -/
structure CleanupOutcome (σ : Type) where
  stream : STREAM
  tstate : σ
  events : List NetEvent

/-- The function `cleanupStream( stream, cleanupTransport )`. -/
def cleanupStream {σ : Type} (K : Consts) (env : NetEnv σ) (stream : STREAM)
    (ts : σ) (cleanupTransport : Bool) : CleanupOutcome σ :=
  let netStream := stream.netStreamInfo
  if DATAPTR_GET K stream.netStream = NULL then ⟨stream, ts, []⟩
  else if sanityCheckNetStream K netStream = false then ⟨stream, ts, []⟩
  else if cleanupTransport = true ∧
      netStream.nFlags &&& K.STREAM_NFLAG_USERSOCKET = 0 then
    -- clean up the transport system
    if FNPTR_GET K netStream.transportDisconnectFunction = NULL then
      ⟨stream, ts, []⟩
    else
      ⟨zeroStream, env.transportDisconnect ts netStream true,
        [.transportDisconnect true,
          .zeroise (K.SIZEOF_NET_STREAM_INFO + netStream.storageSize),
          .clFree (DATAPTR_GET K stream.netStream)]⟩
  else
    ⟨zeroStream, ts,
      [.zeroise (K.SIZEOF_NET_STREAM_INFO + netStream.storageSize),
        .clFree (DATAPTR_GET K stream.netStream)]⟩

/-- What `sNetDisconnect` leaves behind: the returned status, the stream, the
transport state and the calls made. -/
structure DisconnectOutcome (σ : Type) where
  status : Int
  stream : STREAM
  tstate : σ
  events : List NetEvent

/-- The function `sNetDisconnect( stream )` (the build without `CONFIG_FUZZ`). -/
def sNetDisconnect {σ : Type} (K : Consts) (env : NetEnv σ) (stream : STREAM)
    (ts : σ) : DisconnectOutcome σ :=
  if DATAPTR_GET K stream.netStream = NULL then
    ⟨K.CRYPT_ERROR_INTERNAL, stream, ts, []⟩
  else if sanityCheckNetStream K stream.netStreamInfo = false then
    ⟨K.CRYPT_ERROR_INTERNAL, stream, ts, []⟩
  else
    let c := cleanupStream K env stream ts true
    ⟨K.CRYPT_OK, c.stream, c.tstate, c.events⟩

/-- What `openNetworkConnection` leaves behind: the returned status, the
descriptor, the transport state and the calls made. -/
structure OpenOutcome (σ : Type) where
  status : Int
  netStream : NET_STREAM_INFO
  tstate : σ
  events : List NetEvent

/-- The part of `openNetworkConnection` from "Process the proxy details" on:
parse the proxy URL `url` of `urlLen` characters, with default port 80, and
open the connection to the proxy.  `events` are the calls made before. -/
def openViaProxy {σ : Type} (K : Consts) (env : NetEnv σ)
    (netStream : NET_STREAM_INFO) (ts : σ) (url : List Char) (urlLen : Int)
    (events : List NetEvent) : OpenOutcome σ :=
  let p := env.parseURL (slice url 0 urlLen) 80 K.URL_TYPE_HTTP
  if cryptStatusError K p.status = true then
    ⟨K.CRYPT_ERROR_OPEN,
      { netStream with errorInfo := retExtRecord "Invalid HTTP proxy URL" },
      ts, events ++ [.parseURL (slice url 0 urlLen) 80 K.URL_TYPE_HTTP p.status]⟩
  else
    -- open the connection to the proxy rather than to the target
    let r := env.transportConnect ts netStream p.urlInfo.host p.urlInfo.hostLen
      p.urlInfo.port
    ⟨r.1.status, r.1.netStream, r.2,
      events ++
        [.parseURL (slice url 0 urlLen) 80 K.URL_TYPE_HTTP p.status,
          .transportConnect p.urlInfo.host p.urlInfo.hostLen p.urlInfo.port
            r.1.status]⟩

/-- The function `openNetworkConnection( netStream, options, proxyUrl,
proxyUrlLen )`.  `proxyUrl` is `none` for `NULL` and otherwise the buffer the
pointer refers to. -/
def openNetworkConnection {σ : Type} (K : Consts) (env : NetEnv σ)
    (netStream : NET_STREAM_INFO) (ts : σ) (options : Int)
    (proxyUrl : Option (List Char)) (proxyUrlLen : Int) : OpenOutcome σ :=
  if ¬ (options > K.NET_OPTION_NONE ∧ options < K.NET_OPTION_LAST) then
    ⟨K.CRYPT_ERROR_INTERNAL, netStream, ts, []⟩
  else if ¬ ((proxyUrl = none ∧ proxyUrlLen = 0) ∨
      (proxyUrl ≠ none ∧ proxyUrlLen > 0 ∧ proxyUrlLen ≤ K.MAX_DNS_SIZE)) then
    ⟨K.CRYPT_ERROR_INTERNAL, netStream, ts, []⟩
  else if FNPTR_GET K netStream.transportConnectFunction = NULL then
    ⟨K.CRYPT_ERROR_INTERNAL, netStream, ts, []⟩
  else if netStream.nFlags &&& K.STREAM_NFLAG_USERSOCKET ≠ 0 then
    -- an already-active network socket supplied by the user
    if options = K.NET_OPTION_NETWORKSOCKET_DUMMY then
      if FNPTR_GET K netStream.transportCheckFunction = NULL then
        ⟨K.CRYPT_ERROR_INTERNAL, netStream, ts, []⟩
      else
        let r := env.transportCheck ts netStream
        ⟨r.1, netStream, r.2, [.transportCheck r.1]⟩
    else ⟨K.CRYPT_OK, netStream, ts, []⟩
  else if proxyUrl = none then
    -- not going via a proxy, perform a direct open
    let r := env.transportConnect ts netStream netStream.host netStream.hostLen
      netStream.port
    ⟨r.1.status, r.1.netStream, r.2,
      [.transportConnect netStream.host netStream.hostLen netStream.port
        r.1.status]⟩
  else if strCompareZ (proxyUrl.getD []) "[Autodetect]".toList = 0 then
    -- automatic proxy detection: try and locate the proxy information
    let d := env.findProxyUrl K.MAX_DNS_SIZE netStream.host netStream.hostLen
    if cryptStatusError K d.status = true then
      ⟨K.CRYPT_ERROR_OPEN,
        { netStream with
          errorInfo := retExtRecord "Couldn't auto-detect HTTP proxy" },
        ts, [.findProxyUrl d.status d.url]⟩
    else
      openViaProxy K env netStream ts d.url d.url.length
        [.findProxyUrl d.status d.url]
  else openViaProxy K env netStream ts (proxyUrl.getD []) proxyUrlLen []

/-- What `processConnectOptions` leaves behind: the returned status, the
descriptor, the endpoint record (`none` when `urlInfo` is `NULL`), the
caller's error record and the calls made. -/
structure OptionsOutcome where
  status : Int
  netStream : NET_STREAM_INFO
  urlInfo : Option URL_INFO
  errorInfo : ERROR_INFO
  events : List NetEvent
deriving DecidableEq, Repr

/-- The function `processConnectOptions( stream, netStream, urlInfo, connectInfo,
errorInfo )`.  `urlInfo` is `none` for `NULL` and otherwise what the record
holds on entry. -/
def processConnectOptions {σ : Type} (K : Consts) (env : NetEnv σ)
    (stream : STREAM) (netStream : NET_STREAM_INFO) (urlInfo : Option URL_INFO)
    (connectInfo : NET_CONNECT_INFO) (errorInfo : ERROR_INFO) : OptionsOutcome :=
  let isServer : Prop := netStream.nFlags &&& K.STREAM_NFLAG_ISSERVER ≠ 0
  if stream.type ≠ K.STREAM_TYPE_NETWORK then
    ⟨K.CRYPT_ERROR_INTERNAL, netStream, urlInfo, errorInfo, []⟩
  else if ¬ (((connectInfo.options = K.NET_OPTION_TRANSPORTSESSION ∨
          connectInfo.options = K.NET_OPTION_NETWORKSOCKET ∨
          connectInfo.options = K.NET_OPTION_NETWORKSOCKET_DUMMY) ∧
        urlInfo = none) ∨
      (¬ isServer ∧ connectInfo.options = K.NET_OPTION_HOSTNAME ∧
        connectInfo.name ≠ none ∧ urlInfo ≠ none) ∨
      (isServer ∧ connectInfo.options = K.NET_OPTION_HOSTNAME ∧
        connectInfo.name = none ∧
        ((connectInfo.interface = none ∧ urlInfo = none) ∨
          (connectInfo.interface ≠ none ∧ urlInfo ≠ none)))) then
    ⟨K.CRYPT_ERROR_INTERNAL, netStream, urlInfo, errorInfo, []⟩
  else
    -- clear return value
    let urlInfo0 : Option URL_INFO := urlInfo.map fun _ => zeroUrlInfo
    if connectInfo.options = K.NET_OPTION_TRANSPORTSESSION then
      ⟨K.CRYPT_ERROR_NOTAVAIL,
        { netStream with iTransportSession := connectInfo.iCryptSession },
        urlInfo0, errorInfo, []⟩
    else if connectInfo.options = K.NET_OPTION_NETWORKSOCKET ∨
        connectInfo.options = K.NET_OPTION_NETWORKSOCKET_DUMMY then
      -- a user-supplied network socket
      ⟨K.CRYPT_OK,
        { netStream with
          netSocket := connectInfo.networkSocket
          nFlags := netStream.nFlags ||| K.STREAM_NFLAG_USERSOCKET },
        urlInfo0, errorInfo, []⟩
    else if ¬ connectInfo.options = K.NET_OPTION_HOSTNAME then
      ⟨K.CRYPT_ERROR_INTERNAL, netStream, urlInfo0, errorInfo, []⟩
    else if ¬ ((isServer ∧ connectInfo.name = none ∧ connectInfo.nameLength = 0) ∨
        (connectInfo.name ≠ none ∧ connectInfo.nameLength > 0 ∧
          connectInfo.nameLength < K.MAX_INTLENGTH_SHORT)) then
      ⟨K.CRYPT_ERROR_INTERNAL, netStream, urlInfo0, errorInfo, []⟩
    else if isServer ∧ connectInfo.interface = none then
      ⟨K.CRYPT_OK, netStream, urlInfo0, errorInfo, []⟩
    else
      let name : Option (List Char) :=
        if isServer then connectInfo.interface else connectInfo.name
      let nameLength : Int :=
        if isServer then connectInfo.interfaceLength else connectInfo.nameLength
      if urlInfo0 = none then
        ⟨K.CRYPT_ERROR_INTERNAL, netStream, urlInfo0, errorInfo, []⟩
      else if name = none then
        ⟨K.CRYPT_ERROR_INTERNAL, netStream, urlInfo0, errorInfo, []⟩
      else
        -- parse the URI into its various components
        let urlType : Int :=
          if netStream.protocol = K.STREAM_PROTOCOL_HTTP then K.URL_TYPE_HTTP
          else K.URL_TYPE_NONE
        let p := env.parseURL (slice (name.getD []) 0 nameLength)
          connectInfo.port urlType
        let event : NetEvent :=
          .parseURL (slice (name.getD []) 0 nameLength) connectInfo.port urlType
            p.status
        if cryptStatusError K p.status = true then
          ⟨K.CRYPT_ERROR_OPEN, netStream, some p.urlInfo,
            retExtRecord
              ("Invalid " ++ (if isServer then "interface" else "host") ++
                " name/URL"),
            [event]⟩
        else ⟨K.CRYPT_OK, netStream, some p.urlInfo, errorInfo, [event]⟩

/-- The function `setStreamLayerDirect( netStream )` (io/net_trans.c). -/
def setStreamLayerDirect {σ : Type} (K : Consts) (env : NetEnv σ)
    (netStream : NET_STREAM_INFO) : NET_STREAM_INFO :=
  { netStream with
    writeFunction := FNPTR_SET K env.transportDirectWriteFunction
    readFunction := FNPTR_SET K env.transportDirectReadFunction }

/-- What the connect functions leave behind: the returned status, the
caller's stream, the caller's error record, the transport state and the calls
made. -/
structure ConnectOutcome (σ : Type) where
  status : Int
  stream : STREAM
  errorInfo : ERROR_INFO
  tstate : σ
  events : List NetEvent

/-- The value of `useTransportBuffering` in `completeConnect`. -/
def useTransportBuffering (K : Consts) (protocol options : Int) : Bool :=
  if options = K.NET_OPTION_TRANSPORTSESSION ∨
      protocol = K.STREAM_PROTOCOL_TCP ∨
      protocol = K.STREAM_PROTOCOL_UDP then false else true

/-- The template descriptor of `completeConnect` after "Set up the access
method pointers": the access method and the stream layer have filled in the
operation table. -/
def layerTemplate {σ : Type} (K : Consts) (env : NetEnv σ)
    (netStreamTemplate : NET_STREAM_INFO) (protocol options : Int) :
    NET_STREAM_INFO :=
  let t1 :=
    if options = K.NET_OPTION_TRANSPORTSESSION then
      env.setAccessMethodTransportSession netStreamTemplate
    else env.setAccessMethodTCP netStreamTemplate
  if protocol = K.STREAM_PROTOCOL_HTTP then env.setStreamLayerHTTP t1
  else setStreamLayerDirect K env t1

/-- The value of `netStreamAllocSize` in `completeConnect` when the storage
block is allocated. -/
def netStreamAllocSize (K : Consts) (urlInfo : Option URL_INFO)
    (protocol options : Int) : Int :=
  (if useTransportBuffering K protocol options = true then
    NETWORK_BUFFER_SIZE + NETWORK_BUFFER_SIZE else 0) +
  (if urlInfo ≠ none then
    (urlInfo.getD zeroUrlInfo).hostLen + (urlInfo.getD zeroUrlInfo).locationLen
  else 0)

/-- What the part "Initialise the network stream with the net stream template
and set up pointers to buffers" of `completeConnect` yields: whether its
range checks passed, the stream and the new descriptor. -/
structure BuildOutcome where
  ok : Bool
  stream : STREAM
  netStream : NET_STREAM_INFO
deriving DecidableEq, Repr

/-- The part of `completeConnect` from `memcpy( netStream, netStreamTemplate,
sizeof( NET_STREAM_INFO ) )` up to the sanity check: the descriptor in the
freshly allocated, zeroed storage block. -/
def buildNetStream (K : Consts) (stream : STREAM) (template : NET_STREAM_INFO)
    (urlInfo : Option URL_INFO) (buffering : Bool) (allocSize : Int) :
    BuildOutcome :=
  if ¬ (buffering = true ∨ urlInfo ≠ none) then ⟨true, stream, template⟩
  else
    let stream1 : STREAM :=
      if buffering = true then
        { stream with
          buffer := List.replicate NETWORK_BUFFER_SIZE.toNat 0
          bufSize := NETWORK_BUFFER_SIZE }
      else stream
    let ns1 : NET_STREAM_INFO :=
      if buffering = true then
        { template with
          storageSize := allocSize
          writeBuffer := some (List.replicate NETWORK_BUFFER_SIZE.toNat 0)
          writeBufSize := NETWORK_BUFFER_SIZE }
      else { template with storageSize := allocSize }
    if urlInfo = none then ⟨true, stream1, ns1⟩
    else
      let u := urlInfo.getD zeroUrlInfo
      let startOffset : Int := stream1.bufSize + ns1.writeBufSize
      if K.rangeCheckZ startOffset u.hostLen ns1.storageSize = false then
        ⟨false, stream1, ns1⟩
      else
        let ns2 : NET_STREAM_INFO :=
          { ns1 with
            host := some (slice (u.host.getD []) 0 u.hostLen)
            hostLen := u.hostLen }
        if u.location = none then ⟨true, stream1, { ns2 with port := u.port }⟩
        else if K.rangeCheckZ (startOffset + u.hostLen) u.locationLen
            ns1.storageSize = false then
          ⟨false, stream1, ns2⟩
        else
          ⟨true, stream1,
            { ns2 with
              path := some (slice (u.location.getD []) 0 u.locationLen)
              pathLen := u.locationLen
              port := u.port }⟩

/-- The part of `completeConnect` after a successful open through a proxy:
"Complete the connect via the appropriate proxy type" in a build with
`USE_HTTP`, and the clean-up with "HTTP proxy support not available" in a
build without it.  `events` are the calls made before. -/
def completeConnectProxy {σ : Type} (K : Consts) (env : NetEnv σ)
    (stream : STREAM) (ts : σ) (errorInfo : ERROR_INFO)
    (events : List NetEvent) : ConnectOutcome σ :=
  if env.USE_HTTP = true then
    let h := env.connectViaHttpProxy ts stream errorInfo
    if cryptStatusError K h.1.status = true then
      -- copy back the error information to the caller and clean up
      let c := cleanupStream K env h.1.stream h.2 false
      ⟨h.1.status, c.stream, h.1.stream.netStreamInfo.errorInfo, c.tstate,
        events ++ [.connectViaHttpProxy h.1.status] ++ c.events⟩
    else
      ⟨K.CRYPT_OK, h.1.stream, h.1.errorInfo, h.2,
        events ++ [.connectViaHttpProxy h.1.status]⟩
  else
    let c := cleanupStream K env stream ts false
    ⟨K.CRYPT_ERROR_NOTAVAIL, c.stream,
      retExtRecord "HTTP proxy support not available", c.tstate,
      events ++ c.events⟩

/-- The part of `completeConnect` from "The network stream is ready to go,
connect it to the stream" on: attach the descriptor `netStream` at `address`
to the stream, open the connection and, when a proxy is used, complete the
connect through it.  `events` are the calls made before. -/
def completeConnectOpen {σ : Type} (K : Consts) (env : NetEnv σ)
    (stream : STREAM) (ts : σ) (address : Nat) (netStream : NET_STREAM_INFO)
    (options : Int) (proxyUrl : Option (List Char)) (proxyUrlLen : Int)
    (errorInfo : ERROR_INFO) (events : List NetEvent) : ConnectOutcome σ :=
  -- open the connection to the remote system
  let o := openNetworkConnection K env netStream ts options proxyUrl proxyUrlLen
  let stream1 : STREAM :=
    { stream with netStream := DATAPTR_SET K address, netStreamInfo := o.netStream }
  if cryptStatusError K o.status = true then
    -- copy back the error information to the caller and clean up
    let c := cleanupStream K env stream1 o.tstate false
    ⟨o.status, c.stream, o.netStream.errorInfo, c.tstate,
      events ++ o.events ++ c.events⟩
  else if proxyUrl = none then
    -- not going through a proxy: done
    ⟨K.CRYPT_OK, stream1, errorInfo, o.tstate, events ++ o.events⟩
  else completeConnectProxy K env stream1 o.tstate errorInfo (events ++ o.events)

/-- The part of `completeConnect` from "Allocate room for the network stream
information" on, after the driver-ready gate has been passed: allocate the
storage block, build the descriptor from the template `template` (whose
operation table has been filled in), check it and go on to open the
connection. -/
def completeConnectAlloc {σ : Type} (K : Consts) (env : NetEnv σ)
    (stream : STREAM) (ts : σ) (template : NET_STREAM_INFO)
    (urlInfo : Option URL_INFO) (protocol options : Int)
    (proxyUrl : Option (List Char)) (proxyUrlLen : Int)
    (errorInfo : ERROR_INFO) : ConnectOutcome σ :=
  let allocSize := netStreamAllocSize K urlInfo protocol options
  let address := env.clAlloc (K.SIZEOF_NET_STREAM_INFO + allocSize)
  let events : List NetEvent :=
    [.waitSemaphore true, .transportOK true,
      .clAlloc (K.SIZEOF_NET_STREAM_INFO + allocSize) address]
  if address = NULL then
    ⟨K.CRYPT_ERROR_MEMORY, zeroStream, errorInfo, ts, events⟩
  else
    let b := buildNetStream K stream template urlInfo
      (useTransportBuffering K protocol options) allocSize
    if b.ok = false then
      ⟨K.CRYPT_ERROR_INTERNAL, b.stream, errorInfo, ts, events⟩
    else if sanityCheckNetStream K b.netStream = false then
      ⟨K.CRYPT_ERROR_INTERNAL, b.stream, errorInfo, ts, events⟩
    else
      completeConnectOpen K env b.stream ts address b.netStream options
        proxyUrl proxyUrlLen errorInfo events

/-- The function `completeConnect( stream, netStreamTemplate, urlInfo, protocol,
options, proxyUrl, proxyUrlLen, iUserObject, errorInfo )`. -/
def completeConnect {σ : Type} (K : Consts) (env : NetEnv σ) (stream : STREAM)
    (ts : σ) (netStreamTemplate : NET_STREAM_INFO) (urlInfo : Option URL_INFO)
    (protocol options : Int) (proxyUrl : Option (List Char))
    (proxyUrlLen : Int) (iUserObject : Int) (errorInfo : ERROR_INFO) :
    ConnectOutcome σ :=
  if stream.type ≠ K.STREAM_TYPE_NETWORK then
    ⟨K.CRYPT_ERROR_INTERNAL, stream, errorInfo, ts, []⟩
  else if ¬ (urlInfo = none ∨
      (urlInfo ≠ none ∧ (urlInfo.getD zeroUrlInfo).host ≠ none ∧
        (urlInfo.getD zeroUrlInfo).hostLen > 0)) then
    ⟨K.CRYPT_ERROR_INTERNAL, stream, errorInfo, ts, []⟩
  else if ¬ (protocol > K.STREAM_PROTOCOL_NONE ∧
      protocol < K.STREAM_PROTOCOL_LAST) then
    ⟨K.CRYPT_ERROR_INTERNAL, stream, errorInfo, ts, []⟩
  else if ¬ (options > K.NET_OPTION_NONE ∧ options < K.NET_OPTION_LAST) then
    ⟨K.CRYPT_ERROR_INTERNAL, stream, errorInfo, ts, []⟩
  else if ¬ ((proxyUrl = none ∧ proxyUrlLen = 0) ∨
      (proxyUrl ≠ none ∧ proxyUrlLen > 0 ∧ proxyUrlLen ≤ K.MAX_DNS_SIZE)) then
    ⟨K.CRYPT_ERROR_INTERNAL, stream, errorInfo, ts, []⟩
  else if ¬ (iUserObject = K.DEFAULTUSER_OBJECT_HANDLE ∨
      K.isHandleRangeValid iUserObject = true) then
    ⟨K.CRYPT_ERROR_INTERNAL, stream, errorInfo, ts, []⟩
  -- set up the access method pointers
  else if protocol = K.STREAM_PROTOCOL_HTTP ∧ env.USE_HTTP = false then
    ⟨K.CRYPT_ERROR_NOTAVAIL, stream, errorInfo, ts, []⟩
  else if ¬ (protocol = K.STREAM_PROTOCOL_HTTP ∨
      protocol = K.STREAM_PROTOCOL_TCP ∨ protocol = K.STREAM_PROTOCOL_UDP) then
    ⟨K.CRYPT_ERROR_INTERNAL, stream, errorInfo, ts, []⟩
  else if ¬ (FNPTR_GET K (layerTemplate K env netStreamTemplate protocol
        options).writeFunction ≠ NULL ∧
      FNPTR_GET K (layerTemplate K env netStreamTemplate protocol
        options).readFunction ≠ NULL) then
    ⟨K.CRYPT_ERROR_INTERNAL, stream, errorInfo, ts, []⟩
  else if ¬ (FNPTR_GET K (layerTemplate K env netStreamTemplate protocol
        options).transportConnectFunction ≠ NULL ∧
      FNPTR_GET K (layerTemplate K env netStreamTemplate protocol
        options).transportDisconnectFunction ≠ NULL) then
    ⟨K.CRYPT_ERROR_INTERNAL, stream, errorInfo, ts, []⟩
  else if ¬ (FNPTR_GET K (layerTemplate K env netStreamTemplate protocol
        options).transportReadFunction ≠ NULL ∧
      FNPTR_GET K (layerTemplate K env netStreamTemplate protocol
        options).transportWriteFunction ≠ NULL) then
    ⟨K.CRYPT_ERROR_INTERNAL, stream, errorInfo, ts, []⟩
  else if ¬ (FNPTR_GET K (layerTemplate K env netStreamTemplate protocol
        options).transportOKFunction ≠ NULL ∧
      FNPTR_GET K (layerTemplate K env netStreamTemplate protocol
        options).transportCheckFunction ≠ NULL) then
    ⟨K.CRYPT_ERROR_INTERNAL, stream, errorInfo, ts, []⟩
  else if ¬ ((layerTemplate K env netStreamTemplate protocol options).nFlags &&&
        K.STREAM_NFLAG_ISSERVER ≠ 0 ∨
      (urlInfo ≠ none ∧ (urlInfo.getD zeroUrlInfo).host ≠ none ∧
        (urlInfo.getD zeroUrlInfo).hostLen ≠ 0) ∨
      (layerTemplate K env netStreamTemplate protocol options).netSocket ≠
        K.CRYPT_ERROR) then
    ⟨K.CRYPT_ERROR_INTERNAL, stream, errorInfo, ts, []⟩
  -- wait for any async network driver binding to complete
  else if env.krnlWaitSemaphore = false then
    ⟨K.CRYPT_ERROR_NOTINITED, zeroStream,
      retExtRecord "Networking subsystem not available", ts,
      [.waitSemaphore false]⟩
  else if env.transportOK = false then
    ⟨K.CRYPT_ERROR_NOTINITED, zeroStream,
      retExtRecord "Networking subsystem not available", ts,
      [.waitSemaphore true, .transportOK false]⟩
  else
    completeConnectAlloc K env stream ts
      (layerTemplate K env netStreamTemplate protocol options) urlInfo protocol
      options proxyUrl proxyUrlLen errorInfo

/-- The calls `checkForProxy` made, with what the kernel reported. -/
def proxyEvents (kern : Kernel) (maxLength : Int) (queries : List AttrQuery) :
    List NetEvent :=
  queries.map fun q =>
    .getAttributeS q.handle q.attributeId
      (kern.getAttributeS q.handle q.attributeId maxLength).status
      (kern.getAttributeS q.handle q.attributeId maxLength).data

/-- An outcome with the calls `events` made before it. -/
def ConnectOutcome.after {σ : Type} (o : ConnectOutcome σ)
    (events : List NetEvent) : ConnectOutcome σ :=
  { o with events := events ++ o.events }

/-- The six entry checks of `sNetConnect`. -/
def sNetConnectRequires (K : Consts) (protocol : Int)
    (connectInfo : NET_CONNECT_INFO) : Prop :=
  (protocol = K.STREAM_PROTOCOL_TCP ∨ protocol = K.STREAM_PROTOCOL_UDP ∨
    protocol = K.STREAM_PROTOCOL_HTTP) ∧
  (connectInfo.options > K.NET_OPTION_NONE ∧
    connectInfo.options < K.NET_OPTION_LAST) ∧
  (connectInfo.options ≠ K.NET_OPTION_HOSTNAME ∨
    (connectInfo.options = K.NET_OPTION_HOSTNAME ∧
      connectInfo.name ≠ none ∧
      (connectInfo.nameLength > 0 ∧
        connectInfo.nameLength < K.MAX_INTLENGTH_SHORT) ∧
      connectInfo.iCryptSession = K.CRYPT_ERROR ∧
      connectInfo.networkSocket = K.CRYPT_ERROR)) ∧
  (connectInfo.options ≠ K.NET_OPTION_TRANSPORTSESSION ∨
    (connectInfo.options = K.NET_OPTION_TRANSPORTSESSION ∧
      connectInfo.name = none ∧ connectInfo.nameLength = 0 ∧
      connectInfo.interface = none ∧ connectInfo.interfaceLength = 0 ∧
      connectInfo.iCryptSession ≠ K.CRYPT_ERROR ∧
      connectInfo.networkSocket = K.CRYPT_ERROR)) ∧
  ((connectInfo.options ≠ K.NET_OPTION_NETWORKSOCKET ∧
      connectInfo.options ≠ K.NET_OPTION_NETWORKSOCKET_DUMMY) ∨
    ((connectInfo.options = K.NET_OPTION_NETWORKSOCKET ∨
        connectInfo.options = K.NET_OPTION_NETWORKSOCKET_DUMMY) ∧
      connectInfo.name = none ∧ connectInfo.nameLength = 0 ∧
      connectInfo.interface = none ∧ connectInfo.interfaceLength = 0 ∧
      connectInfo.iCryptSession = K.CRYPT_ERROR ∧
      connectInfo.networkSocket ≠ K.CRYPT_ERROR)) ∧
  (connectInfo.iUserObject = K.DEFAULTUSER_OBJECT_HANDLE ∨
    K.isHandleRangeValid connectInfo.iUserObject = true)

instance (K : Consts) (protocol : Int) (connectInfo : NET_CONNECT_INFO) :
    Decidable (sNetConnectRequires K protocol connectInfo) := by
  unfold sNetConnectRequires
  infer_instance

/-- The part of `sNetConnect` for a named-host connect after the connect
options have been processed: check for the use of a proxy and complete the
connection, via the proxy if one was found.  `netStream`, `urlInfo` and
`errorInfo` are the descriptor, the endpoint record and the error record as
`processConnectOptions` left them, `events` the calls made before. -/
def sNetConnectNamedHost {σ : Type} (K : Consts) (env : NetEnv σ)
    (stream : STREAM) (ts : σ) (netStream : NET_STREAM_INFO)
    (urlInfo : Option URL_INFO) (protocol : Int)
    (connectInfo : NET_CONNECT_INFO) (errorInfo : ERROR_INFO)
    (events : List NetEvent) : ConnectOutcome σ :=
  let u := urlInfo.getD zeroUrlInfo
  let proxyUrlBuffer : List Char :=
    List.replicate K.MAX_DNS_SIZE.toNat (Char.ofNat 0)
  let x := sNetConnectProxy K env.kern netStream protocol connectInfo
    (slice (u.host.getD []) 0 u.hostLen) proxyUrlBuffer 0
  let events1 := events ++
    proxyEvents env.kern proxyUrlBuffer.length x.1.queries
  if x.2 = none then
    ⟨x.1.status, stream, errorInfo, ts, events1⟩
  else
    (completeConnect K env stream ts x.1.netStream urlInfo protocol
      connectInfo.options (x.2.getD (none, 0)).1 (x.2.getD (none, 0)).2
      connectInfo.iUserObject errorInfo).after events1

/-- The part of `sNetConnect` after `initStream` has succeeded: process the
connect options, check for the use of a proxy and complete the connection.
`stream` and `netStream` are the stream and the descriptor as `initStream`
left them, `events` the calls it made; the caller's error record is
cleared. -/
def sNetConnectOptions {σ : Type} (K : Consts) (env : NetEnv σ)
    (stream : STREAM) (ts : σ) (netStream : NET_STREAM_INFO) (protocol : Int)
    (connectInfo : NET_CONNECT_INFO) (events : List NetEvent) :
    ConnectOutcome σ :=
  let urlInfoPtr : Option URL_INFO :=
    if connectInfo.options = K.NET_OPTION_HOSTNAME then some zeroUrlInfo
    else none
  let p := processConnectOptions K env stream netStream urlInfoPtr connectInfo
    zeroErrorInfo
  if cryptStatusError K p.status = true then
    ⟨p.status, stream, p.errorInfo, ts, events ++ p.events⟩
  else if connectInfo.options = K.NET_OPTION_HOSTNAME then
    sNetConnectNamedHost K env stream ts p.netStream p.urlInfo protocol
      connectInfo p.errorInfo (events ++ p.events)
  else
    (completeConnect K env stream ts p.netStream p.urlInfo protocol
      connectInfo.options none 0 connectInfo.iUserObject p.errorInfo).after
      (events ++ p.events)

/-- The part of `sNetConnect` after its entry checks, from "Clear return
values" on; the caller's error record has just been cleared. -/
def sNetConnectBody {σ : Type} (K : Consts) (env : NetEnv σ) (stream : STREAM)
    (ts : σ) (protocol : Int) (connectInfo : NET_CONNECT_INFO) :
    ConnectOutcome σ :=
  -- initialise the network stream info
  let i := initStream K env stream zeroNetStreamInfo protocol connectInfo false
  if cryptStatusError K i.status = true then
    ⟨i.status, i.stream, zeroErrorInfo, ts, i.events⟩
  else
    sNetConnectOptions K env i.stream ts i.netStream protocol connectInfo
      i.events

/-- The function `sNetConnect( stream, protocol, connectInfo, errorInfo )`.
`stream` and `errorInfo` are what the two output records hold on entry. -/
def sNetConnect {σ : Type} (K : Consts) (env : NetEnv σ) (stream : STREAM)
    (ts : σ) (protocol : Int) (connectInfo : NET_CONNECT_INFO)
    (errorInfo : ERROR_INFO) : ConnectOutcome σ :=
  if ¬ sNetConnectRequires K protocol connectInfo then
    ⟨K.CRYPT_ERROR_INTERNAL, stream, errorInfo, ts, []⟩
  else sNetConnectBody K env stream ts protocol connectInfo

/-- The seven entry checks of `sNetListen`. -/
def sNetListenRequires (K : Consts) (protocol : Int)
    (connectInfo : NET_CONNECT_INFO) : Prop :=
  (protocol = K.STREAM_PROTOCOL_TCP ∨ protocol = K.STREAM_PROTOCOL_UDP ∨
    protocol = K.STREAM_PROTOCOL_HTTP) ∧
  (connectInfo.options = K.NET_OPTION_HOSTNAME ∨
    connectInfo.options = K.NET_OPTION_TRANSPORTSESSION ∨
    connectInfo.options = K.NET_OPTION_NETWORKSOCKET) ∧
  (connectInfo.options ≠ K.NET_OPTION_HOSTNAME ∨
    (connectInfo.options = K.NET_OPTION_HOSTNAME ∧
      connectInfo.iCryptSession = K.CRYPT_ERROR ∧
      connectInfo.networkSocket = K.CRYPT_ERROR)) ∧
  (connectInfo.options ≠ K.NET_OPTION_TRANSPORTSESSION ∨
    (connectInfo.options = K.NET_OPTION_TRANSPORTSESSION ∧
      connectInfo.interface = none ∧ connectInfo.interfaceLength = 0 ∧
      connectInfo.iCryptSession ≠ K.CRYPT_ERROR ∧
      connectInfo.networkSocket = K.CRYPT_ERROR)) ∧
  ((connectInfo.options ≠ K.NET_OPTION_NETWORKSOCKET ∧
      connectInfo.options ≠ K.NET_OPTION_NETWORKSOCKET_DUMMY) ∨
    ((connectInfo.options = K.NET_OPTION_NETWORKSOCKET ∨
        connectInfo.options = K.NET_OPTION_NETWORKSOCKET_DUMMY) ∧
      connectInfo.interface = none ∧ connectInfo.interfaceLength = 0 ∧
      connectInfo.iCryptSession = K.CRYPT_ERROR ∧
      connectInfo.networkSocket ≠ K.CRYPT_ERROR)) ∧
  (connectInfo.iUserObject = K.DEFAULTUSER_OBJECT_HANDLE ∨
    K.isHandleRangeValid connectInfo.iUserObject = true) ∧
  (connectInfo.name = none ∧ connectInfo.nameLength = 0)

instance (K : Consts) (protocol : Int) (connectInfo : NET_CONNECT_INFO) :
    Decidable (sNetListenRequires K protocol connectInfo) := by
  unfold sNetListenRequires
  infer_instance

/-- The part of `sNetListen` after its entry checks, from "Clear the return
values" on; the caller's error record has just been cleared. -/
def sNetListenBody {σ : Type} (K : Consts) (env : NetEnv σ) (stream : STREAM)
    (ts : σ) (protocol : Int) (connectInfo : NET_CONNECT_INFO) :
    ConnectOutcome σ :=
  -- initialise the network stream info
  let i := initStream K env stream zeroNetStreamInfo protocol connectInfo true
  if cryptStatusError K i.status = true then
    ⟨i.status, i.stream, zeroErrorInfo, ts, i.events⟩
  else
    let urlInfoPtr : Option URL_INFO :=
      if connectInfo.options = K.NET_OPTION_HOSTNAME ∧
          connectInfo.interface ≠ none then some zeroUrlInfo
      else none
    let p := processConnectOptions K env i.stream i.netStream urlInfoPtr
      connectInfo zeroErrorInfo
    if cryptStatusError K p.status = true then
      ⟨p.status, i.stream, p.errorInfo, ts, i.events ++ p.events⟩
    else
      (completeConnect K env i.stream ts p.netStream p.urlInfo protocol
        connectInfo.options none 0 connectInfo.iUserObject p.errorInfo).after
        (i.events ++ p.events)

/-- The function `sNetListen( stream, protocol, connectInfo, errorInfo )`.
`stream` and `errorInfo` are what the two output records hold on entry. -/
def sNetListen {σ : Type} (K : Consts) (env : NetEnv σ) (stream : STREAM)
    (ts : σ) (protocol : Int) (connectInfo : NET_CONNECT_INFO)
    (errorInfo : ERROR_INFO) : ConnectOutcome σ :=
  if ¬ sNetListenRequires K protocol connectInfo then
    ⟨K.CRYPT_ERROR_INTERNAL, stream, errorInfo, ts, []⟩
  else sNetListenBody K env stream ts protocol connectInfo

/-! ## Sequences of calls and what the claims speak about -/

/-- Concatenation of a list of byte strings. -/
def concatAll {α : Type} : List (List α) → List α
  | [] => []
  | x :: xs => x ++ concatAll xs

/-- One request to `bufferedTransportRead`. -/
structure ReadRequest where
  maxLength : Int
  length0 : Int
  flags : Nat
deriving DecidableEq, Repr

/-- A sequence of `bufferedTransportRead` calls on one stream: the outcomes,
in call order. -/
def bufferedTransportReadSeq {σ : Type} (K : Consts) (T : Transport σ)
    (stream : STREAM) (ts : σ) : List ReadRequest → List (ReadOutcome σ)
  | [] => []
  | r :: rs =>
    let o := bufferedTransportRead K T stream ts r.maxLength r.length0 r.flags
    o :: bufferedTransportReadSeq K T o.stream o.tstate rs

/-- The stream a sequence of calls ends in. -/
def lastStream {σ : Type} (stream : STREAM) : List (ReadOutcome σ) → STREAM
  | [] => stream
  | o :: os => lastStream o.stream os

/-- The bytes a call returned to its caller: the first `*length` bytes of the
caller's buffer. -/
def ReadOutcome.returned {σ : Type} (o : ReadOutcome σ) : List BYTE :=
  slice o.out 0 o.length

/-- The unconsumed cache bytes `buffer[bufPos..bufEnd)` of a stream. -/
def STREAM.cache (stream : STREAM) : List BYTE :=
  slice stream.buffer stream.bufPos (stream.bufEnd - stream.bufPos)

/-- The bytes delivered by the successful transport reads among `calls`, in
delivery order. -/
def delivered (K : Consts) (calls : List ReadCall) : List BYTE :=
  concatAll ((calls.filter fun c => cryptStatusOK K c.reply.status).map
    fun c => c.reply.data)

/-- A transport whose reads each report `CRYPT_OK` or an error status and
return at most the number of bytes requested. -/
def ReadsBounded {σ : Type} (K : Consts) (T : Transport σ) : Prop :=
  ∀ (ts : σ) (n : Int) (flags : Nat), 0 < n →
    (T.read ts n flags).1.status ≤ K.CRYPT_OK ∧
    ((T.read ts n flags).1.data.length : Int) ≤ n

/-- The entry checks of `bufferedTransportRead` pass: the stream has a
descriptor that passes the sanity check and has a transport read function,
and the arguments are in range. -/
def ReadEntryOK (K : Consts) (stream : STREAM) (maxLength : Int)
    (flags : Nat) : Prop :=
  DATAPTR_GET K stream.netStream ≠ NULL ∧
  sanityCheckNetStream K stream.netStreamInfo = true ∧
  (maxLength > 0 ∧ maxLength < K.MAX_BUFFER_SIZE) ∧
  (stream.bufEnd - stream.bufPos ≥ 0 ∧
    stream.bufEnd - stream.bufPos < K.MAX_INTLENGTH_SHORT) ∧
  (flags ≥ K.TRANSPORT_FLAG_NONE ∧ flags ≤ K.TRANSPORT_FLAG_MAX) ∧
  FNPTR_GET K stream.netStreamInfo.transportReadFunction ≠ NULL

/-- The entry checks of `bufferedTransportWrite` pass. -/
def WriteEntryOK (K : Consts) (stream : STREAM) (buffer : List BYTE)
    (flags : Nat) : Prop :=
  DATAPTR_GET K stream.netStream ≠ NULL ∧
  sanityCheckNetStream K stream.netStreamInfo = true ∧
  ((buffer.length : Int) > 0 ∧ (buffer.length : Int) < K.MAX_BUFFER_SIZE) ∧
  (flags ≥ K.TRANSPORT_FLAG_NONE ∧ flags ≤ K.TRANSPORT_FLAG_MAX) ∧
  FNPTR_GET K stream.netStreamInfo.transportWriteFunction ≠ NULL

/-- The cursor invariant of the read-ahead buffer,
`0 ≤ bufPos ≤ bufEnd ≤ bufSize`, over storage of `bufSize` bytes. -/
def CursorInv (stream : STREAM) : Prop :=
  0 ≤ stream.bufPos ∧ stream.bufPos ≤ stream.bufEnd ∧
  stream.bufEnd ≤ stream.bufSize ∧ (stream.buffer.length : Int) = stream.bufSize

/-- The `rangeCheck` macro accepts every range that lies inside the buffer:
a positive start and length with `start + length ≤ maxLength`. -/
def RangeCheckAccepts (K : Consts) : Prop :=
  ∀ start length maxLength : Int,
    0 < start → 0 < length → start + length ≤ maxLength →
    K.rangeCheck start length maxLength = true

/-- The local spellings of a host, in the words of the spec: anything longer
than 4 characters that starts with "127.", exactly "::1", and "localhost" or
"localhost." in any letter case. -/
def IsLocalSpelling (host : List Char) : Prop :=
  (host.length > 4 ∧ host.take 4 = "127.".toList) ∨
  host = "::1".toList ∨
  host.map Char.toLower = "localhost".toList ∨
  host.map Char.toLower = "localhost.".toList

/-- The entry checks of `checkForProxy` pass. -/
def ProxyEntryOK (K : Consts) (protocol : Int) (proxyUrlBuffer : List Char) :
    Prop :=
  (protocol > K.STREAM_PROTOCOL_NONE ∧ protocol < K.STREAM_PROTOCOL_LAST) ∧
  ((proxyUrlBuffer.length : Int) > 10 ∧
    (proxyUrlBuffer.length : Int) ≤ K.MAX_DNS_SIZE)

/-- Whether an event is a call to `parseURL`. -/
def NetEvent.isParseURL : NetEvent → Bool
  | .parseURL _ _ _ _ => true
  | _ => false

/-- Whether an event is a proxy query to the kernel or a call to proxy
discovery. -/
def NetEvent.isProxyDetection : NetEvent → Bool
  | .getAttributeS _ _ _ _ => true
  | .findProxyUrl _ _ => true
  | _ => false

/-- Whether an event is a call to the transport connect operation. -/
def NetEvent.isTransportConnect : NetEvent → Bool
  | .transportConnect _ _ _ _ => true
  | _ => false

/-- Whether an event is a call to the allocator. -/
def NetEvent.isAlloc : NetEvent → Bool
  | .clAlloc _ _ => true
  | _ => false

/-- Whether an event is the tunnel handshake `connectViaHttpProxy`. -/
def NetEvent.isHandshake : NetEvent → Bool
  | .connectViaHttpProxy _ => true
  | _ => false

/-- Whether an event is a proxy query that the kernel answered with
`CRYPT_OK`: a proxy is configured. -/
def NetEvent.isProxyFound (K : Consts) : NetEvent → Bool
  | .getAttributeS _ _ status _ => cryptStatusOK K status
  | _ => false

/-- Whether an event is a transport connect that did not report an error. -/
def NetEvent.isConnectSuccess (K : Consts) : NetEvent → Bool
  | .transportConnect _ _ _ status => !cryptStatusError K status
  | _ => false

/-- Whether an event is one of the calls that neither parse a URL, nor look
for a proxy, nor connect, check or shake hands: the kernel's integer
attributes, the driver-ready gate, the liveness check, the allocator, and the
calls of the cleanup. -/
def NetEvent.isHousekeeping : NetEvent → Bool
  | .getAttribute _ _ _ _ => true
  | .waitSemaphore _ => true
  | .transportOK _ => true
  | .clAlloc _ _ => true
  | .transportDisconnect _ => true
  | .zeroise _ => true
  | .clFree _ => true
  | _ => false

/-- Whether an event is a call to an operation of the transport. -/
def NetEvent.isTransportOperation : NetEvent → Bool
  | .transportConnect _ _ _ _ => true
  | .transportCheck _ => true
  | .transportOK _ => true
  | .transportDisconnect _ => true
  | .connectViaHttpProxy _ => true
  | _ => false

/-- A descriptor with its operation table cleared: what is left are the fields
that the access-method and stream-layer functions have no business with. -/
def NET_STREAM_INFO.clearTable (netStream : NET_STREAM_INFO) : NET_STREAM_INFO :=
  { netStream with
    writeFunction := zeroSafePtr
    readFunction := zeroSafePtr
    transportConnectFunction := zeroSafePtr
    transportDisconnectFunction := zeroSafePtr
    transportReadFunction := zeroSafePtr
    transportWriteFunction := zeroSafePtr
    transportOKFunction := zeroSafePtr
    transportCheckFunction := zeroSafePtr }

/-- The access-method and stream-layer functions change nothing but the
operation table of the descriptor. -/
def LayeringKeepsData {σ : Type} (env : NetEnv σ) : Prop :=
  (∀ ns, (env.setAccessMethodTCP ns).clearTable = ns.clearTable) ∧
  (∀ ns, (env.setAccessMethodTransportSession ns).clearTable = ns.clearTable) ∧
  (∀ ns, (env.setStreamLayerHTTP ns).clearTable = ns.clearTable)

/-- The transport connect operation and the tunnel handshake leave a
descriptor that passed the sanity check in a state that passes it. -/
def TransportKeepsSanity {σ : Type} (K : Consts) (env : NetEnv σ) : Prop :=
  (∀ ts ns host hostLen port, sanityCheckNetStream K ns = true →
    sanityCheckNetStream K
      (env.transportConnect ts ns host hostLen port).1.netStream = true) ∧
  (∀ ts stream errorInfo,
    sanityCheckNetStream K stream.netStreamInfo = true →
    sanityCheckNetStream K
      (env.connectViaHttpProxy ts stream errorInfo).1.stream.netStreamInfo = true)

/-- Facts about the header constants that the connect path relies on: the
error statuses are below `CRYPT_OK`, the connect-option values are distinct,
and the user-socket flag is a bit of its own. -/
def ConstsOK (K : Consts) : Prop :=
  (K.CRYPT_ERROR_INTERNAL < K.CRYPT_OK ∧ K.CRYPT_ERROR_OPEN < K.CRYPT_OK ∧
    K.OK_SPECIAL < K.CRYPT_OK ∧ K.CRYPT_ERROR_MEMORY < K.CRYPT_OK ∧
    K.CRYPT_ERROR_NOTINITED < K.CRYPT_OK ∧
    K.CRYPT_ERROR_NOTAVAIL < K.CRYPT_OK) ∧
  (K.NET_OPTION_HOSTNAME ≠ K.NET_OPTION_NETWORKSOCKET ∧
    K.NET_OPTION_HOSTNAME ≠ K.NET_OPTION_NETWORKSOCKET_DUMMY ∧
    K.NET_OPTION_TRANSPORTSESSION ≠ K.NET_OPTION_NETWORKSOCKET ∧
    K.NET_OPTION_TRANSPORTSESSION ≠ K.NET_OPTION_NETWORKSOCKET_DUMMY ∧
    K.NET_OPTION_NETWORKSOCKET ≠ K.NET_OPTION_NETWORKSOCKET_DUMMY) ∧
  (K.STREAM_NFLAG_USERSOCKET ≠ 0 ∧
    K.STREAM_NFLAG_DGRAM &&& K.STREAM_NFLAG_USERSOCKET = 0 ∧
    K.STREAM_NFLAG_HTTPPROXY &&& K.STREAM_NFLAG_USERSOCKET = 0 ∧
    K.STREAM_NFLAG_HTTPTUNNEL &&& K.STREAM_NFLAG_USERSOCKET = 0)

/-- The entry checks of `openNetworkConnection` pass. -/
def OpenEntryOK (K : Consts) (netStream : NET_STREAM_INFO) (options : Int)
    (proxyUrl : Option (List Char)) (proxyUrlLen : Int) : Prop :=
  (options > K.NET_OPTION_NONE ∧ options < K.NET_OPTION_LAST) ∧
  ((proxyUrl = none ∧ proxyUrlLen = 0) ∨
    (proxyUrl ≠ none ∧ proxyUrlLen > 0 ∧ proxyUrlLen ≤ K.MAX_DNS_SIZE)) ∧
  FNPTR_GET K netStream.transportConnectFunction ≠ NULL

/-- The checks of `completeConnect` that precede the driver-ready gate pass:
its entry checks, the selection of the stream layer, and the checks on the
operation table and the target. -/
def GateReached {σ : Type} (K : Consts) (env : NetEnv σ) (stream : STREAM)
    (netStreamTemplate : NET_STREAM_INFO) (urlInfo : Option URL_INFO)
    (protocol options : Int) (proxyUrl : Option (List Char))
    (proxyUrlLen : Int) (iUserObject : Int) : Prop :=
  stream.type = K.STREAM_TYPE_NETWORK ∧
  (urlInfo = none ∨
    (urlInfo ≠ none ∧ (urlInfo.getD zeroUrlInfo).host ≠ none ∧
      (urlInfo.getD zeroUrlInfo).hostLen > 0)) ∧
  (protocol > K.STREAM_PROTOCOL_NONE ∧ protocol < K.STREAM_PROTOCOL_LAST) ∧
  (options > K.NET_OPTION_NONE ∧ options < K.NET_OPTION_LAST) ∧
  ((proxyUrl = none ∧ proxyUrlLen = 0) ∨
    (proxyUrl ≠ none ∧ proxyUrlLen > 0 ∧ proxyUrlLen ≤ K.MAX_DNS_SIZE)) ∧
  (iUserObject = K.DEFAULTUSER_OBJECT_HANDLE ∨
    K.isHandleRangeValid iUserObject = true) ∧
  ¬ (protocol = K.STREAM_PROTOCOL_HTTP ∧ env.USE_HTTP = false) ∧
  (protocol = K.STREAM_PROTOCOL_HTTP ∨ protocol = K.STREAM_PROTOCOL_TCP ∨
    protocol = K.STREAM_PROTOCOL_UDP) ∧
  (FNPTR_GET K (layerTemplate K env netStreamTemplate protocol
      options).writeFunction ≠ NULL ∧
    FNPTR_GET K (layerTemplate K env netStreamTemplate protocol
      options).readFunction ≠ NULL) ∧
  (FNPTR_GET K (layerTemplate K env netStreamTemplate protocol
      options).transportConnectFunction ≠ NULL ∧
    FNPTR_GET K (layerTemplate K env netStreamTemplate protocol
      options).transportDisconnectFunction ≠ NULL) ∧
  (FNPTR_GET K (layerTemplate K env netStreamTemplate protocol
      options).transportReadFunction ≠ NULL ∧
    FNPTR_GET K (layerTemplate K env netStreamTemplate protocol
      options).transportWriteFunction ≠ NULL) ∧
  (FNPTR_GET K (layerTemplate K env netStreamTemplate protocol
      options).transportOKFunction ≠ NULL ∧
    FNPTR_GET K (layerTemplate K env netStreamTemplate protocol
      options).transportCheckFunction ≠ NULL) ∧
  ((layerTemplate K env netStreamTemplate protocol options).nFlags &&&
      K.STREAM_NFLAG_ISSERVER ≠ 0 ∨
    (urlInfo ≠ none ∧ (urlInfo.getD zeroUrlInfo).host ≠ none ∧
      (urlInfo.getD zeroUrlInfo).hostLen ≠ 0) ∨
    (layerTemplate K env netStreamTemplate protocol options).netSocket ≠
      K.CRYPT_ERROR)

/-- The entry checks of `sNetConnect` and of `initStream` pass: the connect
request passes validation. -/
def ConnectEntryOK (K : Consts) (protocol : Int)
    (connectInfo : NET_CONNECT_INFO) : Prop :=
  sNetConnectRequires K protocol connectInfo ∧
  (protocol > K.STREAM_PROTOCOL_NONE ∧ protocol < K.STREAM_PROTOCOL_LAST)

/-- The options variant does not match the supplied fields, in the words of
the spec: a named-host variant with a missing or zero-length name or with a
socket or a session handle; a caller-socket variant with a name, an
interface, a session or no socket; an external-session variant with a name,
an interface, a socket or no session. -/
def OptionsMismatch (K : Consts) (connectInfo : NET_CONNECT_INFO) : Prop :=
  (connectInfo.options = K.NET_OPTION_HOSTNAME ∧
    (connectInfo.name = none ∨ connectInfo.nameLength ≤ 0 ∨
      connectInfo.networkSocket ≠ K.CRYPT_ERROR ∨
      connectInfo.iCryptSession ≠ K.CRYPT_ERROR)) ∨
  ((connectInfo.options = K.NET_OPTION_NETWORKSOCKET ∨
      connectInfo.options = K.NET_OPTION_NETWORKSOCKET_DUMMY) ∧
    (connectInfo.name ≠ none ∨ connectInfo.interface ≠ none ∨
      connectInfo.iCryptSession ≠ K.CRYPT_ERROR ∨
      connectInfo.networkSocket = K.CRYPT_ERROR)) ∨
  (connectInfo.options = K.NET_OPTION_TRANSPORTSESSION ∧
    (connectInfo.name ≠ none ∨ connectInfo.interface ≠ none ∨
      connectInfo.networkSocket ≠ K.CRYPT_ERROR ∨
      connectInfo.iCryptSession = K.CRYPT_ERROR))

/-- Whether an event is a call to the transport disconnect operation. -/
def NetEvent.isTransportDisconnect : NetEvent → Bool
  | .transportDisconnect _ => true
  | _ => false

/-- The cursor invariant of the read-ahead buffer in the words of the spec:
`0 ≤ bufPos ≤ bufEnd ≤ capacity`, the capacity being `bufSize`. -/
def CursorBounds (stream : STREAM) : Prop :=
  0 ≤ stream.bufPos ∧ stream.bufPos ≤ stream.bufEnd ∧
  stream.bufEnd ≤ stream.bufSize

/-- Each transport read returns at most the number of bytes requested. -/
def ReadsWithinRequest {σ : Type} (T : Transport σ) : Prop :=
  ∀ (ts : σ) (n : Int) (flags : Nat), 0 < n →
    ((T.read ts n flags).1.data.length : Int) ≤ n

/-- Modelled from the spec: the transport `T` "as if" each of its failed
non-blocking reads "had succeeded with zero bytes".  A non-blocking read of
`T` whose status is not `CRYPT_OK` is replaced by a read that reports
`CRYPT_OK` and no data; the transport moves on to the same state.  Every
other read and every write is that of `T`. -/
def forgiveTopUp {σ : Type} (K : Consts) (T : Transport σ) : Transport σ where
  read := fun st n flags =>
    if flags = K.TRANSPORT_FLAG_NONBLOCKING ∧
        cryptStatusOK K (T.read st n flags).1.status = false then
      (⟨K.CRYPT_OK, []⟩, (T.read st n flags).2)
    else T.read st n flags
  write := T.write

/-- One request to `bufferedTransportWrite`: the caller's data, the value
`*length` holds on entry, and the flags. -/
structure WriteRequest where
  buffer : List BYTE
  length0 : Int
  flags : Nat
deriving DecidableEq, Repr

/-- A sequence of `bufferedTransportWrite` calls on one stream: the outcomes,
in call order. -/
def bufferedTransportWriteSeq {σ : Type} (K : Consts) (T : Transport σ)
    (stream : STREAM) (ts : σ) : List WriteRequest → List (WriteOutcome σ)
  | [] => []
  | r :: rs =>
    let o := bufferedTransportWrite K T stream ts r.buffer r.length0 r.flags
    o :: bufferedTransportWriteSeq K T o.stream o.tstate rs

/-- The stream a sequence of write calls ends in. -/
def lastWriteStream {σ : Type} (stream : STREAM) :
    List (WriteOutcome σ) → STREAM
  | [] => stream
  | o :: os => lastWriteStream o.stream os

/-- The bytes handed to the transport by the transport writes `calls`, in
call order. -/
def handedOver (calls : List WriteCall) : List BYTE :=
  concatAll (calls.map WriteCall.payload)

/-- A transport that accepts every write in full: each write reports
`CRYPT_OK` and as many bytes written as it was handed. -/
def WritesAccepted {σ : Type} (K : Consts) (T : Transport σ) : Prop :=
  ∀ (ts : σ) (payload : List BYTE) (flags : Nat),
    (T.write ts payload flags).1.status = K.CRYPT_OK ∧
    (T.write ts payload flags).1.bytesWritten = payload.length

/-- A stream that `bufferedTransportWrite` accepts: the descriptor is
attached, passes the sanity check and has a transport write function, and
the write buffer, when there is one, is storage of `writeBufSize` bytes. -/
def WriteReady (K : Consts) (stream : STREAM) : Prop :=
  DATAPTR_GET K stream.netStream ≠ NULL ∧
  sanityCheckNetStream K stream.netStreamInfo = true ∧
  FNPTR_GET K stream.netStreamInfo.transportWriteFunction ≠ NULL ∧
  ∀ wb, stream.netStreamInfo.writeBuffer = some wb →
    (wb.length : Int) = stream.netStreamInfo.writeBufSize

/-- A request that passes the argument checks of `bufferedTransportWrite`:
between 1 and `MAX_BUFFER_SIZE - 1` bytes, flags in range. -/
def ValidWrite (K : Consts) (r : WriteRequest) : Prop :=
  ((r.buffer.length : Int) > 0 ∧ (r.buffer.length : Int) < K.MAX_BUFFER_SIZE) ∧
  (r.flags ≥ K.TRANSPORT_FLAG_NONE ∧ r.flags ≤ K.TRANSPORT_FLAG_MAX)

/-! ## Concrete instances used to evaluate the model -/

/-- A concrete choice of the header constants (those of a build with 32-bit
`int` and 64-bit pointers). -/
def sampleConsts : Consts where
  PTR_BITS := 64
  CRYPT_OK := 0
  CRYPT_ERROR := -1
  CRYPT_ERROR_INTERNAL := -16
  CRYPT_ERROR_MEMORY := -10
  CRYPT_ERROR_NOTINITED := -11
  CRYPT_ERROR_NOTAVAIL := -20
  CRYPT_ERROR_OPEN := -40
  OK_SPECIAL := -4321
  MAX_BUFFER_SIZE := 2145386495
  MAX_INTLENGTH_SHORT := 16384
  MAX_INTLENGTH := 2146435071
  MAX_NETWORK_TIMEOUT := 300
  MAX_DNS_SIZE := 255
  MIN_HOST_SIZE := 4
  MAX_HOST_SIZE := 255
  MIN_LOCATION_SIZE := 3
  MAX_LOCATION_SIZE := 255
  MIN_PORT_NUMBER := 21
  MAX_PORT_NUMBER := 65534
  STREAM_PROTOCOL_NONE := 0
  STREAM_PROTOCOL_TCP := 1
  STREAM_PROTOCOL_UDP := 2
  STREAM_PROTOCOL_HTTP := 3
  STREAM_PROTOCOL_LAST := 4
  STREAM_PEER_NONE := 0
  STREAM_PEER_LAST := 10
  NET_OPTION_NONE := 0
  NET_OPTION_HOSTNAME := 1
  NET_OPTION_TRANSPORTSESSION := 2
  NET_OPTION_NETWORKSOCKET := 3
  NET_OPTION_NETWORKSOCKET_DUMMY := 4
  NET_OPTION_LAST := 5
  STREAM_NFLAG_NONE := 0
  STREAM_NFLAG_ISSERVER := 1
  STREAM_NFLAG_USERSOCKET := 2
  STREAM_NFLAG_HTTPPROXY := 8
  STREAM_NFLAG_HTTPTUNNEL := 16
  STREAM_NFLAG_DGRAM := 1024
  STREAM_NFLAG_MAX := 2047
  TRANSPORT_FLAG_NONE := 0
  TRANSPORT_FLAG_FLUSH := 1
  TRANSPORT_FLAG_NONBLOCKING := 2
  TRANSPORT_FLAG_BLOCKING := 4
  TRANSPORT_FLAG_MAX := 7
  CRYPT_OPTION_NET_HTTP_PROXY := 139
  CRYPT_OPTION_NET_SOCKS_SERVER := 137
  rangeCheck := fun start length maxLength =>
    !(decide (start ≤ 0) || decide (length < 1) ||
      decide (start + length > maxLength))
  rangeCheckZ := fun start length maxLength =>
    !(decide (start < 0) || decide (length < 1) ||
      decide (start + length > maxLength))
  isHandleRangeValid := fun handle =>
    decide (handle > 1) && decide (handle < 16384)
  DEFAULTUSER_OBJECT_HANDLE := 1
  STREAM_TYPE_NETWORK := 3
  URL_TYPE_NONE := 0
  URL_TYPE_HTTP := 1
  INVALID_SOCKET := -1
  CRYPT_OPTION_NET_CONNECTTIMEOUT := 134
  CRYPT_OPTION_NET_READTIMEOUT := 135
  SIZEOF_NET_STREAM_INFO := 1024

/-- A descriptor of an HTTP stream to port 80 with a write buffer `wb` of
`wb.length` bytes filled up to `writeBufEnd`, all eight access functions
set. -/
def sampleNetStream (wb : List BYTE) (writeBufEnd : Int) : NET_STREAM_INFO where
  protocol := 3
  nFlags := 0
  timeout := 30
  savedTimeout := 30
  systemType := 0
  host := none
  hostLen := 0
  path := none
  pathLen := 0
  port := 80
  netSocket := 5
  listenSocket := -1
  iTransportSession := -1
  writeBuffer := some wb
  writeBufSize := wb.length
  writeBufEnd := writeBufEnd
  storageSize := 0
  writeFunction := FNPTR_SET sampleConsts 4096
  readFunction := FNPTR_SET sampleConsts 4112
  transportConnectFunction := FNPTR_SET sampleConsts 4128
  transportDisconnectFunction := FNPTR_SET sampleConsts 4144
  transportReadFunction := FNPTR_SET sampleConsts 4160
  transportWriteFunction := FNPTR_SET sampleConsts 4176
  transportOKFunction := FNPTR_SET sampleConsts 4192
  transportCheckFunction := FNPTR_SET sampleConsts 4208
  errorInfo := ⟨[]⟩

/-- A buffered stream over `sampleNetStream` with the read buffer `buffer`
and the given cursors. -/
def sampleStream (buffer : List BYTE) (bufPos bufEnd : Int) (wb : List BYTE)
    (writeBufEnd : Int) : STREAM where
  type := 3
  buffer := buffer
  bufSize := buffer.length
  bufPos := bufPos
  bufEnd := bufEnd
  netStream := DATAPTR_SET sampleConsts 65536
  netStreamInfo := sampleNetStream wb writeBufEnd

/-- A scripted transport: its state is the list of replies still to come.
A read hands out the next scripted reply, cut to the number of bytes
requested (an empty success once the script is used up); a write reports the
next scripted reply (everything accepted once the script is used up). -/
structure Script where
  reads : List ReadReply
  writes : List WriteReply
deriving DecidableEq, Repr

/-- The transport that plays a `Script`. -/
def scriptTransport : Transport Script where
  read := fun st n _ =>
    match st.reads with
    | [] => (⟨0, []⟩, st)
    | r :: rs => (⟨min r.status 0, r.data.take n.toNat⟩, { st with reads := rs })
  write := fun st payload _ =>
    match st.writes with
    | [] => (⟨0, payload.length⟩, st)
    | w :: ws => (w, { st with writes := ws })

/-- A kernel configuration store with the given HTTP and SOCKS proxy
settings (`none`: not configured, the query fails with status -43). -/
def sampleKernel (http socks : Option (List Char)) : Kernel where
  getAttributeS := fun _ attributeId _ =>
    if attributeId = 139 then
      match http with
      | some p => ⟨0, p⟩
      | none => ⟨-43, []⟩
    else if attributeId = 137 then
      match socks with
      | some p => ⟨0, p⟩
      | none => ⟨-43, []⟩
    else ⟨-43, []⟩

/-- A connect-options record for a named-host connect to `name`. -/
def sampleConnectInfo (name : List Char) : NET_CONNECT_INFO where
  name := some name
  nameLength := name.length
  interface := none
  interfaceLength := 0
  port := 80
  options := 1
  iUserObject := 1
  iCryptSession := -1
  networkSocket := -1
  timeout := -1
  connectTimeout := -1

/-- A fresh buffered stream with a read buffer of 10 bytes. -/
def readDemoStream : STREAM :=
  sampleStream (List.replicate 10 0) 0 0 [0, 0, 0, 0] 0

/-- A transport script: a read that yields 3 bytes, a read that yields
nothing, and three reads that yield 1 byte each. -/
def readDemoScript : Script :=
  ⟨[⟨0, [1, 2, 3]⟩, ⟨0, []⟩, ⟨0, [4]⟩, ⟨0, [5]⟩, ⟨0, [6]⟩], []⟩

/-- Two read requests, for 5 bytes and for 1 byte. -/
def readDemoRequests : List ReadRequest := [⟨5, 0, 0⟩, ⟨1, 0, 0⟩]

/-- A stream whose read buffer holds the unconsumed bytes 2, 3, 4. -/
def cachedDemoStream : STREAM :=
  sampleStream [1, 2, 3, 4, 5, 0, 0, 0] 1 4 [0, 0, 0, 0] 0

/-- A transport that accepts every write in full and has nothing to read. -/
def acceptAllTransport : Transport Unit where
  read := fun st _ _ => (⟨0, []⟩, st)
  write := fun st payload _ => (⟨0, payload.length⟩, st)

/-- A buffered stream whose 6-byte write buffer is empty. -/
def emptyWriteDemoStream : STREAM :=
  sampleStream [] 0 0 [0, 0, 0, 0, 0, 0] 0

/-- A buffered stream whose 6-byte write buffer holds the 3 bytes 9, 9, 9. -/
def pendingWriteDemoStream : STREAM :=
  sampleStream [] 0 0 [9, 9, 9, 0, 0, 0] 3

/-- A transport script whose first write accepts 4 bytes only. -/
def shortWriteScript : Script := ⟨[], [⟨0, 4⟩]⟩

/-- A transport script whose first write accepts 6 bytes and whose second
write accepts 1 byte. -/
def overflowWriteScript : Script := ⟨[], [⟨0, 6⟩, ⟨0, 1⟩]⟩

/-- A caller's proxy URL buffer of `MAX_DNS_SIZE` characters. -/
def proxyDemoBuffer : List Char := List.replicate 255 'x'

/-- A configuration store with both an HTTP and a SOCKS proxy set. -/
def bothProxiesKernel : Kernel :=
  sampleKernel (some "proxy.local:8080".toList) (some "socks.local:1080".toList)

/-- A configuration store with only a SOCKS proxy set. -/
def socksOnlyKernel : Kernel :=
  sampleKernel none (some "socks.local:1080".toList)

/-- The value of a string of decimal digits. -/
def parseDecimal (digits : List Char) : Int :=
  digits.foldl (fun n c => 10 * n + ((c.toNat : Int) - 48)) 0

/-- A URL parser for locators of the form `host` or `host:port`: it fails
(status -32) on an empty host and on a locator that contains a blank. -/
def sampleParseURL (url : List Char) (defaultPort : Int) (_urlType : Int) :
    ParseReply :=
  let host := url.takeWhile fun c => c ≠ ':'
  let rest := (url.dropWhile fun c => c ≠ ':').drop 1
  if host = [] ∨ ' ' ∈ url then ⟨-32, zeroUrlInfo⟩
  else
    ⟨0, ⟨some host, host.length, none, 0,
      if rest = [] then defaultPort else parseDecimal rest⟩⟩

/-- What the collaborators of one connect attempt do. -/
structure Scenario where
  /-- Whether the build defines `USE_HTTP`. -/
  useHTTP : Bool
  /-- The configured HTTP proxy, if any. -/
  httpProxy : Option (List Char)
  /-- The configured SOCKS proxy, if any. -/
  socksProxy : Option (List Char)
  /-- Whether the driver-ready gate signals. -/
  driverReady : Bool
  /-- Whether the transport liveness check succeeds. -/
  transportAlive : Bool
  /-- Whether the allocator has memory. -/
  allocOK : Bool
  /-- The status of the transport connect operation. -/
  connectStatus : Int
  /-- The status of the transport validity check. -/
  checkStatus : Int
  /-- The proxy URL that discovery finds, if any. -/
  discovery : Option (List Char)
  /-- The status of the tunnel handshake. -/
  handshakeStatus : Int
deriving DecidableEq, Repr

/-- The collaborators that play a `Scenario`.  The transport state counts the
calls to transport operations. -/
def scenarioEnv (s : Scenario) : NetEnv Nat where
  USE_HTTP := s.useHTTP
  kern := sampleKernel s.httpProxy s.socksProxy
  getAttribute := fun _ _ => ⟨0, 30⟩
  parseURL := sampleParseURL
  findProxyUrl := fun _ _ _ =>
    match s.discovery with
    | some url => ⟨0, url⟩
    | none => ⟨-43, []⟩
  krnlWaitSemaphore := s.driverReady
  clAlloc := fun _ => if s.allocOK then 65536 else 0
  setAccessMethodTCP := fun ns =>
    { ns with
      transportConnectFunction := FNPTR_SET sampleConsts 4128
      transportDisconnectFunction := FNPTR_SET sampleConsts 4144
      transportReadFunction := FNPTR_SET sampleConsts 4160
      transportWriteFunction := FNPTR_SET sampleConsts 4176
      transportOKFunction := FNPTR_SET sampleConsts 4192
      transportCheckFunction := FNPTR_SET sampleConsts 4208 }
  setAccessMethodTransportSession := fun ns => ns
  setStreamLayerHTTP := fun ns =>
    { ns with
      writeFunction := FNPTR_SET sampleConsts 4096
      readFunction := FNPTR_SET sampleConsts 4112 }
  transportDirectReadFunction := 4224
  transportDirectWriteFunction := 4240
  transportOK := s.transportAlive
  transportConnect := fun n ns _ _ _ =>
    (⟨s.connectStatus,
      if s.connectStatus < 0 then
        { ns with errorInfo := ⟨"Connection refused".toList⟩ }
      else { ns with netSocket := 7 }⟩, n + 1)
  transportCheck := fun n _ => (s.checkStatus, n + 1)
  transportDisconnect := fun n _ _ => n + 1
  connectViaHttpProxy := fun n stream errorInfo =>
    (⟨s.handshakeStatus,
      if s.handshakeStatus < 0 then
        { stream with
          netStreamInfo :=
            { stream.netStreamInfo with
              errorInfo := ⟨"Proxy refused the tunnel".toList⟩ } }
      else stream,
      errorInfo⟩, n + 1)

/-- The scenario in which everything works and no proxy is configured. -/
def plainScenario : Scenario where
  useHTTP := true
  httpProxy := none
  socksProxy := none
  driverReady := true
  transportAlive := true
  allocOK := true
  connectStatus := 0
  checkStatus := 0
  discovery := none
  handshakeStatus := 0

/-- A connect-options record for a caller-supplied socket 9 (`validateOnly`:
the variant that only checks the socket). -/
def socketConnectInfo (validateOnly : Bool) : NET_CONNECT_INFO where
  name := none
  nameLength := 0
  interface := none
  interfaceLength := 0
  port := 0
  options := if validateOnly then 4 else 3
  iUserObject := 1
  iCryptSession := -1
  networkSocket := 9
  timeout := -1
  connectTimeout := -1

/-- A descriptor as `completeConnect` builds it for an unbuffered TCP stream
to `host`, port 80. -/
def tcpNetStream (host : List Char) : NET_STREAM_INFO :=
  { sampleNetStream [] 0 with
    protocol := 1
    host := some host
    hostLen := host.length
    netSocket := -1
    writeBuffer := none }

/-- The stream handle as `initStream` leaves it. -/
def freshStream : STREAM := { zeroStream with type := 3 }

/-- The template descriptor of a TCP connect to port 80 as `initStream`
leaves it. -/
def freshTemplate : NET_STREAM_INFO :=
  { zeroNetStreamInfo with
    protocol := 1, port := 80, netSocket := -1, listenSocket := -1,
    iTransportSession := -1, timeout := 30, savedTimeout := 30 }

/-- The endpoint record for the target example.com, port 80. -/
def exampleUrlInfo : URL_INFO :=
  ⟨some "example.com".toList, 11, none, 0, 80⟩

/-- The proxy URL buffer of `sNetConnect` after the kernel stored the proxy
setting `proxy` in it. -/
def proxyBufferOf (proxy : List Char) : List Char :=
  store (List.replicate 255 (Char.ofNat 0)) 0 proxy

/-- An unbuffered descriptor, accepted by `sanityCheckNetStream`, whose
operation table is empty. -/
def emptyTableNetStream : NET_STREAM_INFO :=
  { zeroNetStreamInfo with protocol := 1, timeout := 30, savedTimeout := 30,
                           port := 80, netSocket := 5 }

/-- A stream with `emptyTableNetStream` attached. -/
def emptyTableStream : STREAM :=
  { zeroStream with type := 3, netStream := DATAPTR_SET sampleConsts 65536,
                    netStreamInfo := emptyTableNetStream }

/-- A stream over an unbuffered TCP descriptor with its operation table set
(`userSocket`: the socket was supplied by the caller). -/
def tcpStream (userSocket : Bool) : STREAM :=
  { zeroStream with
    type := 3
    netStream := DATAPTR_SET sampleConsts 65536
    netStreamInfo :=
      { tcpNetStream "example.com".toList with
        nFlags := if userSocket then 2 else 0
        netSocket := 7 } }

/-- A descriptor of a listening HTTP stream that waits for a connection
without bound, with the saved (data-phase) timeout `savedTimeout`. -/
def listenNetStream (savedTimeout : Int) : NET_STREAM_INFO :=
  { sampleNetStream [0, 0, 0, 0] 0 with
    nFlags := 1
    timeout := 2146435071
    savedTimeout := savedTimeout }

/-- The scenario in which the HTTP proxy "proxy.local:8080" is configured, the
connect to it succeeds and the tunnel handshake fails with status -40. -/
def refusedTunnelScenario : Scenario :=
  { plainScenario with
    httpProxy := some "proxy.local:8080".toList
    handshakeStatus := -40 }

/-- A buffered HTTP descriptor for the target example.com, port 80, as
`completeConnect` builds it (with buffers of 4 bytes). -/
def httpNetStream : NET_STREAM_INFO :=
  { sampleNetStream [0, 0, 0, 0] 0 with
    host := some "example.com".toList
    hostLen := 11
    netSocket := -1
    storageSize := 19 }

/-- The stream handle that goes with `httpNetStream` before the descriptor is
attached. -/
def httpStream : STREAM :=
  { zeroStream with type := 3, buffer := [0, 0, 0, 0], bufSize := 4 }

/-- A transport script whose first write fails with status -25. -/
def failingWriteScript : Script := ⟨[], [⟨-25, 0⟩]⟩

/-- A transport script whose first write reports success and accepts
nothing. -/
def stalledWriteScript : Script := ⟨[], [⟨0, 0⟩]⟩

/-- A connect-options record for a connect over the external session with
handle `session`. -/
def sessionConnectInfo (session : Int) : NET_CONNECT_INFO where
  name := none
  nameLength := 0
  interface := none
  interfaceLength := 0
  port := 0
  options := 2
  iUserObject := 1
  iCryptSession := session
  networkSocket := -1
  timeout := -1
  connectTimeout := -1

/-- Five write requests: 2 bytes, 3 bytes, 9 bytes and 1 byte, none of them
flushing, and a flushing write of 1 byte. -/
def writeDemoRequests : List WriteRequest :=
  [⟨[1, 2], 0, 0⟩, ⟨[3, 4, 5], 0, 0⟩, ⟨[6, 7, 8, 9, 10, 11, 12, 13, 14], 0, 0⟩,
    ⟨[15], 0, 0⟩, ⟨[16], 0, 1⟩]

/-! ## Buffer lemmas -/

theorem slice_length {α : Type} (b : List α) (off len : Int) (h0 : 0 ≤ off)
    (h1 : 0 ≤ len) (h : off + len ≤ b.length) :
    ((slice b off len).length : Int) = len := by
  lift off to ℕ using h0
  lift len to ℕ using h1
  simp only [slice, Int.toNat_natCast, List.length_take, List.length_drop]
  omega

theorem store_length {α : Type} (b : List α) (e : Int) (d : List α)
    (h0 : 0 ≤ e) (h : e + d.length ≤ b.length) :
    (store b e d).length = b.length := by
  lift e to ℕ using h0
  simp only [store, Int.toNat_natCast, List.length_append, List.length_take,
    List.length_drop]
  omega

theorem slice_store_append {α : Type} (b : List α) (e : Int) (d : List α)
    (h0 : 0 ≤ e) (h : e ≤ b.length) :
    slice (store b e d) 0 (e + d.length) = slice b 0 e ++ d := by
  lift e to ℕ using h0
  have h' : e ≤ b.length := by exact_mod_cast h
  have : ((e : Int) + (d.length : Int)).toNat = e + d.length := by omega
  simp only [slice, store, Int.toNat_natCast, Int.toNat_zero, List.drop_zero, this]
  rw [List.append_assoc, List.take_append_eq_append_take]
  simp [List.length_take, h', List.take_take]

theorem slice_store_keep {α : Type} (b : List α) (e : Int) (d : List α)
    (k : Int) (h0 : 0 ≤ e) (hk : k ≤ e) (h : e ≤ b.length) :
    slice (store b e d) 0 k = slice b 0 k := by
  lift e to ℕ using h0
  have h' : e ≤ b.length := by exact_mod_cast h
  have hk' : k.toNat ≤ e := by omega
  simp only [slice, store, Int.toNat_natCast, Int.toNat_zero, List.drop_zero]
  rw [List.append_assoc, List.take_append_eq_append_take]
  simp [List.length_take, h', List.take_take, hk']

theorem slice_split {α : Type} (b : List α) (p k m : Int) (hp : 0 ≤ p)
    (hk : 0 ≤ k) (hkm : k ≤ m) :
    slice b p k ++ slice b (p + k) (m - k) = slice b p m := by
  lift p to ℕ using hp
  lift k to ℕ using hk
  lift m to ℕ using (by omega : 0 ≤ m)
  have h1 : ((p : Int) + (k : Int)).toNat = p + k := by omega
  have h2 : ((m : Int) - (k : Int)).toNat = m - k := by omega
  have hkm' : k ≤ m := by exact_mod_cast hkm
  simp only [slice, Int.toNat_natCast, h1, h2]
  obtain ⟨j, rfl⟩ : ∃ j, m = k + j := ⟨m - k, by omega⟩
  simp only [Nat.add_sub_cancel_left]
  rw [List.take_add, List.drop_drop]

theorem slice_nil_of_nonpos {α : Type} (b : List α) (p len : Int)
    (h : len ≤ 0) : slice b p len = [] := by
  have : len.toNat = 0 := by omega
  simp [slice, this]

theorem slice_all {α : Type} (b : List α) (len : Int)
    (h : (b.length : Int) ≤ len) : slice b 0 len = b := by
  have : b.length ≤ len.toNat := by omega
  simp [slice, List.take_of_length_le this]

theorem concatAll_append {α : Type} (a b : List (List α)) :
    concatAll (a ++ b) = concatAll a ++ concatAll b := by
  induction a with
  | nil => rfl
  | cons x xs ih => simp [concatAll, ih]

theorem delivered_append (K : Consts) (a b : List ReadCall) :
    delivered K (a ++ b) = delivered K a ++ delivered K b := by
  simp [delivered, concatAll_append]

theorem delivered_nil (K : Consts) : delivered K [] = [] := rfl

theorem delivered_cons (K : Consts) (c : ReadCall) (cs : List ReadCall) :
    delivered K (c :: cs) =
      (if c.reply.status = K.CRYPT_OK then c.reply.data else []) ++ delivered K cs := by
  by_cases h : c.reply.status = K.CRYPT_OK
  · simp [delivered, cryptStatusOK, h, concatAll]
  · simp [delivered, cryptStatusOK, h, concatAll]

/-! ## bufferedTransportRead: the outcome along each path -/

theorem drain_eq_cached {σ : Type} (K : Consts) (T : Transport σ) (s : STREAM)
    (ts : σ) (n : Int) (calls : List ReadCall)
    (hsane : sanityCheckNetStream K s.netStreamInfo = true)
    (hcase : n ≤ s.bufEnd) :
    bufferedTransportReadDrain K T s ts n calls =
      ⟨K.CRYPT_OK, n, slice s.buffer 0 n, { s with bufPos := n }, ts, calls⟩ := by
  simp [bufferedTransportReadDrain, hsane, min_eq_left hcase]

theorem drain_eq_direct_err {σ : Type} (K : Consts) (T : Transport σ)
    (s : STREAM) (ts : σ) (n : Int) (calls : List ReadCall)
    (hsane : sanityCheckNetStream K s.netStreamInfo = true)
    (hcase : s.bufEnd < n)
    (herr : (T.read ts (n - s.bufEnd) K.TRANSPORT_FLAG_BLOCKING).1.status
      < K.CRYPT_OK) :
    bufferedTransportReadDrain K T s ts n calls =
      ⟨(T.read ts (n - s.bufEnd) K.TRANSPORT_FLAG_BLOCKING).1.status, s.bufEnd,
        slice s.buffer 0 s.bufEnd ++
          (T.read ts (n - s.bufEnd) K.TRANSPORT_FLAG_BLOCKING).1.data,
        { s with bufPos := s.bufEnd },
        (T.read ts (n - s.bufEnd) K.TRANSPORT_FLAG_BLOCKING).2,
        calls ++ [⟨n - s.bufEnd, K.TRANSPORT_FLAG_BLOCKING,
          (T.read ts (n - s.bufEnd) K.TRANSPORT_FLAG_BLOCKING).1⟩]⟩ := by
  have h1 : min n s.bufEnd = s.bufEnd := min_eq_right (by omega)
  have h2 : ¬ n ≤ s.bufEnd := by omega
  simp [bufferedTransportReadDrain, hsane, h1, h2, cryptStatusError, herr]

theorem drain_eq_direct_ok {σ : Type} (K : Consts) (T : Transport σ)
    (s : STREAM) (ts : σ) (n : Int) (calls : List ReadCall)
    (hsane : sanityCheckNetStream K s.netStreamInfo = true)
    (hcase : s.bufEnd < n)
    (herr : ¬ (T.read ts (n - s.bufEnd) K.TRANSPORT_FLAG_BLOCKING).1.status
      < K.CRYPT_OK) :
    bufferedTransportReadDrain K T s ts n calls =
      ⟨K.CRYPT_OK,
        s.bufEnd + (T.read ts (n - s.bufEnd) K.TRANSPORT_FLAG_BLOCKING).1.data.length,
        slice s.buffer 0 s.bufEnd ++
          (T.read ts (n - s.bufEnd) K.TRANSPORT_FLAG_BLOCKING).1.data,
        { s with bufPos := s.bufEnd },
        (T.read ts (n - s.bufEnd) K.TRANSPORT_FLAG_BLOCKING).2,
        calls ++ [⟨n - s.bufEnd, K.TRANSPORT_FLAG_BLOCKING,
          (T.read ts (n - s.bufEnd) K.TRANSPORT_FLAG_BLOCKING).1⟩]⟩ := by
  have h1 : min n s.bufEnd = s.bufEnd := min_eq_right (by omega)
  have h2 : ¬ n ≤ s.bufEnd := by omega
  simp [bufferedTransportReadDrain, hsane, h1, h2, cryptStatusError, herr]

theorem drain_spec {σ : Type} (K : Consts) (T : Transport σ)
    (hT : ReadsBounded K T) (s : STREAM) (ts : σ) (n : Int)
    (calls : List ReadCall)
    (hok : (bufferedTransportReadDrain K T s ts n calls).status = K.CRYPT_OK)
    (hsane : sanityCheckNetStream K s.netStreamInfo = true)
    (hn : 0 < n) (h0 : 0 ≤ s.bufEnd) (h1 : s.bufEnd ≤ s.bufSize)
    (hlen : (s.buffer.length : Int) = s.bufSize) :
    CursorInv (bufferedTransportReadDrain K T s ts n calls).stream ∧
    ∃ extra, (bufferedTransportReadDrain K T s ts n calls).calls = calls ++ extra ∧
      (bufferedTransportReadDrain K T s ts n calls).returned ++
        (bufferedTransportReadDrain K T s ts n calls).stream.cache =
      slice s.buffer 0 s.bufEnd ++ delivered K extra := by
  by_cases hcase : n ≤ s.bufEnd
  · rw [drain_eq_cached K T s ts n calls hsane hcase]
    refine ⟨⟨by show (0 : Int) ≤ n; omega, hcase, h1, hlen⟩, [], by simp, ?_⟩
    simp only [ReadOutcome.returned, STREAM.cache, delivered_nil, List.append_nil]
    have hl : ((slice s.buffer 0 n).length : Int) = n :=
      slice_length _ _ _ (le_refl 0) (by omega) (by omega)
    rw [slice_all _ _ (by omega)]
    have := slice_split s.buffer 0 n s.bufEnd (le_refl 0) (by omega) hcase
    simpa using this
  · have hlt : s.bufEnd < n := by omega
    obtain ⟨hst, hdl⟩ := hT ts (n - s.bufEnd) K.TRANSPORT_FLAG_BLOCKING (by omega)
    by_cases herr : (T.read ts (n - s.bufEnd) K.TRANSPORT_FLAG_BLOCKING).1.status
        < K.CRYPT_OK
    · rw [drain_eq_direct_err K T s ts n calls hsane hlt herr] at hok
      simp only at hok
      omega
    · rw [drain_eq_direct_ok K T s ts n calls hsane hlt herr]
      have hstat : (T.read ts (n - s.bufEnd) K.TRANSPORT_FLAG_BLOCKING).1.status
          = K.CRYPT_OK := by omega
      refine ⟨⟨h0, le_refl _, h1, hlen⟩, _, rfl, ?_⟩
      simp only [ReadOutcome.returned, STREAM.cache, delivered_cons, hstat,
        if_true, delivered_nil, List.append_nil, sub_self]
      have hl : ((slice s.buffer 0 s.bufEnd).length : Int) = s.bufEnd :=
        slice_length _ _ _ (le_refl 0) h0 (by omega)
      rw [slice_all _ _ (by simp; omega), slice_nil_of_nonpos _ _ _ (le_refl 0)]
      simp

theorem refill_eq_full {σ : Type} (K : Consts) (T : Transport σ) (s : STREAM)
    (ts : σ) (n : Int) (hroom : ¬ s.bufEnd < s.bufSize) :
    bufferedTransportReadRefill K T s ts n =
      bufferedTransportReadDrain K T s ts n [] := by
  simp [bufferedTransportReadRefill, hroom]

theorem refill_eq_block_err {σ : Type} (K : Consts) (T : Transport σ)
    (s : STREAM) (ts : σ) (n m : Int) (hroom : s.bufEnd < s.bufSize)
    (hm : m = if s.bufSize - s.bufEnd > n then n else s.bufSize - s.bufEnd)
    (herr : (T.read ts m K.TRANSPORT_FLAG_BLOCKING).1.status < K.CRYPT_OK) :
    bufferedTransportReadRefill K T s ts n =
      ⟨(T.read ts m K.TRANSPORT_FLAG_BLOCKING).1.status, 0, [],
        { s with
          buffer :=
            store s.buffer s.bufEnd (T.read ts m K.TRANSPORT_FLAG_BLOCKING).1.data },
        (T.read ts m K.TRANSPORT_FLAG_BLOCKING).2,
        [⟨m, K.TRANSPORT_FLAG_BLOCKING,
          (T.read ts m K.TRANSPORT_FLAG_BLOCKING).1⟩]⟩ := by
  subst hm
  simp only [bufferedTransportReadRefill, hroom, if_true, cryptStatusError,
    herr, decide_True]

theorem refill_eq_block_only {σ : Type} (K : Consts) (T : Transport σ)
    (s : STREAM) (ts : σ) (n m : Int) (hroom : s.bufEnd < s.bufSize)
    (hm : m = if s.bufSize - s.bufEnd > n then n else s.bufSize - s.bufEnd)
    (herr : ¬ (T.read ts m K.TRANSPORT_FLAG_BLOCKING).1.status < K.CRYPT_OK)
    (hfull : ¬ s.bufEnd + (T.read ts m K.TRANSPORT_FLAG_BLOCKING).1.data.length
      < s.bufSize) :
    bufferedTransportReadRefill K T s ts n =
      bufferedTransportReadDrain K T
        { s with
          buffer := store s.buffer s.bufEnd
            (T.read ts m K.TRANSPORT_FLAG_BLOCKING).1.data,
          bufEnd := s.bufEnd +
            (T.read ts m K.TRANSPORT_FLAG_BLOCKING).1.data.length }
        (T.read ts m K.TRANSPORT_FLAG_BLOCKING).2 n
        [⟨m, K.TRANSPORT_FLAG_BLOCKING,
          (T.read ts m K.TRANSPORT_FLAG_BLOCKING).1⟩] := by
  subst hm
  simp only [bufferedTransportReadRefill, hroom, if_true, cryptStatusError,
    herr, decide_False, hfull, if_false, Bool.false_eq_true]

theorem refill_eq_topup {σ : Type} (K : Consts) (T : Transport σ)
    (s : STREAM) (ts : σ) (n m : Int) (hroom : s.bufEnd < s.bufSize)
    (hm : m = if s.bufSize - s.bufEnd > n then n else s.bufSize - s.bufEnd)
    (herr : ¬ (T.read ts m K.TRANSPORT_FLAG_BLOCKING).1.status < K.CRYPT_OK)
    (hmore : s.bufEnd + (T.read ts m K.TRANSPORT_FLAG_BLOCKING).1.data.length
      < s.bufSize) (e2 : Int) (ts1 : σ)
    (he2 : e2 = s.bufEnd + (T.read ts m K.TRANSPORT_FLAG_BLOCKING).1.data.length)
    (hts1 : ts1 = (T.read ts m K.TRANSPORT_FLAG_BLOCKING).2) :
    bufferedTransportReadRefill K T s ts n =
      bufferedTransportReadDrain K T
        { s with
          buffer := store
            (store s.buffer s.bufEnd
              (T.read ts m K.TRANSPORT_FLAG_BLOCKING).1.data) e2
            (T.read ts1 (s.bufSize - e2) K.TRANSPORT_FLAG_NONBLOCKING).1.data,
          bufEnd :=
            if (T.read ts1 (s.bufSize - e2) K.TRANSPORT_FLAG_NONBLOCKING).1.status
                = K.CRYPT_OK then
              e2 + (T.read ts1 (s.bufSize - e2)
                K.TRANSPORT_FLAG_NONBLOCKING).1.data.length
            else e2 }
        (T.read ts1 (s.bufSize - e2) K.TRANSPORT_FLAG_NONBLOCKING).2 n
        [⟨m, K.TRANSPORT_FLAG_BLOCKING,
            (T.read ts m K.TRANSPORT_FLAG_BLOCKING).1⟩,
          ⟨s.bufSize - e2, K.TRANSPORT_FLAG_NONBLOCKING,
            (T.read ts1 (s.bufSize - e2) K.TRANSPORT_FLAG_NONBLOCKING).1⟩] := by
  subst hm he2 hts1
  by_cases hok2 : (T.read (T.read ts
      (if s.bufSize - s.bufEnd > n then n else s.bufSize - s.bufEnd)
      K.TRANSPORT_FLAG_BLOCKING).2
      (s.bufSize - (s.bufEnd + (T.read ts
        (if s.bufSize - s.bufEnd > n then n else s.bufSize - s.bufEnd)
        K.TRANSPORT_FLAG_BLOCKING).1.data.length))
      K.TRANSPORT_FLAG_NONBLOCKING).1.status = K.CRYPT_OK
  · simp only [bufferedTransportReadRefill, hroom, if_true, cryptStatusError,
      herr, decide_False, hmore, if_false, Bool.false_eq_true, cryptStatusOK,
      hok2, decide_True]
  · simp only [bufferedTransportReadRefill, hroom, if_true, cryptStatusError,
      herr, decide_False, hmore, if_false, Bool.false_eq_true, cryptStatusOK,
      hok2]

theorem refill_spec {σ : Type} (K : Consts) (T : Transport σ)
    (hT : ReadsBounded K T) (s : STREAM) (ts : σ) (n : Int)
    (hok : (bufferedTransportReadRefill K T s ts n).status = K.CRYPT_OK)
    (hsane : sanityCheckNetStream K s.netStreamInfo = true)
    (hn : 0 < n) (h0 : 0 ≤ s.bufEnd) (h1 : s.bufEnd ≤ s.bufSize)
    (hlen : (s.buffer.length : Int) = s.bufSize) :
    CursorInv (bufferedTransportReadRefill K T s ts n).stream ∧
    (bufferedTransportReadRefill K T s ts n).returned ++
        (bufferedTransportReadRefill K T s ts n).stream.cache =
      slice s.buffer 0 s.bufEnd ++
        delivered K (bufferedTransportReadRefill K T s ts n).calls := by
  by_cases hroom : s.bufEnd < s.bufSize
  · obtain ⟨m, hm⟩ : ∃ m : Int,
        m = if s.bufSize - s.bufEnd > n then n else s.bufSize - s.bufEnd := ⟨_, rfl⟩
    have hmle : m ≤ s.bufSize - s.bufEnd := by rw [hm]; split <;> omega
    have hmpos : 0 < m := by rw [hm]; split <;> omega
    obtain ⟨hst1, hdl1⟩ := hT ts m K.TRANSPORT_FLAG_BLOCKING hmpos
    by_cases herr : (T.read ts m K.TRANSPORT_FLAG_BLOCKING).1.status < K.CRYPT_OK
    · rw [refill_eq_block_err K T s ts n m hroom hm herr] at hok
      simp only at hok
      omega
    · have hst1' : (T.read ts m K.TRANSPORT_FLAG_BLOCKING).1.status = K.CRYPT_OK := by
        omega
      have hpre1 : slice (store s.buffer s.bufEnd
          (T.read ts m K.TRANSPORT_FLAG_BLOCKING).1.data) 0
          (s.bufEnd + (T.read ts m K.TRANSPORT_FLAG_BLOCKING).1.data.length) =
          slice s.buffer 0 s.bufEnd ++
            (T.read ts m K.TRANSPORT_FLAG_BLOCKING).1.data :=
        slice_store_append _ _ _ h0 (by omega)
      have hlen1 : ((store s.buffer s.bufEnd
          (T.read ts m K.TRANSPORT_FLAG_BLOCKING).1.data).length : Int) = s.bufSize := by
        rw [store_length _ _ _ h0 (by omega)]; exact hlen
      by_cases hmore : s.bufEnd +
          (T.read ts m K.TRANSPORT_FLAG_BLOCKING).1.data.length < s.bufSize
      · obtain ⟨e2, he2⟩ : ∃ e2 : Int, e2 = s.bufEnd +
            (T.read ts m K.TRANSPORT_FLAG_BLOCKING).1.data.length := ⟨_, rfl⟩
        obtain ⟨ts1, hts1⟩ : ∃ ts1 : σ,
            ts1 = (T.read ts m K.TRANSPORT_FLAG_BLOCKING).2 := ⟨_, rfl⟩
        have heq := refill_eq_topup K T s ts n m hroom hm herr hmore e2 ts1 he2 hts1
        rw [heq] at hok ⊢
        obtain ⟨hst2, hdl2⟩ := hT ts1 (s.bufSize - e2) K.TRANSPORT_FLAG_NONBLOCKING (by omega)
        rw [← he2] at hpre1
        have he2pos : 0 ≤ e2 := by omega
        have hspec := drain_spec K T hT _ _ n _ hok hsane hn
          (by dsimp only; split <;> omega)
          (by dsimp only; split <;> omega)
          (by
            show ((store _ e2 _).length : Int) = s.bufSize
            rw [store_length _ _ _ he2pos (by omega)]; exact hlen1)
        obtain ⟨hinv, extra, hcalls, hbytes⟩ := hspec
        refine ⟨hinv, ?_⟩
        rw [hbytes, hcalls]
        simp only [List.cons_append, List.nil_append, delivered_cons, hst1', if_true]
        by_cases hok2 : (T.read ts1 (s.bufSize - e2)
            K.TRANSPORT_FLAG_NONBLOCKING).1.status = K.CRYPT_OK
        · simp only [hok2, if_true]
          rw [slice_store_append _ _ _ he2pos (by omega), hpre1]
          simp
        · simp only [hok2, if_false]
          rw [slice_store_keep _ _ _ _ he2pos (le_refl _) (by omega), hpre1]
          simp
      · have heq := refill_eq_block_only K T s ts n m hroom hm herr hmore
        rw [heq] at hok ⊢
        have hspec := drain_spec K T hT _ _ n _ hok hsane hn
          (by show (0 : Int) ≤ s.bufEnd + _; omega)
          (by show s.bufEnd + _ ≤ s.bufSize; omega)
          hlen1
        obtain ⟨hinv, extra, hcalls, hbytes⟩ := hspec
        refine ⟨hinv, ?_⟩
        rw [hbytes, hcalls]
        simp only [List.cons_append, List.nil_append, delivered_cons, hst1', if_true]
        rw [hpre1]
        simp
  · rw [refill_eq_full K T s ts n hroom] at hok ⊢
    obtain ⟨hinv, extra, hcalls, hbytes⟩ :=
      drain_spec K T hT s ts n [] hok hsane hn h0 h1 hlen
    refine ⟨hinv, ?_⟩
    rw [hbytes, hcalls]
    simp

theorem read_eq_entry_fail {σ : Type} (K : Consts) (T : Transport σ)
    (s : STREAM) (ts : σ) (n length0 : Int) (flags : Nat)
    (hentry : ¬ ReadEntryOK K s n flags) :
    bufferedTransportRead K T s ts n length0 flags =
      ⟨K.CRYPT_ERROR_INTERNAL, length0, [], s, ts, []⟩ := by
  unfold ReadEntryOK at hentry
  unfold bufferedTransportRead
  dsimp only
  by_cases h1 : DATAPTR_GET K s.netStream = NULL
  · rw [if_pos h1]
  rw [if_neg h1]
  by_cases h2 : sanityCheckNetStream K s.netStreamInfo = false
  · rw [if_pos h2]
  rw [if_neg h2]
  by_cases h3 : ¬ (n > 0 ∧ n < K.MAX_BUFFER_SIZE)
  · rw [if_pos h3]
  rw [if_neg h3]
  by_cases h4 : ¬ (s.bufEnd - s.bufPos ≥ 0 ∧ s.bufEnd - s.bufPos < K.MAX_INTLENGTH_SHORT)
  · rw [if_pos h4]
  rw [if_neg h4]
  by_cases h5 : ¬ (flags ≥ K.TRANSPORT_FLAG_NONE ∧ flags ≤ K.TRANSPORT_FLAG_MAX)
  · rw [if_pos h5]
  rw [if_neg h5]
  by_cases h6 : FNPTR_GET K s.netStreamInfo.transportReadFunction = NULL
  · rw [if_pos h6]
  exfalso
  apply hentry
  simp only [Bool.not_eq_false] at h2
  exact ⟨h1, h2, not_not.mp h3, not_not.mp h4, not_not.mp h5, h6⟩

theorem read_eq_cached {σ : Type} (K : Consts) (T : Transport σ)
    (s : STREAM) (ts : σ) (n length0 : Int) (flags : Nat)
    (hentry : ReadEntryOK K s n flags) (hfit : n ≤ s.bufEnd - s.bufPos) :
    bufferedTransportRead K T s ts n length0 flags =
      ⟨K.CRYPT_OK, n, slice s.buffer s.bufPos n,
        { s with bufPos := s.bufPos + n }, ts, []⟩ := by
  obtain ⟨h1, h2, h3, h4, h5, h6⟩ := hentry
  by_cases hone : n = 1
  · subst hone
    simp [bufferedTransportRead, h1, h2, h3, h4, h5, h6, hfit]
  · simp [bufferedTransportRead, h1, h2, h3, h4, h5, h6, hfit, hone]

theorem read_eq_range_fail {σ : Type} (K : Consts) (T : Transport σ)
    (s : STREAM) (ts : σ) (n length0 : Int) (flags : Nat)
    (hentry : ReadEntryOK K s n flags) (hfit : ¬ n ≤ s.bufEnd - s.bufPos)
    (hrc : s.bufPos > 0 ∧ s.bufEnd - s.bufPos > 0 ∧
      K.rangeCheck s.bufPos (s.bufEnd - s.bufPos) s.bufEnd = false) :
    bufferedTransportRead K T s ts n length0 flags =
      ⟨K.CRYPT_ERROR_INTERNAL, 0, [], s, ts, []⟩ := by
  obtain ⟨h1, h2, h3, h4, h5, h6⟩ := hentry
  simp [bufferedTransportRead, h1, h2, h3, h4, h5, h6, hfit, hrc]

/-- The stream after "move everything down to make room for the new data". -/
theorem read_eq_refill {σ : Type} (K : Consts) (T : Transport σ)
    (s : STREAM) (ts : σ) (n length0 : Int) (flags : Nat)
    (hentry : ReadEntryOK K s n flags) (hfit : ¬ n ≤ s.bufEnd - s.bufPos)
    (hpos : 0 ≤ s.bufPos)
    (hrc : ¬ (s.bufPos > 0 ∧ s.bufEnd - s.bufPos > 0 ∧
      K.rangeCheck s.bufPos (s.bufEnd - s.bufPos) s.bufEnd = false)) :
    bufferedTransportRead K T s ts n length0 flags =
      bufferedTransportReadRefill K T
        (if s.bufPos > 0 then
          { s with
            buffer :=
              if s.bufEnd - s.bufPos > 0 then
                store s.buffer 0 (slice s.buffer s.bufPos (s.bufEnd - s.bufPos))
              else s.buffer,
            bufEnd := s.bufEnd - s.bufPos,
            bufPos := 0 }
        else s) ts n := by
  obtain ⟨h1, h2, h3, h4, h5, h6⟩ := hentry
  have hgt : n > s.bufEnd - s.bufPos := by omega
  unfold bufferedTransportRead
  simp only [h1, h2, h3, h4, h5, h6, hfit, hrc, if_false, if_true,
    Bool.true_eq_false, not_true_eq_false, and_self]
  by_cases hp : s.bufPos > 0
  · simp [hp, hgt]
  · have hp0 : s.bufPos = 0 := by omega
    simp [hp, hp0, hgt]
    intro h
    omega

theorem read_step {σ : Type} (K : Consts) (T : Transport σ)
    (hT : ReadsBounded K T) (s : STREAM) (ts : σ) (n length0 : Int)
    (flags : Nat) (hinv : CursorInv s)
    (hok : (bufferedTransportRead K T s ts n length0 flags).status = K.CRYPT_OK) :
    CursorInv (bufferedTransportRead K T s ts n length0 flags).stream ∧
    (bufferedTransportRead K T s ts n length0 flags).returned ++
        (bufferedTransportRead K T s ts n length0 flags).stream.cache =
      s.cache ++
        delivered K (bufferedTransportRead K T s ts n length0 flags).calls := by
  obtain ⟨hp, hpe, hes, hlen⟩ := hinv
  by_cases hentry : ReadEntryOK K s n flags
  · have hn : 0 < n := hentry.2.2.1.1
    have hsane := hentry.2.1
    by_cases hfit : n ≤ s.bufEnd - s.bufPos
    · rw [read_eq_cached K T s ts n length0 flags hentry hfit]
      refine ⟨⟨by show (0 : Int) ≤ s.bufPos + n; omega,
        by show s.bufPos + n ≤ s.bufEnd; omega, hes, hlen⟩, ?_⟩
      simp only [ReadOutcome.returned, STREAM.cache, delivered_nil, List.append_nil]
      have hl : ((slice s.buffer s.bufPos n).length : Int) = n :=
        slice_length _ _ _ hp (by omega) (by omega)
      rw [slice_all _ _ (by omega)]
      have := slice_split s.buffer s.bufPos n (s.bufEnd - s.bufPos) hp (by omega) hfit
      rw [← this]
      congr 2
      omega
    · by_cases hrc : s.bufPos > 0 ∧ s.bufEnd - s.bufPos > 0 ∧
          K.rangeCheck s.bufPos (s.bufEnd - s.bufPos) s.bufEnd = false
      · rw [read_eq_range_fail K T s ts n length0 flags hentry hfit hrc]
        refine ⟨⟨hp, hpe, hes, hlen⟩, ?_⟩
        simp [ReadOutcome.returned, delivered_nil, slice]
      · rw [read_eq_refill K T s ts n length0 flags hentry hfit hp hrc] at hok ⊢
        by_cases hpz : s.bufPos > 0
        · simp only [hpz, if_true] at hok ⊢
          have hcl : ((slice s.buffer s.bufPos (s.bufEnd - s.bufPos)).length : Int)
              = s.bufEnd - s.bufPos := slice_length _ _ _ hp (by omega) (by omega)
          obtain ⟨hinv', hb⟩ := refill_spec K T hT _ ts n hok hsane hn
            (by show (0 : Int) ≤ s.bufEnd - s.bufPos; omega)
            (by show s.bufEnd - s.bufPos ≤ s.bufSize; omega)
            (by
              dsimp only
              split
              · rw [store_length _ _ _ (le_refl 0) (by omega)]; exact hlen
              · exact hlen)
          refine ⟨hinv', ?_⟩
          rw [hb]
          congr 1
          dsimp only
          simp only [STREAM.cache]
          by_cases hL : s.bufEnd - s.bufPos > 0
          · simp only [hL, if_true]
            have := slice_store_append s.buffer 0
              (slice s.buffer s.bufPos (s.bufEnd - s.bufPos)) (le_refl 0) (by omega)
            rw [hcl] at this
            simpa [slice] using this
          · simp only [hL, if_false]
            rw [slice_nil_of_nonpos _ _ _ (by omega), slice_nil_of_nonpos _ _ _ (by omega)]
        · have hp0 : s.bufPos = 0 := by omega
          simp only [hpz, if_false] at hok ⊢
          obtain ⟨hinv', hb⟩ := refill_spec K T hT s ts n hok hsane hn
            (by omega) hes hlen
          refine ⟨hinv', ?_⟩
          rw [hb]
          simp [STREAM.cache, hp0]
  · rw [read_eq_entry_fail K T s ts n length0 flags hentry]
    refine ⟨⟨hp, hpe, hes, hlen⟩, ?_⟩
    simp [ReadOutcome.returned, delivered_nil, slice]

theorem readSeq_spec {σ : Type} (K : Consts) (T : Transport σ)
    (hT : ReadsBounded K T) (reqs : List ReadRequest) :
    ∀ (s : STREAM) (ts : σ), CursorInv s →
      (∀ o ∈ bufferedTransportReadSeq K T s ts reqs, o.status = K.CRYPT_OK) →
      CursorInv (lastStream s (bufferedTransportReadSeq K T s ts reqs)) ∧
      concatAll ((bufferedTransportReadSeq K T s ts reqs).map
          ReadOutcome.returned) ++
        (lastStream s (bufferedTransportReadSeq K T s ts reqs)).cache =
      s.cache ++ delivered K (concatAll
        ((bufferedTransportReadSeq K T s ts reqs).map ReadOutcome.calls)) := by
  induction reqs with
  | nil =>
    intro s ts hinv _
    simp [bufferedTransportReadSeq, lastStream, concatAll, delivered_nil, hinv]
  | cons r rs ih =>
    intro s ts hinv hall
    simp only [bufferedTransportReadSeq, List.mem_cons, forall_eq_or_imp] at hall
    obtain ⟨hok, hrest⟩ := hall
    obtain ⟨hinv1, hb1⟩ := read_step K T hT s ts r.maxLength r.length0 r.flags hinv hok
    obtain ⟨hinv2, hb2⟩ := ih _ _ hinv1 hrest
    simp only [bufferedTransportReadSeq, lastStream, List.map_cons, concatAll]
    refine ⟨hinv2, ?_⟩
    rw [List.append_assoc, hb2, ← List.append_assoc, hb1, delivered_append,
      List.append_assoc]

theorem scriptTransport_readsBounded : ReadsBounded sampleConsts scriptTransport := by
  intro ts n flags hn
  unfold scriptTransport
  dsimp only
  cases h : ts.reads with
  | nil =>
    simp only [sampleConsts]
    constructor
    · decide
    · simp; omega
  | cons r rs =>
    simp only [sampleConsts]
    constructor
    · exact min_le_right _ _
    · simp only [List.length_take]
      omega

/-! ## C1: the read path neither loses, duplicates nor reorders bytes -/

/-- C1 (as amended): for every read-buffer capacity and every sequence of
`bufferedTransportRead` calls that all succeed, over a transport whose reads
each return at most the number of bytes requested, the bytes returned to the
caller, concatenated in call order, followed by the unconsumed cache bytes
`buffer[bufPos..bufEnd)`, equal the bytes cached before the first call
followed by the bytes delivered by the transport's successful reads in
delivery order; from an empty cache they equal the delivered bytes.  In
particular, when the calls return as many bytes as the transport delivered,
the concatenated output equals the delivered bytes. -/
theorem bufferedTransportRead_stream_integrity {σ : Type} (K : Consts)
    (T : Transport σ) (hT : ReadsBounded K T) (s : STREAM) (ts : σ)
    (reqs : List ReadRequest) (hinv : CursorInv s)
    (hall : ∀ o ∈ bufferedTransportReadSeq K T s ts reqs, o.status = K.CRYPT_OK) :
    concatAll ((bufferedTransportReadSeq K T s ts reqs).map ReadOutcome.returned) ++
        (lastStream s (bufferedTransportReadSeq K T s ts reqs)).cache =
      s.cache ++ delivered K (concatAll
        ((bufferedTransportReadSeq K T s ts reqs).map ReadOutcome.calls)) ∧
    (s.cache = [] →
      concatAll ((bufferedTransportReadSeq K T s ts reqs).map ReadOutcome.returned) ++
          (lastStream s (bufferedTransportReadSeq K T s ts reqs)).cache =
        delivered K (concatAll
          ((bufferedTransportReadSeq K T s ts reqs).map ReadOutcome.calls))) ∧
    (s.cache = [] →
      (concatAll ((bufferedTransportReadSeq K T s ts reqs).map
          ReadOutcome.returned)).length =
        (delivered K (concatAll
          ((bufferedTransportReadSeq K T s ts reqs).map ReadOutcome.calls))).length →
      concatAll ((bufferedTransportReadSeq K T s ts reqs).map ReadOutcome.returned) =
        delivered K (concatAll
          ((bufferedTransportReadSeq K T s ts reqs).map ReadOutcome.calls))) := by
  obtain ⟨_, hb⟩ := readSeq_spec K T hT reqs s ts hinv hall
  refine ⟨hb, ?_, ?_⟩
  · intro hc
    rw [hb, hc, List.nil_append]
  · intro hc hl
    rw [hc, List.nil_append] at hb
    have hlen := congrArg List.length hb
    rw [List.length_append, hl] at hlen
    have hnil : (lastStream s (bufferedTransportReadSeq K T s ts reqs)).cache = [] :=
      List.length_eq_zero.mp (by omega)
    rw [hnil, List.append_nil] at hb
    exact hb

set_option maxRecDepth 100000 in
/-- C1, witness: two reads of 5 and 1 bytes from a fresh 10-byte buffer over
the scripted transport. -/
theorem bufferedTransportRead_stream_integrity_witness :
    ReadsBounded sampleConsts scriptTransport ∧ CursorInv readDemoStream ∧
    (∀ o ∈ bufferedTransportReadSeq sampleConsts scriptTransport readDemoStream
        readDemoScript readDemoRequests, o.status = sampleConsts.CRYPT_OK) ∧
    concatAll ((bufferedTransportReadSeq sampleConsts scriptTransport readDemoStream
        readDemoScript readDemoRequests).map ReadOutcome.returned) ++
        (lastStream readDemoStream (bufferedTransportReadSeq sampleConsts
          scriptTransport readDemoStream readDemoScript readDemoRequests)).cache =
      readDemoStream.cache ++ delivered sampleConsts (concatAll
        ((bufferedTransportReadSeq sampleConsts scriptTransport readDemoStream
          readDemoScript readDemoRequests).map ReadOutcome.calls)) :=
  ⟨scriptTransport_readsBounded, by unfold CursorInv; decide, by decide,
    (bufferedTransportRead_stream_integrity sampleConsts scriptTransport
      scriptTransport_readsBounded readDemoStream readDemoScript readDemoRequests
      (by unfold CursorInv; decide) (by decide)).1⟩

set_option maxRecDepth 100000 in
/-- C1, counterexample to the claim as stated: two successful reads of 5 and
1 bytes from a fresh 10-byte buffer, over a transport that never returns
more than requested.  The first call gets 3 of 5 bytes from its blocking
read, nothing from the top-up read and 1 of the 2 missing bytes from its
final read, so it returns 4 bytes; the second call reads 1 byte and the
top-up read caches 1 more.  The request sizes sum to 6, the transport
delivers 6 bytes, yet the concatenated output is only 5 bytes long: the last
delivered byte is still in the cache. -/
theorem bufferedTransportRead_request_sum_counterexample :
    ReadsBounded sampleConsts scriptTransport ∧ CursorInv readDemoStream ∧
    readDemoStream.cache = [] ∧
    (∀ o ∈ bufferedTransportReadSeq sampleConsts scriptTransport readDemoStream
        readDemoScript readDemoRequests, o.status = sampleConsts.CRYPT_OK) ∧
    ((readDemoRequests.map ReadRequest.maxLength).sum : Int) =
      (delivered sampleConsts (concatAll
        ((bufferedTransportReadSeq sampleConsts scriptTransport readDemoStream
          readDemoScript readDemoRequests).map ReadOutcome.calls))).length ∧
    delivered sampleConsts (concatAll
        ((bufferedTransportReadSeq sampleConsts scriptTransport readDemoStream
          readDemoScript readDemoRequests).map ReadOutcome.calls)) = [1, 2, 3, 4, 5, 6] ∧
    concatAll ((bufferedTransportReadSeq sampleConsts scriptTransport readDemoStream
        readDemoScript readDemoRequests).map ReadOutcome.returned) = [1, 2, 3, 4, 5] ∧
    concatAll ((bufferedTransportReadSeq sampleConsts scriptTransport readDemoStream
        readDemoScript readDemoRequests).map ReadOutcome.returned) ≠
      delivered sampleConsts (concatAll
        ((bufferedTransportReadSeq sampleConsts scriptTransport readDemoStream
          readDemoScript readDemoRequests).map ReadOutcome.calls)) :=
  ⟨scriptTransport_readsBounded, by unfold CursorInv; decide, by decide, by decide,
    by decide, by decide, by decide, by decide⟩

/-! ## C2: the cached fast path -/

/-- C2: on a stream that passes the entry checks of `bufferedTransportRead`,
with `0 ≤ bufPos ≤ bufEnd`, a request for `n` bytes with
`0 < n ≤ bufEnd - bufPos` (so also `n = 1` and `n = bufEnd - bufPos`) makes
no transport call, returns `CRYPT_OK` with length `n`, outputs
`buffer[bufPos..bufPos+n)`, advances `bufPos` by exactly `n`, and leaves
`bufEnd`, the buffer contents and the rest of the stream unchanged. -/
theorem bufferedTransportRead_cached {σ : Type} (K : Consts) (T : Transport σ)
    (stream : STREAM) (ts : σ) (n length0 : Int) (flags : Nat)
    (hentry : ReadEntryOK K stream n flags)
    (_hpos : 0 ≤ stream.bufPos) (_hend : stream.bufPos ≤ stream.bufEnd)
    (_hn : 0 < n) (hfit : n ≤ stream.bufEnd - stream.bufPos) :
    (bufferedTransportRead K T stream ts n length0 flags).calls = [] ∧
    (bufferedTransportRead K T stream ts n length0 flags).tstate = ts ∧
    (bufferedTransportRead K T stream ts n length0 flags).status = K.CRYPT_OK ∧
    (bufferedTransportRead K T stream ts n length0 flags).length = n ∧
    (bufferedTransportRead K T stream ts n length0 flags).out =
      slice stream.buffer stream.bufPos n ∧
    (bufferedTransportRead K T stream ts n length0 flags).stream.bufPos =
      stream.bufPos + n ∧
    (bufferedTransportRead K T stream ts n length0 flags).stream.bufEnd =
      stream.bufEnd ∧
    (bufferedTransportRead K T stream ts n length0 flags).stream.buffer =
      stream.buffer ∧
    (bufferedTransportRead K T stream ts n length0 flags).stream =
      { stream with bufPos := stream.bufPos + n } := by
  rw [read_eq_cached K T stream ts n length0 flags hentry hfit]
  exact ⟨rfl, rfl, rfl, rfl, rfl, rfl, rfl, rfl, rfl⟩

set_option maxRecDepth 100000 in
/-- C2, witness: with the bytes 2, 3, 4 cached, a request for exactly the 3
cached bytes is served from the cache. -/
theorem bufferedTransportRead_cached_witness :
    ReadEntryOK sampleConsts cachedDemoStream 3 0 ∧
    (3 : Int) ≤ cachedDemoStream.bufEnd - cachedDemoStream.bufPos ∧
    (bufferedTransportRead sampleConsts scriptTransport cachedDemoStream
      readDemoScript 3 0 0).calls = [] ∧
    (bufferedTransportRead sampleConsts scriptTransport cachedDemoStream
      readDemoScript 3 0 0).out = [2, 3, 4] :=
  ⟨by unfold ReadEntryOK; decide, by decide,
    (bufferedTransportRead_cached sampleConsts scriptTransport cachedDemoStream
      readDemoScript 3 0 0 (by unfold ReadEntryOK; decide) (by decide)
      (by decide) (by decide) (by decide)).1,
    by decide⟩

/-! ## bufferedTransportWrite: the outcome along each path -/

theorem sanity_split (K : Consts) (ns : NET_STREAM_INFO) :
    sanityCheckNetStream K ns =
      (sanityCheckGeneral K ns && sanityCheckBuffers K ns) := by
  unfold sanityCheckNetStream sanityCheckGeneral
  by_cases h1 : ns.protocol ≤ K.STREAM_PROTOCOL_NONE ∨
      ns.protocol ≥ K.STREAM_PROTOCOL_LAST ∨ ns.nFlags < K.STREAM_NFLAG_NONE ∨
      ns.nFlags > K.STREAM_NFLAG_MAX
  · rw [if_pos h1, if_pos h1]; rfl
  rw [if_neg h1, if_neg h1]
  by_cases h2 : (ns.timeout < 0 ∨ ns.timeout > K.MAX_NETWORK_TIMEOUT) ∧
      ¬ (ns.nFlags &&& K.STREAM_NFLAG_ISSERVER ≠ 0 ∧ ns.timeout = K.MAX_INTLENGTH)
  · rw [if_pos h2, if_pos h2]; rfl
  rw [if_neg h2, if_neg h2]
  by_cases h3 : ns.savedTimeout < 0 ∨ ns.savedTimeout > K.MAX_NETWORK_TIMEOUT
  · rw [if_pos h3, if_pos h3]; rfl
  rw [if_neg h3, if_neg h3]
  by_cases h4 : ns.systemType < K.STREAM_PEER_NONE ∨ ns.systemType ≥ K.STREAM_PEER_LAST
  · rw [if_pos h4, if_pos h4]; rfl
  rw [if_neg h4, if_neg h4]
  by_cases h5 : ns.host = none ∧ ns.hostLen ≠ 0
  · rw [if_pos h5, if_pos h5]; rfl
  rw [if_neg h5, if_neg h5]
  by_cases h6 : ns.host ≠ none ∧
      (ns.hostLen < K.MIN_HOST_SIZE ∨ ns.hostLen > K.MAX_HOST_SIZE)
  · rw [if_pos h6, if_pos h6]; rfl
  rw [if_neg h6, if_neg h6]
  by_cases h7 : ns.path = none ∧ ns.pathLen ≠ 0
  · rw [if_pos h7, if_pos h7]; rfl
  rw [if_neg h7, if_neg h7]
  by_cases h8 : ns.path ≠ none ∧
      (ns.pathLen < K.MIN_LOCATION_SIZE ∨ ns.pathLen > K.MAX_LOCATION_SIZE)
  · rw [if_pos h8, if_pos h8]; rfl
  rw [if_neg h8, if_neg h8]
  by_cases h9 : ns.nFlags &&& K.STREAM_NFLAG_USERSOCKET = 0 ∧
      (ns.port < K.MIN_PORT_NUMBER ∨ ns.port > K.MAX_PORT_NUMBER)
  · rw [if_pos h9, if_pos h9]; rfl
  rw [if_neg h9, if_neg h9, Bool.true_and]
  rfl

theorem sanity_writeBuf_update (K : Consts) (ns : NET_STREAM_INFO)
    (f : List BYTE → List BYTE) (e : Int)
    (h : sanityCheckNetStream K ns = true) (h0 : 0 ≤ e)
    (h1 : e ≤ ns.writeBufSize) :
    sanityCheckNetStream K
      { ns with writeBuffer := ns.writeBuffer.map f, writeBufEnd := e } = true := by
  rw [sanity_split, Bool.and_eq_true] at h ⊢
  obtain ⟨hg, hb⟩ := h
  refine ⟨hg, ?_⟩
  unfold sanityCheckBuffers at hb ⊢
  dsimp only at hb ⊢
  cases hwb : ns.writeBuffer with
  | none =>
    rw [hwb] at hb
    simp only [Option.map_none', if_true] at hb ⊢
    split_ifs at hb with hc
    have : e = 0 := by omega
    simp [this]
    omega
  | some wb =>
    rw [hwb] at hb
    simp only [Option.map_some', reduceCtorEq, if_false] at hb ⊢
    split_ifs at hb with hc1 hc2 hc3
    rw [if_neg hc1, if_neg (by omega), if_neg hc3]

theorem sanity_writeBufEnd_update (K : Consts) (ns : NET_STREAM_INFO) (e : Int)
    (h : sanityCheckNetStream K ns = true) (h0 : 0 ≤ e)
    (h1 : e ≤ ns.writeBufSize) :
    sanityCheckNetStream K { ns with writeBufEnd := e } = true := by
  have := sanity_writeBuf_update K ns id e h h0 h1
  simpa using this

theorem sanity_writeBuf_bounds (K : Consts) (ns : NET_STREAM_INFO)
    (h : sanityCheckNetStream K ns = true) :
    0 ≤ ns.writeBufEnd ∧ ns.writeBufEnd ≤ ns.writeBufSize ∧
    (ns.writeBufSize < K.MAX_BUFFER_SIZE ∨ ns.writeBufSize = 0) := by
  rw [sanity_split, Bool.and_eq_true] at h
  obtain ⟨_, hb⟩ := h
  unfold sanityCheckBuffers at hb
  split_ifs at hb <;> omega

theorem write_eq_entry_fail {σ : Type} (K : Consts) (T : Transport σ)
    (s : STREAM) (ts : σ) (buffer : List BYTE) (length0 : Int) (flags : Nat)
    (hentry : ¬ WriteEntryOK K s buffer flags) :
    bufferedTransportWrite K T s ts buffer length0 flags =
      ⟨K.CRYPT_ERROR_INTERNAL, length0, s, ts, []⟩ := by
  unfold WriteEntryOK at hentry
  unfold bufferedTransportWrite
  dsimp only
  by_cases h1 : DATAPTR_GET K s.netStream = NULL
  · rw [if_pos h1]
  rw [if_neg h1]
  by_cases h2 : sanityCheckNetStream K s.netStreamInfo = false
  · rw [if_pos h2]
  rw [if_neg h2]
  by_cases h3 : ¬ ((buffer.length : Int) > 0 ∧ (buffer.length : Int) < K.MAX_BUFFER_SIZE)
  · rw [if_pos h3]
  rw [if_neg h3]
  by_cases h5 : ¬ (flags ≥ K.TRANSPORT_FLAG_NONE ∧ flags ≤ K.TRANSPORT_FLAG_MAX)
  · rw [if_pos h5]
  rw [if_neg h5]
  by_cases h6 : FNPTR_GET K s.netStreamInfo.transportWriteFunction = NULL
  · rw [if_pos h6]
  exfalso
  apply hentry
  simp only [Bool.not_eq_false] at h2
  exact ⟨h1, h2, not_not.mp h3, not_not.mp h5, h6⟩


theorem write_eq_absorb {σ : Type} (K : Consts) (T : Transport σ)
    (s : STREAM) (ts : σ) (buffer : List BYTE) (length0 : Int) (flags : Nat)
    (hentry : WriteEntryOK K s buffer flags)
    (hnf : flags &&& K.TRANSPORT_FLAG_FLUSH = 0)
    (hfit : s.netStreamInfo.writeBufEnd + buffer.length ≤
      s.netStreamInfo.writeBufSize) :
    bufferedTransportWrite K T s ts buffer length0 flags =
      ⟨K.CRYPT_OK, buffer.length,
        { s with netStreamInfo :=
          { s.netStreamInfo with
            writeBuffer := s.netStreamInfo.writeBuffer.map fun wb =>
              store wb s.netStreamInfo.writeBufEnd (slice buffer 0 buffer.length),
            writeBufEnd := s.netStreamInfo.writeBufEnd + buffer.length } },
        ts, []⟩ := by
  obtain ⟨h1, h2, h3, h4, h5⟩ := hentry
  have h2' : ¬ sanityCheckNetStream K s.netStreamInfo = false := by rw [h2]; decide
  have hb := sanity_writeBuf_bounds K _ h2
  have hs1 := sanity_writeBuf_update K s.netStreamInfo
    (fun wb => store wb s.netStreamInfo.writeBufEnd (slice buffer 0 buffer.length))
    (s.netStreamInfo.writeBufEnd + buffer.length) h2 (by omega) hfit
  have hs1' : ¬ sanityCheckNetStream K
      { s.netStreamInfo with
        writeBuffer := s.netStreamInfo.writeBuffer.map fun wb =>
          store wb s.netStreamInfo.writeBufEnd (slice buffer 0 buffer.length),
        writeBufEnd := s.netStreamInfo.writeBufEnd + buffer.length } = false := by
    rw [hs1]; decide
  unfold bufferedTransportWrite
  dsimp only
  rw [if_neg h1, if_neg h2', if_neg (not_not.mpr h3), if_neg (not_not.mpr h4),
    if_neg h5, if_pos ⟨hnf, hfit⟩, if_neg hs1']

theorem writeBytesToCopy_bounds (K : Consts) (ns : NET_STREAM_INFO) (n : Int)
    (h : sanityCheckNetStream K ns = true) (hn : 0 < n) :
    0 ≤ writeBytesToCopy ns n ∧ writeBytesToCopy ns n ≤ n ∧
    ns.writeBufEnd + writeBytesToCopy ns n ≤ ns.writeBufSize ∧
    (ns.writeBufEnd + n ≤ ns.writeBufSize → writeBytesToCopy ns n = n) ∧
    (¬ ns.writeBufEnd + n ≤ ns.writeBufSize →
      writeBytesToCopy ns n = ns.writeBufSize - ns.writeBufEnd) := by
  have hb := sanity_writeBuf_bounds K _ h
  unfold writeBytesToCopy
  split <;> refine ⟨?_, ?_, ?_, ?_, ?_⟩ <;> intros <;> omega

theorem writeAssemble_eq (ns : NET_STREAM_INFO) (buffer : List BYTE)
    (hc : 0 ≤ writeBytesToCopy ns buffer.length) :
    writeAssemble ns buffer =
      { ns with
        writeBuffer := ns.writeBuffer.map fun wb =>
          store wb ns.writeBufEnd (slice buffer 0 (writeBytesToCopy ns buffer.length)),
        writeBufEnd := ns.writeBufEnd + writeBytesToCopy ns buffer.length } := by
  unfold writeAssemble
  split
  · rfl
  · have h0 : writeBytesToCopy ns buffer.length = 0 := by omega
    rw [h0]
    cases ns with
    | mk protocol nFlags timeout savedTimeout systemType host hostLen path pathLen
        port netSocket listenSocket iTransportSession writeBuffer writeBufSize
        writeBufEnd storageSize f1 f2 f3 f4 f5 f6 f7 f8 errorInfo =>
      cases writeBuffer with
      | none => simp
      | some wb =>
        simp [store, slice]

theorem writeAssemble_sane (K : Consts) (ns : NET_STREAM_INFO)
    (buffer : List BYTE) (h : sanityCheckNetStream K ns = true)
    (hn : 0 < (buffer.length : Int)) :
    sanityCheckNetStream K (writeAssemble ns buffer) = true := by
  obtain ⟨h0, _, h2, _, _⟩ := writeBytesToCopy_bounds K ns buffer.length h hn
  have hb := sanity_writeBuf_bounds K _ h
  rw [writeAssemble_eq ns buffer h0]
  exact sanity_writeBuf_update K ns _ _ h (by omega) h2

theorem writeAssemble_writeBufEnd (K : Consts) (ns : NET_STREAM_INFO)
    (buffer : List BYTE) (h : sanityCheckNetStream K ns = true)
    (hn : 0 < (buffer.length : Int)) :
    (writeAssemble ns buffer).writeBufEnd =
      ns.writeBufEnd + writeBytesToCopy ns buffer.length ∧
    (writeAssemble ns buffer).writeBufSize = ns.writeBufSize := by
  obtain ⟨h0, _, h2, _, _⟩ := writeBytesToCopy_bounds K ns buffer.length h hn
  rw [writeAssemble_eq ns buffer h0]
  exact ⟨rfl, rfl⟩

theorem writeAssemble_pending (K : Consts) (ns : NET_STREAM_INFO)
    (buffer : List BYTE) (wb : List BYTE)
    (h : sanityCheckNetStream K ns = true) (hn : 0 < (buffer.length : Int))
    (hwb : ns.writeBuffer = some wb) (hwl : (wb.length : Int) = ns.writeBufSize) :
    (writeAssemble ns buffer).pending =
      ns.pending ++ slice buffer 0 (writeBytesToCopy ns buffer.length) := by
  obtain ⟨h0, h1, h2, _, _⟩ := writeBytesToCopy_bounds K ns buffer.length h hn
  have hb := sanity_writeBuf_bounds K _ h
  rw [writeAssemble_eq ns buffer h0]
  unfold NET_STREAM_INFO.pending
  dsimp only
  rw [hwb]
  simp only [Option.map_some', Option.getD_some]
  have hl : ((slice buffer 0 (writeBytesToCopy ns buffer.length)).length : Int) =
      writeBytesToCopy ns buffer.length :=
    slice_length _ _ _ (le_refl 0) h0 (by omega)
  have := slice_store_append wb ns.writeBufEnd
    (slice buffer 0 (writeBytesToCopy ns buffer.length)) hb.1 (by omega)
  rw [hl] at this
  exact this

theorem processIncompleteWrite_ok (K : Consts) (hrc : RangeCheckAccepts K)
    (ns : NET_STREAM_INFO) (bw c l0 : Int) (h1 : 0 < bw)
    (h2 : bw < ns.writeBufEnd) (h3 : bw < K.MAX_BUFFER_SIZE) (h4 : 0 ≤ c)
    (h5 : c < K.MAX_BUFFER_SIZE) :
    processIncompleteWrite K ns bw c l0 =
      ⟨K.CRYPT_OK, if ns.writeBufEnd - bw < c then c - (ns.writeBufEnd - bw) else 0,
        { ns with
          writeBuffer := ns.writeBuffer.map fun wb =>
            store wb 0 (slice wb bw (ns.writeBufEnd - bw)),
          writeBufEnd := ns.writeBufEnd - bw }⟩ := by
  have hr : ¬ K.rangeCheck bw (ns.writeBufEnd - bw) ns.writeBufEnd = false := by
    rw [hrc bw (ns.writeBufEnd - bw) ns.writeBufEnd h1 (by omega) (by omega)]
    decide
  unfold processIncompleteWrite
  dsimp only
  rw [if_neg (not_not.mpr ⟨h1, h2, h3⟩), if_neg (not_not.mpr ⟨h4, h5⟩), if_neg hr]

theorem write_eq_asm_err {σ : Type} (K : Consts) (T : Transport σ)
    (s : STREAM) (ts : σ) (buffer : List BYTE) (length0 : Int) (flags : Nat)
    (hentry : WriteEntryOK K s buffer flags)
    (hsend : ¬ (flags &&& K.TRANSPORT_FLAG_FLUSH = 0 ∧
      s.netStreamInfo.writeBufEnd + buffer.length ≤ s.netStreamInfo.writeBufSize))
    (hp : s.netStreamInfo.writeBufEnd > 0)
    (ns1 : NET_STREAM_INFO) (hns1 : ns1 = writeAssemble s.netStreamInfo buffer)
    (herr : (T.write ts ns1.pending K.TRANSPORT_FLAG_NONE).1.status < K.CRYPT_OK) :
    bufferedTransportWrite K T s ts buffer length0 flags =
      ⟨(T.write ts ns1.pending K.TRANSPORT_FLAG_NONE).1.status, 0,
        { s with netStreamInfo := ns1 },
        (T.write ts ns1.pending K.TRANSPORT_FLAG_NONE).2,
        [⟨ns1.pending, K.TRANSPORT_FLAG_NONE,
          (T.write ts ns1.pending K.TRANSPORT_FLAG_NONE).1⟩]⟩ := by
  obtain ⟨h1, h2, h3, h4, h5⟩ := hentry
  have h2' : ¬ sanityCheckNetStream K s.netStreamInfo = false := by rw [h2]; decide
  subst hns1
  unfold bufferedTransportWrite
  dsimp only
  rw [if_neg h1, if_neg h2', if_neg (not_not.mpr h3), if_neg (not_not.mpr h4),
    if_neg h5, if_neg hsend, if_pos hp]
  simp only [cryptStatusError, herr, decide_True, if_true]

theorem write_eq_asm_short {σ : Type} (K : Consts) (T : Transport σ)
    (hrc : RangeCheckAccepts K)
    (s : STREAM) (ts : σ) (buffer : List BYTE) (length0 : Int) (flags : Nat)
    (hentry : WriteEntryOK K s buffer flags)
    (hsend : ¬ (flags &&& K.TRANSPORT_FLAG_FLUSH = 0 ∧
      s.netStreamInfo.writeBufEnd + buffer.length ≤ s.netStreamInfo.writeBufSize))
    (hp : s.netStreamInfo.writeBufEnd > 0)
    (ns1 : NET_STREAM_INFO) (hns1 : ns1 = writeAssemble s.netStreamInfo buffer)
    (herr : ¬ (T.write ts ns1.pending K.TRANSPORT_FLAG_NONE).1.status < K.CRYPT_OK)
    (hk0 : 0 < (T.write ts ns1.pending K.TRANSPORT_FLAG_NONE).1.bytesWritten)
    (hk1 : (T.write ts ns1.pending K.TRANSPORT_FLAG_NONE).1.bytesWritten
      < ns1.writeBufEnd) :
    bufferedTransportWrite K T s ts buffer length0 flags =
      ⟨K.CRYPT_OK,
        if ns1.writeBufEnd -
            (T.write ts ns1.pending K.TRANSPORT_FLAG_NONE).1.bytesWritten <
            writeBytesToCopy s.netStreamInfo buffer.length then
          writeBytesToCopy s.netStreamInfo buffer.length -
            (ns1.writeBufEnd -
              (T.write ts ns1.pending K.TRANSPORT_FLAG_NONE).1.bytesWritten)
        else 0,
        { s with netStreamInfo :=
          { ns1 with
            writeBuffer := ns1.writeBuffer.map fun wb =>
              store wb 0 (slice wb
                (T.write ts ns1.pending K.TRANSPORT_FLAG_NONE).1.bytesWritten
                (ns1.writeBufEnd -
                  (T.write ts ns1.pending K.TRANSPORT_FLAG_NONE).1.bytesWritten)),
            writeBufEnd := ns1.writeBufEnd -
              (T.write ts ns1.pending K.TRANSPORT_FLAG_NONE).1.bytesWritten } },
        (T.write ts ns1.pending K.TRANSPORT_FLAG_NONE).2,
        [⟨ns1.pending, K.TRANSPORT_FLAG_NONE,
          (T.write ts ns1.pending K.TRANSPORT_FLAG_NONE).1⟩]⟩ := by
  obtain ⟨h1, h2, h3, h4, h5⟩ := hentry
  have h2' : ¬ sanityCheckNetStream K s.netStreamInfo = false := by rw [h2]; decide
  have hsane1 := writeAssemble_sane K s.netStreamInfo buffer h2 h3.1
  obtain ⟨hc0, hc1, hc2, _, _⟩ :=
    writeBytesToCopy_bounds K s.netStreamInfo buffer.length h2 h3.1
  obtain ⟨he1, hsz1⟩ := writeAssemble_writeBufEnd K s.netStreamInfo buffer h2 h3.1
  have hb := sanity_writeBuf_bounds K _ h2
  have hb1 := sanity_writeBuf_bounds K _ hsane1
  subst hns1
  have hpi := processIncompleteWrite_ok K hrc (writeAssemble s.netStreamInfo buffer)
    (T.write ts (writeAssemble s.netStreamInfo buffer).pending
      K.TRANSPORT_FLAG_NONE).1.bytesWritten
    (writeBytesToCopy s.netStreamInfo buffer.length) 0 hk0 hk1 (by omega) hc0
    (by omega)
  have hs2 := sanity_writeBuf_update K (writeAssemble s.netStreamInfo buffer)
    (fun wb => store wb 0 (slice wb
      (T.write ts (writeAssemble s.netStreamInfo buffer).pending
        K.TRANSPORT_FLAG_NONE).1.bytesWritten
      ((writeAssemble s.netStreamInfo buffer).writeBufEnd -
        (T.write ts (writeAssemble s.netStreamInfo buffer).pending
          K.TRANSPORT_FLAG_NONE).1.bytesWritten)))
    ((writeAssemble s.netStreamInfo buffer).writeBufEnd -
      (T.write ts (writeAssemble s.netStreamInfo buffer).pending
        K.TRANSPORT_FLAG_NONE).1.bytesWritten) hsane1 (by omega) (by omega)
  unfold bufferedTransportWrite
  dsimp only
  rw [if_neg h1, if_neg h2', if_neg (not_not.mpr h3), if_neg (not_not.mpr h4),
    if_neg h5, if_neg hsend, if_pos hp]
  simp only [cryptStatusError, herr, decide_False, Bool.false_eq_true, if_false,
    hk1, if_true, hpi, lt_irrefl, hs2, Bool.true_eq_false]

theorem write_eq_asm_done {σ : Type} (K : Consts) (T : Transport σ)
    (s : STREAM) (ts : σ) (buffer : List BYTE) (length0 : Int) (flags : Nat)
    (hentry : WriteEntryOK K s buffer flags)
    (hsend : ¬ (flags &&& K.TRANSPORT_FLAG_FLUSH = 0 ∧
      s.netStreamInfo.writeBufEnd + buffer.length ≤ s.netStreamInfo.writeBufSize))
    (hp : s.netStreamInfo.writeBufEnd > 0)
    (ns1 : NET_STREAM_INFO) (hns1 : ns1 = writeAssemble s.netStreamInfo buffer)
    (herr : ¬ (T.write ts ns1.pending K.TRANSPORT_FLAG_NONE).1.status < K.CRYPT_OK)
    (hall : ¬ (T.write ts ns1.pending K.TRANSPORT_FLAG_NONE).1.bytesWritten
      < ns1.writeBufEnd)
    (hfit : s.netStreamInfo.writeBufEnd + buffer.length ≤
      s.netStreamInfo.writeBufSize) :
    bufferedTransportWrite K T s ts buffer length0 flags =
      ⟨K.CRYPT_OK, buffer.length,
        { s with netStreamInfo := { ns1 with writeBufEnd := 0 } },
        (T.write ts ns1.pending K.TRANSPORT_FLAG_NONE).2,
        [⟨ns1.pending, K.TRANSPORT_FLAG_NONE,
          (T.write ts ns1.pending K.TRANSPORT_FLAG_NONE).1⟩]⟩ := by
  obtain ⟨h1, h2, h3, h4, h5⟩ := hentry
  have h2' : ¬ sanityCheckNetStream K s.netStreamInfo = false := by rw [h2]; decide
  have hsane1 := writeAssemble_sane K s.netStreamInfo buffer h2 h3.1
  obtain ⟨hc0, hc1, hc2, hc3, _⟩ :=
    writeBytesToCopy_bounds K s.netStreamInfo buffer.length h2 h3.1
  have hceq := hc3 hfit
  have hb1 := sanity_writeBuf_bounds K _ hsane1
  subst hns1
  have hs2 := sanity_writeBufEnd_update K (writeAssemble s.netStreamInfo buffer) 0
    hsane1 (le_refl 0) (by omega)
  have hdone : writeBytesToCopy s.netStreamInfo buffer.length > 0 ∧
      (buffer.length : Int) - writeBytesToCopy s.netStreamInfo buffer.length ≤ 0 := by
    constructor <;> omega
  unfold bufferedTransportWrite
  dsimp only
  rw [if_neg h1, if_neg h2', if_neg (not_not.mpr h3), if_neg (not_not.mpr h4),
    if_neg h5, if_neg hsend, if_pos hp]
  simp only [cryptStatusError, herr, decide_False, Bool.false_eq_true, if_false,
    hall, hdone, and_self, if_true, hs2, Bool.true_eq_false]

theorem write_eq_asm_direct {σ : Type} (K : Consts) (T : Transport σ)
    (s : STREAM) (ts : σ) (buffer : List BYTE) (length0 : Int) (flags : Nat)
    (hentry : WriteEntryOK K s buffer flags)
    (hp : s.netStreamInfo.writeBufEnd > 0)
    (ns1 : NET_STREAM_INFO) (hns1 : ns1 = writeAssemble s.netStreamInfo buffer)
    (herr : ¬ (T.write ts ns1.pending K.TRANSPORT_FLAG_NONE).1.status < K.CRYPT_OK)
    (hall : ¬ (T.write ts ns1.pending K.TRANSPORT_FLAG_NONE).1.bytesWritten
      < ns1.writeBufEnd)
    (hover : ¬ s.netStreamInfo.writeBufEnd + buffer.length ≤
      s.netStreamInfo.writeBufSize) :
    bufferedTransportWrite K T s ts buffer length0 flags =
      bufferedTransportWriteDirect K T
        { s with netStreamInfo := { ns1 with writeBufEnd := 0 } }
        (T.write ts ns1.pending K.TRANSPORT_FLAG_NONE).2 buffer
        ((buffer.length : Int) - writeBytesToCopy s.netStreamInfo buffer.length)
        [⟨ns1.pending, K.TRANSPORT_FLAG_NONE,
          (T.write ts ns1.pending K.TRANSPORT_FLAG_NONE).1⟩] := by
  obtain ⟨h1, h2, h3, h4, h5⟩ := hentry
  have h2' : ¬ sanityCheckNetStream K s.netStreamInfo = false := by rw [h2]; decide
  obtain ⟨hc0, hc1, hc2, _, hc4⟩ :=
    writeBytesToCopy_bounds K s.netStreamInfo buffer.length h2 h3.1
  have hceq := hc4 hover
  have hsend : ¬ (flags &&& K.TRANSPORT_FLAG_FLUSH = 0 ∧
      s.netStreamInfo.writeBufEnd + buffer.length ≤ s.netStreamInfo.writeBufSize) :=
    fun h => hover h.2
  have hnd : ¬ (writeBytesToCopy s.netStreamInfo buffer.length > 0 ∧
      (buffer.length : Int) - writeBytesToCopy s.netStreamInfo buffer.length ≤ 0) := by
    intro h; omega
  subst hns1
  unfold bufferedTransportWrite
  dsimp only
  rw [if_neg h1, if_neg h2', if_neg (not_not.mpr h3), if_neg (not_not.mpr h4),
    if_neg h5, if_neg hsend, if_pos hp]
  simp only [cryptStatusError, herr, decide_False, Bool.false_eq_true, if_false,
    hall, hnd]
  by_cases hcz : writeBytesToCopy s.netStreamInfo buffer.length > 0
  · rw [if_pos hcz]
  · rw [if_neg hcz]
    have : writeBytesToCopy s.netStreamInfo buffer.length = 0 := by omega
    rw [this, sub_zero]

theorem write_eq_direct {σ : Type} (K : Consts) (T : Transport σ)
    (s : STREAM) (ts : σ) (buffer : List BYTE) (length0 : Int) (flags : Nat)
    (hentry : WriteEntryOK K s buffer flags)
    (hsend : ¬ (flags &&& K.TRANSPORT_FLAG_FLUSH = 0 ∧
      s.netStreamInfo.writeBufEnd + buffer.length ≤ s.netStreamInfo.writeBufSize))
    (hp : ¬ s.netStreamInfo.writeBufEnd > 0) :
    bufferedTransportWrite K T s ts buffer length0 flags =
      bufferedTransportWriteDirect K T s ts buffer buffer.length [] := by
  obtain ⟨h1, h2, h3, h4, h5⟩ := hentry
  have h2' : ¬ sanityCheckNetStream K s.netStreamInfo = false := by rw [h2]; decide
  unfold bufferedTransportWrite
  dsimp only
  rw [if_neg h1, if_neg h2', if_neg (not_not.mpr h3), if_neg (not_not.mpr h4),
    if_neg h5, if_neg hsend, if_neg hp]

theorem writeDirect_eq_err {σ : Type} (K : Consts) (T : Transport σ)
    (s : STREAM) (ts : σ) (buffer : List BYTE) (byteCount : Int)
    (calls : List WriteCall) (hz : s.netStreamInfo.writeBufEnd = 0)
    (pl : List BYTE) (hpl : pl = slice buffer (buffer.length - byteCount) byteCount)
    (herr : (T.write ts pl K.TRANSPORT_FLAG_NONE).1.status < K.CRYPT_OK) :
    bufferedTransportWriteDirect K T s ts buffer byteCount calls =
      ⟨(T.write ts pl K.TRANSPORT_FLAG_NONE).1.status, 0, s,
        (T.write ts pl K.TRANSPORT_FLAG_NONE).2,
        calls ++ [⟨pl, K.TRANSPORT_FLAG_NONE,
          (T.write ts pl K.TRANSPORT_FLAG_NONE).1⟩]⟩ := by
  subst hpl
  unfold bufferedTransportWriteDirect
  dsimp only
  rw [if_neg (not_not.mpr hz)]
  simp only [cryptStatusError, herr, decide_True, if_true]

theorem writeDirect_eq_ok {σ : Type} (K : Consts) (T : Transport σ)
    (s : STREAM) (ts : σ) (buffer : List BYTE) (byteCount : Int)
    (calls : List WriteCall) (hz : s.netStreamInfo.writeBufEnd = 0)
    (hsane : sanityCheckNetStream K s.netStreamInfo = true)
    (pl : List BYTE) (hpl : pl = slice buffer (buffer.length - byteCount) byteCount)
    (herr : ¬ (T.write ts pl K.TRANSPORT_FLAG_NONE).1.status < K.CRYPT_OK) :
    bufferedTransportWriteDirect K T s ts buffer byteCount calls =
      ⟨K.CRYPT_OK,
        if (T.write ts pl K.TRANSPORT_FLAG_NONE).1.bytesWritten < byteCount then
          (buffer.length : Int) -
            (byteCount - (T.write ts pl K.TRANSPORT_FLAG_NONE).1.bytesWritten)
        else buffer.length,
        s, (T.write ts pl K.TRANSPORT_FLAG_NONE).2,
        calls ++ [⟨pl, K.TRANSPORT_FLAG_NONE,
          (T.write ts pl K.TRANSPORT_FLAG_NONE).1⟩]⟩ := by
  subst hpl
  unfold bufferedTransportWriteDirect
  dsimp only
  rw [if_neg (not_not.mpr hz)]
  simp only [cryptStatusError, herr, decide_False, Bool.false_eq_true, if_false,
    hsane, Bool.true_eq_false]

theorem slice_store_self {α : Type} (b : List α) (e : Int) (d : List α)
    (h0 : 0 ≤ e) (h : e ≤ b.length) :
    slice (store b e d) e d.length = d := by
  lift e to ℕ using h0
  have h' : e ≤ b.length := by exact_mod_cast h
  simp only [slice, store, Int.toNat_natCast, List.append_assoc]
  rw [List.drop_append_eq_append_drop]
  have hd : List.drop e (List.take e b) = [] := by
    apply List.drop_eq_nil_of_le
    simp
  simp [List.length_take, h', hd]

theorem slice_zero_length {α : Type} (b : List α) :
    slice b 0 (b.length : Int) = b := slice_all b _ (le_refl _)

/-! ## C6: a non-flushing write that fits is absorbed -/

/-- C6: on a stream that passes the entry checks of `bufferedTransportWrite`
(so `n > 0`), a non-flushing write of `n` bytes with
`writeBufEnd + n ≤ writeBufSize` makes no transport call, returns `CRYPT_OK`
and reports `n`; the `n` bytes are stored at the old watermark in order, the
watermark grows by exactly `n`, and the bytes buffered before the call (and
the size of the buffer) are unchanged. -/
theorem bufferedTransportWrite_absorb {σ : Type} (K : Consts) (T : Transport σ)
    (s : STREAM) (ts : σ) (buffer : List BYTE) (length0 : Int) (flags : Nat)
    (wb : List BYTE)
    (hentry : WriteEntryOK K s buffer flags)
    (hwb : s.netStreamInfo.writeBuffer = some wb)
    (hwl : (wb.length : Int) = s.netStreamInfo.writeBufSize)
    (hnf : flags &&& K.TRANSPORT_FLAG_FLUSH = 0)
    (hfit : s.netStreamInfo.writeBufEnd + buffer.length ≤
      s.netStreamInfo.writeBufSize) :
    (bufferedTransportWrite K T s ts buffer length0 flags).calls = [] ∧
    (bufferedTransportWrite K T s ts buffer length0 flags).tstate = ts ∧
    (bufferedTransportWrite K T s ts buffer length0 flags).status = K.CRYPT_OK ∧
    (bufferedTransportWrite K T s ts buffer length0 flags).length = buffer.length ∧
    (bufferedTransportWrite K T s ts buffer length0 flags).stream.netStreamInfo.writeBufEnd =
      s.netStreamInfo.writeBufEnd + buffer.length ∧
    (bufferedTransportWrite K T s ts buffer length0 flags).stream.netStreamInfo.pending =
      s.netStreamInfo.pending ++ buffer ∧
    ∃ wb1, (bufferedTransportWrite K T s ts buffer length0
        flags).stream.netStreamInfo.writeBuffer = some wb1 ∧
      wb1.length = wb.length ∧
      slice wb1 0 s.netStreamInfo.writeBufEnd = slice wb 0 s.netStreamInfo.writeBufEnd ∧
      slice wb1 s.netStreamInfo.writeBufEnd buffer.length = buffer := by
  have hb := sanity_writeBuf_bounds K _ hentry.2.1
  rw [write_eq_absorb K T s ts buffer length0 flags hentry hnf hfit]
  refine ⟨rfl, rfl, rfl, rfl, rfl, ?_, ?_⟩
  · simp only [NET_STREAM_INFO.pending, hwb, Option.map_some', Option.getD_some,
      slice_zero_length]
    exact slice_store_append wb _ buffer hb.1 (by omega)
  · refine ⟨store wb s.netStreamInfo.writeBufEnd buffer, ?_, ?_, ?_, ?_⟩
    · simp only [hwb, Option.map_some', slice_zero_length]
    · exact store_length _ _ _ hb.1 (by omega)
    · exact slice_store_keep _ _ _ _ hb.1 (le_refl _) (by omega)
    · exact slice_store_self _ _ _ hb.1 (by omega)

set_option maxRecDepth 100000 in
/-- C6, witness: 2 bytes written without flush into a 6-byte buffer that
already holds 3 bytes. -/
theorem bufferedTransportWrite_absorb_witness :
    WriteEntryOK sampleConsts pendingWriteDemoStream [1, 2] 0 ∧
    (bufferedTransportWrite sampleConsts acceptAllTransport pendingWriteDemoStream
      () [1, 2] 0 0).calls = [] ∧
    (bufferedTransportWrite sampleConsts acceptAllTransport pendingWriteDemoStream
      () [1, 2] 0 0).stream.netStreamInfo.pending = [9, 9, 9, 1, 2] :=
  ⟨by unfold WriteEntryOK; decide,
    (bufferedTransportWrite_absorb sampleConsts acceptAllTransport
      pendingWriteDemoStream () [1, 2] 0 0 [9, 9, 9, 0, 0, 0]
      (by unfold WriteEntryOK; decide) rfl (by decide) (by decide) (by decide)).1,
    by decide⟩

/-! ## C4: two consecutive non-flushing writes -/

/-- C4 (as amended): two consecutive non-flushing `bufferedTransportWrite`
calls with payloads `a` and `b` whose combined size is at most the capacity
of the (previously empty) write buffer cause no transport write at all: both
calls succeed and report all their bytes accepted, and the write buffer then
holds `a` followed by `b`, with the watermark at `|a| + |b|`. -/
theorem bufferedTransportWrite_two_absorbed {σ : Type} (K : Consts)
    (T : Transport σ) (s : STREAM) (ts : σ) (a b : List BYTE)
    (la lb : Int) (fa fb : Nat) (wb : List BYTE)
    (hentry : WriteEntryOK K s a fa)
    (hwb : s.netStreamInfo.writeBuffer = some wb)
    (hwl : (wb.length : Int) = s.netStreamInfo.writeBufSize)
    (hempty : s.netStreamInfo.writeBufEnd = 0)
    (hfa : fa &&& K.TRANSPORT_FLAG_FLUSH = 0)
    (hfb : fb &&& K.TRANSPORT_FLAG_FLUSH = 0)
    (hfbr : fb ≥ K.TRANSPORT_FLAG_NONE ∧ fb ≤ K.TRANSPORT_FLAG_MAX)
    (hb : 0 < b.length)
    (hcap : (a.length : Int) + b.length ≤ s.netStreamInfo.writeBufSize) :
    (bufferedTransportWrite K T s ts a la fa).calls ++
      (bufferedTransportWrite K T (bufferedTransportWrite K T s ts a la fa).stream
        (bufferedTransportWrite K T s ts a la fa).tstate b lb fb).calls = [] ∧
    (bufferedTransportWrite K T s ts a la fa).status = K.CRYPT_OK ∧
    (bufferedTransportWrite K T s ts a la fa).length = a.length ∧
    (bufferedTransportWrite K T (bufferedTransportWrite K T s ts a la fa).stream
      (bufferedTransportWrite K T s ts a la fa).tstate b lb fb).status = K.CRYPT_OK ∧
    (bufferedTransportWrite K T (bufferedTransportWrite K T s ts a la fa).stream
      (bufferedTransportWrite K T s ts a la fa).tstate b lb fb).length = b.length ∧
    (bufferedTransportWrite K T (bufferedTransportWrite K T s ts a la fa).stream
      (bufferedTransportWrite K T s ts a la fa).tstate b lb
        fb).stream.netStreamInfo.pending = a ++ b ∧
    (bufferedTransportWrite K T (bufferedTransportWrite K T s ts a la fa).stream
      (bufferedTransportWrite K T s ts a la fa).tstate b lb
        fb).stream.netStreamInfo.writeBufEnd = (a.length : Int) + b.length := by
  obtain ⟨h1, h2, h3, h4, h5⟩ := hentry
  have hbnd := sanity_writeBuf_bounds K _ h2
  have hfit1 : s.netStreamInfo.writeBufEnd + a.length ≤ s.netStreamInfo.writeBufSize := by
    omega
  rw [write_eq_absorb K T s ts a la fa ⟨h1, h2, h3, h4, h5⟩ hfa hfit1]
  dsimp only
  have hs1 := sanity_writeBuf_update K s.netStreamInfo
    (fun wb => store wb s.netStreamInfo.writeBufEnd (slice a 0 a.length))
    (s.netStreamInfo.writeBufEnd + a.length) h2 (by omega) hfit1
  have hentry2 : WriteEntryOK K
      { s with netStreamInfo :=
        { s.netStreamInfo with
          writeBuffer := s.netStreamInfo.writeBuffer.map fun wb =>
            store wb s.netStreamInfo.writeBufEnd (slice a 0 a.length),
          writeBufEnd := s.netStreamInfo.writeBufEnd + a.length } } b fb :=
    ⟨h1, hs1, ⟨by exact_mod_cast hb, by rcases hbnd.2.2 with h | h <;> omega⟩, hfbr, h5⟩
  rw [write_eq_absorb K T _ ts b lb fb hentry2 hfb (by dsimp only; omega)]
  refine ⟨rfl, rfl, rfl, rfl, rfl, ?_, ?_⟩
  · simp only [NET_STREAM_INFO.pending, hwb, Option.map_some', Option.getD_some,
      slice_zero_length, hempty, zero_add]
    have e1 := slice_store_append (store wb 0 a) a.length b (by omega)
      (by rw [store_length wb 0 a (le_refl 0) (by omega)]; omega)
    have e2 := slice_store_append wb 0 a (le_refl 0) (by omega)
    rw [zero_add] at e2
    rw [e1, e2]
    simp [slice]
  · dsimp only
    omega

set_option maxRecDepth 100000 in
/-- C4, witness: 2 and then 3 bytes written without flush into an empty
6-byte buffer. -/
theorem bufferedTransportWrite_two_absorbed_witness :
    WriteEntryOK sampleConsts emptyWriteDemoStream [1, 2] 0 ∧
    (bufferedTransportWrite sampleConsts acceptAllTransport
      (bufferedTransportWrite sampleConsts acceptAllTransport emptyWriteDemoStream
        () [1, 2] 0 0).stream
      (bufferedTransportWrite sampleConsts acceptAllTransport emptyWriteDemoStream
        () [1, 2] 0 0).tstate [3, 4, 5] 0 0).stream.netStreamInfo.pending =
      [1, 2] ++ [3, 4, 5] :=
  ⟨by unfold WriteEntryOK; decide,
    (bufferedTransportWrite_two_absorbed sampleConsts acceptAllTransport
      emptyWriteDemoStream () [1, 2] [3, 4, 5] 0 0 0 0 [0, 0, 0, 0, 0, 0]
      (by unfold WriteEntryOK; decide) rfl (by decide) (by decide) (by decide)
      (by decide) (by decide) (by decide) (by decide)).2.2.2.2.2.1⟩

set_option maxRecDepth 100000 in
/-- C4, counterexample to the claim as stated: 2 and then 3 bytes are written
without flush into an empty 6-byte buffer over a transport that accepts
everything.  Both calls succeed, yet no transport write occurs during the
two calls, so it is not the case that exactly one occurs. -/
theorem bufferedTransportWrite_two_writes_counterexample :
    WriteEntryOK sampleConsts emptyWriteDemoStream [1, 2] 0 ∧
    emptyWriteDemoStream.netStreamInfo.writeBufEnd = 0 ∧
    (0 : Nat) &&& sampleConsts.TRANSPORT_FLAG_FLUSH = 0 ∧
    (([1, 2] : List BYTE).length : Int) + ([3, 4, 5] : List BYTE).length ≤
      emptyWriteDemoStream.netStreamInfo.writeBufSize ∧
    (bufferedTransportWrite sampleConsts acceptAllTransport emptyWriteDemoStream
      () [1, 2] 0 0).status = sampleConsts.CRYPT_OK ∧
    (bufferedTransportWrite sampleConsts acceptAllTransport
      (bufferedTransportWrite sampleConsts acceptAllTransport emptyWriteDemoStream
        () [1, 2] 0 0).stream
      (bufferedTransportWrite sampleConsts acceptAllTransport emptyWriteDemoStream
        () [1, 2] 0 0).tstate [3, 4, 5] 0 0).status = sampleConsts.CRYPT_OK ∧
    ((bufferedTransportWrite sampleConsts acceptAllTransport emptyWriteDemoStream
        () [1, 2] 0 0).calls ++
      (bufferedTransportWrite sampleConsts acceptAllTransport
        (bufferedTransportWrite sampleConsts acceptAllTransport emptyWriteDemoStream
          () [1, 2] 0 0).stream
        (bufferedTransportWrite sampleConsts acceptAllTransport emptyWriteDemoStream
          () [1, 2] 0 0).tstate [3, 4, 5] 0 0).calls).length ≠ 1 :=
  ⟨by unfold WriteEntryOK; decide, by decide, by decide, by decide, by decide,
    by decide, by decide⟩

/-! ## C3: a header write followed by a flushing body write -/

/-- C3: starting from an empty write buffer, a non-flushing
`bufferedTransportWrite` of a header `a` followed by a flushing
`bufferedTransportWrite` of a body `b`, with `|a| + |b| ≤ writeBufSize` and a
transport that accepts everything, results in exactly one transport write,
whose payload is `a` followed by `b`; the first call reports `|a|` bytes
accepted, the second `|b|`, both return `CRYPT_OK`, and the write buffer is
empty afterwards. -/
theorem bufferedTransportWrite_header_body {σ : Type} (K : Consts)
    (T : Transport σ) (s : STREAM) (ts : σ) (a b : List BYTE)
    (la lb : Int) (fa fb : Nat) (wb : List BYTE)
    (hacc : ∀ (st : σ) (pl : List BYTE) (fl : Nat),
      (T.write st pl fl).1 = ⟨K.CRYPT_OK, pl.length⟩)
    (hentry : WriteEntryOK K s a fa)
    (hwb : s.netStreamInfo.writeBuffer = some wb)
    (hwl : (wb.length : Int) = s.netStreamInfo.writeBufSize)
    (hempty : s.netStreamInfo.writeBufEnd = 0)
    (hfa : fa &&& K.TRANSPORT_FLAG_FLUSH = 0)
    (hfb : fb &&& K.TRANSPORT_FLAG_FLUSH ≠ 0)
    (hfbr : fb ≥ K.TRANSPORT_FLAG_NONE ∧ fb ≤ K.TRANSPORT_FLAG_MAX)
    (hb : 0 < b.length)
    (hcap : (a.length : Int) + b.length ≤ s.netStreamInfo.writeBufSize) :
    (bufferedTransportWrite K T s ts a la fa).calls ++
      (bufferedTransportWrite K T (bufferedTransportWrite K T s ts a la fa).stream
        (bufferedTransportWrite K T s ts a la fa).tstate b lb fb).calls =
      [⟨a ++ b, K.TRANSPORT_FLAG_NONE, ⟨K.CRYPT_OK, (a ++ b).length⟩⟩] ∧
    (bufferedTransportWrite K T s ts a la fa).status = K.CRYPT_OK ∧
    (bufferedTransportWrite K T s ts a la fa).length = a.length ∧
    (bufferedTransportWrite K T (bufferedTransportWrite K T s ts a la fa).stream
      (bufferedTransportWrite K T s ts a la fa).tstate b lb fb).status = K.CRYPT_OK ∧
    (bufferedTransportWrite K T (bufferedTransportWrite K T s ts a la fa).stream
      (bufferedTransportWrite K T s ts a la fa).tstate b lb fb).length = b.length ∧
    (bufferedTransportWrite K T (bufferedTransportWrite K T s ts a la fa).stream
      (bufferedTransportWrite K T s ts a la fa).tstate b lb
        fb).stream.netStreamInfo.writeBufEnd = 0 ∧
    (bufferedTransportWrite K T (bufferedTransportWrite K T s ts a la fa).stream
      (bufferedTransportWrite K T s ts a la fa).tstate b lb
        fb).stream.netStreamInfo.pending = [] := by
  obtain ⟨h1, h2, h3, h4, h5⟩ := hentry
  have hbnd := sanity_writeBuf_bounds K _ h2
  have hfit1 : s.netStreamInfo.writeBufEnd + a.length ≤ s.netStreamInfo.writeBufSize := by
    omega
  rw [write_eq_absorb K T s ts a la fa ⟨h1, h2, h3, h4, h5⟩ hfa hfit1]
  dsimp only
  have hs1 := sanity_writeBuf_update K s.netStreamInfo
    (fun wb => store wb s.netStreamInfo.writeBufEnd (slice a 0 a.length))
    (s.netStreamInfo.writeBufEnd + a.length) h2 (by omega) hfit1
  obtain ⟨ns1, hns1⟩ : ∃ ns1 : NET_STREAM_INFO, ns1 =
      { s.netStreamInfo with
        writeBuffer := s.netStreamInfo.writeBuffer.map fun wb =>
          store wb s.netStreamInfo.writeBufEnd (slice a 0 a.length),
        writeBufEnd := s.netStreamInfo.writeBufEnd + a.length } := ⟨_, rfl⟩
  rw [← hns1] at hs1 ⊢
  have hns1wb : ns1.writeBuffer = some (store wb 0 a) := by
    rw [hns1]; simp only [hwb, Option.map_some', slice_zero_length, hempty]
  have hns1end : ns1.writeBufEnd = a.length := by rw [hns1]; dsimp only; omega
  have hns1size : ns1.writeBufSize = s.netStreamInfo.writeBufSize := by rw [hns1]
  have hns1fn : ns1.transportWriteFunction = s.netStreamInfo.transportWriteFunction := by
    rw [hns1]
  have hblen : (0 : Int) < b.length := by exact_mod_cast hb
  have hentry2 : WriteEntryOK K { s with netStreamInfo := ns1 } b fb :=
    ⟨h1, hs1, ⟨hblen, by rcases hbnd.2.2 with h | h <;> omega⟩, hfbr,
      by dsimp only; rw [hns1fn]; exact h5⟩
  have hsend : ¬ (fb &&& K.TRANSPORT_FLAG_FLUSH = 0 ∧
      ns1.writeBufEnd + b.length ≤ ns1.writeBufSize) := fun h => hfb h.1
  have hp : ns1.writeBufEnd > 0 := by omega
  have hfit2 : ns1.writeBufEnd + b.length ≤ ns1.writeBufSize := by omega
  obtain ⟨hc0, hc1, hc2, hc3, _⟩ := writeBytesToCopy_bounds K ns1 b.length hs1 hblen
  have hceq := hc3 hfit2
  have hwl1 : ((store wb 0 a).length : Int) = ns1.writeBufSize := by
    rw [store_length wb 0 a (le_refl 0) (by omega)]; omega
  have hpend := writeAssemble_pending K ns1 b (store wb 0 a) hs1 hblen hns1wb hwl1
  have hpend1 : ns1.pending = a := by
    unfold NET_STREAM_INFO.pending
    rw [hns1wb, hns1end]
    have e2 := slice_store_append wb 0 a (le_refl 0) (by omega)
    rw [zero_add] at e2
    simp only [Option.getD_some]
    rw [e2]
    simp [slice]
  rw [hceq, slice_zero_length, hpend1] at hpend
  obtain ⟨he1, _⟩ := writeAssemble_writeBufEnd K ns1 b hs1 hblen
  have hrep := hacc ts (writeAssemble ns1 b).pending K.TRANSPORT_FLAG_NONE
  have herr : ¬ (T.write ts (writeAssemble ns1 b).pending
      K.TRANSPORT_FLAG_NONE).1.status < K.CRYPT_OK := by
    rw [hrep]; exact lt_irrefl _
  have hall : ¬ (T.write ts (writeAssemble ns1 b).pending
      K.TRANSPORT_FLAG_NONE).1.bytesWritten < (writeAssemble ns1 b).writeBufEnd := by
    rw [hrep, he1, hceq, hns1end, hpend]
    simp
  rw [write_eq_asm_done K T { s with netStreamInfo := ns1 } ts b lb fb hentry2 hsend hp
    (writeAssemble ns1 b) rfl herr hall hfit2]
  refine ⟨?_, rfl, rfl, rfl, rfl, rfl, ?_⟩
  · rw [hrep, hpend]
    rfl
  · simp [NET_STREAM_INFO.pending, slice]

set_option maxRecDepth 100000 in
/-- C3, witness: a 2-byte header and a 3-byte body into an empty 6-byte
buffer, over a transport that accepts everything. -/
theorem bufferedTransportWrite_header_body_witness :
    (∀ (st : Unit) (pl : List BYTE) (fl : Nat),
      (acceptAllTransport.write st pl fl).1 = ⟨sampleConsts.CRYPT_OK, pl.length⟩) ∧
    WriteEntryOK sampleConsts emptyWriteDemoStream [1, 2] 0 ∧
    (bufferedTransportWrite sampleConsts acceptAllTransport emptyWriteDemoStream
        () [1, 2] 0 0).calls ++
      (bufferedTransportWrite sampleConsts acceptAllTransport
        (bufferedTransportWrite sampleConsts acceptAllTransport emptyWriteDemoStream
          () [1, 2] 0 0).stream
        (bufferedTransportWrite sampleConsts acceptAllTransport emptyWriteDemoStream
          () [1, 2] 0 0).tstate [3, 4, 5] 0 1).calls =
      [⟨[1, 2] ++ [3, 4, 5], sampleConsts.TRANSPORT_FLAG_NONE,
        ⟨sampleConsts.CRYPT_OK, (([1, 2] : List BYTE) ++ [3, 4, 5]).length⟩⟩] :=
  ⟨fun _ _ _ => rfl, by unfold WriteEntryOK; decide,
    (bufferedTransportWrite_header_body sampleConsts acceptAllTransport
      emptyWriteDemoStream () [1, 2] [3, 4, 5] 0 0 0 1 [0, 0, 0, 0, 0, 0]
      (fun _ _ _ => rfl) (by unfold WriteEntryOK; decide) rfl (by decide) (by decide)
      (by decide) (by decide) (by decide) (by decide) (by decide)).1⟩

/-! ## C5: accounting for a partial write of the assembled buffer -/

/-- C5: when `bufferedTransportWrite` sends an assembled buffer made of the
`p > 0` previously buffered bytes followed by the first `c` of the caller's
bytes (`c = writeBytesToCopy`), and the transport accepts `k` bytes with
`0 < k < p + c`, the call returns `CRYPT_OK` and reports exactly
`max 0 (k - p)` bytes accepted; the reported count lies between 0 and `c`.
The single transport write carries the `p` buffered bytes followed by the
`c` new ones. -/
theorem bufferedTransportWrite_short_write_accounting {σ : Type} (K : Consts)
    (T : Transport σ) (hrc : RangeCheckAccepts K) (s : STREAM) (ts : σ)
    (buffer : List BYTE) (length0 : Int) (flags : Nat) (wb : List BYTE)
    (hentry : WriteEntryOK K s buffer flags)
    (hwb : s.netStreamInfo.writeBuffer = some wb)
    (hwl : (wb.length : Int) = s.netStreamInfo.writeBufSize)
    (hsend : ¬ (flags &&& K.TRANSPORT_FLAG_FLUSH = 0 ∧
      s.netStreamInfo.writeBufEnd + buffer.length ≤ s.netStreamInfo.writeBufSize))
    (hp : 0 < s.netStreamInfo.writeBufEnd)
    (herr : ¬ (T.write ts (s.netStreamInfo.pending ++
      slice buffer 0 (writeBytesToCopy s.netStreamInfo buffer.length))
      K.TRANSPORT_FLAG_NONE).1.status < K.CRYPT_OK)
    (hk0 : 0 < (T.write ts (s.netStreamInfo.pending ++
      slice buffer 0 (writeBytesToCopy s.netStreamInfo buffer.length))
      K.TRANSPORT_FLAG_NONE).1.bytesWritten)
    (hk1 : (T.write ts (s.netStreamInfo.pending ++
      slice buffer 0 (writeBytesToCopy s.netStreamInfo buffer.length))
      K.TRANSPORT_FLAG_NONE).1.bytesWritten <
      s.netStreamInfo.writeBufEnd + writeBytesToCopy s.netStreamInfo buffer.length) :
    (bufferedTransportWrite K T s ts buffer length0 flags).status = K.CRYPT_OK ∧
    (bufferedTransportWrite K T s ts buffer length0 flags).length =
      max 0 ((T.write ts (s.netStreamInfo.pending ++
        slice buffer 0 (writeBytesToCopy s.netStreamInfo buffer.length))
        K.TRANSPORT_FLAG_NONE).1.bytesWritten - s.netStreamInfo.writeBufEnd) ∧
    0 ≤ (bufferedTransportWrite K T s ts buffer length0 flags).length ∧
    (bufferedTransportWrite K T s ts buffer length0 flags).length ≤
      writeBytesToCopy s.netStreamInfo buffer.length ∧
    (bufferedTransportWrite K T s ts buffer length0 flags).calls =
      [⟨s.netStreamInfo.pending ++
          slice buffer 0 (writeBytesToCopy s.netStreamInfo buffer.length),
        K.TRANSPORT_FLAG_NONE,
        (T.write ts (s.netStreamInfo.pending ++
          slice buffer 0 (writeBytesToCopy s.netStreamInfo buffer.length))
          K.TRANSPORT_FLAG_NONE).1⟩] ∧
    ((s.netStreamInfo.pending.length : Int) = s.netStreamInfo.writeBufEnd ∧
      ((slice buffer 0 (writeBytesToCopy s.netStreamInfo buffer.length)).length : Int) =
        writeBytesToCopy s.netStreamInfo buffer.length) := by
  have h2 := hentry.2.1
  have h3 := hentry.2.2.1
  have hbnd := sanity_writeBuf_bounds K _ h2
  obtain ⟨hc0, hc1, hc2, _, _⟩ :=
    writeBytesToCopy_bounds K s.netStreamInfo buffer.length h2 h3.1
  have hpend := writeAssemble_pending K s.netStreamInfo buffer wb h2 h3.1 hwb hwl
  obtain ⟨he1, _⟩ := writeAssemble_writeBufEnd K s.netStreamInfo buffer h2 h3.1
  rw [← hpend] at herr hk0 hk1 ⊢
  rw [← he1] at hk1
  rw [write_eq_asm_short K T hrc s ts buffer length0 flags hentry hsend hp
    (writeAssemble s.netStreamInfo buffer) rfl herr hk0 hk1]
  dsimp only
  rw [he1] at hk1 ⊢
  refine ⟨rfl, ?_, ?_, ?_, rfl, ?_, ?_⟩
  · split <;> omega
  · split <;> omega
  · split <;> omega
  · unfold NET_STREAM_INFO.pending
    rw [hwb]
    exact slice_length _ _ _ (le_refl 0) hbnd.1 (by simp only [Option.getD_some]; omega)
  · exact slice_length _ _ _ (le_refl 0) hc0 (by omega)

theorem sampleConsts_rangeCheckAccepts : RangeCheckAccepts sampleConsts := by
  intro start length maxLength h1 h2 h3
  simp only [sampleConsts, Bool.not_eq_true', Bool.or_eq_false_iff,
    decide_eq_false_iff_not]
  omega

set_option maxRecDepth 100000 in
/-- C5, witness: 3 bytes are buffered, a flushing write adds 2 new bytes and
the transport accepts 4 of the 5 assembled bytes: 1 byte is reported. -/
theorem bufferedTransportWrite_short_write_accounting_witness :
    RangeCheckAccepts sampleConsts ∧
    WriteEntryOK sampleConsts pendingWriteDemoStream [1, 2] 1 ∧
    (bufferedTransportWrite sampleConsts scriptTransport pendingWriteDemoStream
      shortWriteScript [1, 2] 0 1).status = sampleConsts.CRYPT_OK ∧
    (bufferedTransportWrite sampleConsts scriptTransport pendingWriteDemoStream
      shortWriteScript [1, 2] 0 1).length = 1 :=
  ⟨sampleConsts_rangeCheckAccepts, by unfold WriteEntryOK; decide,
    (bufferedTransportWrite_short_write_accounting sampleConsts scriptTransport
      sampleConsts_rangeCheckAccepts pendingWriteDemoStream shortWriteScript [1, 2]
      0 1 [9, 9, 9, 0, 0, 0] (by unfold WriteEntryOK; decide) rfl (by decide)
      (by decide) (by decide) (by decide) (by decide) (by decide)).1,
    by decide⟩

/-! ## C7: the caller's data does not fit into the assembled buffer -/

/-- C7: when `p > 0` bytes are buffered, `r > 0` of the caller's `n` bytes do
not fit into the write buffer (`c = n - r = writeBufSize - p` are copied in)
and the transport accepts the whole assembled buffer, then
`bufferedTransportWrite` issues exactly one further transport write, carrying
the caller's bytes from offset `c` on, and leaves the write buffer empty;
unless that second write fails, the call returns `CRYPT_OK` and reports `n`
when the transport accepts all `r` bytes and exactly `c + j` when it accepts
only `j < r` bytes. -/
theorem bufferedTransportWrite_overflow {σ : Type} (K : Consts)
    (T : Transport σ) (s : STREAM) (ts : σ) (buffer : List BYTE)
    (length0 : Int) (flags : Nat) (wb : List BYTE) (c : Int)
    (pl1 pl2 : List BYTE) (r1 r2 : WriteReply)
    (hentry : WriteEntryOK K s buffer flags)
    (hwb : s.netStreamInfo.writeBuffer = some wb)
    (hwl : (wb.length : Int) = s.netStreamInfo.writeBufSize)
    (hp : 0 < s.netStreamInfo.writeBufEnd)
    (hover : ¬ s.netStreamInfo.writeBufEnd + buffer.length ≤
      s.netStreamInfo.writeBufSize)
    (hc : c = s.netStreamInfo.writeBufSize - s.netStreamInfo.writeBufEnd)
    (hpl1 : pl1 = s.netStreamInfo.pending ++ slice buffer 0 c)
    (hpl2 : pl2 = buffer.drop c.toNat)
    (hr1 : r1 = (T.write ts pl1 K.TRANSPORT_FLAG_NONE).1)
    (hr2 : r2 = (T.write (T.write ts pl1 K.TRANSPORT_FLAG_NONE).2 pl2
      K.TRANSPORT_FLAG_NONE).1)
    (herr1 : ¬ r1.status < K.CRYPT_OK)
    (hall : ¬ r1.bytesWritten < s.netStreamInfo.writeBufEnd + c) :
    (bufferedTransportWrite K T s ts buffer length0 flags).calls =
      [⟨pl1, K.TRANSPORT_FLAG_NONE, r1⟩, ⟨pl2, K.TRANSPORT_FLAG_NONE, r2⟩] ∧
    (bufferedTransportWrite K T s ts buffer length0
      flags).stream.netStreamInfo.writeBufEnd = 0 ∧
    (¬ r2.status < K.CRYPT_OK →
      (bufferedTransportWrite K T s ts buffer length0 flags).status = K.CRYPT_OK ∧
      (bufferedTransportWrite K T s ts buffer length0 flags).length =
        (if r2.bytesWritten < buffer.length - c then c + r2.bytesWritten
          else buffer.length)) := by
  have h2 := hentry.2.1
  have h3 := hentry.2.2.1
  have hbnd := sanity_writeBuf_bounds K _ h2
  obtain ⟨hc0, hc1, hc2, _, hc4⟩ :=
    writeBytesToCopy_bounds K s.netStreamInfo buffer.length h2 h3.1
  have hceq := hc4 hover
  rw [← hc] at hceq
  have hpend := writeAssemble_pending K s.netStreamInfo buffer wb h2 h3.1 hwb hwl
  obtain ⟨he1, hsz1⟩ := writeAssemble_writeBufEnd K s.netStreamInfo buffer h2 h3.1
  have hsane1 := writeAssemble_sane K s.netStreamInfo buffer h2 h3.1
  rw [hceq] at hpend he1
  rw [← hpend] at hpl1
  subst hpl1
  have hpl2' : pl2 = slice buffer ((buffer.length : Int) - ((buffer.length : Int) - c))
      ((buffer.length : Int) - c) := by
    have hoff : (buffer.length : Int) - ((buffer.length : Int) - c) = c := by omega
    rw [hoff, hpl2]
    unfold slice
    symm
    apply List.take_of_length_le
    simp only [List.length_drop]
    omega
  have herr1' : ¬ (T.write ts (writeAssemble s.netStreamInfo buffer).pending
      K.TRANSPORT_FLAG_NONE).1.status < K.CRYPT_OK := by rw [← hr1]; exact herr1
  have hall' : ¬ (T.write ts (writeAssemble s.netStreamInfo buffer).pending
      K.TRANSPORT_FLAG_NONE).1.bytesWritten <
      (writeAssemble s.netStreamInfo buffer).writeBufEnd := by
    rw [he1, ← hr1]; exact hall
  rw [write_eq_asm_direct K T s ts buffer length0 flags hentry hp
    (writeAssemble s.netStreamInfo buffer) rfl herr1' hall' hover, hceq]
  have hs2 := sanity_writeBufEnd_update K (writeAssemble s.netStreamInfo buffer) 0
    hsane1 (le_refl 0) (by omega)
  by_cases herr2 : r2.status < K.CRYPT_OK
  · rw [writeDirect_eq_err K T _ _ buffer _ _ rfl pl2 hpl2' (by rw [← hr2]; exact herr2)]
    rw [← hr1, ← hr2]
    exact ⟨rfl, rfl, fun h => absurd herr2 h⟩
  · rw [writeDirect_eq_ok K T _ _ buffer _ _ rfl hs2 pl2 hpl2' (by rw [← hr2]; exact herr2)]
    rw [← hr1, ← hr2]
    refine ⟨rfl, rfl, fun _ => ⟨rfl, ?_⟩⟩
    dsimp only
    split <;> omega

set_option maxRecDepth 100000 in
/-- C7, witness: 3 bytes are buffered in a 6-byte buffer and 5 bytes are
written; the transport takes the 6 assembled bytes and then 1 of the 2
remaining ones, so 3 + 1 bytes are reported. -/
theorem bufferedTransportWrite_overflow_witness :
    WriteEntryOK sampleConsts pendingWriteDemoStream [1, 2, 3, 4, 5] 0 ∧
    (bufferedTransportWrite sampleConsts scriptTransport pendingWriteDemoStream
      overflowWriteScript [1, 2, 3, 4, 5] 0 0).calls =
      [⟨[9, 9, 9, 1, 2, 3], sampleConsts.TRANSPORT_FLAG_NONE, ⟨0, 6⟩⟩,
        ⟨[4, 5], sampleConsts.TRANSPORT_FLAG_NONE, ⟨0, 1⟩⟩] ∧
    (bufferedTransportWrite sampleConsts scriptTransport pendingWriteDemoStream
      overflowWriteScript [1, 2, 3, 4, 5] 0 0).length = 4 :=
  ⟨by unfold WriteEntryOK; decide,
    (bufferedTransportWrite_overflow sampleConsts scriptTransport
      pendingWriteDemoStream overflowWriteScript [1, 2, 3, 4, 5] 0 0
      [9, 9, 9, 0, 0, 0] 3 [9, 9, 9, 1, 2, 3] [4, 5] ⟨0, 6⟩ ⟨0, 1⟩
      (by unfold WriteEntryOK; decide) rfl (by decide) (by decide) (by decide)
      (by decide) (by decide) (by decide) (by decide) (by decide) (by decide)
      (by decide)).1,
    by decide⟩

/-! ## checkForProxy -/

theorem slice_zero_eq_take {α : Type} (l : List α) (n : Nat) :
    slice l 0 (n : Int) = l.take n := by
  simp [slice]

theorem local_check_iff (host : List Char) :
    (((host.length : Int) > 4 ∧ slice host 0 4 = "127.".toList) ∨
      ((host.length : Int) = 3 ∧ slice host 0 3 = "::1".toList) ∨
      ((host.length : Int) = 9 ∧ strCompare host "localhost".toList 9 = 0) ∨
      ((host.length : Int) = 10 ∧ strCompare host "localhost.".toList 10 = 0)) ↔
    IsLocalSpelling host := by
  have e4 : slice host 0 4 = host.take 4 := slice_zero_eq_take host 4
  have e3 : slice host 0 3 = host.take 3 := slice_zero_eq_take host 3
  have e9 : slice host 0 9 = host.take 9 := slice_zero_eq_take host 9
  have e10 : slice host 0 10 = host.take 10 := slice_zero_eq_take host 10
  have l9 : (slice "localhost".toList 0 9).map Char.toLower = "localhost".toList := by
    decide
  have l10 : (slice "localhost.".toList 0 10).map Char.toLower = "localhost.".toList := by
    decide
  unfold IsLocalSpelling strCompare
  rw [e4, e3, e9, e10, l9, l10]
  constructor
  · rintro (⟨h1, h2⟩ | ⟨h1, h2⟩ | ⟨h1, h2⟩ | ⟨h1, h2⟩)
    · exact Or.inl ⟨by omega, h2⟩
    · right; left
      rw [← h2, List.take_of_length_le (by omega)]
    · right; right; left
      rw [List.take_of_length_le (by omega)] at h2
      by_contra hne
      rw [if_neg hne] at h2
      exact absurd h2 (by decide)
    · right; right; right
      rw [List.take_of_length_le (by omega)] at h2
      by_contra hne
      rw [if_neg hne] at h2
      exact absurd h2 (by decide)
  · rintro (⟨h1, h2⟩ | h | h | h)
    · exact Or.inl ⟨by omega, h2⟩
    · right; left
      subst h
      exact ⟨by decide, by decide⟩
    · right; right; left
      have hl : host.length = 9 := by
        have := congrArg List.length h
        simpa using this
      refine ⟨by omega, ?_⟩
      rw [List.take_of_length_le (by omega), if_pos h]
    · right; right; right
      have hl : host.length = 10 := by
        have := congrArg List.length h
        simpa using this
      refine ⟨by omega, ?_⟩
      rw [List.take_of_length_le (by omega), if_pos h]

theorem checkForProxy_eq_local (K : Consts) (kern : Kernel)
    (netStream : NET_STREAM_INFO) (protocol : Int)
    (connectInfo : NET_CONNECT_INFO) (host : List Char)
    (proxyUrlBuffer : List Char) (proxyUrlLen0 : Int)
    (hentry : ProxyEntryOK K protocol proxyUrlBuffer)
    (hloc : IsLocalSpelling host) :
    checkForProxy K kern netStream protocol connectInfo host proxyUrlBuffer
        proxyUrlLen0 =
      ⟨K.CRYPT_OK,
        store proxyUrlBuffer 0
          (List.replicate (min 16 (proxyUrlBuffer.length : Int)).toNat (Char.ofNat 0)),
        0, netStream, []⟩ := by
  obtain ⟨h1, h2⟩ := hentry
  have hl := (local_check_iff host).mpr hloc
  unfold checkForProxy
  dsimp only
  rw [if_neg (not_not.mpr h1), if_neg (not_not.mpr h2), if_pos hl]

theorem checkForProxy_eq_http (K : Consts) (kern : Kernel)
    (netStream : NET_STREAM_INFO) (protocol : Int)
    (connectInfo : NET_CONNECT_INFO) (host : List Char)
    (proxyUrlBuffer : List Char) (proxyUrlLen0 : Int)
    (hentry : ProxyEntryOK K protocol proxyUrlBuffer)
    (hnl : ¬ IsLocalSpelling host)
    (hproto : protocol = K.STREAM_PROTOCOL_HTTP)
    (hcfg : (kern.getAttributeS connectInfo.iUserObject
      K.CRYPT_OPTION_NET_HTTP_PROXY proxyUrlBuffer.length).status = K.CRYPT_OK) :
    checkForProxy K kern netStream protocol connectInfo host proxyUrlBuffer
        proxyUrlLen0 =
      ⟨K.OK_SPECIAL,
        store (store proxyUrlBuffer 0
          (List.replicate (min 16 (proxyUrlBuffer.length : Int)).toNat (Char.ofNat 0)))
          0 (kern.getAttributeS connectInfo.iUserObject
            K.CRYPT_OPTION_NET_HTTP_PROXY proxyUrlBuffer.length).data,
        (kern.getAttributeS connectInfo.iUserObject
          K.CRYPT_OPTION_NET_HTTP_PROXY proxyUrlBuffer.length).data.length,
        { netStream with
          nFlags := netStream.nFlags |||
            (if connectInfo.options = K.NET_OPTION_HOSTNAME then
              K.STREAM_NFLAG_HTTPPROXY else K.STREAM_NFLAG_HTTPTUNNEL) },
        [⟨connectInfo.iUserObject, K.CRYPT_OPTION_NET_HTTP_PROXY⟩]⟩ := by
  obtain ⟨h1, h2⟩ := hentry
  have hl := (not_congr (local_check_iff host)).mpr hnl
  have hc : protocol = K.STREAM_PROTOCOL_HTTP ∧
      cryptStatusOK K (kern.getAttributeS connectInfo.iUserObject
        K.CRYPT_OPTION_NET_HTTP_PROXY proxyUrlBuffer.length).status = true := by
    refine ⟨hproto, ?_⟩
    simp only [cryptStatusOK, hcfg, decide_True]
  unfold checkForProxy
  dsimp only
  rw [if_neg (not_not.mpr h1), if_neg (not_not.mpr h2), if_neg hl, if_pos hc]

theorem checkForProxy_eq_socks (K : Consts) (kern : Kernel)
    (netStream : NET_STREAM_INFO) (protocol : Int)
    (connectInfo : NET_CONNECT_INFO) (host : List Char)
    (proxyUrlBuffer : List Char) (proxyUrlLen0 : Int)
    (hentry : ProxyEntryOK K protocol proxyUrlBuffer)
    (hnl : ¬ IsLocalSpelling host)
    (hnohttp : protocol ≠ K.STREAM_PROTOCOL_HTTP ∨
      (kern.getAttributeS connectInfo.iUserObject
        K.CRYPT_OPTION_NET_HTTP_PROXY proxyUrlBuffer.length).status ≠ K.CRYPT_OK) :
    checkForProxy K kern netStream protocol connectInfo host proxyUrlBuffer
        proxyUrlLen0 =
      ⟨if (kern.getAttributeS connectInfo.iUserObject
            K.CRYPT_OPTION_NET_SOCKS_SERVER proxyUrlBuffer.length).status = K.CRYPT_OK
          then K.OK_SPECIAL else K.CRYPT_OK,
        store
          (if protocol = K.STREAM_PROTOCOL_HTTP then
            store (store proxyUrlBuffer 0
              (List.replicate (min 16 (proxyUrlBuffer.length : Int)).toNat
                (Char.ofNat 0)))
              0 (kern.getAttributeS connectInfo.iUserObject
                K.CRYPT_OPTION_NET_HTTP_PROXY proxyUrlBuffer.length).data
          else
            store proxyUrlBuffer 0
              (List.replicate (min 16 (proxyUrlBuffer.length : Int)).toNat
                (Char.ofNat 0)))
          0 (kern.getAttributeS connectInfo.iUserObject
            K.CRYPT_OPTION_NET_SOCKS_SERVER proxyUrlBuffer.length).data,
        if (kern.getAttributeS connectInfo.iUserObject
            K.CRYPT_OPTION_NET_SOCKS_SERVER proxyUrlBuffer.length).status = K.CRYPT_OK
          then (kern.getAttributeS connectInfo.iUserObject
            K.CRYPT_OPTION_NET_SOCKS_SERVER proxyUrlBuffer.length).data.length
          else 0,
        netStream,
        (if protocol = K.STREAM_PROTOCOL_HTTP then
            [⟨connectInfo.iUserObject, K.CRYPT_OPTION_NET_HTTP_PROXY⟩]
          else []) ++
          [⟨connectInfo.iUserObject, K.CRYPT_OPTION_NET_SOCKS_SERVER⟩]⟩ := by
  obtain ⟨h1, h2⟩ := hentry
  have hl := (not_congr (local_check_iff host)).mpr hnl
  have hc : ¬ (protocol = K.STREAM_PROTOCOL_HTTP ∧
      cryptStatusOK K (kern.getAttributeS connectInfo.iUserObject
        K.CRYPT_OPTION_NET_HTTP_PROXY proxyUrlBuffer.length).status = true) := by
    rintro ⟨hp, hs⟩
    simp only [cryptStatusOK, decide_eq_true_eq] at hs
    rcases hnohttp with h | h
    · exact h hp
    · exact h hs
  unfold checkForProxy
  dsimp only
  rw [if_neg (not_not.mpr h1), if_neg (not_not.mpr h2), if_neg hl, if_neg hc]
  by_cases hs : (kern.getAttributeS connectInfo.iUserObject
      K.CRYPT_OPTION_NET_SOCKS_SERVER proxyUrlBuffer.length).status = K.CRYPT_OK
  · simp only [cryptStatusOK, hs, decide_True, if_true]
  · simp only [cryptStatusOK, hs, decide_False, Bool.false_eq_true, if_false]

theorem slice_store_zero {α : Type} (b d : List α) :
    slice (store b 0 d) 0 (d.length : Int) = d := by
  have := slice_store_append b 0 d (le_refl 0) (by omega)
  rw [zero_add] at this
  rw [this]
  simp [slice]

/-! ## C8: local targets are never proxied -/

/-- C8: for every wire protocol and every proxy configuration, on a call
that passes the entry checks of `checkForProxy`, a host in a local spelling
(longer than 4 characters and starting with "127.", exactly "::1", or
"localhost" / "localhost." in any letter case) yields "no proxy": status
`CRYPT_OK`, proxy length 0, no configuration query at all and an unchanged
descriptor (so unchanged flags).  `sNetConnect` then hands `completeConnect`
a `NULL` proxy URL of length 0, which is the direct connect without proxy
handshake. -/
theorem checkForProxy_local (K : Consts) (kern : Kernel)
    (netStream : NET_STREAM_INFO) (protocol : Int)
    (connectInfo : NET_CONNECT_INFO) (host : List Char)
    (proxyUrlBuffer : List Char) (proxyUrlLen0 : Int)
    (hentry : ProxyEntryOK K protocol proxyUrlBuffer)
    (hloc : IsLocalSpelling host) :
    (checkForProxy K kern netStream protocol connectInfo host proxyUrlBuffer
      proxyUrlLen0).status = K.CRYPT_OK ∧
    (checkForProxy K kern netStream protocol connectInfo host proxyUrlBuffer
      proxyUrlLen0).proxyUrlLen = 0 ∧
    (checkForProxy K kern netStream protocol connectInfo host proxyUrlBuffer
      proxyUrlLen0).queries = [] ∧
    (checkForProxy K kern netStream protocol connectInfo host proxyUrlBuffer
      proxyUrlLen0).netStream = netStream ∧
    (sNetConnectProxy K kern netStream protocol connectInfo host proxyUrlBuffer
      proxyUrlLen0).2 = some (none, 0) := by
  have heq := checkForProxy_eq_local K kern netStream protocol connectInfo host
    proxyUrlBuffer proxyUrlLen0 hentry hloc
  refine ⟨by rw [heq], by rw [heq], by rw [heq], by rw [heq], ?_⟩
  unfold sNetConnectProxy
  dsimp only
  rw [heq]
  simp [cryptStatusError]

set_option maxRecDepth 100000 in
/-- C8, witness: the target "127.0.0.1" with both an HTTP and a SOCKS proxy
configured, over HTTP. -/
theorem checkForProxy_local_witness :
    ProxyEntryOK sampleConsts 3 proxyDemoBuffer ∧
    IsLocalSpelling "127.0.0.1".toList ∧
    (checkForProxy sampleConsts bothProxiesKernel (sampleNetStream [] 0) 3
      (sampleConnectInfo "127.0.0.1".toList) "127.0.0.1".toList proxyDemoBuffer
      0).queries = [] ∧
    (sNetConnectProxy sampleConsts bothProxiesKernel (sampleNetStream [] 0) 3
      (sampleConnectInfo "127.0.0.1".toList) "127.0.0.1".toList proxyDemoBuffer
      0).2 = some (none, 0) :=
  ⟨by unfold ProxyEntryOK; decide, by unfold IsLocalSpelling; decide,
    (checkForProxy_local sampleConsts bothProxiesKernel (sampleNetStream [] 0) 3
      (sampleConnectInfo "127.0.0.1".toList) "127.0.0.1".toList proxyDemoBuffer 0
      (by unfold ProxyEntryOK; decide) (by unfold IsLocalSpelling; decide)).2.2.1,
    (checkForProxy_local sampleConsts bothProxiesKernel (sampleNetStream [] 0) 3
      (sampleConnectInfo "127.0.0.1".toList) "127.0.0.1".toList proxyDemoBuffer 0
      (by unfold ProxyEntryOK; decide) (by unfold IsLocalSpelling; decide)).2.2.2.2⟩

/-! ## C9: the HTTP proxy comes first -/

/-- C9: for every non-local target, when the wire protocol is HTTP and an
HTTP proxy string `p` is configured (the query for it succeeds), a call that
passes the entry checks of `checkForProxy` returns `OK_SPECIAL` with the
proxy buffer starting with exactly `p` and the proxy length `|p|`.  The only
configuration query issued is the one for the HTTP proxy, and the outcome is
the same for every configuration store that answers that query alike: the
SOCKS configuration is never queried, whatever it contains. -/
theorem checkForProxy_http_first (K : Consts) (kern : Kernel)
    (netStream : NET_STREAM_INFO) (protocol : Int)
    (connectInfo : NET_CONNECT_INFO) (host : List Char)
    (proxyUrlBuffer : List Char) (proxyUrlLen0 : Int) (p : List Char)
    (hentry : ProxyEntryOK K protocol proxyUrlBuffer)
    (hnl : ¬ IsLocalSpelling host)
    (hproto : protocol = K.STREAM_PROTOCOL_HTTP)
    (hcfg : kern.getAttributeS connectInfo.iUserObject
      K.CRYPT_OPTION_NET_HTTP_PROXY proxyUrlBuffer.length = ⟨K.CRYPT_OK, p⟩) :
    (checkForProxy K kern netStream protocol connectInfo host proxyUrlBuffer
      proxyUrlLen0).status = K.OK_SPECIAL ∧
    (checkForProxy K kern netStream protocol connectInfo host proxyUrlBuffer
      proxyUrlLen0).proxyUrlLen = p.length ∧
    slice (checkForProxy K kern netStream protocol connectInfo host proxyUrlBuffer
      proxyUrlLen0).proxyUrlBuffer 0 p.length = p ∧
    (checkForProxy K kern netStream protocol connectInfo host proxyUrlBuffer
      proxyUrlLen0).queries =
      [⟨connectInfo.iUserObject, K.CRYPT_OPTION_NET_HTTP_PROXY⟩] ∧
    (∀ kern1 : Kernel,
      kern1.getAttributeS connectInfo.iUserObject K.CRYPT_OPTION_NET_HTTP_PROXY
        proxyUrlBuffer.length = ⟨K.CRYPT_OK, p⟩ →
      checkForProxy K kern1 netStream protocol connectInfo host proxyUrlBuffer
        proxyUrlLen0 =
      checkForProxy K kern netStream protocol connectInfo host proxyUrlBuffer
        proxyUrlLen0) := by
  have heq := checkForProxy_eq_http K kern netStream protocol connectInfo host
    proxyUrlBuffer proxyUrlLen0 hentry hnl hproto (by rw [hcfg])
  rw [hcfg] at heq
  refine ⟨by rw [heq], by rw [heq], ?_, by rw [heq], ?_⟩
  · rw [heq]
    exact slice_store_zero _ p
  · intro kern1 h1
    have heq1 := checkForProxy_eq_http K kern1 netStream protocol connectInfo host
      proxyUrlBuffer proxyUrlLen0 hentry hnl hproto (by rw [h1])
    rw [h1] at heq1
    rw [heq, heq1]

set_option maxRecDepth 100000 in
/-- C9, witness: the target "example.com" over HTTP with both proxies
configured. -/
theorem checkForProxy_http_first_witness :
    ProxyEntryOK sampleConsts 3 proxyDemoBuffer ∧
    ¬ IsLocalSpelling "example.com".toList ∧
    (checkForProxy sampleConsts bothProxiesKernel (sampleNetStream [] 0) 3
      (sampleConnectInfo "example.com".toList) "example.com".toList proxyDemoBuffer
      0).status = sampleConsts.OK_SPECIAL ∧
    (checkForProxy sampleConsts bothProxiesKernel (sampleNetStream [] 0) 3
      (sampleConnectInfo "example.com".toList) "example.com".toList proxyDemoBuffer
      0).proxyUrlLen = 16 :=
  ⟨by unfold ProxyEntryOK; decide, by unfold IsLocalSpelling; decide,
    (checkForProxy_http_first sampleConsts bothProxiesKernel (sampleNetStream [] 0) 3
      (sampleConnectInfo "example.com".toList) "example.com".toList proxyDemoBuffer 0
      "proxy.local:8080".toList (by unfold ProxyEntryOK; decide)
      (by unfold IsLocalSpelling; decide) rfl rfl).1,
    by decide⟩

/-! ## C10: SOCKS proxy, or a direct connect -/

/-- C10: for every non-local target where no HTTP proxy applies (the
protocol is not HTTP, or it is HTTP and the query for an HTTP proxy does not
succeed), a call that passes the entry checks of `checkForProxy` leaves the
descriptor, and with it the HTTP-proxy and HTTP-tunnel flags, unchanged;
when a SOCKS proxy string is configured (the query for it succeeds) it
returns `OK_SPECIAL` with the proxy buffer starting with exactly that string
and its length; when none is configured either it returns `CRYPT_OK` with
proxy length 0, which is not an error status. -/
theorem checkForProxy_socks_or_direct (K : Consts) (kern : Kernel)
    (netStream : NET_STREAM_INFO) (protocol : Int)
    (connectInfo : NET_CONNECT_INFO) (host : List Char)
    (proxyUrlBuffer : List Char) (proxyUrlLen0 : Int)
    (hentry : ProxyEntryOK K protocol proxyUrlBuffer)
    (hnl : ¬ IsLocalSpelling host)
    (hnohttp : protocol ≠ K.STREAM_PROTOCOL_HTTP ∨
      (kern.getAttributeS connectInfo.iUserObject
        K.CRYPT_OPTION_NET_HTTP_PROXY proxyUrlBuffer.length).status ≠ K.CRYPT_OK) :
    (checkForProxy K kern netStream protocol connectInfo host proxyUrlBuffer
      proxyUrlLen0).netStream = netStream ∧
    (checkForProxy K kern netStream protocol connectInfo host proxyUrlBuffer
      proxyUrlLen0).netStream.nFlags = netStream.nFlags ∧
    (∀ p : List Char,
      kern.getAttributeS connectInfo.iUserObject K.CRYPT_OPTION_NET_SOCKS_SERVER
        proxyUrlBuffer.length = ⟨K.CRYPT_OK, p⟩ →
      (checkForProxy K kern netStream protocol connectInfo host proxyUrlBuffer
        proxyUrlLen0).status = K.OK_SPECIAL ∧
      (checkForProxy K kern netStream protocol connectInfo host proxyUrlBuffer
        proxyUrlLen0).proxyUrlLen = p.length ∧
      slice (checkForProxy K kern netStream protocol connectInfo host proxyUrlBuffer
        proxyUrlLen0).proxyUrlBuffer 0 p.length = p) ∧
    ((kern.getAttributeS connectInfo.iUserObject K.CRYPT_OPTION_NET_SOCKS_SERVER
        proxyUrlBuffer.length).status ≠ K.CRYPT_OK →
      (checkForProxy K kern netStream protocol connectInfo host proxyUrlBuffer
        proxyUrlLen0).status = K.CRYPT_OK ∧
      (checkForProxy K kern netStream protocol connectInfo host proxyUrlBuffer
        proxyUrlLen0).proxyUrlLen = 0 ∧
      cryptStatusError K (checkForProxy K kern netStream protocol connectInfo host
        proxyUrlBuffer proxyUrlLen0).status = false ∧
      (sNetConnectProxy K kern netStream protocol connectInfo host proxyUrlBuffer
        proxyUrlLen0).2 = some (none, 0)) := by
  have heq := checkForProxy_eq_socks K kern netStream protocol connectInfo host
    proxyUrlBuffer proxyUrlLen0 hentry hnl hnohttp
  refine ⟨by rw [heq], by rw [heq], ?_, ?_⟩
  · intro p hp
    rw [heq, hp]
    refine ⟨by simp, by simp, ?_⟩
    exact slice_store_zero _ p
  · intro hs
    unfold sNetConnectProxy
    dsimp only
    rw [heq]
    simp [hs, cryptStatusError]

set_option maxRecDepth 100000 in
/-- C10, witness: the target "example.com" over TCP with both proxies
configured: the SOCKS proxy is returned. -/
theorem checkForProxy_socks_or_direct_witness :
    ProxyEntryOK sampleConsts 1 proxyDemoBuffer ∧
    ¬ IsLocalSpelling "example.com".toList ∧
    (checkForProxy sampleConsts bothProxiesKernel (sampleNetStream [] 0) 1
      (sampleConnectInfo "example.com".toList) "example.com".toList proxyDemoBuffer
      0).netStream = sampleNetStream [] 0 ∧
    (checkForProxy sampleConsts bothProxiesKernel (sampleNetStream [] 0) 1
      (sampleConnectInfo "example.com".toList) "example.com".toList proxyDemoBuffer
      0).status = sampleConsts.OK_SPECIAL :=
  ⟨by unfold ProxyEntryOK; decide, by unfold IsLocalSpelling; decide,
    (checkForProxy_socks_or_direct sampleConsts bothProxiesKernel
      (sampleNetStream [] 0) 1 (sampleConnectInfo "example.com".toList)
      "example.com".toList proxyDemoBuffer 0 (by unfold ProxyEntryOK; decide)
      (by unfold IsLocalSpelling; decide) (Or.inl (by decide))).1,
    by decide⟩

/-! ## Safe pointers and cleared records -/

theorem DATAPTR_GET_zeroSafePtr (K : Consts) : DATAPTR_GET K zeroSafePtr = NULL := by
  unfold DATAPTR_GET
  split <;> rfl

theorem FNPTR_GET_zeroSafePtr (K : Consts) : FNPTR_GET K zeroSafePtr = NULL := by
  unfold FNPTR_GET
  split <;> rfl

theorem DATAPTR_GET_zeroStream (K : Consts) :
    DATAPTR_GET K zeroStream.netStream = NULL :=
  DATAPTR_GET_zeroSafePtr K

/-! ## C13: the connect timeout stored by initStream -/

theorem initStream_eq {σ : Type} (K : Consts) (env : NetEnv σ) (stream : STREAM)
    (netStream : NET_STREAM_INFO) (protocol : Int)
    (connectInfo : NET_CONNECT_INFO) (isServer : Bool)
    (hprotocol : protocol > K.STREAM_PROTOCOL_NONE ∧
      protocol < K.STREAM_PROTOCOL_LAST) :
    initStream K env stream netStream protocol connectInfo isServer =
      ⟨K.CRYPT_OK, { zeroStream with type := K.STREAM_TYPE_NETWORK },
        { zeroNetStreamInfo with
          protocol := protocol
          port := connectInfo.port
          netSocket := K.INVALID_SOCKET
          listenSocket := K.INVALID_SOCKET
          iTransportSession := K.CRYPT_ERROR
          nFlags :=
            if protocol = K.STREAM_PROTOCOL_UDP then
              (if isServer then K.STREAM_NFLAG_ISSERVER else 0) |||
                K.STREAM_NFLAG_DGRAM
            else (if isServer then K.STREAM_NFLAG_ISSERVER else 0)
          timeout :=
            if (if connectInfo.connectTimeout ≠ K.CRYPT_ERROR then
                  connectInfo.connectTimeout
                else if cryptStatusError K (env.getAttribute connectInfo.iUserObject
                    K.CRYPT_OPTION_NET_CONNECTTIMEOUT).status then 30
                else (env.getAttribute connectInfo.iUserObject
                    K.CRYPT_OPTION_NET_CONNECTTIMEOUT).value) < 5 then 5
            else
              (if connectInfo.connectTimeout ≠ K.CRYPT_ERROR then
                  connectInfo.connectTimeout
                else if cryptStatusError K (env.getAttribute connectInfo.iUserObject
                    K.CRYPT_OPTION_NET_CONNECTTIMEOUT).status then 30
                else (env.getAttribute connectInfo.iUserObject
                    K.CRYPT_OPTION_NET_CONNECTTIMEOUT).value)
          savedTimeout :=
            if connectInfo.timeout ≠ K.CRYPT_ERROR then connectInfo.timeout
            else if cryptStatusError K (env.getAttribute connectInfo.iUserObject
                K.CRYPT_OPTION_NET_READTIMEOUT).status then 30
            else (env.getAttribute connectInfo.iUserObject
                K.CRYPT_OPTION_NET_READTIMEOUT).value },
        (if connectInfo.connectTimeout ≠ K.CRYPT_ERROR then []
          else [.getAttribute connectInfo.iUserObject
            K.CRYPT_OPTION_NET_CONNECTTIMEOUT
            (env.getAttribute connectInfo.iUserObject
              K.CRYPT_OPTION_NET_CONNECTTIMEOUT).status
            (env.getAttribute connectInfo.iUserObject
              K.CRYPT_OPTION_NET_CONNECTTIMEOUT).value]) ++
        (if connectInfo.timeout ≠ K.CRYPT_ERROR then []
          else [.getAttribute connectInfo.iUserObject
            K.CRYPT_OPTION_NET_READTIMEOUT
            (env.getAttribute connectInfo.iUserObject
              K.CRYPT_OPTION_NET_READTIMEOUT).status
            (env.getAttribute connectInfo.iUserObject
              K.CRYPT_OPTION_NET_READTIMEOUT).value])⟩ := by
  unfold initStream
  dsimp only
  rw [if_neg (not_not.mpr hprotocol)]

theorem initStream_eq_entry_fail {σ : Type} (K : Consts) (env : NetEnv σ)
    (stream : STREAM) (netStream : NET_STREAM_INFO) (protocol : Int)
    (connectInfo : NET_CONNECT_INFO) (isServer : Bool)
    (hprotocol : ¬ (protocol > K.STREAM_PROTOCOL_NONE ∧
      protocol < K.STREAM_PROTOCOL_LAST)) :
    initStream K env stream netStream protocol connectInfo isServer =
      ⟨K.CRYPT_ERROR_INTERNAL, stream, netStream, []⟩ := by
  unfold initStream
  dsimp only
  rw [if_pos hprotocol]

/-- C13: for every protocol that `initStream` accepts, in the client and in
the server role, the active (connect-phase) timeout it stores is
`max 5 t`, where `t` is the explicit connect timeout when one was supplied
(`connectTimeout` is not `CRYPT_ERROR`) and otherwise the default read from
the user object, or 30 when that read fails. -/
theorem initStream_connect_timeout {σ : Type} (K : Consts) (env : NetEnv σ)
    (stream : STREAM) (netStream : NET_STREAM_INFO) (protocol : Int)
    (connectInfo : NET_CONNECT_INFO) (isServer : Bool)
    (hprotocol : protocol > K.STREAM_PROTOCOL_NONE ∧
      protocol < K.STREAM_PROTOCOL_LAST) :
    (initStream K env stream netStream protocol connectInfo isServer).status =
      K.CRYPT_OK ∧
    (initStream K env stream netStream protocol connectInfo
        isServer).netStream.timeout =
      max 5
        (if connectInfo.connectTimeout ≠ K.CRYPT_ERROR then
          connectInfo.connectTimeout
        else if cryptStatusError K (env.getAttribute connectInfo.iUserObject
            K.CRYPT_OPTION_NET_CONNECTTIMEOUT).status = true then 30
        else (env.getAttribute connectInfo.iUserObject
            K.CRYPT_OPTION_NET_CONNECTTIMEOUT).value) := by
  rw [initStream_eq K env stream netStream protocol connectInfo isServer hprotocol]
  refine ⟨rfl, ?_⟩
  dsimp only
  split <;> omega

set_option maxRecDepth 100000 in
/-- C13, witness: an explicit connect timeout of 2 seconds is stored as 5. -/
theorem initStream_connect_timeout_witness :
    (1 > sampleConsts.STREAM_PROTOCOL_NONE ∧ 1 < sampleConsts.STREAM_PROTOCOL_LAST) ∧
    (initStream sampleConsts (scenarioEnv plainScenario) zeroStream
      zeroNetStreamInfo 1
      { sampleConnectInfo "example.com".toList with connectTimeout := 2 }
      false).netStream.timeout = 5 :=
  ⟨by decide,
    (initStream_connect_timeout sampleConsts (scenarioEnv plainScenario)
      zeroStream zeroNetStreamInfo 1
      { sampleConnectInfo "example.com".toList with connectTimeout := 2 }
      false (by decide)).2.trans (by decide)⟩

/-! ## cleanupStream and sNetDisconnect: the outcome along each path -/

theorem cleanupStream_eq_disconnect {σ : Type} (K : Consts) (env : NetEnv σ)
    (stream : STREAM) (ts : σ)
    (h1 : DATAPTR_GET K stream.netStream ≠ NULL)
    (h2 : sanityCheckNetStream K stream.netStreamInfo = true)
    (h3 : stream.netStreamInfo.nFlags &&& K.STREAM_NFLAG_USERSOCKET = 0)
    (h4 : FNPTR_GET K stream.netStreamInfo.transportDisconnectFunction ≠ NULL) :
    cleanupStream K env stream ts true =
      ⟨zeroStream, env.transportDisconnect ts stream.netStreamInfo true,
        [.transportDisconnect true,
          .zeroise (K.SIZEOF_NET_STREAM_INFO + stream.netStreamInfo.storageSize),
          .clFree (DATAPTR_GET K stream.netStream)]⟩ := by
  unfold cleanupStream
  dsimp only
  rw [if_neg h1, if_neg (by rw [h2]; decide), if_pos ⟨rfl, h3⟩, if_neg h4]

theorem cleanupStream_eq_missing {σ : Type} (K : Consts) (env : NetEnv σ)
    (stream : STREAM) (ts : σ)
    (h1 : DATAPTR_GET K stream.netStream ≠ NULL)
    (h2 : sanityCheckNetStream K stream.netStreamInfo = true)
    (h3 : stream.netStreamInfo.nFlags &&& K.STREAM_NFLAG_USERSOCKET = 0)
    (h4 : FNPTR_GET K stream.netStreamInfo.transportDisconnectFunction = NULL) :
    cleanupStream K env stream ts true = ⟨stream, ts, []⟩ := by
  unfold cleanupStream
  dsimp only
  rw [if_neg h1, if_neg (by rw [h2]; decide), if_pos ⟨rfl, h3⟩, if_pos h4]

theorem cleanupStream_eq_keep {σ : Type} (K : Consts) (env : NetEnv σ)
    (stream : STREAM) (ts : σ) (cleanupTransport : Bool)
    (h1 : DATAPTR_GET K stream.netStream ≠ NULL)
    (h2 : sanityCheckNetStream K stream.netStreamInfo = true)
    (h3 : ¬ (cleanupTransport = true ∧
      stream.netStreamInfo.nFlags &&& K.STREAM_NFLAG_USERSOCKET = 0)) :
    cleanupStream K env stream ts cleanupTransport =
      ⟨zeroStream, ts,
        [.zeroise (K.SIZEOF_NET_STREAM_INFO + stream.netStreamInfo.storageSize),
          .clFree (DATAPTR_GET K stream.netStream)]⟩ := by
  unfold cleanupStream
  dsimp only
  rw [if_neg h1, if_neg (by rw [h2]; decide), if_neg h3]

theorem cleanupStream_eq_detached {σ : Type} (K : Consts) (env : NetEnv σ)
    (stream : STREAM) (ts : σ) (cleanupTransport : Bool)
    (h1 : DATAPTR_GET K stream.netStream = NULL) :
    cleanupStream K env stream ts cleanupTransport = ⟨stream, ts, []⟩ := by
  unfold cleanupStream
  dsimp only
  rw [if_pos h1]

theorem sNetDisconnect_eq {σ : Type} (K : Consts) (env : NetEnv σ)
    (stream : STREAM) (ts : σ)
    (h1 : DATAPTR_GET K stream.netStream ≠ NULL)
    (h2 : sanityCheckNetStream K stream.netStreamInfo = true) :
    sNetDisconnect K env stream ts =
      ⟨K.CRYPT_OK, (cleanupStream K env stream ts true).stream,
        (cleanupStream K env stream ts true).tstate,
        (cleanupStream K env stream ts true).events⟩ := by
  unfold sNetDisconnect
  dsimp only
  rw [if_neg h1, if_neg (by rw [h2]; decide)]

/-! ## C20: sNetDisconnect -/

/-- C20, where the operation table is intact: `sNetDisconnect` on a stream
whose descriptor is attached, passes the sanity check and, when the socket
was not caller-supplied, has its transport disconnect operation present,
returns `CRYPT_OK` and releases the descriptor (the stream is zeroed, so it
has no descriptor attached any more, after the descriptor was zeroed and
freed); it invokes the transport disconnect operation exactly once, as a full
disconnect and before the release, when the socket was not caller-supplied,
and never when it was. -/
theorem sNetDisconnect_releases {σ : Type} (K : Consts) (env : NetEnv σ)
    (stream : STREAM) (ts : σ)
    (hattached : DATAPTR_GET K stream.netStream ≠ NULL)
    (hsane : sanityCheckNetStream K stream.netStreamInfo = true)
    (hpresent : stream.netStreamInfo.nFlags &&& K.STREAM_NFLAG_USERSOCKET = 0 →
      FNPTR_GET K stream.netStreamInfo.transportDisconnectFunction ≠ NULL) :
    (sNetDisconnect K env stream ts).status = K.CRYPT_OK ∧
    (sNetDisconnect K env stream ts).stream = zeroStream ∧
    DATAPTR_GET K (sNetDisconnect K env stream ts).stream.netStream = NULL ∧
    (stream.netStreamInfo.nFlags &&& K.STREAM_NFLAG_USERSOCKET = 0 →
      (sNetDisconnect K env stream ts).events =
        [.transportDisconnect true,
          .zeroise (K.SIZEOF_NET_STREAM_INFO + stream.netStreamInfo.storageSize),
          .clFree (DATAPTR_GET K stream.netStream)] ∧
      (sNetDisconnect K env stream ts).tstate =
        env.transportDisconnect ts stream.netStreamInfo true) ∧
    (stream.netStreamInfo.nFlags &&& K.STREAM_NFLAG_USERSOCKET ≠ 0 →
      (sNetDisconnect K env stream ts).events =
        [.zeroise (K.SIZEOF_NET_STREAM_INFO + stream.netStreamInfo.storageSize),
          .clFree (DATAPTR_GET K stream.netStream)] ∧
      (sNetDisconnect K env stream ts).tstate = ts) := by
  rw [sNetDisconnect_eq K env stream ts hattached hsane]
  by_cases hown : stream.netStreamInfo.nFlags &&& K.STREAM_NFLAG_USERSOCKET = 0
  · rw [cleanupStream_eq_disconnect K env stream ts hattached hsane hown
      (hpresent hown)]
    exact ⟨rfl, rfl, DATAPTR_GET_zeroStream K, fun _ => ⟨rfl, rfl⟩,
      fun h => absurd hown h⟩
  · rw [cleanupStream_eq_keep K env stream ts true hattached hsane
      (fun h => hown h.2)]
    exact ⟨rfl, rfl, DATAPTR_GET_zeroStream K, fun h => absurd h hown,
      fun _ => ⟨rfl, rfl⟩⟩

set_option maxRecDepth 100000 in
/-- C20, an instance with the operation table intact: the disconnect of a TCP
stream that owns its socket is one full transport disconnect, then the
descriptor is zeroed and freed. -/
theorem sNetDisconnect_releases_witness :
    DATAPTR_GET sampleConsts (tcpStream false).netStream ≠ NULL ∧
    sanityCheckNetStream sampleConsts (tcpStream false).netStreamInfo = true ∧
    (sNetDisconnect sampleConsts (scenarioEnv plainScenario) (tcpStream false)
      0).status = 0 ∧
    (sNetDisconnect sampleConsts (scenarioEnv plainScenario) (tcpStream false)
      0).events =
      [.transportDisconnect true, .zeroise 1024, .clFree 65536] :=
  ⟨by decide, by decide,
    (sNetDisconnect_releases sampleConsts (scenarioEnv plainScenario)
      (tcpStream false) 0 (by decide) (by decide) (fun _ => by decide)).1,
    ((sNetDisconnect_releases sampleConsts (scenarioEnv plainScenario)
      (tcpStream false) 0 (by decide) (by decide)
      (fun _ => by decide)).2.2.2.1 (by decide)).1.trans (by decide)⟩

set_option maxRecDepth 100000 in
/-- C20, the failing input: the descriptor of `emptyTableStream` is unbuffered
and its operation table is empty, yet it passes `sanityCheckNetStream`, which
returns `TRUE` for an unbuffered stream before it reaches the check of the
access functions; the socket is not caller-supplied.  `sNetDisconnect`
returns `CRYPT_OK`, but `cleanupStream` has stopped at its check that the
transport disconnect operation is present: no transport disconnect was
invoked and the descriptor was neither zeroed nor freed, the stream is
unchanged and still has it attached. -/
theorem sNetDisconnect_empty_table_not_released :
    DATAPTR_GET sampleConsts emptyTableStream.netStream ≠ NULL ∧
    sanityCheckNetStream sampleConsts emptyTableStream.netStreamInfo = true ∧
    emptyTableStream.netStreamInfo.nFlags &&&
      sampleConsts.STREAM_NFLAG_USERSOCKET = 0 ∧
    (sNetDisconnect sampleConsts (scenarioEnv plainScenario) emptyTableStream
      0).status = sampleConsts.CRYPT_OK ∧
    (sNetDisconnect sampleConsts (scenarioEnv plainScenario) emptyTableStream
      0).events = [] ∧
    (sNetDisconnect sampleConsts (scenarioEnv plainScenario) emptyTableStream
      0).stream = emptyTableStream ∧
    DATAPTR_GET sampleConsts
      (sNetDisconnect sampleConsts (scenarioEnv plainScenario) emptyTableStream
        0).stream.netStream ≠ NULL := by
  decide

/-! ## openNetworkConnection: the outcome along each path -/

theorem strCompareZ_of_eq (src dest : List Char)
    (h : (src.takeWhile fun c => c ≠ Char.ofNat 0) = dest) :
    strCompareZ src dest = 0 := by
  unfold strCompareZ
  rw [h, if_pos rfl]

theorem open_eq_entry_fail {σ : Type} (K : Consts) (env : NetEnv σ)
    (netStream : NET_STREAM_INFO) (ts : σ) (options : Int)
    (proxyUrl : Option (List Char)) (proxyUrlLen : Int)
    (hentry : ¬ OpenEntryOK K netStream options proxyUrl proxyUrlLen) :
    openNetworkConnection K env netStream ts options proxyUrl proxyUrlLen =
      ⟨K.CRYPT_ERROR_INTERNAL, netStream, ts, []⟩ := by
  unfold openNetworkConnection
  by_cases h1 : options > K.NET_OPTION_NONE ∧ options < K.NET_OPTION_LAST
  · rw [if_neg (not_not.mpr h1)]
    by_cases h2 : (proxyUrl = none ∧ proxyUrlLen = 0) ∨
        (proxyUrl ≠ none ∧ proxyUrlLen > 0 ∧ proxyUrlLen ≤ K.MAX_DNS_SIZE)
    · rw [if_neg (not_not.mpr h2)]
      by_cases h3 : FNPTR_GET K netStream.transportConnectFunction = NULL
      · rw [if_pos h3]
      · exact absurd ⟨h1, h2, h3⟩ hentry
    · rw [if_pos h2]
  · rw [if_pos h1]

theorem open_eq_user_socket {σ : Type} (K : Consts) (env : NetEnv σ)
    (netStream : NET_STREAM_INFO) (ts : σ) (options : Int)
    (proxyUrl : Option (List Char)) (proxyUrlLen : Int)
    (hentry : OpenEntryOK K netStream options proxyUrl proxyUrlLen)
    (huser : netStream.nFlags &&& K.STREAM_NFLAG_USERSOCKET ≠ 0)
    (hopt : options ≠ K.NET_OPTION_NETWORKSOCKET_DUMMY) :
    openNetworkConnection K env netStream ts options proxyUrl proxyUrlLen =
      ⟨K.CRYPT_OK, netStream, ts, []⟩ := by
  obtain ⟨h1, h2, h3⟩ := hentry
  unfold openNetworkConnection
  rw [if_neg (not_not.mpr h1), if_neg (not_not.mpr h2), if_neg h3, if_pos huser,
    if_neg hopt]

theorem open_eq_user_socket_check {σ : Type} (K : Consts) (env : NetEnv σ)
    (netStream : NET_STREAM_INFO) (ts : σ) (options : Int)
    (proxyUrl : Option (List Char)) (proxyUrlLen : Int)
    (hentry : OpenEntryOK K netStream options proxyUrl proxyUrlLen)
    (huser : netStream.nFlags &&& K.STREAM_NFLAG_USERSOCKET ≠ 0)
    (hopt : options = K.NET_OPTION_NETWORKSOCKET_DUMMY)
    (hcheck : FNPTR_GET K netStream.transportCheckFunction ≠ NULL) :
    openNetworkConnection K env netStream ts options proxyUrl proxyUrlLen =
      ⟨(env.transportCheck ts netStream).1, netStream,
        (env.transportCheck ts netStream).2,
        [.transportCheck (env.transportCheck ts netStream).1]⟩ := by
  obtain ⟨h1, h2, h3⟩ := hentry
  unfold openNetworkConnection
  rw [if_neg (not_not.mpr h1), if_neg (not_not.mpr h2), if_neg h3, if_pos huser,
    if_pos hopt, if_neg hcheck]

theorem open_eq_user_socket_nocheck {σ : Type} (K : Consts) (env : NetEnv σ)
    (netStream : NET_STREAM_INFO) (ts : σ) (options : Int)
    (proxyUrl : Option (List Char)) (proxyUrlLen : Int)
    (hentry : OpenEntryOK K netStream options proxyUrl proxyUrlLen)
    (huser : netStream.nFlags &&& K.STREAM_NFLAG_USERSOCKET ≠ 0)
    (hopt : options = K.NET_OPTION_NETWORKSOCKET_DUMMY)
    (hcheck : FNPTR_GET K netStream.transportCheckFunction = NULL) :
    openNetworkConnection K env netStream ts options proxyUrl proxyUrlLen =
      ⟨K.CRYPT_ERROR_INTERNAL, netStream, ts, []⟩ := by
  obtain ⟨h1, h2, h3⟩ := hentry
  unfold openNetworkConnection
  rw [if_neg (not_not.mpr h1), if_neg (not_not.mpr h2), if_neg h3, if_pos huser,
    if_pos hopt, if_pos hcheck]

theorem open_eq_direct {σ : Type} (K : Consts) (env : NetEnv σ)
    (netStream : NET_STREAM_INFO) (ts : σ) (options : Int) (proxyUrlLen : Int)
    (hentry : OpenEntryOK K netStream options none proxyUrlLen)
    (hown : netStream.nFlags &&& K.STREAM_NFLAG_USERSOCKET = 0) :
    openNetworkConnection K env netStream ts options none proxyUrlLen =
      ⟨(env.transportConnect ts netStream netStream.host netStream.hostLen
          netStream.port).1.status,
        (env.transportConnect ts netStream netStream.host netStream.hostLen
          netStream.port).1.netStream,
        (env.transportConnect ts netStream netStream.host netStream.hostLen
          netStream.port).2,
        [.transportConnect netStream.host netStream.hostLen netStream.port
          (env.transportConnect ts netStream netStream.host netStream.hostLen
            netStream.port).1.status]⟩ := by
  obtain ⟨h1, h2, h3⟩ := hentry
  unfold openNetworkConnection
  rw [if_neg (not_not.mpr h1), if_neg (not_not.mpr h2), if_neg h3,
    if_neg (not_not.mpr hown), if_pos rfl]

theorem open_eq_discovery_fail {σ : Type} (K : Consts) (env : NetEnv σ)
    (netStream : NET_STREAM_INFO) (ts : σ) (options : Int)
    (proxy : List Char) (proxyUrlLen : Int)
    (hentry : OpenEntryOK K netStream options (some proxy) proxyUrlLen)
    (hown : netStream.nFlags &&& K.STREAM_NFLAG_USERSOCKET = 0)
    (hauto : strCompareZ proxy "[Autodetect]".toList = 0)
    (hfail : cryptStatusError K
      (env.findProxyUrl K.MAX_DNS_SIZE netStream.host netStream.hostLen).status =
        true) :
    openNetworkConnection K env netStream ts options (some proxy) proxyUrlLen =
      ⟨K.CRYPT_ERROR_OPEN,
        { netStream with
          errorInfo := retExtRecord "Couldn't auto-detect HTTP proxy" },
        ts,
        [.findProxyUrl
          (env.findProxyUrl K.MAX_DNS_SIZE netStream.host netStream.hostLen).status
          (env.findProxyUrl K.MAX_DNS_SIZE netStream.host netStream.hostLen).url]⟩ := by
  obtain ⟨h1, h2, h3⟩ := hentry
  unfold openNetworkConnection
  rw [if_neg (not_not.mpr h1), if_neg (not_not.mpr h2), if_neg h3,
    if_neg (not_not.mpr hown), if_neg (by simp), Option.getD_some, if_pos hauto]
  dsimp only
  rw [if_pos hfail]

theorem open_eq_discovered {σ : Type} (K : Consts) (env : NetEnv σ)
    (netStream : NET_STREAM_INFO) (ts : σ) (options : Int)
    (proxy : List Char) (proxyUrlLen : Int)
    (hentry : OpenEntryOK K netStream options (some proxy) proxyUrlLen)
    (hown : netStream.nFlags &&& K.STREAM_NFLAG_USERSOCKET = 0)
    (hauto : strCompareZ proxy "[Autodetect]".toList = 0)
    (hfound : cryptStatusError K
      (env.findProxyUrl K.MAX_DNS_SIZE netStream.host netStream.hostLen).status =
        false) :
    openNetworkConnection K env netStream ts options (some proxy) proxyUrlLen =
      openViaProxy K env netStream ts
        (env.findProxyUrl K.MAX_DNS_SIZE netStream.host netStream.hostLen).url
        (env.findProxyUrl K.MAX_DNS_SIZE netStream.host netStream.hostLen).url.length
        [.findProxyUrl
          (env.findProxyUrl K.MAX_DNS_SIZE netStream.host netStream.hostLen).status
          (env.findProxyUrl K.MAX_DNS_SIZE netStream.host netStream.hostLen).url] := by
  obtain ⟨h1, h2, h3⟩ := hentry
  unfold openNetworkConnection
  rw [if_neg (not_not.mpr h1), if_neg (not_not.mpr h2), if_neg h3,
    if_neg (not_not.mpr hown), if_neg (by simp), Option.getD_some, if_pos hauto]
  dsimp only
  rw [if_neg (by rw [hfound]; decide)]

theorem open_eq_configured {σ : Type} (K : Consts) (env : NetEnv σ)
    (netStream : NET_STREAM_INFO) (ts : σ) (options : Int)
    (proxy : List Char) (proxyUrlLen : Int)
    (hentry : OpenEntryOK K netStream options (some proxy) proxyUrlLen)
    (hown : netStream.nFlags &&& K.STREAM_NFLAG_USERSOCKET = 0)
    (hplain : strCompareZ proxy "[Autodetect]".toList ≠ 0) :
    openNetworkConnection K env netStream ts options (some proxy) proxyUrlLen =
      openViaProxy K env netStream ts proxy proxyUrlLen [] := by
  obtain ⟨h1, h2, h3⟩ := hentry
  unfold openNetworkConnection
  rw [if_neg (not_not.mpr h1), if_neg (not_not.mpr h2), if_neg h3,
    if_neg (not_not.mpr hown), if_neg (by simp), Option.getD_some, if_neg hplain]

theorem openViaProxy_eq_parse_fail {σ : Type} (K : Consts) (env : NetEnv σ)
    (netStream : NET_STREAM_INFO) (ts : σ) (url : List Char) (urlLen : Int)
    (events : List NetEvent)
    (hfail : cryptStatusError K
      (env.parseURL (slice url 0 urlLen) 80 K.URL_TYPE_HTTP).status = true) :
    openViaProxy K env netStream ts url urlLen events =
      ⟨K.CRYPT_ERROR_OPEN,
        { netStream with errorInfo := retExtRecord "Invalid HTTP proxy URL" },
        ts,
        events ++ [.parseURL (slice url 0 urlLen) 80 K.URL_TYPE_HTTP
          (env.parseURL (slice url 0 urlLen) 80 K.URL_TYPE_HTTP).status]⟩ := by
  unfold openViaProxy
  dsimp only
  rw [if_pos hfail]

theorem openViaProxy_eq_connect {σ : Type} (K : Consts) (env : NetEnv σ)
    (netStream : NET_STREAM_INFO) (ts : σ) (url : List Char) (urlLen : Int)
    (events : List NetEvent)
    (hparsed : cryptStatusError K
      (env.parseURL (slice url 0 urlLen) 80 K.URL_TYPE_HTTP).status = false) :
    openViaProxy K env netStream ts url urlLen events =
      ⟨(env.transportConnect ts netStream
          (env.parseURL (slice url 0 urlLen) 80 K.URL_TYPE_HTTP).urlInfo.host
          (env.parseURL (slice url 0 urlLen) 80 K.URL_TYPE_HTTP).urlInfo.hostLen
          (env.parseURL (slice url 0 urlLen) 80 K.URL_TYPE_HTTP).urlInfo.port).1.status,
        (env.transportConnect ts netStream
          (env.parseURL (slice url 0 urlLen) 80 K.URL_TYPE_HTTP).urlInfo.host
          (env.parseURL (slice url 0 urlLen) 80 K.URL_TYPE_HTTP).urlInfo.hostLen
          (env.parseURL (slice url 0 urlLen) 80
            K.URL_TYPE_HTTP).urlInfo.port).1.netStream,
        (env.transportConnect ts netStream
          (env.parseURL (slice url 0 urlLen) 80 K.URL_TYPE_HTTP).urlInfo.host
          (env.parseURL (slice url 0 urlLen) 80 K.URL_TYPE_HTTP).urlInfo.hostLen
          (env.parseURL (slice url 0 urlLen) 80 K.URL_TYPE_HTTP).urlInfo.port).2,
        events ++
          [.parseURL (slice url 0 urlLen) 80 K.URL_TYPE_HTTP
            (env.parseURL (slice url 0 urlLen) 80 K.URL_TYPE_HTTP).status,
            .transportConnect
              (env.parseURL (slice url 0 urlLen) 80 K.URL_TYPE_HTTP).urlInfo.host
              (env.parseURL (slice url 0 urlLen) 80 K.URL_TYPE_HTTP).urlInfo.hostLen
              (env.parseURL (slice url 0 urlLen) 80 K.URL_TYPE_HTTP).urlInfo.port
              (env.transportConnect ts netStream
                (env.parseURL (slice url 0 urlLen) 80 K.URL_TYPE_HTTP).urlInfo.host
                (env.parseURL (slice url 0 urlLen) 80
                  K.URL_TYPE_HTTP).urlInfo.hostLen
                (env.parseURL (slice url 0 urlLen) 80
                  K.URL_TYPE_HTTP).urlInfo.port).1.status]⟩ := by
  unfold openViaProxy
  dsimp only
  rw [if_neg (by rw [hparsed]; decide)]

/-! ## C11: the transport connect goes to the target or to the proxy -/

/-- C11: for a connect whose socket is not caller-supplied,
`openNetworkConnection` (its entry checks passed) invokes the transport
connect operation exactly once and returns its status.  Without a proxy the
call carries the descriptor's own host, host length and port.  With a proxy
the call carries the host, host length and port that `parseURL` (default
port 80) produced from the proxy URL: the configured proxy string, or the
URL found by discovery when the string is the sentinel. -/
theorem openNetworkConnection_dials_target_or_proxy {σ : Type} (K : Consts)
    (env : NetEnv σ) (netStream : NET_STREAM_INFO) (ts : σ) (options : Int)
    (proxyUrl : Option (List Char)) (proxyUrlLen : Int)
    (hentry : OpenEntryOK K netStream options proxyUrl proxyUrlLen)
    (hown : netStream.nFlags &&& K.STREAM_NFLAG_USERSOCKET = 0) :
    (proxyUrl = none →
      (openNetworkConnection K env netStream ts options proxyUrl
          proxyUrlLen).events =
        [.transportConnect netStream.host netStream.hostLen netStream.port
          (env.transportConnect ts netStream netStream.host netStream.hostLen
            netStream.port).1.status] ∧
      (openNetworkConnection K env netStream ts options proxyUrl
          proxyUrlLen).status =
        (env.transportConnect ts netStream netStream.host netStream.hostLen
          netStream.port).1.status) ∧
    (∀ proxy : List Char, proxyUrl = some proxy →
      strCompareZ proxy "[Autodetect]".toList ≠ 0 →
      cryptStatusError K
        (env.parseURL (slice proxy 0 proxyUrlLen) 80 K.URL_TYPE_HTTP).status =
          false →
      (openNetworkConnection K env netStream ts options proxyUrl
          proxyUrlLen).events =
        [.parseURL (slice proxy 0 proxyUrlLen) 80 K.URL_TYPE_HTTP
            (env.parseURL (slice proxy 0 proxyUrlLen) 80 K.URL_TYPE_HTTP).status,
          .transportConnect
            (env.parseURL (slice proxy 0 proxyUrlLen) 80
              K.URL_TYPE_HTTP).urlInfo.host
            (env.parseURL (slice proxy 0 proxyUrlLen) 80
              K.URL_TYPE_HTTP).urlInfo.hostLen
            (env.parseURL (slice proxy 0 proxyUrlLen) 80
              K.URL_TYPE_HTTP).urlInfo.port
            (env.transportConnect ts netStream
              (env.parseURL (slice proxy 0 proxyUrlLen) 80
                K.URL_TYPE_HTTP).urlInfo.host
              (env.parseURL (slice proxy 0 proxyUrlLen) 80
                K.URL_TYPE_HTTP).urlInfo.hostLen
              (env.parseURL (slice proxy 0 proxyUrlLen) 80
                K.URL_TYPE_HTTP).urlInfo.port).1.status] ∧
      (openNetworkConnection K env netStream ts options proxyUrl
          proxyUrlLen).status =
        (env.transportConnect ts netStream
          (env.parseURL (slice proxy 0 proxyUrlLen) 80
            K.URL_TYPE_HTTP).urlInfo.host
          (env.parseURL (slice proxy 0 proxyUrlLen) 80
            K.URL_TYPE_HTTP).urlInfo.hostLen
          (env.parseURL (slice proxy 0 proxyUrlLen) 80
            K.URL_TYPE_HTTP).urlInfo.port).1.status) ∧
    (∀ proxy url : List Char, proxyUrl = some proxy →
      strCompareZ proxy "[Autodetect]".toList = 0 →
      url = (env.findProxyUrl K.MAX_DNS_SIZE netStream.host
        netStream.hostLen).url →
      cryptStatusError K
        (env.findProxyUrl K.MAX_DNS_SIZE netStream.host
          netStream.hostLen).status = false →
      cryptStatusError K
        (env.parseURL (slice url 0 url.length) 80 K.URL_TYPE_HTTP).status =
          false →
      (openNetworkConnection K env netStream ts options proxyUrl
          proxyUrlLen).events =
        [.findProxyUrl
            (env.findProxyUrl K.MAX_DNS_SIZE netStream.host
              netStream.hostLen).status url,
          .parseURL (slice url 0 url.length) 80 K.URL_TYPE_HTTP
            (env.parseURL (slice url 0 url.length) 80 K.URL_TYPE_HTTP).status,
          .transportConnect
            (env.parseURL (slice url 0 url.length) 80
              K.URL_TYPE_HTTP).urlInfo.host
            (env.parseURL (slice url 0 url.length) 80
              K.URL_TYPE_HTTP).urlInfo.hostLen
            (env.parseURL (slice url 0 url.length) 80
              K.URL_TYPE_HTTP).urlInfo.port
            (env.transportConnect ts netStream
              (env.parseURL (slice url 0 url.length) 80
                K.URL_TYPE_HTTP).urlInfo.host
              (env.parseURL (slice url 0 url.length) 80
                K.URL_TYPE_HTTP).urlInfo.hostLen
              (env.parseURL (slice url 0 url.length) 80
                K.URL_TYPE_HTTP).urlInfo.port).1.status] ∧
      (openNetworkConnection K env netStream ts options proxyUrl
          proxyUrlLen).status =
        (env.transportConnect ts netStream
          (env.parseURL (slice url 0 url.length) 80
            K.URL_TYPE_HTTP).urlInfo.host
          (env.parseURL (slice url 0 url.length) 80
            K.URL_TYPE_HTTP).urlInfo.hostLen
          (env.parseURL (slice url 0 url.length) 80
            K.URL_TYPE_HTTP).urlInfo.port).1.status) := by
  refine ⟨?_, ?_, ?_⟩
  · intro hnone
    subst hnone
    rw [open_eq_direct K env netStream ts options proxyUrlLen hentry hown]
    exact ⟨rfl, rfl⟩
  · intro proxy hsome hplain hparsed
    subst hsome
    rw [open_eq_configured K env netStream ts options proxy proxyUrlLen hentry
      hown hplain, openViaProxy_eq_connect K env netStream ts proxy proxyUrlLen []
      hparsed]
    exact ⟨rfl, rfl⟩
  · intro proxy url hsome hauto hurl hfound hparsed
    subst hsome
    subst hurl
    rw [open_eq_discovered K env netStream ts options proxy proxyUrlLen hentry
      hown hauto hfound, openViaProxy_eq_connect K env netStream ts _ _ _ hparsed]
    exact ⟨rfl, rfl⟩

set_option maxRecDepth 100000 in
/-- C11, witness: target example.com port 80: without a proxy the transport dials
example.com:80; with the proxy string "proxy.local:8080" it dials
proxy.local:8080. -/
theorem openNetworkConnection_dials_target_or_proxy_witness :
    OpenEntryOK sampleConsts (tcpNetStream "example.com".toList) 1
      (some (proxyBufferOf "proxy.local:8080".toList)) 16 ∧
    (tcpNetStream "example.com".toList).nFlags &&&
      sampleConsts.STREAM_NFLAG_USERSOCKET = 0 ∧
    (openNetworkConnection sampleConsts (scenarioEnv plainScenario)
      (tcpNetStream "example.com".toList) 0 1
      (some (proxyBufferOf "proxy.local:8080".toList)) 16).events =
      [.parseURL "proxy.local:8080".toList 80 1 0,
        .transportConnect (some "proxy.local".toList) 11 8080 0] ∧
    (openNetworkConnection sampleConsts (scenarioEnv plainScenario)
      (tcpNetStream "example.com".toList) 0 1 none 0).events =
      [.transportConnect (some "example.com".toList) 11 80 0] :=
  ⟨by unfold OpenEntryOK; decide, by decide,
    ((openNetworkConnection_dials_target_or_proxy sampleConsts
      (scenarioEnv plainScenario) (tcpNetStream "example.com".toList) 0 1
      (some (proxyBufferOf "proxy.local:8080".toList)) 16
      (by unfold OpenEntryOK; decide) (by decide)).2.1
      (proxyBufferOf "proxy.local:8080".toList) rfl (by decide)
      (by decide)).1.trans (by decide),
    by decide⟩

/-! ## C18: automatic proxy detection -/

/-- C18: when the proxy string is the sentinel "[Autodetect]",
`openNetworkConnection` (entry checks passed, socket not caller-supplied)
first calls `findProxyUrl`.  If discovery fails it returns
`CRYPT_ERROR_OPEN` with the message "Couldn't auto-detect HTTP proxy" and
makes no further call, so no transport connect.  If discovery succeeds the
next call is `parseURL` on the URL that discovery found (not on the
sentinel); when that URL does not parse the result is `CRYPT_ERROR_OPEN`
with the message "Invalid HTTP proxy URL", as it is for a configured proxy
string that does not parse.  The two records differ, and the discovery
record is not the cleared record of a failure without a message. -/
theorem openNetworkConnection_autodetect {σ : Type} (K : Consts)
    (env : NetEnv σ) (netStream : NET_STREAM_INFO) (ts : σ) (options : Int)
    (proxy : List Char) (proxyUrlLen : Int)
    (hentry : OpenEntryOK K netStream options (some proxy) proxyUrlLen)
    (hown : netStream.nFlags &&& K.STREAM_NFLAG_USERSOCKET = 0)
    (hsentinel : (proxy.takeWhile fun c => c ≠ Char.ofNat 0) =
      "[Autodetect]".toList) :
    (openNetworkConnection K env netStream ts options (some proxy)
        proxyUrlLen).events.head? =
      some (.findProxyUrl
        (env.findProxyUrl K.MAX_DNS_SIZE netStream.host netStream.hostLen).status
        (env.findProxyUrl K.MAX_DNS_SIZE netStream.host
          netStream.hostLen).url) ∧
    (cryptStatusError K
        (env.findProxyUrl K.MAX_DNS_SIZE netStream.host
          netStream.hostLen).status = true →
      (openNetworkConnection K env netStream ts options (some proxy)
          proxyUrlLen).status = K.CRYPT_ERROR_OPEN ∧
      (openNetworkConnection K env netStream ts options (some proxy)
          proxyUrlLen).netStream.errorInfo =
        retExtRecord "Couldn't auto-detect HTTP proxy" ∧
      (openNetworkConnection K env netStream ts options (some proxy)
          proxyUrlLen).events =
        [.findProxyUrl
          (env.findProxyUrl K.MAX_DNS_SIZE netStream.host
            netStream.hostLen).status
          (env.findProxyUrl K.MAX_DNS_SIZE netStream.host
            netStream.hostLen).url] ∧
      (openNetworkConnection K env netStream ts options (some proxy)
          proxyUrlLen).tstate = ts) ∧
    (∀ url : List Char,
      url = (env.findProxyUrl K.MAX_DNS_SIZE netStream.host
        netStream.hostLen).url →
      cryptStatusError K
        (env.findProxyUrl K.MAX_DNS_SIZE netStream.host
          netStream.hostLen).status = false →
      (openNetworkConnection K env netStream ts options (some proxy)
          proxyUrlLen).events.take 2 =
        [.findProxyUrl
            (env.findProxyUrl K.MAX_DNS_SIZE netStream.host
              netStream.hostLen).status url,
          .parseURL (slice url 0 url.length) 80 K.URL_TYPE_HTTP
            (env.parseURL (slice url 0 url.length) 80 K.URL_TYPE_HTTP).status] ∧
      (cryptStatusError K
          (env.parseURL (slice url 0 url.length) 80 K.URL_TYPE_HTTP).status =
            true →
        (openNetworkConnection K env netStream ts options (some proxy)
            proxyUrlLen).status = K.CRYPT_ERROR_OPEN ∧
        (openNetworkConnection K env netStream ts options (some proxy)
            proxyUrlLen).netStream.errorInfo =
          retExtRecord "Invalid HTTP proxy URL" ∧
        (openNetworkConnection K env netStream ts options (some proxy)
            proxyUrlLen).events =
          [.findProxyUrl
              (env.findProxyUrl K.MAX_DNS_SIZE netStream.host
                netStream.hostLen).status url,
            .parseURL (slice url 0 url.length) 80 K.URL_TYPE_HTTP
              (env.parseURL (slice url 0 url.length) 80
                K.URL_TYPE_HTTP).status])) ∧
    (∀ (proxy2 : List Char) (proxyUrlLen2 : Int),
      OpenEntryOK K netStream options (some proxy2) proxyUrlLen2 →
      strCompareZ proxy2 "[Autodetect]".toList ≠ 0 →
      cryptStatusError K
        (env.parseURL (slice proxy2 0 proxyUrlLen2) 80 K.URL_TYPE_HTTP).status =
          true →
      (openNetworkConnection K env netStream ts options (some proxy2)
          proxyUrlLen2).status = K.CRYPT_ERROR_OPEN ∧
      (openNetworkConnection K env netStream ts options (some proxy2)
          proxyUrlLen2).netStream.errorInfo =
        retExtRecord "Invalid HTTP proxy URL" ∧
      (openNetworkConnection K env netStream ts options (some proxy2)
          proxyUrlLen2).events =
        [.parseURL (slice proxy2 0 proxyUrlLen2) 80 K.URL_TYPE_HTTP
          (env.parseURL (slice proxy2 0 proxyUrlLen2) 80
            K.URL_TYPE_HTTP).status]) ∧
    retExtRecord "Couldn't auto-detect HTTP proxy" ≠
      retExtRecord "Invalid HTTP proxy URL" ∧
    retExtRecord "Couldn't auto-detect HTTP proxy" ≠ zeroErrorInfo := by
  have hauto := strCompareZ_of_eq proxy "[Autodetect]".toList hsentinel
  refine ⟨?_, ?_, ?_, ?_, by decide, by decide⟩
  · by_cases hd : cryptStatusError K
        (env.findProxyUrl K.MAX_DNS_SIZE netStream.host
          netStream.hostLen).status = true
    · rw [open_eq_discovery_fail K env netStream ts options proxy proxyUrlLen
        hentry hown hauto hd]
      rfl
    · have hd2 := Bool.eq_false_iff.mpr hd
      rw [open_eq_discovered K env netStream ts options proxy proxyUrlLen hentry
        hown hauto hd2]
      unfold openViaProxy
      dsimp only
      split <;> rfl
  · intro hd
    rw [open_eq_discovery_fail K env netStream ts options proxy proxyUrlLen
      hentry hown hauto hd]
    exact ⟨rfl, rfl, rfl, rfl⟩
  · intro url hurl hd
    subst hurl
    rw [open_eq_discovered K env netStream ts options proxy proxyUrlLen hentry
      hown hauto hd]
    refine ⟨?_, ?_⟩
    · unfold openViaProxy
      dsimp only
      split <;> rfl
    · intro hp
      rw [openViaProxy_eq_parse_fail K env netStream ts _ _ _ hp]
      exact ⟨rfl, rfl, rfl⟩
  · intro proxy2 proxyUrlLen2 hentry2 hplain hp
    rw [open_eq_configured K env netStream ts options proxy2 proxyUrlLen2
      hentry2 hown hplain,
      openViaProxy_eq_parse_fail K env netStream ts _ _ _ hp]
    exact ⟨rfl, rfl, rfl⟩

set_option maxRecDepth 100000 in
/-- C18, witness: with the proxy string "[Autodetect]" and a discovery that finds nothing,
the open fails with `CRYPT_ERROR_OPEN` after the one call to discovery. -/
theorem openNetworkConnection_autodetect_witness :
    OpenEntryOK sampleConsts (tcpNetStream "example.com".toList) 1
      (some (proxyBufferOf "[Autodetect]".toList)) 12 ∧
    (tcpNetStream "example.com".toList).nFlags &&&
      sampleConsts.STREAM_NFLAG_USERSOCKET = 0 ∧
    ((proxyBufferOf "[Autodetect]".toList).takeWhile fun c => c ≠ Char.ofNat 0) =
      "[Autodetect]".toList ∧
    (openNetworkConnection sampleConsts (scenarioEnv plainScenario)
      (tcpNetStream "example.com".toList) 0 1
      (some (proxyBufferOf "[Autodetect]".toList)) 12).status = -40 ∧
    (openNetworkConnection sampleConsts (scenarioEnv plainScenario)
      (tcpNetStream "example.com".toList) 0 1
      (some (proxyBufferOf "[Autodetect]".toList)) 12).events =
      [.findProxyUrl (-43) []] :=
  ⟨by unfold OpenEntryOK; decide, by decide, by decide,
    ((openNetworkConnection_autodetect sampleConsts (scenarioEnv plainScenario)
      (tcpNetStream "example.com".toList) 0 1
      (proxyBufferOf "[Autodetect]".toList) 12 (by unfold OpenEntryOK; decide)
      (by decide) (by decide)).2.1 (by decide)).1,
    by decide⟩

/-! ## C15: the options variant must match the supplied fields -/

theorem sNetConnect_eq_entry_fail {σ : Type} (K : Consts) (env : NetEnv σ)
    (stream : STREAM) (ts : σ) (protocol : Int) (connectInfo : NET_CONNECT_INFO)
    (errorInfo : ERROR_INFO)
    (hfail : ¬ sNetConnectRequires K protocol connectInfo) :
    sNetConnect K env stream ts protocol connectInfo errorInfo =
      ⟨K.CRYPT_ERROR_INTERNAL, stream, errorInfo, ts, []⟩ := by
  unfold sNetConnect
  rw [if_pos hfail]

theorem sNetConnect_eq_body {σ : Type} (K : Consts) (env : NetEnv σ)
    (stream : STREAM) (ts : σ) (protocol : Int) (connectInfo : NET_CONNECT_INFO)
    (errorInfo : ERROR_INFO)
    (hentry : sNetConnectRequires K protocol connectInfo) :
    sNetConnect K env stream ts protocol connectInfo errorInfo =
      sNetConnectBody K env stream ts protocol connectInfo := by
  unfold sNetConnect
  rw [if_neg (not_not.mpr hentry)]

theorem sNetListen_eq_entry_fail {σ : Type} (K : Consts) (env : NetEnv σ)
    (stream : STREAM) (ts : σ) (protocol : Int) (connectInfo : NET_CONNECT_INFO)
    (errorInfo : ERROR_INFO)
    (hfail : ¬ sNetListenRequires K protocol connectInfo) :
    sNetListen K env stream ts protocol connectInfo errorInfo =
      ⟨K.CRYPT_ERROR_INTERNAL, stream, errorInfo, ts, []⟩ := by
  unfold sNetListen
  rw [if_pos hfail]

theorem sNetListen_eq_body {σ : Type} (K : Consts) (env : NetEnv σ)
    (stream : STREAM) (ts : σ) (protocol : Int) (connectInfo : NET_CONNECT_INFO)
    (errorInfo : ERROR_INFO)
    (hentry : sNetListenRequires K protocol connectInfo) :
    sNetListen K env stream ts protocol connectInfo errorInfo =
      sNetListenBody K env stream ts protocol connectInfo := by
  unfold sNetListen
  rw [if_neg (not_not.mpr hentry)]

theorem optionsMismatch_not_requires (K : Consts) (protocol : Int)
    (connectInfo : NET_CONNECT_INFO) (h : OptionsMismatch K connectInfo) :
    ¬ sNetConnectRequires K protocol connectInfo := by
  rintro ⟨_, _, r3, r4, r5, _⟩
  rcases h with ⟨hopt, hbad⟩ | ⟨hopt, hbad⟩ | ⟨hopt, hbad⟩
  · rcases r3 with r3 | ⟨_, hname, ⟨hlen, _⟩, hsession, hsocket⟩
    · exact r3 hopt
    · rcases hbad with hb | hb | hb | hb
      · exact hname hb
      · omega
      · exact hb hsocket
      · exact hb hsession
  · rcases r5 with ⟨r5a, r5b⟩ | ⟨_, hname, _, hinterface, _, hsession, hsocket⟩
    · rcases hopt with hopt | hopt
      · exact r5a hopt
      · exact r5b hopt
    · rcases hbad with hb | hb | hb | hb
      · exact hb hname
      · exact hb hinterface
      · exact hb hsession
      · exact hsocket hb
  · rcases r4 with r4 | ⟨_, hname, _, hinterface, _, hsession, hsocket⟩
    · exact r4 hopt
    · rcases hbad with hb | hb | hb | hb
      · exact hb hname
      · exact hb hinterface
      · exact hb hsocket
      · exact hsession hb

/-- C15: whenever the options variant does not match the supplied fields (a
named-host variant with a missing or zero-length name, a socket or a session
handle; a caller-socket variant with a name, an interface, a session handle
or no socket; an external-session variant with a name, an interface, a socket
or no session handle), `sNetConnect` returns `CRYPT_ERROR_INTERNAL` and has
called no collaborator at all, so in particular no transport operation; the
stream and the transport state are as they were. -/
theorem sNetConnect_options_mismatch {σ : Type} (K : Consts) (env : NetEnv σ)
    (stream : STREAM) (ts : σ) (protocol : Int) (connectInfo : NET_CONNECT_INFO)
    (errorInfo : ERROR_INFO) (hmismatch : OptionsMismatch K connectInfo) :
    (sNetConnect K env stream ts protocol connectInfo errorInfo).status =
      K.CRYPT_ERROR_INTERNAL ∧
    (sNetConnect K env stream ts protocol connectInfo errorInfo).events = [] ∧
    (∀ e ∈ (sNetConnect K env stream ts protocol connectInfo errorInfo).events,
      e.isTransportOperation = false) ∧
    (sNetConnect K env stream ts protocol connectInfo errorInfo).stream = stream ∧
    (sNetConnect K env stream ts protocol connectInfo errorInfo).tstate = ts := by
  rw [sNetConnect_eq_entry_fail K env stream ts protocol connectInfo errorInfo
    (optionsMismatch_not_requires K protocol connectInfo hmismatch)]
  exact ⟨rfl, rfl, fun e he => absurd he (List.not_mem_nil e), rfl, rfl⟩

set_option maxRecDepth 100000 in
/-- C15, witness: a named-host connect that also carries a socket is rejected. -/
theorem sNetConnect_options_mismatch_witness :
    OptionsMismatch sampleConsts
      { sampleConnectInfo "example.com".toList with networkSocket := 9 } ∧
    (sNetConnect sampleConsts (scenarioEnv plainScenario) zeroStream 0 1
      { sampleConnectInfo "example.com".toList with networkSocket := 9 }
      zeroErrorInfo).status = -16 ∧
    (sNetConnect sampleConsts (scenarioEnv plainScenario) zeroStream 0 1
      { sampleConnectInfo "example.com".toList with networkSocket := 9 }
      zeroErrorInfo).events = [] :=
  ⟨by unfold OptionsMismatch; decide,
    (sNetConnect_options_mismatch sampleConsts (scenarioEnv plainScenario)
      zeroStream 0 1
      { sampleConnectInfo "example.com".toList with networkSocket := 9 }
      zeroErrorInfo (by unfold OptionsMismatch; decide)).1,
    (sNetConnect_options_mismatch sampleConsts (scenarioEnv plainScenario)
      zeroStream 0 1
      { sampleConnectInfo "example.com".toList with networkSocket := 9 }
      zeroErrorInfo (by unfold OptionsMismatch; decide)).2.1⟩

/-! ## C19: the error record after a return -/

/-- C19 (as amended): when the entry checks of `sNetConnect` (of `sNetListen`)
pass, the whole outcome of the call, its error record included, does not
depend on what the record held before the call: the record is cleared
before anything else is done, so it holds only information produced by that
call.  When an entry check fails, the call returns `CRYPT_ERROR_INTERNAL`
before the record is cleared, and the record still holds what it held
before the call. -/
theorem sNetConnect_sNetListen_error_record {σ : Type} (K : Consts)
    (env : NetEnv σ) (stream : STREAM) (ts : σ) (protocol : Int)
    (connectInfo : NET_CONNECT_INFO) (before other : ERROR_INFO) :
    (sNetConnectRequires K protocol connectInfo →
      sNetConnect K env stream ts protocol connectInfo before =
        sNetConnect K env stream ts protocol connectInfo other) ∧
    (¬ sNetConnectRequires K protocol connectInfo →
      (sNetConnect K env stream ts protocol connectInfo before).status =
        K.CRYPT_ERROR_INTERNAL ∧
      (sNetConnect K env stream ts protocol connectInfo before).errorInfo =
        before) ∧
    (sNetListenRequires K protocol connectInfo →
      sNetListen K env stream ts protocol connectInfo before =
        sNetListen K env stream ts protocol connectInfo other) ∧
    (¬ sNetListenRequires K protocol connectInfo →
      (sNetListen K env stream ts protocol connectInfo before).status =
        K.CRYPT_ERROR_INTERNAL ∧
      (sNetListen K env stream ts protocol connectInfo before).errorInfo =
        before) := by
  refine ⟨?_, ?_, ?_, ?_⟩
  · intro h
    rw [sNetConnect_eq_body K env stream ts protocol connectInfo before h,
      sNetConnect_eq_body K env stream ts protocol connectInfo other h]
  · intro h
    rw [sNetConnect_eq_entry_fail K env stream ts protocol connectInfo before h]
    exact ⟨rfl, rfl⟩
  · intro h
    rw [sNetListen_eq_body K env stream ts protocol connectInfo before h,
      sNetListen_eq_body K env stream ts protocol connectInfo other h]
  · intro h
    rw [sNetListen_eq_entry_fail K env stream ts protocol connectInfo before h]
    exact ⟨rfl, rfl⟩

set_option maxRecDepth 100000 in
/-- C19, witness: a connect that fails in the transport leaves the transport's message in
the record, whatever the record held before. -/
theorem sNetConnect_sNetListen_error_record_witness :
    sNetConnectRequires sampleConsts 1 (sampleConnectInfo "example.com".toList) ∧
    (sNetConnect sampleConsts
      (scenarioEnv { plainScenario with connectStatus := -41 }) zeroStream 0 1
      (sampleConnectInfo "example.com".toList)
      ⟨"stale message".toList⟩).errorInfo =
      ⟨"Connection refused".toList⟩ :=
  ⟨by decide,
    (congrArg ConnectOutcome.errorInfo
      ((sNetConnect_sNetListen_error_record sampleConsts
        (scenarioEnv { plainScenario with connectStatus := -41 }) zeroStream 0 1
        (sampleConnectInfo "example.com".toList) ⟨"stale message".toList⟩
        zeroErrorInfo).1 (by decide))).trans (by decide)⟩

set_option maxRecDepth 100000 in
/-- C19, counterexample to the claim as stated: a named-host connect request with a zero-length
name, and a listen request that carries a name, violate the contract of the
entry point.  Both calls return `CRYPT_ERROR_INTERNAL`, and the message that
an earlier call left in the error record is still there afterwards. -/
theorem sNetConnect_stale_error_record_counterexample :
    (sNetConnect sampleConsts (scenarioEnv plainScenario) zeroStream 0 1
      { sampleConnectInfo "example.com".toList with nameLength := 0 }
      ⟨"stale message".toList⟩).status = sampleConsts.CRYPT_ERROR_INTERNAL ∧
    (sNetConnect sampleConsts (scenarioEnv plainScenario) zeroStream 0 1
      { sampleConnectInfo "example.com".toList with nameLength := 0 }
      ⟨"stale message".toList⟩).errorInfo = ⟨"stale message".toList⟩ ∧
    (sNetListen sampleConsts (scenarioEnv plainScenario) zeroStream 0 1
      (sampleConnectInfo "example.com".toList)
      ⟨"stale message".toList⟩).status = sampleConsts.CRYPT_ERROR_INTERNAL ∧
    (sNetListen sampleConsts (scenarioEnv plainScenario) zeroStream 0 1
      (sampleConnectInfo "example.com".toList)
      ⟨"stale message".toList⟩).errorInfo = ⟨"stale message".toList⟩ := by
  decide

/-! ## completeConnect: the outcome along each path -/

theorem completeConnect_eq_reached {σ : Type} (K : Consts) (env : NetEnv σ)
    (stream : STREAM) (ts : σ) (netStreamTemplate : NET_STREAM_INFO)
    (urlInfo : Option URL_INFO) (protocol options : Int)
    (proxyUrl : Option (List Char)) (proxyUrlLen : Int) (iUserObject : Int)
    (errorInfo : ERROR_INFO)
    (hreach : GateReached K env stream netStreamTemplate urlInfo protocol
      options proxyUrl proxyUrlLen iUserObject) :
    completeConnect K env stream ts netStreamTemplate urlInfo protocol options
        proxyUrl proxyUrlLen iUserObject errorInfo =
      if env.krnlWaitSemaphore = false then
        ⟨K.CRYPT_ERROR_NOTINITED, zeroStream,
          retExtRecord "Networking subsystem not available", ts,
          [.waitSemaphore false]⟩
      else if env.transportOK = false then
        ⟨K.CRYPT_ERROR_NOTINITED, zeroStream,
          retExtRecord "Networking subsystem not available", ts,
          [.waitSemaphore true, .transportOK false]⟩
      else
        completeConnectAlloc K env stream ts
          (layerTemplate K env netStreamTemplate protocol options) urlInfo
          protocol options proxyUrl proxyUrlLen errorInfo := by
  obtain ⟨h1, h2, h3, h4, h5, h6, h7, h8, h9, h10, h11, h12, h13⟩ := hreach
  unfold completeConnect
  rw [if_neg (not_not.mpr h1), if_neg (not_not.mpr h2), if_neg (not_not.mpr h3),
    if_neg (not_not.mpr h4), if_neg (not_not.mpr h5), if_neg (not_not.mpr h6),
    if_neg h7, if_neg (not_not.mpr h8), if_neg (not_not.mpr h9),
    if_neg (not_not.mpr h10), if_neg (not_not.mpr h11),
    if_neg (not_not.mpr h12), if_neg (not_not.mpr h13)]

theorem completeConnect_eq_unreached {σ : Type} (K : Consts) (env : NetEnv σ)
    (stream : STREAM) (ts : σ) (netStreamTemplate : NET_STREAM_INFO)
    (urlInfo : Option URL_INFO) (protocol options : Int)
    (proxyUrl : Option (List Char)) (proxyUrlLen : Int) (iUserObject : Int)
    (errorInfo : ERROR_INFO)
    (hstop : ¬ GateReached K env stream netStreamTemplate urlInfo protocol
      options proxyUrl proxyUrlLen iUserObject) :
    ∃ status : Int,
      (status = K.CRYPT_ERROR_INTERNAL ∨ status = K.CRYPT_ERROR_NOTAVAIL) ∧
      completeConnect K env stream ts netStreamTemplate urlInfo protocol options
          proxyUrl proxyUrlLen iUserObject errorInfo =
        ⟨status, stream, errorInfo, ts, []⟩ := by
  unfold completeConnect
  by_cases h1 : stream.type = K.STREAM_TYPE_NETWORK
  swap
  · rw [if_pos h1]; exact ⟨_, Or.inl rfl, rfl⟩
  rw [if_neg (not_not.mpr h1)]
  by_cases h2 : urlInfo = none ∨
      (urlInfo ≠ none ∧ (urlInfo.getD zeroUrlInfo).host ≠ none ∧
        (urlInfo.getD zeroUrlInfo).hostLen > 0)
  swap
  · rw [if_pos h2]; exact ⟨_, Or.inl rfl, rfl⟩
  rw [if_neg (not_not.mpr h2)]
  by_cases h3 : protocol > K.STREAM_PROTOCOL_NONE ∧ protocol < K.STREAM_PROTOCOL_LAST
  swap
  · rw [if_pos h3]; exact ⟨_, Or.inl rfl, rfl⟩
  rw [if_neg (not_not.mpr h3)]
  by_cases h4 : options > K.NET_OPTION_NONE ∧ options < K.NET_OPTION_LAST
  swap
  · rw [if_pos h4]; exact ⟨_, Or.inl rfl, rfl⟩
  rw [if_neg (not_not.mpr h4)]
  by_cases h5 : (proxyUrl = none ∧ proxyUrlLen = 0) ∨
      (proxyUrl ≠ none ∧ proxyUrlLen > 0 ∧ proxyUrlLen ≤ K.MAX_DNS_SIZE)
  swap
  · rw [if_pos h5]; exact ⟨_, Or.inl rfl, rfl⟩
  rw [if_neg (not_not.mpr h5)]
  by_cases h6 : iUserObject = K.DEFAULTUSER_OBJECT_HANDLE ∨
      K.isHandleRangeValid iUserObject = true
  swap
  · rw [if_pos h6]; exact ⟨_, Or.inl rfl, rfl⟩
  rw [if_neg (not_not.mpr h6)]
  by_cases h7 : ¬ (protocol = K.STREAM_PROTOCOL_HTTP ∧ env.USE_HTTP = false)
  swap
  · rw [if_pos (not_not.mp h7)]; exact ⟨_, Or.inr rfl, rfl⟩
  rw [if_neg h7]
  by_cases h8 : protocol = K.STREAM_PROTOCOL_HTTP ∨ protocol = K.STREAM_PROTOCOL_TCP ∨
      protocol = K.STREAM_PROTOCOL_UDP
  swap
  · rw [if_pos h8]; exact ⟨_, Or.inl rfl, rfl⟩
  rw [if_neg (not_not.mpr h8)]
  by_cases h9 : FNPTR_GET K (layerTemplate K env netStreamTemplate protocol
        options).writeFunction ≠ NULL ∧
      FNPTR_GET K (layerTemplate K env netStreamTemplate protocol
        options).readFunction ≠ NULL
  swap
  · rw [if_pos h9]; exact ⟨_, Or.inl rfl, rfl⟩
  rw [if_neg (not_not.mpr h9)]
  by_cases h10 : FNPTR_GET K (layerTemplate K env netStreamTemplate protocol
        options).transportConnectFunction ≠ NULL ∧
      FNPTR_GET K (layerTemplate K env netStreamTemplate protocol
        options).transportDisconnectFunction ≠ NULL
  swap
  · rw [if_pos h10]; exact ⟨_, Or.inl rfl, rfl⟩
  rw [if_neg (not_not.mpr h10)]
  by_cases h11 : FNPTR_GET K (layerTemplate K env netStreamTemplate protocol
        options).transportReadFunction ≠ NULL ∧
      FNPTR_GET K (layerTemplate K env netStreamTemplate protocol
        options).transportWriteFunction ≠ NULL
  swap
  · rw [if_pos h11]; exact ⟨_, Or.inl rfl, rfl⟩
  rw [if_neg (not_not.mpr h11)]
  by_cases h12 : FNPTR_GET K (layerTemplate K env netStreamTemplate protocol
        options).transportOKFunction ≠ NULL ∧
      FNPTR_GET K (layerTemplate K env netStreamTemplate protocol
        options).transportCheckFunction ≠ NULL
  swap
  · rw [if_pos h12]; exact ⟨_, Or.inl rfl, rfl⟩
  rw [if_neg (not_not.mpr h12)]
  by_cases h13 : (layerTemplate K env netStreamTemplate protocol options).nFlags &&&
        K.STREAM_NFLAG_ISSERVER ≠ 0 ∨
      (urlInfo ≠ none ∧ (urlInfo.getD zeroUrlInfo).host ≠ none ∧
        (urlInfo.getD zeroUrlInfo).hostLen ≠ 0) ∨
      (layerTemplate K env netStreamTemplate protocol options).netSocket ≠
        K.CRYPT_ERROR
  swap
  · rw [if_pos h13]; exact ⟨_, Or.inl rfl, rfl⟩
  rw [if_neg (not_not.mpr h13)]
  exact absurd ⟨h1, h2, h3, h4, h5, h6, h7, h8, h9, h10, h11, h12, h13⟩ hstop

/-! ## C17: the driver-ready gate -/

/-- C17: when `completeConnect` reaches the driver-ready gate (the checks
before it passed) and the gate does not signal or the transport liveness
check fails, it returns `CRYPT_ERROR_NOTINITED`, the caller's error record
holds the message "Networking subsystem not available", the caller's stream
is zeroed, and the only calls made are the wait on the gate and, if the gate
signalled, the liveness check: no descriptor is allocated and the transport
connect operation is not invoked. -/
theorem completeConnect_gate_failure {σ : Type} (K : Consts) (env : NetEnv σ)
    (stream : STREAM) (ts : σ) (netStreamTemplate : NET_STREAM_INFO)
    (urlInfo : Option URL_INFO) (protocol options : Int)
    (proxyUrl : Option (List Char)) (proxyUrlLen : Int) (iUserObject : Int)
    (errorInfo : ERROR_INFO)
    (hreach : GateReached K env stream netStreamTemplate urlInfo protocol
      options proxyUrl proxyUrlLen iUserObject)
    (hgate : env.krnlWaitSemaphore = false ∨ env.transportOK = false) :
    (completeConnect K env stream ts netStreamTemplate urlInfo protocol options
      proxyUrl proxyUrlLen iUserObject errorInfo).status =
        K.CRYPT_ERROR_NOTINITED ∧
    (completeConnect K env stream ts netStreamTemplate urlInfo protocol options
      proxyUrl proxyUrlLen iUserObject errorInfo).errorInfo.errorString =
        "Networking subsystem not available".toList ∧
    (completeConnect K env stream ts netStreamTemplate urlInfo protocol options
      proxyUrl proxyUrlLen iUserObject errorInfo).stream = zeroStream ∧
    (completeConnect K env stream ts netStreamTemplate urlInfo protocol options
      proxyUrl proxyUrlLen iUserObject errorInfo).tstate = ts ∧
    (completeConnect K env stream ts netStreamTemplate urlInfo protocol options
      proxyUrl proxyUrlLen iUserObject errorInfo).events =
        (if env.krnlWaitSemaphore = false then [.waitSemaphore false]
          else [.waitSemaphore true, .transportOK false]) ∧
    (∀ e ∈ (completeConnect K env stream ts netStreamTemplate urlInfo protocol
        options proxyUrl proxyUrlLen iUserObject errorInfo).events,
      e.isAlloc = false ∧ e.isTransportConnect = false) := by
  rw [completeConnect_eq_reached K env stream ts netStreamTemplate urlInfo
    protocol options proxyUrl proxyUrlLen iUserObject errorInfo hreach]
  by_cases hsem : env.krnlWaitSemaphore = false
  · rw [if_pos hsem, if_pos hsem]
    refine ⟨rfl, rfl, rfl, rfl, rfl, ?_⟩
    intro e he
    simp only [List.mem_singleton] at he
    subst he
    exact ⟨rfl, rfl⟩
  · have hok : env.transportOK = false := hgate.resolve_left hsem
    rw [if_neg hsem, if_pos hok, if_neg hsem]
    refine ⟨rfl, rfl, rfl, rfl, rfl, ?_⟩
    intro e he
    simp only [List.mem_cons, List.mem_singleton, List.not_mem_nil, or_false] at he
    rcases he with he | he <;> subst he <;> exact ⟨rfl, rfl⟩

set_option maxRecDepth 100000 in
/-- C17, witness: a TCP connect to example.com while the driver-ready gate does not
signal: the only call is the wait on the gate. -/
theorem completeConnect_gate_failure_witness :
    GateReached sampleConsts
      (scenarioEnv { plainScenario with driverReady := false }) freshStream
      freshTemplate (some exampleUrlInfo) 1 1 none 0 1 ∧
    (completeConnect sampleConsts
      (scenarioEnv { plainScenario with driverReady := false }) freshStream 0
      freshTemplate (some exampleUrlInfo) 1 1 none 0 1 zeroErrorInfo).status =
        -11 ∧
    (completeConnect sampleConsts
      (scenarioEnv { plainScenario with driverReady := false }) freshStream 0
      freshTemplate (some exampleUrlInfo) 1 1 none 0 1 zeroErrorInfo).events =
        [.waitSemaphore false] :=
  ⟨by unfold GateReached; decide,
    (completeConnect_gate_failure sampleConsts
      (scenarioEnv { plainScenario with driverReady := false }) freshStream 0
      freshTemplate (some exampleUrlInfo) 1 1 none 0 1 zeroErrorInfo
      (by unfold GateReached; decide) (Or.inl rfl)).1,
    (completeConnect_gate_failure sampleConsts
      (scenarioEnv { plainScenario with driverReady := false }) freshStream 0
      freshTemplate (some exampleUrlInfo) 1 1 none 0 1 zeroErrorInfo
      (by unfold GateReached; decide) (Or.inl rfl)).2.2.2.2.1⟩

/-! ## The calls of the connect path, by kind -/

theorem housekeeping_kinds (K : Consts) (e : NetEvent)
    (h : e.isHousekeeping = true) :
    e.isHandshake = false ∧ e.isProxyFound K = false ∧
    e.isConnectSuccess K = false ∧ e.isParseURL = false ∧
    e.isProxyDetection = false ∧ e.isTransportConnect = false := by
  cases e <;>
    simp_all [NetEvent.isHousekeeping, NetEvent.isHandshake, NetEvent.isProxyFound,
      NetEvent.isConnectSuccess, NetEvent.isParseURL, NetEvent.isProxyDetection,
      NetEvent.isTransportConnect]

theorem initStream_events {σ : Type} (K : Consts) (env : NetEnv σ)
    (stream : STREAM) (netStream : NET_STREAM_INFO) (protocol : Int)
    (connectInfo : NET_CONNECT_INFO) (isServer : Bool) :
    ∀ e ∈ (initStream K env stream netStream protocol connectInfo
      isServer).events, e.isHousekeeping = true := by
  intro e he
  by_cases hp : protocol > K.STREAM_PROTOCOL_NONE ∧
      protocol < K.STREAM_PROTOCOL_LAST
  · rw [initStream_eq K env stream netStream protocol connectInfo isServer hp]
      at he
    simp only [List.mem_append] at he
    rcases he with he | he
    · split at he
      · exact absurd he (List.not_mem_nil e)
      · simp only [List.mem_singleton] at he
        subst he
        rfl
    · split at he
      · exact absurd he (List.not_mem_nil e)
      · simp only [List.mem_singleton] at he
        subst he
        rfl
  · rw [initStream_eq_entry_fail K env stream netStream protocol connectInfo
      isServer hp] at he
    exact absurd he (List.not_mem_nil e)

theorem cryptStatusError_OK (K : Consts) : cryptStatusError K K.CRYPT_OK = false := by
  unfold cryptStatusError
  simp

theorem cryptStatusError_of_lt (K : Consts) (status : Int)
    (h : status < K.CRYPT_OK) : cryptStatusError K status = true := by
  unfold cryptStatusError
  simp [h]

theorem cleanupStream_events {σ : Type} (K : Consts) (env : NetEnv σ)
    (stream : STREAM) (ts : σ) (cleanupTransport : Bool) :
    ∀ e ∈ (cleanupStream K env stream ts cleanupTransport).events,
      e.isHousekeeping = true := by
  intro e he
  unfold cleanupStream at he
  dsimp only at he
  split at he
  · exact absurd he (List.not_mem_nil e)
  · split at he
    · exact absurd he (List.not_mem_nil e)
    · split at he
      · split at he
        · exact absurd he (List.not_mem_nil e)
        · simp only [List.mem_cons, List.mem_singleton, List.not_mem_nil,
            or_false] at he
          rcases he with he | he | he <;> subst he <;> rfl
      · simp only [List.mem_cons, List.mem_singleton, List.not_mem_nil,
          or_false] at he
        rcases he with he | he <;> subst he <;> rfl

theorem cleanupStream_detaches {σ : Type} (K : Consts) (env : NetEnv σ)
    (stream : STREAM) (ts : σ)
    (hsane : DATAPTR_GET K stream.netStream ≠ NULL →
      sanityCheckNetStream K stream.netStreamInfo = true) :
    DATAPTR_GET K (cleanupStream K env stream ts false).stream.netStream =
      NULL := by
  by_cases h1 : DATAPTR_GET K stream.netStream = NULL
  · rw [cleanupStream_eq_detached K env stream ts false h1]
    exact h1
  · rw [cleanupStream_eq_keep K env stream ts false h1 (hsane h1)
      (fun h => Bool.noConfusion h.1)]
    exact DATAPTR_GET_zeroStream K

/-! ## openNetworkConnection: what it calls and what it leaves -/

theorem sanity_errorInfo_update (K : Consts) (netStream : NET_STREAM_INFO)
    (errorInfo : ERROR_INFO) :
    sanityCheckNetStream K { netStream with errorInfo := errorInfo } =
      sanityCheckNetStream K netStream := rfl

theorem openViaProxy_sanity {σ : Type} (K : Consts) (env : NetEnv σ)
    (netStream : NET_STREAM_INFO) (ts : σ) (url : List Char) (urlLen : Int)
    (events : List NetEvent) (hkeep : TransportKeepsSanity K env)
    (hsane : sanityCheckNetStream K netStream = true) :
    sanityCheckNetStream K
      (openViaProxy K env netStream ts url urlLen events).netStream = true := by
  by_cases hp : cryptStatusError K
      (env.parseURL (slice url 0 urlLen) 80 K.URL_TYPE_HTTP).status = true
  · rw [openViaProxy_eq_parse_fail K env netStream ts url urlLen events hp]
    exact hsane
  · have hp2 := Bool.eq_false_iff.mpr hp
    rw [openViaProxy_eq_connect K env netStream ts url urlLen events hp2]
    exact hkeep.1 ts netStream _ _ _ hsane

theorem open_user_socket_events {σ : Type} (K : Consts) (env : NetEnv σ)
    (netStream : NET_STREAM_INFO) (ts : σ) (options : Int)
    (proxyUrl : Option (List Char)) (proxyUrlLen : Int)
    (huser : netStream.nFlags &&& K.STREAM_NFLAG_USERSOCKET ≠ 0) :
    (∀ e ∈ (openNetworkConnection K env netStream ts options proxyUrl
      proxyUrlLen).events, ∃ status, e = .transportCheck status) ∧
    (openNetworkConnection K env netStream ts options proxyUrl
      proxyUrlLen).netStream = netStream := by
  by_cases hentry : OpenEntryOK K netStream options proxyUrl proxyUrlLen
  swap
  · rw [open_eq_entry_fail K env netStream ts options proxyUrl proxyUrlLen
      hentry]
    exact ⟨fun e he => absurd he (List.not_mem_nil e), rfl⟩
  by_cases hopt : options = K.NET_OPTION_NETWORKSOCKET_DUMMY
  · by_cases hcheck : FNPTR_GET K netStream.transportCheckFunction = NULL
    · rw [open_eq_user_socket_nocheck K env netStream ts options proxyUrl
        proxyUrlLen hentry huser hopt hcheck]
      exact ⟨fun e he => absurd he (List.not_mem_nil e), rfl⟩
    · rw [open_eq_user_socket_check K env netStream ts options proxyUrl
        proxyUrlLen hentry huser hopt hcheck]
      refine ⟨fun e he => ?_, rfl⟩
      simp only [List.mem_singleton] at he
      exact ⟨_, he⟩
  · rw [open_eq_user_socket K env netStream ts options proxyUrl proxyUrlLen
      hentry huser hopt]
    exact ⟨fun e he => absurd he (List.not_mem_nil e), rfl⟩

theorem open_sanity {σ : Type} (K : Consts) (env : NetEnv σ)
    (netStream : NET_STREAM_INFO) (ts : σ) (options : Int)
    (proxyUrl : Option (List Char)) (proxyUrlLen : Int)
    (hkeep : TransportKeepsSanity K env)
    (hsane : sanityCheckNetStream K netStream = true) :
    sanityCheckNetStream K
      (openNetworkConnection K env netStream ts options proxyUrl
        proxyUrlLen).netStream = true := by
  by_cases huser : netStream.nFlags &&& K.STREAM_NFLAG_USERSOCKET = 0
  swap
  · rw [(open_user_socket_events K env netStream ts options proxyUrl proxyUrlLen
      huser).2]
    exact hsane
  by_cases hentry : OpenEntryOK K netStream options proxyUrl proxyUrlLen
  swap
  · rw [open_eq_entry_fail K env netStream ts options proxyUrl proxyUrlLen
      hentry]
    exact hsane
  cases proxyUrl with
  | none =>
    rw [open_eq_direct K env netStream ts options proxyUrlLen hentry huser]
    exact hkeep.1 ts netStream _ _ _ hsane
  | some proxy =>
    by_cases hauto : strCompareZ proxy "[Autodetect]".toList = 0
    · by_cases hd : cryptStatusError K
          (env.findProxyUrl K.MAX_DNS_SIZE netStream.host
            netStream.hostLen).status = true
      · rw [open_eq_discovery_fail K env netStream ts options proxy proxyUrlLen
          hentry huser hauto hd]
        exact hsane
      · have hd2 := Bool.eq_false_iff.mpr hd
        rw [open_eq_discovered K env netStream ts options proxy proxyUrlLen
          hentry huser hauto hd2]
        exact openViaProxy_sanity K env netStream ts _ _ _ hkeep hsane
    · rw [open_eq_configured K env netStream ts options proxy proxyUrlLen hentry
        huser hauto]
      exact openViaProxy_sanity K env netStream ts _ _ _ hkeep hsane

theorem cco_eq_open_fail {σ : Type} (K : Consts) (env : NetEnv σ)
    (stream : STREAM) (ts : σ) (address : Nat) (netStream : NET_STREAM_INFO)
    (options : Int) (proxyUrl : Option (List Char)) (proxyUrlLen : Int)
    (errorInfo : ERROR_INFO) (events : List NetEvent)
    (hfail : cryptStatusError K
      (openNetworkConnection K env netStream ts options proxyUrl
        proxyUrlLen).status = true) :
    completeConnectOpen K env stream ts address netStream options proxyUrl
        proxyUrlLen errorInfo events =
      ⟨(openNetworkConnection K env netStream ts options proxyUrl
          proxyUrlLen).status,
        (cleanupStream K env
          { stream with
            netStream := DATAPTR_SET K address
            netStreamInfo :=
              (openNetworkConnection K env netStream ts options proxyUrl
                proxyUrlLen).netStream }
          (openNetworkConnection K env netStream ts options proxyUrl
            proxyUrlLen).tstate false).stream,
        (openNetworkConnection K env netStream ts options proxyUrl
          proxyUrlLen).netStream.errorInfo,
        (cleanupStream K env
          { stream with
            netStream := DATAPTR_SET K address
            netStreamInfo :=
              (openNetworkConnection K env netStream ts options proxyUrl
                proxyUrlLen).netStream }
          (openNetworkConnection K env netStream ts options proxyUrl
            proxyUrlLen).tstate false).tstate,
        events ++
          (openNetworkConnection K env netStream ts options proxyUrl
            proxyUrlLen).events ++
          (cleanupStream K env
            { stream with
              netStream := DATAPTR_SET K address
              netStreamInfo :=
                (openNetworkConnection K env netStream ts options proxyUrl
                  proxyUrlLen).netStream }
            (openNetworkConnection K env netStream ts options proxyUrl
              proxyUrlLen).tstate false).events⟩ := by
  unfold completeConnectOpen
  dsimp only
  rw [if_pos hfail]

theorem cco_eq_direct {σ : Type} (K : Consts) (env : NetEnv σ)
    (stream : STREAM) (ts : σ) (address : Nat) (netStream : NET_STREAM_INFO)
    (options : Int) (proxyUrlLen : Int)
    (errorInfo : ERROR_INFO) (events : List NetEvent)
    (hok : cryptStatusError K
      (openNetworkConnection K env netStream ts options none
        proxyUrlLen).status = false) :
    completeConnectOpen K env stream ts address netStream options none
        proxyUrlLen errorInfo events =
      ⟨K.CRYPT_OK,
        { stream with
          netStream := DATAPTR_SET K address
          netStreamInfo :=
            (openNetworkConnection K env netStream ts options none
              proxyUrlLen).netStream },
        errorInfo,
        (openNetworkConnection K env netStream ts options none
          proxyUrlLen).tstate,
        events ++
          (openNetworkConnection K env netStream ts options none
            proxyUrlLen).events⟩ := by
  unfold completeConnectOpen
  dsimp only
  rw [if_neg (by rw [hok]; decide), if_pos rfl]

theorem cco_eq_proxy {σ : Type} (K : Consts) (env : NetEnv σ)
    (stream : STREAM) (ts : σ) (address : Nat) (netStream : NET_STREAM_INFO)
    (options : Int) (proxy : List Char) (proxyUrlLen : Int)
    (errorInfo : ERROR_INFO) (events : List NetEvent)
    (hok : cryptStatusError K
      (openNetworkConnection K env netStream ts options (some proxy)
        proxyUrlLen).status = false) :
    completeConnectOpen K env stream ts address netStream options (some proxy)
        proxyUrlLen errorInfo events =
      completeConnectProxy K env
        { stream with
          netStream := DATAPTR_SET K address
          netStreamInfo :=
            (openNetworkConnection K env netStream ts options (some proxy)
              proxyUrlLen).netStream }
        (openNetworkConnection K env netStream ts options (some proxy)
          proxyUrlLen).tstate errorInfo
        (events ++
          (openNetworkConnection K env netStream ts options (some proxy)
            proxyUrlLen).events) := by
  unfold completeConnectOpen
  dsimp only
  rw [if_neg (by rw [hok]; decide), if_neg (by simp)]

theorem proxy_eq_no_http {σ : Type} (K : Consts) (env : NetEnv σ)
    (stream : STREAM) (ts : σ) (errorInfo : ERROR_INFO) (events : List NetEvent)
    (hhttp : env.USE_HTTP = false) :
    completeConnectProxy K env stream ts errorInfo events =
      ⟨K.CRYPT_ERROR_NOTAVAIL, (cleanupStream K env stream ts false).stream,
        retExtRecord "HTTP proxy support not available",
        (cleanupStream K env stream ts false).tstate,
        events ++ (cleanupStream K env stream ts false).events⟩ := by
  unfold completeConnectProxy
  dsimp only
  rw [if_neg (by rw [hhttp]; decide)]

theorem proxy_eq_handshake_fail {σ : Type} (K : Consts) (env : NetEnv σ)
    (stream : STREAM) (ts : σ) (errorInfo : ERROR_INFO) (events : List NetEvent)
    (hhttp : env.USE_HTTP = true)
    (hfail : cryptStatusError K
      (env.connectViaHttpProxy ts stream errorInfo).1.status = true) :
    completeConnectProxy K env stream ts errorInfo events =
      ⟨(env.connectViaHttpProxy ts stream errorInfo).1.status,
        (cleanupStream K env (env.connectViaHttpProxy ts stream errorInfo).1.stream
          (env.connectViaHttpProxy ts stream errorInfo).2 false).stream,
        (env.connectViaHttpProxy ts stream
          errorInfo).1.stream.netStreamInfo.errorInfo,
        (cleanupStream K env (env.connectViaHttpProxy ts stream errorInfo).1.stream
          (env.connectViaHttpProxy ts stream errorInfo).2 false).tstate,
        events ++
          [.connectViaHttpProxy
            (env.connectViaHttpProxy ts stream errorInfo).1.status] ++
          (cleanupStream K env
            (env.connectViaHttpProxy ts stream errorInfo).1.stream
            (env.connectViaHttpProxy ts stream errorInfo).2 false).events⟩ := by
  unfold completeConnectProxy
  dsimp only
  rw [if_pos hhttp, if_pos hfail]

theorem proxy_eq_handshake_ok {σ : Type} (K : Consts) (env : NetEnv σ)
    (stream : STREAM) (ts : σ) (errorInfo : ERROR_INFO) (events : List NetEvent)
    (hhttp : env.USE_HTTP = true)
    (hok : cryptStatusError K
      (env.connectViaHttpProxy ts stream errorInfo).1.status = false) :
    completeConnectProxy K env stream ts errorInfo events =
      ⟨K.CRYPT_OK, (env.connectViaHttpProxy ts stream errorInfo).1.stream,
        (env.connectViaHttpProxy ts stream errorInfo).1.errorInfo,
        (env.connectViaHttpProxy ts stream errorInfo).2,
        events ++
          [.connectViaHttpProxy
            (env.connectViaHttpProxy ts stream errorInfo).1.status]⟩ := by
  unfold completeConnectProxy
  dsimp only
  rw [if_pos hhttp, if_neg (by rw [hok]; decide)]

theorem proxy_detaches {σ : Type} (K : Consts) (env : NetEnv σ)
    (stream : STREAM) (ts : σ) (errorInfo : ERROR_INFO) (events : List NetEvent)
    (hkeep : TransportKeepsSanity K env)
    (hsane : sanityCheckNetStream K stream.netStreamInfo = true)
    (herr : cryptStatusError K
      (completeConnectProxy K env stream ts errorInfo events).status = true) :
    DATAPTR_GET K
      (completeConnectProxy K env stream ts errorInfo events).stream.netStream =
        NULL := by
  by_cases hhttp : env.USE_HTTP = true
  · by_cases hh : cryptStatusError K
        (env.connectViaHttpProxy ts stream errorInfo).1.status = true
    · rw [proxy_eq_handshake_fail K env stream ts errorInfo events hhttp hh]
      exact cleanupStream_detaches K env _ _
        (fun _ => hkeep.2 ts stream errorInfo hsane)
    · have hh2 := Bool.eq_false_iff.mpr hh
      rw [proxy_eq_handshake_ok K env stream ts errorInfo events hhttp hh2] at herr
      dsimp only at herr
      rw [cryptStatusError_OK] at herr
      exact Bool.noConfusion herr
  · have hhttp2 := Bool.eq_false_iff.mpr hhttp
    rw [proxy_eq_no_http K env stream ts errorInfo events hhttp2]
    exact cleanupStream_detaches K env _ _ (fun _ => hsane)

theorem cco_detaches {σ : Type} (K : Consts) (env : NetEnv σ)
    (stream : STREAM) (ts : σ) (address : Nat) (netStream : NET_STREAM_INFO)
    (options : Int) (proxyUrl : Option (List Char)) (proxyUrlLen : Int)
    (errorInfo : ERROR_INFO) (events : List NetEvent)
    (hkeep : TransportKeepsSanity K env)
    (hsane : sanityCheckNetStream K netStream = true)
    (herr : cryptStatusError K
      (completeConnectOpen K env stream ts address netStream options proxyUrl
        proxyUrlLen errorInfo events).status = true) :
    DATAPTR_GET K
      (completeConnectOpen K env stream ts address netStream options proxyUrl
        proxyUrlLen errorInfo events).stream.netStream = NULL := by
  have hso := open_sanity K env netStream ts options proxyUrl proxyUrlLen hkeep
    hsane
  by_cases h1 : cryptStatusError K
      (openNetworkConnection K env netStream ts options proxyUrl
        proxyUrlLen).status = true
  · rw [cco_eq_open_fail K env stream ts address netStream options proxyUrl
      proxyUrlLen errorInfo events h1]
    exact cleanupStream_detaches K env _ _ (fun _ => hso)
  · have h2 := Bool.eq_false_iff.mpr h1
    cases proxyUrl with
    | none =>
      rw [cco_eq_direct K env stream ts address netStream options proxyUrlLen
        errorInfo events h2] at herr
      dsimp only at herr
      rw [cryptStatusError_OK] at herr
      exact Bool.noConfusion herr
    | some proxy =>
      rw [cco_eq_proxy K env stream ts address netStream options proxy
        proxyUrlLen errorInfo events h2] at herr ⊢
      exact proxy_detaches K env _ _ errorInfo _ hkeep hso herr

theorem build_keeps (K : Consts) (stream : STREAM) (template : NET_STREAM_INFO)
    (urlInfo : Option URL_INFO) (buffering : Bool) (allocSize : Int) :
    (buildNetStream K stream template urlInfo buffering allocSize).stream.netStream =
      stream.netStream ∧
    (buildNetStream K stream template urlInfo buffering
      allocSize).netStream.nFlags = template.nFlags ∧
    (buildNetStream K stream template urlInfo buffering
      allocSize).netStream.netSocket = template.netSocket := by
  have key : ∀ (c : Prop) [Decidable c] (a b : BuildOutcome),
      (a.stream.netStream = stream.netStream ∧
        a.netStream.nFlags = template.nFlags ∧
        a.netStream.netSocket = template.netSocket) →
      (b.stream.netStream = stream.netStream ∧
        b.netStream.nFlags = template.nFlags ∧
        b.netStream.netSocket = template.netSocket) →
      ((if c then a else b).stream.netStream = stream.netStream ∧
        (if c then a else b).netStream.nFlags = template.nFlags ∧
        (if c then a else b).netStream.netSocket = template.netSocket) := by
    intro c _ a b ha hb
    by_cases hc : c
    · rw [if_pos hc]; exact ha
    · rw [if_neg hc]; exact hb
  unfold buildNetStream
  dsimp only
  cases buffering
  · refine key _ _ _ ⟨rfl, rfl, rfl⟩ (key _ _ _ ⟨rfl, rfl, rfl⟩
      (key _ _ _ ⟨rfl, rfl, rfl⟩ (key _ _ _ ⟨rfl, rfl, rfl⟩
        (key _ _ _ ⟨rfl, rfl, rfl⟩ ⟨rfl, rfl, rfl⟩))))
  · refine key _ _ _ ⟨rfl, rfl, rfl⟩ (key _ _ _ ⟨rfl, rfl, rfl⟩
      (key _ _ _ ⟨rfl, rfl, rfl⟩ (key _ _ _ ⟨rfl, rfl, rfl⟩
        (key _ _ _ ⟨rfl, rfl, rfl⟩ ⟨rfl, rfl, rfl⟩))))

theorem layerTemplate_clearTable {σ : Type} (K : Consts) (env : NetEnv σ)
    (netStreamTemplate : NET_STREAM_INFO) (protocol options : Int)
    (hlayer : LayeringKeepsData env) :
    (layerTemplate K env netStreamTemplate protocol options).clearTable =
      netStreamTemplate.clearTable := by
  obtain ⟨h1, h2, h3⟩ := hlayer
  unfold layerTemplate
  dsimp only
  by_cases ho : options = K.NET_OPTION_TRANSPORTSESSION
  · rw [if_pos ho]
    by_cases hp : protocol = K.STREAM_PROTOCOL_HTTP
    · rw [if_pos hp, h3, h2]
    · rw [if_neg hp]
      exact h2 netStreamTemplate
  · rw [if_neg ho]
    by_cases hp : protocol = K.STREAM_PROTOCOL_HTTP
    · rw [if_pos hp, h3, h1]
    · rw [if_neg hp]
      exact h1 netStreamTemplate

theorem layerTemplate_keeps {σ : Type} (K : Consts) (env : NetEnv σ)
    (netStreamTemplate : NET_STREAM_INFO) (protocol options : Int)
    (hlayer : LayeringKeepsData env) :
    (layerTemplate K env netStreamTemplate protocol options).nFlags =
      netStreamTemplate.nFlags ∧
    (layerTemplate K env netStreamTemplate protocol options).netSocket =
      netStreamTemplate.netSocket := by
  have h := layerTemplate_clearTable K env netStreamTemplate protocol options
    hlayer
  have h1 : (layerTemplate K env netStreamTemplate protocol
      options).clearTable.nFlags = netStreamTemplate.clearTable.nFlags := by
    rw [h]
  have h2 : (layerTemplate K env netStreamTemplate protocol
      options).clearTable.netSocket = netStreamTemplate.clearTable.netSocket := by
    rw [h]
  exact ⟨h1, h2⟩

theorem alloc_shape {σ : Type} (K : Consts) (env : NetEnv σ) (stream : STREAM)
    (ts : σ) (template : NET_STREAM_INFO) (urlInfo : Option URL_INFO)
    (protocol options : Int) (proxyUrl : Option (List Char))
    (proxyUrlLen : Int) (errorInfo : ERROR_INFO) :
    (∃ (status : Int) (stream2 : STREAM) (events : List NetEvent),
      completeConnectAlloc K env stream ts template urlInfo protocol options
          proxyUrl proxyUrlLen errorInfo =
        ⟨status, stream2, errorInfo, ts, events⟩ ∧
      (status = K.CRYPT_ERROR_MEMORY ∨ status = K.CRYPT_ERROR_INTERNAL) ∧
      (stream2 = zeroStream ∨ stream2.netStream = stream.netStream) ∧
      ∀ e ∈ events, e.isHousekeeping = true) ∨
    (∃ (address : Nat) (b : BuildOutcome) (events : List NetEvent),
      completeConnectAlloc K env stream ts template urlInfo protocol options
          proxyUrl proxyUrlLen errorInfo =
        completeConnectOpen K env b.stream ts address b.netStream options
          proxyUrl proxyUrlLen errorInfo events ∧
      sanityCheckNetStream K b.netStream = true ∧
      b.netStream.nFlags = template.nFlags ∧
      b.netStream.netSocket = template.netSocket ∧
      ∀ e ∈ events, e.isHousekeeping = true) := by
  have hev : ∀ e ∈ ([.waitSemaphore true, .transportOK true,
      .clAlloc (K.SIZEOF_NET_STREAM_INFO +
          netStreamAllocSize K urlInfo protocol options)
        (env.clAlloc (K.SIZEOF_NET_STREAM_INFO +
          netStreamAllocSize K urlInfo protocol options))] : List NetEvent),
      e.isHousekeeping = true := by
    intro e he
    simp only [List.mem_cons, List.mem_singleton, List.not_mem_nil, or_false] at he
    rcases he with he | he | he <;> subst he <;> rfl
  obtain ⟨b1, b2, b3⟩ := build_keeps K stream template urlInfo
    (useTransportBuffering K protocol options)
    (netStreamAllocSize K urlInfo protocol options)
  unfold completeConnectAlloc
  dsimp only
  by_cases h1 : env.clAlloc (K.SIZEOF_NET_STREAM_INFO +
      netStreamAllocSize K urlInfo protocol options) = NULL
  · rw [if_pos h1]
    exact Or.inl ⟨_, _, _, rfl, Or.inl rfl, Or.inl rfl, hev⟩
  · rw [if_neg h1]
    by_cases h2 : (buildNetStream K stream template urlInfo
        (useTransportBuffering K protocol options)
        (netStreamAllocSize K urlInfo protocol options)).ok = false
    · rw [if_pos h2]
      exact Or.inl ⟨_, _, _, rfl, Or.inr rfl, Or.inr b1, hev⟩
    · rw [if_neg h2]
      by_cases h3 : sanityCheckNetStream K (buildNetStream K stream template
          urlInfo (useTransportBuffering K protocol options)
          (netStreamAllocSize K urlInfo protocol options)).netStream = false
      · rw [if_pos h3]
        exact Or.inl ⟨_, _, _, rfl, Or.inr rfl, Or.inr b1, hev⟩
      · rw [if_neg h3]
        exact Or.inr ⟨_, _, _, rfl, by simpa using h3, b2, b3, hev⟩

theorem cc_detaches {σ : Type} (K : Consts) (env : NetEnv σ) (stream : STREAM)
    (ts : σ) (netStreamTemplate : NET_STREAM_INFO) (urlInfo : Option URL_INFO)
    (protocol options : Int) (proxyUrl : Option (List Char))
    (proxyUrlLen : Int) (iUserObject : Int) (errorInfo : ERROR_INFO)
    (hkeep : TransportKeepsSanity K env)
    (hnone : DATAPTR_GET K stream.netStream = NULL)
    (herr : cryptStatusError K
      (completeConnect K env stream ts netStreamTemplate urlInfo protocol
        options proxyUrl proxyUrlLen iUserObject errorInfo).status = true) :
    DATAPTR_GET K
      (completeConnect K env stream ts netStreamTemplate urlInfo protocol
        options proxyUrl proxyUrlLen iUserObject errorInfo).stream.netStream =
          NULL := by
  by_cases hreach : GateReached K env stream netStreamTemplate urlInfo protocol
      options proxyUrl proxyUrlLen iUserObject
  swap
  · obtain ⟨status, _, h⟩ := completeConnect_eq_unreached K env stream ts
      netStreamTemplate urlInfo protocol options proxyUrl proxyUrlLen
      iUserObject errorInfo hreach
    rw [h]
    exact hnone
  rw [completeConnect_eq_reached K env stream ts netStreamTemplate urlInfo
    protocol options proxyUrl proxyUrlLen iUserObject errorInfo hreach] at herr ⊢
  by_cases hsem : env.krnlWaitSemaphore = false
  · rw [if_pos hsem]
    exact DATAPTR_GET_zeroStream K
  rw [if_neg hsem] at herr ⊢
  by_cases hok : env.transportOK = false
  · rw [if_pos hok]
    exact DATAPTR_GET_zeroStream K
  rw [if_neg hok] at herr ⊢
  rcases alloc_shape K env stream ts
    (layerTemplate K env netStreamTemplate protocol options) urlInfo protocol
    options proxyUrl proxyUrlLen errorInfo with
    ⟨status, stream2, events, h, _, hs, _⟩ | ⟨address, b, events, h, hsane, _, _, _⟩
  · rw [h]
    rcases hs with hs | hs
    · rw [hs]
      exact DATAPTR_GET_zeroStream K
    · show DATAPTR_GET K stream2.netStream = NULL
      rw [hs]
      exact hnone
  · rw [h] at herr ⊢
    exact cco_detaches K env _ _ _ _ _ _ _ _ _ hkeep hsane herr

theorem ite_induction {α : Type} (P : α → Prop) (c : Prop) [Decidable c]
    (a b : α) (ha : c → P a) (hb : ¬ c → P b) : P (if c then a else b) := by
  by_cases hc : c
  · rw [if_pos hc]; exact ha hc
  · rw [if_neg hc]; exact hb hc

theorem pco_eq_user_socket {σ : Type} (K : Consts) (env : NetEnv σ)
    (stream : STREAM) (netStream : NET_STREAM_INFO)
    (connectInfo : NET_CONNECT_INFO) (errorInfo : ERROR_INFO)
    (htype : stream.type = K.STREAM_TYPE_NETWORK)
    (hopt : connectInfo.options = K.NET_OPTION_NETWORKSOCKET ∨
      connectInfo.options = K.NET_OPTION_NETWORKSOCKET_DUMMY)
    (hts : connectInfo.options ≠ K.NET_OPTION_TRANSPORTSESSION) :
    processConnectOptions K env stream netStream none connectInfo errorInfo =
      ⟨K.CRYPT_OK,
        { netStream with
          netSocket := connectInfo.networkSocket
          nFlags := netStream.nFlags ||| K.STREAM_NFLAG_USERSOCKET },
        none, errorInfo, []⟩ := by
  unfold processConnectOptions
  dsimp only
  rw [if_neg (not_not.mpr htype),
    if_neg (not_not.mpr (Or.inl ⟨Or.inr hopt, rfl⟩)), if_neg hts, if_pos hopt]
  rfl

theorem or_and_self_ne_zero (a u : Nat) (hu : u ≠ 0) : (a ||| u) &&& u ≠ 0 := by
  intro h
  obtain ⟨i, hi⟩ := Nat.ne_zero_implies_bit_true hu
  have h2 := congrArg (fun n => n.testBit i) h
  simp [hi] at h2

theorem cc_user_socket {σ : Type} (K : Consts) (env : NetEnv σ) (stream : STREAM)
    (ts : σ) (netStreamTemplate : NET_STREAM_INFO) (urlInfo : Option URL_INFO)
    (protocol options : Int) (iUserObject : Int) (errorInfo : ERROR_INFO)
    (hconsts : ConstsOK K) (hlayer : LayeringKeepsData env)
    (huser : netStreamTemplate.nFlags &&& K.STREAM_NFLAG_USERSOCKET ≠ 0) :
    (∀ e ∈ (completeConnect K env stream ts netStreamTemplate urlInfo protocol
        options none 0 iUserObject errorInfo).events,
      e.isHousekeeping = true ∨ ∃ status, e = .transportCheck status) ∧
    (cryptStatusError K
        (completeConnect K env stream ts netStreamTemplate urlInfo protocol
          options none 0 iUserObject errorInfo).status = false →
      (completeConnect K env stream ts netStreamTemplate urlInfo protocol
        options none 0 iUserObject errorInfo).stream.netStreamInfo.netSocket =
          netStreamTemplate.netSocket ∧
      (completeConnect K env stream ts netStreamTemplate urlInfo protocol
        options none 0 iUserObject errorInfo).stream.netStreamInfo.nFlags =
          netStreamTemplate.nFlags) := by
  obtain ⟨⟨hinternal, _, _, hmemory, hnotinited, hnotavail⟩, _, _⟩ := hconsts
  by_cases hreach : GateReached K env stream netStreamTemplate urlInfo protocol
      options none 0 iUserObject
  swap
  · obtain ⟨status, hst, h⟩ := completeConnect_eq_unreached K env stream ts
      netStreamTemplate urlInfo protocol options none 0 iUserObject errorInfo
      hreach
    rw [h]
    refine ⟨fun e he => absurd he (List.not_mem_nil e), fun hok => ?_⟩
    dsimp only at hok
    rcases hst with hst | hst
    · rw [hst, cryptStatusError_of_lt K _ hinternal] at hok
      exact Bool.noConfusion hok
    · rw [hst, cryptStatusError_of_lt K _ hnotavail] at hok
      exact Bool.noConfusion hok
  rw [completeConnect_eq_reached K env stream ts netStreamTemplate urlInfo
    protocol options none 0 iUserObject errorInfo hreach]
  by_cases hsem : env.krnlWaitSemaphore = false
  · rw [if_pos hsem]
    refine ⟨fun e he => ?_, fun hok => ?_⟩
    · simp only [List.mem_singleton] at he
      subst he
      exact Or.inl rfl
    · dsimp only at hok
      rw [cryptStatusError_of_lt K _ hnotinited] at hok
      exact Bool.noConfusion hok
  rw [if_neg hsem]
  by_cases hok : env.transportOK = false
  · rw [if_pos hok]
    refine ⟨fun e he => ?_, fun hok => ?_⟩
    · simp only [List.mem_cons, List.mem_singleton, List.not_mem_nil,
        or_false] at he
      rcases he with he | he <;> subst he <;> exact Or.inl rfl
    · dsimp only at hok
      rw [cryptStatusError_of_lt K _ hnotinited] at hok
      exact Bool.noConfusion hok
  rw [if_neg hok]
  obtain ⟨l1, l2⟩ := layerTemplate_keeps K env netStreamTemplate protocol
    options hlayer
  rcases alloc_shape K env stream ts
    (layerTemplate K env netStreamTemplate protocol options) urlInfo protocol
    options none 0 errorInfo with
    ⟨status, stream2, events, h, hst, _, hev⟩ |
    ⟨address, b, events, h, _, hflags, hsocket, hev⟩
  · rw [h]
    refine ⟨fun e he => Or.inl (hev e he), fun hok => ?_⟩
    dsimp only at hok
    rcases hst with hst | hst
    · rw [hst, cryptStatusError_of_lt K _ hmemory] at hok
      exact Bool.noConfusion hok
    · rw [hst, cryptStatusError_of_lt K _ hinternal] at hok
      exact Bool.noConfusion hok
  · rw [h]
    have hb : b.netStream.nFlags &&& K.STREAM_NFLAG_USERSOCKET ≠ 0 := by
      rw [hflags, l1]
      exact huser
    obtain ⟨ho1, ho2⟩ := open_user_socket_events K env b.netStream ts options
      none 0 hb
    by_cases h1 : cryptStatusError K
        (openNetworkConnection K env b.netStream ts options none 0).status = true
    · rw [cco_eq_open_fail K env b.stream ts address b.netStream options none 0
        errorInfo events h1]
      refine ⟨fun e he => ?_, fun hok => ?_⟩
      · simp only [List.mem_append] at he
        rcases he with (he | he) | he
        · exact Or.inl (hev e he)
        · exact Or.inr (ho1 e he)
        · exact Or.inl (cleanupStream_events K env _ _ _ e he)
      · dsimp only at hok
        rw [h1] at hok
        exact Bool.noConfusion hok
    · have h2 := Bool.eq_false_iff.mpr h1
      rw [cco_eq_direct K env b.stream ts address b.netStream options 0
        errorInfo events h2]
      refine ⟨fun e he => ?_, fun _ => ?_⟩
      · simp only [List.mem_append] at he
        rcases he with he | he
        · exact Or.inl (hev e he)
        · exact Or.inr (ho1 e he)
      · dsimp only
        rw [ho2, hsocket, hflags, l1, l2]
        exact ⟨rfl, rfl⟩

/-! ## sNetConnect: what it calls and what it leaves -/

theorem initStream_fields {σ : Type} (K : Consts) (env : NetEnv σ)
    (stream : STREAM) (netStream : NET_STREAM_INFO) (protocol : Int)
    (connectInfo : NET_CONNECT_INFO) (isServer : Bool)
    (hprotocol : protocol > K.STREAM_PROTOCOL_NONE ∧
      protocol < K.STREAM_PROTOCOL_LAST) :
    (initStream K env stream netStream protocol connectInfo isServer).status =
      K.CRYPT_OK ∧
    (initStream K env stream netStream protocol connectInfo isServer).stream =
      { zeroStream with type := K.STREAM_TYPE_NETWORK } ∧
    (initStream K env stream netStream protocol connectInfo
        isServer).netStream.nFlags =
      (if protocol = K.STREAM_PROTOCOL_UDP then
        (if isServer then K.STREAM_NFLAG_ISSERVER else 0) |||
          K.STREAM_NFLAG_DGRAM
      else (if isServer then K.STREAM_NFLAG_ISSERVER else 0)) := by
  rw [initStream_eq K env stream netStream protocol connectInfo isServer
    hprotocol]
  exact ⟨rfl, rfl, rfl⟩

theorem body_eq_options {σ : Type} (K : Consts) (env : NetEnv σ)
    (stream : STREAM) (ts : σ) (protocol : Int) (connectInfo : NET_CONNECT_INFO)
    (hprotocol : protocol > K.STREAM_PROTOCOL_NONE ∧
      protocol < K.STREAM_PROTOCOL_LAST) :
    sNetConnectBody K env stream ts protocol connectInfo =
      sNetConnectOptions K env { zeroStream with type := K.STREAM_TYPE_NETWORK }
        ts
        (initStream K env stream zeroNetStreamInfo protocol connectInfo
          false).netStream protocol connectInfo
        (initStream K env stream zeroNetStreamInfo protocol connectInfo
          false).events := by
  obtain ⟨h1, h2, _⟩ := initStream_fields K env stream zeroNetStreamInfo
    protocol connectInfo false hprotocol
  unfold sNetConnectBody
  dsimp only
  rw [if_neg (by rw [h1, cryptStatusError_OK]; decide), h2]

theorem namedHost_detaches {σ : Type} (K : Consts) (env : NetEnv σ)
    (stream : STREAM) (ts : σ) (netStream : NET_STREAM_INFO)
    (urlInfo : Option URL_INFO) (protocol : Int)
    (connectInfo : NET_CONNECT_INFO) (errorInfo : ERROR_INFO)
    (events : List NetEvent)
    (hkeep : TransportKeepsSanity K env)
    (hnone : DATAPTR_GET K stream.netStream = NULL)
    (herr : cryptStatusError K
      (sNetConnectNamedHost K env stream ts netStream urlInfo protocol
        connectInfo errorInfo events).status = true) :
    DATAPTR_GET K
      (sNetConnectNamedHost K env stream ts netStream urlInfo protocol
        connectInfo errorInfo events).stream.netStream = NULL := by
  obtain ⟨P, hP⟩ : ∃ P : ConnectOutcome σ → Prop, ∀ o, P o ↔
      (cryptStatusError K o.status = true →
        DATAPTR_GET K o.stream.netStream = NULL) := ⟨_, fun _ => Iff.rfl⟩
  refine (hP _).mp ?_ herr
  unfold sNetConnectNamedHost
  dsimp only
  refine ite_induction P _ _ _ (fun _ => (hP _).mpr fun _ => hnone)
    (fun _ => (hP _).mpr fun h => ?_)
  exact cc_detaches K env stream ts _ urlInfo protocol connectInfo.options _ _
    connectInfo.iUserObject errorInfo hkeep hnone h

theorem options_detaches {σ : Type} (K : Consts) (env : NetEnv σ)
    (stream : STREAM) (ts : σ) (netStream : NET_STREAM_INFO) (protocol : Int)
    (connectInfo : NET_CONNECT_INFO) (events : List NetEvent)
    (hkeep : TransportKeepsSanity K env)
    (hnone : DATAPTR_GET K stream.netStream = NULL)
    (herr : cryptStatusError K
      (sNetConnectOptions K env stream ts netStream protocol connectInfo
        events).status = true) :
    DATAPTR_GET K
      (sNetConnectOptions K env stream ts netStream protocol connectInfo
        events).stream.netStream = NULL := by
  obtain ⟨P, hP⟩ : ∃ P : ConnectOutcome σ → Prop, ∀ o, P o ↔
      (cryptStatusError K o.status = true →
        DATAPTR_GET K o.stream.netStream = NULL) := ⟨_, fun _ => Iff.rfl⟩
  refine (hP _).mp ?_ herr
  unfold sNetConnectOptions
  dsimp only
  refine ite_induction P _ _ _ (fun _ => (hP _).mpr fun _ => hnone)
    (fun _ => ?_)
  refine ite_induction P _ _ _
    (fun _ => (hP _).mpr fun h =>
      namedHost_detaches K env stream ts _ _ protocol connectInfo _ _ hkeep
        hnone h)
    (fun _ => (hP _).mpr fun h => ?_)
  exact cc_detaches K env stream ts _ _ protocol connectInfo.options none 0
    connectInfo.iUserObject _ hkeep hnone h

/-! ## C14: an error return leaves no descriptor attached -/

/-- C14: for every connect request that passes the entry checks of
`sNetConnect` and of `initStream`, over a transport whose connect operation
and whose tunnel handshake leave the descriptor in a state that passes the
sanity check: if `sNetConnect` returns an error status, the caller's stream
has no descriptor attached (`DATAPTR_GET` of its descriptor reference is
`NULL`), whichever step failed. -/
theorem sNetConnect_error_no_descriptor {σ : Type} (K : Consts)
    (env : NetEnv σ) (stream : STREAM) (ts : σ) (protocol : Int)
    (connectInfo : NET_CONNECT_INFO) (errorInfo : ERROR_INFO)
    (hentry : ConnectEntryOK K protocol connectInfo)
    (hkeep : TransportKeepsSanity K env)
    (herr : cryptStatusError K
      (sNetConnect K env stream ts protocol connectInfo errorInfo).status =
        true) :
    DATAPTR_GET K
      (sNetConnect K env stream ts protocol connectInfo
        errorInfo).stream.netStream = NULL := by
  rw [sNetConnect_eq_body K env stream ts protocol connectInfo errorInfo
    hentry.1, body_eq_options K env stream ts protocol connectInfo hentry.2]
    at herr ⊢
  exact options_detaches K env _ ts _ protocol connectInfo _ hkeep
    (DATAPTR_GET_zeroSafePtr K) herr

theorem scenarioEnv_keeps_sanity (s : Scenario) :
    TransportKeepsSanity sampleConsts (scenarioEnv s) := by
  refine ⟨fun ts ns host hostLen port h => ?_, fun ts stream errorInfo h => ?_⟩
  · show sanityCheckNetStream sampleConsts
      (if s.connectStatus < 0 then
        { ns with errorInfo := ⟨"Connection refused".toList⟩ }
      else { ns with netSocket := 7 }) = true
    by_cases hc : s.connectStatus < 0
    · rw [if_pos hc]; exact h
    · rw [if_neg hc]; exact h
  · show sanityCheckNetStream sampleConsts
      (if s.handshakeStatus < 0 then
        { stream with
          netStreamInfo :=
            { stream.netStreamInfo with
              errorInfo := ⟨"Proxy refused the tunnel".toList⟩ } }
      else stream).netStreamInfo = true
    by_cases hc : s.handshakeStatus < 0
    · rw [if_pos hc]; exact h
    · rw [if_neg hc]; exact h

theorem scenarioEnv_layering (s : Scenario) :
    LayeringKeepsData (scenarioEnv s) :=
  ⟨fun _ => rfl, fun _ => rfl, fun _ => rfl⟩

set_option maxRecDepth 100000 in
/-- C14, witness: a TCP connect to example.com that the transport refuses: the error comes
back with no descriptor attached to the stream. -/
theorem sNetConnect_error_no_descriptor_witness :
    ConnectEntryOK sampleConsts 1 (sampleConnectInfo "example.com".toList) ∧
    TransportKeepsSanity sampleConsts
      (scenarioEnv { plainScenario with connectStatus := -41 }) ∧
    cryptStatusError sampleConsts
      (sNetConnect sampleConsts
        (scenarioEnv { plainScenario with connectStatus := -41 }) zeroStream 0 1
        (sampleConnectInfo "example.com".toList) zeroErrorInfo).status = true ∧
    DATAPTR_GET sampleConsts
      (sNetConnect sampleConsts
        (scenarioEnv { plainScenario with connectStatus := -41 }) zeroStream 0 1
        (sampleConnectInfo "example.com".toList)
        zeroErrorInfo).stream.netStream = NULL :=
  ⟨by unfold ConnectEntryOK; decide,
    scenarioEnv_keeps_sanity { plainScenario with connectStatus := -41 },
    by decide,
    sNetConnect_error_no_descriptor sampleConsts
      (scenarioEnv { plainScenario with connectStatus := -41 }) zeroStream 0 1
      (sampleConnectInfo "example.com".toList) zeroErrorInfo
      (by unfold ConnectEntryOK; decide)
      (scenarioEnv_keeps_sanity { plainScenario with connectStatus := -41 })
      (by decide)⟩

/-! ## C16: the caller-supplied-socket variants -/

theorem after_events {σ : Type} (o : ConnectOutcome σ) (events : List NetEvent) :
    (o.after events).events = events ++ o.events := rfl

theorem options_eq_user_socket {σ : Type} (K : Consts) (env : NetEnv σ)
    (stream : STREAM) (ts : σ) (netStream : NET_STREAM_INFO) (protocol : Int)
    (connectInfo : NET_CONNECT_INFO) (events : List NetEvent)
    (hconsts : ConstsOK K) (htype : stream.type = K.STREAM_TYPE_NETWORK)
    (hopt : connectInfo.options = K.NET_OPTION_NETWORKSOCKET ∨
      connectInfo.options = K.NET_OPTION_NETWORKSOCKET_DUMMY) :
    sNetConnectOptions K env stream ts netStream protocol connectInfo events =
      (completeConnect K env stream ts
        { netStream with
          netSocket := connectInfo.networkSocket
          nFlags := netStream.nFlags ||| K.STREAM_NFLAG_USERSOCKET }
        none protocol connectInfo.options none 0 connectInfo.iUserObject
        zeroErrorInfo).after (events ++ []) := by
  obtain ⟨_, ⟨d1, d2, d3, d4, _⟩, _⟩ := hconsts
  have hnh : connectInfo.options ≠ K.NET_OPTION_HOSTNAME := by
    rcases hopt with h | h
    · rw [h]; exact fun e => d1 e.symm
    · rw [h]; exact fun e => d2 e.symm
  have hts : connectInfo.options ≠ K.NET_OPTION_TRANSPORTSESSION := by
    rcases hopt with h | h
    · rw [h]; exact fun e => d3 e.symm
    · rw [h]; exact fun e => d4 e.symm
  unfold sNetConnectOptions
  dsimp only
  simp only [if_neg hnh]
  rw [pco_eq_user_socket K env stream netStream connectInfo zeroErrorInfo htype
    hopt hts]
  dsimp only
  rw [if_neg (by rw [cryptStatusError_OK]; decide)]

/-- C16: for a connect request with a caller-supplied socket (the
caller-socket variant `NET_OPTION_NETWORKSOCKET` or the validate-only variant
`NET_OPTION_NETWORKSOCKET_DUMMY`) that passes the entry checks, `sNetConnect`
calls neither `parseURL`, nor the proxy configuration or proxy discovery, nor
the transport connect operation; when it succeeds, the descriptor attached to
the stream holds the supplied socket and has the user-socket flag set.
`processConnectOptions` records both, and the open step
`openNetworkConnection` on a descriptor with the user-socket flag returns
`CRYPT_OK` without any call for the caller-socket variant and exactly the
result of the one call to the transport validity check for the validate-only
variant. -/
theorem sNetConnect_user_socket {σ : Type} (K : Consts) (env : NetEnv σ)
    (stream : STREAM) (ts : σ) (protocol : Int) (connectInfo : NET_CONNECT_INFO)
    (errorInfo : ERROR_INFO) (hconsts : ConstsOK K)
    (hlayer : LayeringKeepsData env)
    (hentry : ConnectEntryOK K protocol connectInfo)
    (hsocket : connectInfo.options = K.NET_OPTION_NETWORKSOCKET ∨
      connectInfo.options = K.NET_OPTION_NETWORKSOCKET_DUMMY) :
    (∀ e ∈ (sNetConnect K env stream ts protocol connectInfo errorInfo).events,
      e.isParseURL = false ∧ e.isProxyDetection = false ∧
      e.isTransportConnect = false) ∧
    (cryptStatusError K
        (sNetConnect K env stream ts protocol connectInfo errorInfo).status =
          false →
      (sNetConnect K env stream ts protocol connectInfo
        errorInfo).stream.netStreamInfo.netSocket = connectInfo.networkSocket ∧
      (sNetConnect K env stream ts protocol connectInfo
        errorInfo).stream.netStreamInfo.nFlags &&&
          K.STREAM_NFLAG_USERSOCKET ≠ 0) ∧
    (∀ (s : STREAM) (netStream : NET_STREAM_INFO) (record : ERROR_INFO),
      s.type = K.STREAM_TYPE_NETWORK →
      (processConnectOptions K env s netStream none connectInfo record).status =
        K.CRYPT_OK ∧
      (processConnectOptions K env s netStream none connectInfo
        record).netStream.netSocket = connectInfo.networkSocket ∧
      (processConnectOptions K env s netStream none connectInfo
        record).netStream.nFlags =
          netStream.nFlags ||| K.STREAM_NFLAG_USERSOCKET ∧
      (processConnectOptions K env s netStream none connectInfo
        record).events = []) ∧
    (∀ (netStream : NET_STREAM_INFO) (ts2 : σ) (proxyUrl : Option (List Char))
      (proxyUrlLen : Int),
      OpenEntryOK K netStream connectInfo.options proxyUrl proxyUrlLen →
      netStream.nFlags &&& K.STREAM_NFLAG_USERSOCKET ≠ 0 →
      (connectInfo.options = K.NET_OPTION_NETWORKSOCKET →
        (openNetworkConnection K env netStream ts2 connectInfo.options proxyUrl
          proxyUrlLen).status = K.CRYPT_OK ∧
        (openNetworkConnection K env netStream ts2 connectInfo.options proxyUrl
          proxyUrlLen).events = []) ∧
      (connectInfo.options = K.NET_OPTION_NETWORKSOCKET_DUMMY →
        FNPTR_GET K netStream.transportCheckFunction ≠ NULL →
        (openNetworkConnection K env netStream ts2 connectInfo.options proxyUrl
          proxyUrlLen).status = (env.transportCheck ts2 netStream).1 ∧
        (openNetworkConnection K env netStream ts2 connectInfo.options proxyUrl
          proxyUrlLen).events =
            [.transportCheck (env.transportCheck ts2 netStream).1])) := by
  have hts : connectInfo.options ≠ K.NET_OPTION_TRANSPORTSESSION := by
    rcases hsocket with h | h
    · rw [h]; exact fun e => hconsts.2.1.2.2.1 e.symm
    · rw [h]; exact fun e => hconsts.2.1.2.2.2.1 e.symm
  have huser : ∀ flags : Nat,
      (flags ||| K.STREAM_NFLAG_USERSOCKET) &&& K.STREAM_NFLAG_USERSOCKET ≠ 0 :=
    fun flags => or_and_self_ne_zero flags _ hconsts.2.2.1
  rw [sNetConnect_eq_body K env stream ts protocol connectInfo errorInfo
    hentry.1, body_eq_options K env stream ts protocol connectInfo hentry.2,
    options_eq_user_socket K env _ ts _ protocol connectInfo _ hconsts rfl
      hsocket]
  obtain ⟨c1, c2⟩ := cc_user_socket K env
    { zeroStream with type := K.STREAM_TYPE_NETWORK } ts
    { (initStream K env stream zeroNetStreamInfo protocol connectInfo
        false).netStream with
      netSocket := connectInfo.networkSocket
      nFlags :=
        (initStream K env stream zeroNetStreamInfo protocol connectInfo
          false).netStream.nFlags ||| K.STREAM_NFLAG_USERSOCKET }
    none protocol connectInfo.options connectInfo.iUserObject zeroErrorInfo
    hconsts hlayer (huser _)
  refine ⟨fun e he => ?_, fun hok => ?_, fun s netStream record htype => ?_,
    fun netStream ts2 proxyUrl proxyUrlLen hopen hflag => ⟨fun hopt => ?_,
      fun hopt hcheck => ?_⟩⟩
  · rw [after_events] at he
    simp only [List.mem_append, List.not_mem_nil, or_false] at he
    rcases he with he | he
    · obtain ⟨_, _, _, k4, k5, k6⟩ := housekeeping_kinds K e
        (initStream_events K env stream zeroNetStreamInfo protocol connectInfo
          false e he)
      exact ⟨k4, k5, k6⟩
    · rcases c1 e he with h | ⟨status, h⟩
      · obtain ⟨_, _, _, k4, k5, k6⟩ := housekeeping_kinds K e h
        exact ⟨k4, k5, k6⟩
      · subst h
        exact ⟨rfl, rfl, rfl⟩
  · obtain ⟨f1, f2⟩ := c2 hok
    refine ⟨f1, ?_⟩
    show (completeConnect K env _ ts _ none protocol connectInfo.options none 0
      connectInfo.iUserObject zeroErrorInfo).stream.netStreamInfo.nFlags &&&
        K.STREAM_NFLAG_USERSOCKET ≠ 0
    rw [f2]
    exact huser _
  · rw [pco_eq_user_socket K env s netStream connectInfo record htype hsocket
      hts]
    exact ⟨rfl, rfl, rfl, rfl⟩
  · rw [open_eq_user_socket K env netStream ts2 connectInfo.options proxyUrl
      proxyUrlLen hopen hflag
      (by rw [hopt]; exact hconsts.2.1.2.2.2.2)]
    exact ⟨rfl, rfl⟩
  · rw [open_eq_user_socket_check K env netStream ts2 connectInfo.options
      proxyUrl proxyUrlLen hopen hflag hopt hcheck]
    exact ⟨rfl, rfl⟩

theorem sampleConsts_ok : ConstsOK sampleConsts := by
  unfold ConstsOK
  decide

set_option maxRecDepth 100000 in
/-- C16, witness: a validate-only connect on the caller's socket 9: the calls are the two
timeout queries, the gate, the liveness check, the allocation and the
transport validity check; the descriptor records socket 9. -/
theorem sNetConnect_user_socket_witness :
    ConstsOK sampleConsts ∧ LayeringKeepsData (scenarioEnv plainScenario) ∧
    ConnectEntryOK sampleConsts 1 (socketConnectInfo true) ∧
    (sNetConnect sampleConsts (scenarioEnv plainScenario) zeroStream 0 1
      (socketConnectInfo true) zeroErrorInfo).stream.netStreamInfo.netSocket =
        9 ∧
    (sNetConnect sampleConsts (scenarioEnv plainScenario) zeroStream 0 1
      (socketConnectInfo true) zeroErrorInfo).events =
      [.getAttribute 1 134 0 30, .getAttribute 1 135 0 30, .waitSemaphore true,
        .transportOK true, .clAlloc 1024 65536, .transportCheck 0] :=
  ⟨sampleConsts_ok, scenarioEnv_layering plainScenario,
    by unfold ConnectEntryOK; decide,
    ((sNetConnect_user_socket sampleConsts (scenarioEnv plainScenario)
      zeroStream 0 1 (socketConnectInfo true) zeroErrorInfo sampleConsts_ok
      (scenarioEnv_layering plainScenario) (by unfold ConnectEntryOK; decide)
      (Or.inr rfl)).2.1 (by decide)).1,
    by decide⟩

/-! ## C12: when the tunnel handshake is performed -/

theorem xor_xor_cancel (a b : Nat) : a ^^^ (a ^^^ b) = b := by
  rw [← Nat.xor_assoc, Nat.xor_self, Nat.zero_xor]

theorem xor_eq_iff (a b c : Nat) : a ^^^ b = c ↔ b = a ^^^ c := by
  constructor
  · intro h
    rw [← h, xor_xor_cancel]
  · intro h
    rw [h, xor_xor_cancel]

theorem FNPTR_ISVALID_SET (K : Consts) (p : Nat) :
    FNPTR_ISVALID K (FNPTR_SET K p) = true := by
  unfold FNPTR_ISVALID FNPTR_SET
  simp only [decide_eq_true_eq]
  exact xor_xor_cancel _ _

theorem FNPTR_GET_SET (K : Consts) (p : Nat) : FNPTR_GET K (FNPTR_SET K p) = p := by
  unfold FNPTR_GET
  rw [FNPTR_ISVALID_SET]
  rfl

theorem DATAPTR_ISVALID_SET (K : Consts) (p : Nat) :
    DATAPTR_ISVALID K (DATAPTR_SET K p) = true := by
  unfold DATAPTR_ISVALID DATAPTR_SET
  simp only [decide_eq_true_eq]
  exact xor_xor_cancel _ _

theorem DATAPTR_GET_SET (K : Consts) (p : Nat) :
    DATAPTR_GET K (DATAPTR_SET K p) = p := by
  unfold DATAPTR_GET
  rw [DATAPTR_ISVALID_SET]
  rfl

/-! ## C21: the cleanup after a failed tunnel handshake -/

/-- C21 (as amended): when `completeConnect` has attached the descriptor, the
open through the proxy succeeded (the transport connect went through) and the
tunnel handshake `connectViaHttpProxy` fails, leaving the descriptor attached
and in a state that passes the sanity check, then `completeConnect` returns
the status of the handshake and copies the error record of the descriptor to
the caller; the cleanup is `cleanupStream( stream, FALSE )`: it zeroes the
descriptor with its trailing storage, releases it and zeroes the stream
handle.  The calls made after the handshake are these two, the transport
state is the one the handshake left: the transport disconnect operation is
not invoked. -/
theorem completeConnect_handshake_failure_cleanup {σ : Type} (K : Consts)
    (env : NetEnv σ) (stream : STREAM) (ts : σ) (address : Nat)
    (netStream : NET_STREAM_INFO) (options : Int) (proxy : List Char)
    (proxyUrlLen : Int) (errorInfo : ERROR_INFO) (events : List NetEvent)
    (o : OpenOutcome σ) (h : HandshakeReply × σ)
    (ho : openNetworkConnection K env netStream ts options (some proxy)
      proxyUrlLen = o)
    (hh : env.connectViaHttpProxy o.tstate
      { stream with
        netStream := DATAPTR_SET K address
        netStreamInfo := o.netStream } errorInfo = h)
    (hopen : cryptStatusError K o.status = false)
    (hhttp : env.USE_HTTP = true)
    (hfail : cryptStatusError K h.1.status = true)
    (hattached : DATAPTR_GET K h.1.stream.netStream ≠ NULL)
    (hsane : sanityCheckNetStream K h.1.stream.netStreamInfo = true) :
    completeConnectOpen K env stream ts address netStream options (some proxy)
        proxyUrlLen errorInfo events =
      ⟨h.1.status, zeroStream, h.1.stream.netStreamInfo.errorInfo, h.2,
        events ++ o.events ++
          [.connectViaHttpProxy h.1.status,
            .zeroise (K.SIZEOF_NET_STREAM_INFO +
              h.1.stream.netStreamInfo.storageSize),
            .clFree (DATAPTR_GET K h.1.stream.netStream)]⟩ ∧
    ([.connectViaHttpProxy h.1.status,
      .zeroise (K.SIZEOF_NET_STREAM_INFO + h.1.stream.netStreamInfo.storageSize),
      .clFree (DATAPTR_GET K h.1.stream.netStream)] : List NetEvent).any
        NetEvent.isTransportDisconnect = false := by
  subst ho hh
  refine ⟨?_, rfl⟩
  rw [cco_eq_proxy K env stream ts address netStream options proxy proxyUrlLen
    errorInfo events hopen,
    proxy_eq_handshake_fail K env _ _ errorInfo _ hhttp hfail,
    cleanupStream_eq_keep K env _ _ false hattached hsane
      (fun hc => Bool.noConfusion hc.1)]
  simp only [List.append_assoc, List.singleton_append]

set_option maxRecDepth 100000 in
/-- C21, witness: a buffered HTTP descriptor for example.com is attached, the
connect to the proxy proxy.local:8080 succeeds and the handshake fails with
status -40: after the handshake the descriptor is zeroed and released, and
the transport state counts the connect and the handshake only. -/
theorem completeConnect_handshake_failure_cleanup_witness :
    cryptStatusError sampleConsts
      (openNetworkConnection sampleConsts (scenarioEnv refusedTunnelScenario)
        httpNetStream 0 1 (some (proxyBufferOf "proxy.local:8080".toList))
        16).status = false ∧
    (completeConnectOpen sampleConsts (scenarioEnv refusedTunnelScenario)
      httpStream 0 65536 httpNetStream 1
      (some (proxyBufferOf "proxy.local:8080".toList)) 16 zeroErrorInfo
      []).status = -40 ∧
    (completeConnectOpen sampleConsts (scenarioEnv refusedTunnelScenario)
      httpStream 0 65536 httpNetStream 1
      (some (proxyBufferOf "proxy.local:8080".toList)) 16 zeroErrorInfo
      []).tstate = 2 ∧
    (completeConnectOpen sampleConsts (scenarioEnv refusedTunnelScenario)
      httpStream 0 65536 httpNetStream 1
      (some (proxyBufferOf "proxy.local:8080".toList)) 16 zeroErrorInfo
      []).events =
      [.parseURL "proxy.local:8080".toList 80 1 0,
        .transportConnect (some "proxy.local".toList) 11 8080 0,
        .connectViaHttpProxy (-40), .zeroise 1043, .clFree 65536] := by
  have h := (completeConnect_handshake_failure_cleanup sampleConsts
    (scenarioEnv refusedTunnelScenario) httpStream 0 65536 httpNetStream 1
    (proxyBufferOf "proxy.local:8080".toList) 16 zeroErrorInfo [] _ _ rfl rfl
    (by decide) rfl (by decide) (by decide) (by decide)).1
  exact ⟨by decide, (congrArg ConnectOutcome.status h).trans (by decide),
    (congrArg ConnectOutcome.tstate h).trans (by decide),
    (congrArg ConnectOutcome.events h).trans (by decide)⟩

set_option maxRecDepth 100000 in
/-- C21, counterexample to the claim as stated: an HTTP connect to example.com
with the HTTP proxy "proxy.local:8080" configured.  The socket is not
caller-supplied, the transport connect to the proxy succeeds and the tunnel
handshake fails with status -40.  `sNetConnect` returns -40 with the stream
handle zeroed; the descriptor is zeroed and released, but the transport
disconnect operation is not among the calls made, and the transport state
counts two operations: the connect and the handshake. -/
theorem sNetConnect_handshake_failure_no_disconnect_counterexample :
    (sNetConnect sampleConsts (scenarioEnv refusedTunnelScenario) zeroStream 0 3
      (sampleConnectInfo "example.com".toList) zeroErrorInfo).status = -40 ∧
    (sNetConnect sampleConsts (scenarioEnv refusedTunnelScenario) zeroStream 0 3
      (sampleConnectInfo "example.com".toList) zeroErrorInfo).events =
      [.getAttribute 1 134 0 30, .getAttribute 1 135 0 30,
        .parseURL "example.com".toList 80 1 0,
        .getAttributeS 1 139 0 "proxy.local:8080".toList,
        .waitSemaphore true, .transportOK true, .clAlloc 9227 65536,
        .parseURL "proxy.local:8080".toList 80 1 0,
        .transportConnect (some "proxy.local".toList) 11 8080 0,
        .connectViaHttpProxy (-40), .zeroise 9227, .clFree 65536] ∧
    (sNetConnect sampleConsts (scenarioEnv refusedTunnelScenario) zeroStream 0 3
      (sampleConnectInfo "example.com".toList) zeroErrorInfo).events.any
        NetEvent.isTransportDisconnect = false ∧
    (sNetConnect sampleConsts (scenarioEnv refusedTunnelScenario) zeroStream 0 3
      (sampleConnectInfo "example.com".toList) zeroErrorInfo).tstate = 2 ∧
    (sNetConnect sampleConsts (scenarioEnv refusedTunnelScenario) zeroStream 0 3
      (sampleConnectInfo "example.com".toList) zeroErrorInfo).stream =
        zeroStream := by
  decide

theorem build_storage (K : Consts) (stream : STREAM) (template : NET_STREAM_INFO)
    (urlInfo : Option URL_INFO) (buffering : Bool) (allocSize : Int) :
    (buildNetStream K stream template urlInfo buffering
      allocSize).netStream.storageSize =
      (if buffering = true ∨ urlInfo ≠ none then allocSize
        else template.storageSize) ∧
    (buildNetStream K stream template urlInfo buffering
      allocSize).netStream.transportDisconnectFunction =
      template.transportDisconnectFunction := by
  have key : ∀ (v : Int) (c : Prop) [Decidable c] (a b : BuildOutcome),
      (a.netStream.storageSize = v ∧
        a.netStream.transportDisconnectFunction =
          template.transportDisconnectFunction) →
      (b.netStream.storageSize = v ∧
        b.netStream.transportDisconnectFunction =
          template.transportDisconnectFunction) →
      ((if c then a else b).netStream.storageSize = v ∧
        (if c then a else b).netStream.transportDisconnectFunction =
          template.transportDisconnectFunction) := by
    intro v c _ a b ha hb
    by_cases hc : c
    · rw [if_pos hc]; exact ha
    · rw [if_neg hc]; exact hb
  unfold buildNetStream
  dsimp only
  by_cases hany : buffering = true ∨ urlInfo ≠ none
  · rw [if_pos hany, if_neg (not_not.mpr hany)]
    cases buffering
    · exact key _ _ _ _ ⟨rfl, rfl⟩ (key _ _ _ _ ⟨rfl, rfl⟩
        (key _ _ _ _ ⟨rfl, rfl⟩ (key _ _ _ _ ⟨rfl, rfl⟩ ⟨rfl, rfl⟩)))
    · exact key _ _ _ _ ⟨rfl, rfl⟩ (key _ _ _ _ ⟨rfl, rfl⟩
        (key _ _ _ _ ⟨rfl, rfl⟩ (key _ _ _ _ ⟨rfl, rfl⟩ ⟨rfl, rfl⟩)))
  · rw [if_neg hany, if_pos hany]
    exact ⟨rfl, rfl⟩

theorem allocSize_of_plain (K : Consts) (urlInfo : Option URL_INFO)
    (protocol options : Int)
    (h : ¬ (useTransportBuffering K protocol options = true ∨ urlInfo ≠ none)) :
    netStreamAllocSize K urlInfo protocol options = 0 := by
  unfold netStreamAllocSize
  rw [if_neg (fun hc => h (Or.inl hc)), if_neg (fun hc => h (Or.inr hc))]
  rfl

theorem layerTemplate_storageSize {σ : Type} (K : Consts) (env : NetEnv σ)
    (netStreamTemplate : NET_STREAM_INFO) (protocol options : Int)
    (hlayer : LayeringKeepsData env) :
    (layerTemplate K env netStreamTemplate protocol options).storageSize =
      netStreamTemplate.storageSize := by
  have h := layerTemplate_clearTable K env netStreamTemplate protocol options
    hlayer
  have h1 : (layerTemplate K env netStreamTemplate protocol
      options).clearTable.storageSize = netStreamTemplate.clearTable.storageSize := by
    rw [h]
  exact h1

theorem initStream_storageSize {σ : Type} (K : Consts) (env : NetEnv σ)
    (stream : STREAM) (protocol : Int) (connectInfo : NET_CONNECT_INFO)
    (isServer : Bool) :
    (initStream K env stream zeroNetStreamInfo protocol connectInfo
      isServer).netStream.storageSize = 0 := by
  unfold initStream
  split <;> rfl

/-! ## C22: the storage size recorded for a descriptor -/

/-- C22: for a template whose `storageSize` is 0, as `initStream` leaves it,
every descriptor that `completeConnect` builds (with or without buffers, with
or without copies of the host and the path) records as `storageSize` the
number of trailing bytes allocated, `netStreamAllocSize`.  `completeConnect`
goes on with this descriptor, in the block of
`sizeof( NET_STREAM_INFO ) + netStreamAllocSize` bytes that `clAlloc`
returned.  `cleanupStream` on the stream with this descriptor attached zeroes
exactly that many bytes (the descriptor and all of its trailing storage),
releases that block and zeroes the stream handle. -/
theorem completeConnect_storage_round_trip {σ : Type} (K : Consts)
    (env : NetEnv σ) (stream : STREAM) (ts : σ)
    (netStreamTemplate : NET_STREAM_INFO) (urlInfo : Option URL_INFO)
    (protocol options : Int) (proxyUrl : Option (List Char))
    (proxyUrlLen : Int) (iUserObject : Int) (errorInfo : ERROR_INFO)
    (cleanupTransport : Bool) (b : BuildOutcome) (address : Nat)
    (hreach : GateReached K env stream netStreamTemplate urlInfo protocol
      options proxyUrl proxyUrlLen iUserObject)
    (hsem : env.krnlWaitSemaphore = true) (halive : env.transportOK = true)
    (hlayer : LayeringKeepsData env)
    (htemplate : netStreamTemplate.storageSize = 0)
    (hb : buildNetStream K stream
      (layerTemplate K env netStreamTemplate protocol options) urlInfo
      (useTransportBuffering K protocol options)
      (netStreamAllocSize K urlInfo protocol options) = b)
    (haddr : env.clAlloc (K.SIZEOF_NET_STREAM_INFO +
      netStreamAllocSize K urlInfo protocol options) = address)
    (halloc : address ≠ NULL) (hok : b.ok = true)
    (hsane : sanityCheckNetStream K b.netStream = true) :
    completeConnect K env stream ts netStreamTemplate urlInfo protocol options
        proxyUrl proxyUrlLen iUserObject errorInfo =
      completeConnectOpen K env b.stream ts address b.netStream options
        proxyUrl proxyUrlLen errorInfo
        [.waitSemaphore true, .transportOK true,
          .clAlloc (K.SIZEOF_NET_STREAM_INFO +
            netStreamAllocSize K urlInfo protocol options) address] ∧
    b.netStream.storageSize = netStreamAllocSize K urlInfo protocol options ∧
    (cleanupStream K env
      { b.stream with
        netStream := DATAPTR_SET K address
        netStreamInfo := b.netStream } ts cleanupTransport).stream = zeroStream ∧
    (cleanupStream K env
      { b.stream with
        netStream := DATAPTR_SET K address
        netStreamInfo := b.netStream } ts cleanupTransport).events =
      (if cleanupTransport = true ∧
          b.netStream.nFlags &&& K.STREAM_NFLAG_USERSOCKET = 0 then
        [.transportDisconnect true] else []) ++
        [.zeroise (K.SIZEOF_NET_STREAM_INFO +
            netStreamAllocSize K urlInfo protocol options),
          .clFree address] := by
  obtain ⟨hs1, hs2⟩ := build_storage K stream
    (layerTemplate K env netStreamTemplate protocol options) urlInfo
    (useTransportBuffering K protocol options)
    (netStreamAllocSize K urlInfo protocol options)
  rw [hb] at hs1 hs2
  have hsize : b.netStream.storageSize =
      netStreamAllocSize K urlInfo protocol options := by
    rw [hs1]
    by_cases hany : useTransportBuffering K protocol options = true ∨
        urlInfo ≠ none
    · rw [if_pos hany]
    · rw [if_neg hany, layerTemplate_storageSize K env netStreamTemplate protocol
        options hlayer, htemplate, allocSize_of_plain K urlInfo protocol options
        hany]
  have hdisc : FNPTR_GET K b.netStream.transportDisconnectFunction ≠ NULL := by
    rw [hs2]
    exact hreach.2.2.2.2.2.2.2.2.2.1.2
  have hget : DATAPTR_GET K (DATAPTR_SET K address) = address :=
    DATAPTR_GET_SET K address
  refine ⟨?_, hsize, ?_, ?_⟩
  · rw [completeConnect_eq_reached K env stream ts netStreamTemplate urlInfo
      protocol options proxyUrl proxyUrlLen iUserObject errorInfo hreach,
      if_neg (by rw [hsem]; decide), if_neg (by rw [halive]; decide)]
    unfold completeConnectAlloc
    dsimp only
    rw [haddr, hb, if_neg halloc, if_neg (by rw [hok]; decide),
      if_neg (by rw [hsane]; decide)]
  · by_cases hc : cleanupTransport = true ∧
        b.netStream.nFlags &&& K.STREAM_NFLAG_USERSOCKET = 0
    · obtain ⟨hc1, hc2⟩ := hc
      subst hc1
      rw [cleanupStream_eq_disconnect K env _ ts (by rw [hget]; exact halloc)
        hsane hc2 hdisc]
    · rw [cleanupStream_eq_keep K env _ ts cleanupTransport
        (by rw [hget]; exact halloc) hsane hc]
  · by_cases hc : cleanupTransport = true ∧
        b.netStream.nFlags &&& K.STREAM_NFLAG_USERSOCKET = 0
    · rw [if_pos hc]
      obtain ⟨hc1, hc2⟩ := hc
      subst hc1
      rw [cleanupStream_eq_disconnect K env _ ts (by rw [hget]; exact halloc)
        hsane hc2 hdisc]
      dsimp only
      rw [hget, hsize]
      rfl
    · rw [if_neg hc, cleanupStream_eq_keep K env _ ts cleanupTransport
        (by rw [hget]; exact halloc) hsane hc]
      dsimp only
      rw [hget, hsize]
      rfl

set_option maxRecDepth 100000 in
/-- C22, witness: the descriptor built for an HTTP connect to example.com
records 8203 trailing bytes (two buffers of 4096 bytes and the 11 characters
of the host); the block allocated has 9227 bytes, and `cleanupStream` zeroes
9227 bytes and releases the block. -/
theorem completeConnect_storage_round_trip_witness :
    GateReached sampleConsts (scenarioEnv plainScenario) freshStream
      { freshTemplate with protocol := 3 } (some exampleUrlInfo) 3 1 none 0 1 ∧
    (initStream sampleConsts (scenarioEnv plainScenario) zeroStream
      zeroNetStreamInfo 3 (sampleConnectInfo "example.com".toList)
      false).netStream = { freshTemplate with protocol := 3 } ∧
    (buildNetStream sampleConsts freshStream
      (layerTemplate sampleConsts (scenarioEnv plainScenario)
        { freshTemplate with protocol := 3 } 3 1) (some exampleUrlInfo)
      (useTransportBuffering sampleConsts 3 1)
      (netStreamAllocSize sampleConsts (some exampleUrlInfo) 3
        1)).netStream.storageSize = 8203 ∧
    (cleanupStream sampleConsts (scenarioEnv plainScenario)
      { (buildNetStream sampleConsts freshStream
          (layerTemplate sampleConsts (scenarioEnv plainScenario)
            { freshTemplate with protocol := 3 } 3 1) (some exampleUrlInfo)
          (useTransportBuffering sampleConsts 3 1)
          (netStreamAllocSize sampleConsts (some exampleUrlInfo) 3 1)).stream with
        netStream := DATAPTR_SET sampleConsts 65536
        netStreamInfo :=
          (buildNetStream sampleConsts freshStream
            (layerTemplate sampleConsts (scenarioEnv plainScenario)
              { freshTemplate with protocol := 3 } 3 1) (some exampleUrlInfo)
            (useTransportBuffering sampleConsts 3 1)
            (netStreamAllocSize sampleConsts (some exampleUrlInfo) 3
              1)).netStream } 0 false).events =
      [.zeroise 9227, .clFree 65536] := by
  have h := completeConnect_storage_round_trip sampleConsts
    (scenarioEnv plainScenario) freshStream 0 { freshTemplate with protocol := 3 }
    (some exampleUrlInfo) 3 1 none 0 1 zeroErrorInfo false _ 65536
    (by unfold GateReached; decide) rfl rfl (scenarioEnv_layering plainScenario)
    rfl rfl (by decide) (by decide) (by decide) (by decide)
  exact ⟨by unfold GateReached; decide, by decide, h.2.1.trans (by decide),
    h.2.2.2.trans (by decide)⟩

/-! ## C23: a failure of the final read into the caller's buffer -/

/-- C23: when a call of `bufferedTransportRead` reaches the part "Read as much
as we can from the buffer" with the stream `s` and the transport state `ts1`
(after the calls `calls`), the cache holds less than the `maxLength` bytes
asked for, and the final blocking read, for the `maxLength - bufEnd` bytes
still missing, fails, then the call returns the status of that read, which is
an error and not `CRYPT_OK`.  The `bufEnd` cached bytes were copied to the
caller's buffer and stay consumed: `bufPos` equals `bufEnd` afterwards, the
cache itself is as it was. -/
theorem bufferedTransportRead_final_read_failure {σ : Type} (K : Consts)
    (T : Transport σ) (stream : STREAM) (ts : σ) (maxLength length0 : Int)
    (flags : Nat) (s : STREAM) (ts1 : σ) (calls : List ReadCall)
    (hreach : bufferedTransportRead K T stream ts maxLength length0 flags =
      bufferedTransportReadDrain K T s ts1 maxLength calls)
    (hsane : sanityCheckNetStream K s.netStreamInfo = true)
    (hmore : s.bufEnd < maxLength)
    (hfail : cryptStatusError K
      (T.read ts1 (maxLength - s.bufEnd) K.TRANSPORT_FLAG_BLOCKING).1.status =
        true) :
    (bufferedTransportRead K T stream ts maxLength length0 flags).status =
      (T.read ts1 (maxLength - s.bufEnd) K.TRANSPORT_FLAG_BLOCKING).1.status ∧
    (bufferedTransportRead K T stream ts maxLength length0 flags).status ≠
      K.CRYPT_OK ∧
    (bufferedTransportRead K T stream ts maxLength length0 flags).calls =
      calls ++ [⟨maxLength - s.bufEnd, K.TRANSPORT_FLAG_BLOCKING,
        (T.read ts1 (maxLength - s.bufEnd) K.TRANSPORT_FLAG_BLOCKING).1⟩] ∧
    (bufferedTransportRead K T stream ts maxLength length0 flags).stream.bufPos =
      (bufferedTransportRead K T stream ts maxLength length0
        flags).stream.bufEnd ∧
    (bufferedTransportRead K T stream ts maxLength length0 flags).stream =
      { s with bufPos := s.bufEnd } ∧
    (bufferedTransportRead K T stream ts maxLength length0 flags).out =
      slice s.buffer 0 s.bufEnd ++
        (T.read ts1 (maxLength - s.bufEnd) K.TRANSPORT_FLAG_BLOCKING).1.data := by
  have herr : (T.read ts1 (maxLength - s.bufEnd)
      K.TRANSPORT_FLAG_BLOCKING).1.status < K.CRYPT_OK := by
    unfold cryptStatusError at hfail
    exact of_decide_eq_true hfail
  rw [hreach, drain_eq_direct_err K T s ts1 maxLength calls hsane hmore herr]
  exact ⟨rfl, ne_of_lt herr, rfl, rfl, rfl, rfl⟩

set_option maxRecDepth 100000 in
/-- C23, witness: the stream caches the bytes 2, 3, 4 behind one consumed
byte and 6 bytes are asked for.  The two refill reads bring nothing, the
final read of the 3 missing bytes fails with status -25: the call returns
-25, the 3 cached bytes are in the caller's buffer and `bufPos = bufEnd = 3`. -/
theorem bufferedTransportRead_final_read_failure_witness :
    (bufferedTransportRead sampleConsts scriptTransport cachedDemoStream
      ⟨[⟨0, []⟩, ⟨0, []⟩, ⟨-25, []⟩], []⟩ 6 0 0).status = -25 ∧
    (bufferedTransportRead sampleConsts scriptTransport cachedDemoStream
      ⟨[⟨0, []⟩, ⟨0, []⟩, ⟨-25, []⟩], []⟩ 6 0 0).stream.bufPos = 3 ∧
    (bufferedTransportRead sampleConsts scriptTransport cachedDemoStream
      ⟨[⟨0, []⟩, ⟨0, []⟩, ⟨-25, []⟩], []⟩ 6 0 0).stream.bufEnd = 3 ∧
    (bufferedTransportRead sampleConsts scriptTransport cachedDemoStream
      ⟨[⟨0, []⟩, ⟨0, []⟩, ⟨-25, []⟩], []⟩ 6 0 0).out = [2, 3, 4] := by
  have h := bufferedTransportRead_final_read_failure sampleConsts scriptTransport
    cachedDemoStream ⟨[⟨0, []⟩, ⟨0, []⟩, ⟨-25, []⟩], []⟩ 6 0 0
    (sampleStream [2, 3, 4, 4, 5, 0, 0, 0] 0 3 [0, 0, 0, 0] 0)
    ⟨[⟨-25, []⟩], []⟩
    [⟨5, sampleConsts.TRANSPORT_FLAG_BLOCKING, ⟨0, []⟩⟩,
      ⟨5, sampleConsts.TRANSPORT_FLAG_NONBLOCKING, ⟨0, []⟩⟩]
    (by decide) (by decide) (by decide) (by decide)
  exact ⟨h.1.trans (by decide), by rw [h.2.2.2.2.1]; decide,
    by rw [h.2.2.2.2.1]; decide, h.2.2.2.2.2.trans (by decide)⟩

/-! ## C24: a stored pointer reads back -/

/-- C24: for every pointer value `p`, `NULL` included, the pair stored by
`FNPTR_SET` / `DATAPTR_SET` passes `FNPTR_ISVALID` / `DATAPTR_ISVALID`, and
`FNPTR_GET` / `DATAPTR_GET` on it yields `p`. -/
theorem FNPTR_DATAPTR_set_get (K : Consts) (p : Nat) :
    FNPTR_GET K (FNPTR_SET K p) = p ∧
    FNPTR_ISVALID K (FNPTR_SET K p) = true ∧
    DATAPTR_GET K (DATAPTR_SET K p) = p ∧
    DATAPTR_ISVALID K (DATAPTR_SET K p) = true :=
  ⟨FNPTR_GET_SET K p, FNPTR_ISVALID_SET K p, DATAPTR_GET_SET K p,
    DATAPTR_ISVALID_SET K p⟩

theorem xor_left_cancel_iff (a b c : Nat) : a ^^^ b = a ^^^ c ↔ b = c := by
  constructor
  · intro h
    have := congrArg (fun x => a ^^^ x) h
    simpa only [xor_xor_cancel] using this
  · intro h
    rw [h]

theorem xor_right_cancel_iff (a b c : Nat) : a ^^^ c = b ^^^ c ↔ a = b := by
  rw [Nat.xor_comm a c, Nat.xor_comm b c]
  exact xor_left_cancel_iff c a b

theorem xor_two_pow_ne (v i : Nat) : v ^^^ 2 ^ i ≠ v := by
  intro h
  have h1 : v ^^^ 2 ^ i = v ^^^ 0 := by rw [h, Nat.xor_zero]
  have h2 := (xor_left_cancel_iff v (2 ^ i) 0).mp h1
  exact absurd h2 (by positivity)

theorem FNPTR_GET_of_mismatch (K : Consts) (p : SafePtr)
    (h : (p.ptr1 % 2 ^ K.PTR_BITS) ^^^ p.ptr2 ≠ allOnes K) :
    FNPTR_GET K p = NULL := by
  unfold FNPTR_GET FNPTR_ISVALID
  rw [if_neg (by simpa using h)]

theorem DATAPTR_GET_of_mismatch (K : Consts) (p : SafePtr)
    (h : (p.ptr1 % 2 ^ K.PTR_BITS) ^^^ p.ptr2 ≠ allOnes K) :
    DATAPTR_GET K p = NULL := by
  unfold DATAPTR_GET DATAPTR_ISVALID
  rw [if_neg (by simpa using h)]

theorem mismatch_of_value_change (K : Consts) (v w : Nat)
    (hv : v < 2 ^ K.PTR_BITS) (hw : w < 2 ^ K.PTR_BITS) (hne : w ≠ v) :
    (w % 2 ^ K.PTR_BITS) ^^^ ((v % 2 ^ K.PTR_BITS) ^^^ allOnes K) ≠ allOnes K := by
  intro h
  rw [xor_eq_iff, xor_right_cancel_iff, Nat.mod_eq_of_lt hv,
    Nat.mod_eq_of_lt hw] at h
  exact hne h.symm

theorem mismatch_of_check_change (K : Consts) (v c : Nat)
    (hne : c ≠ (v % 2 ^ K.PTR_BITS) ^^^ allOnes K) :
    (v % 2 ^ K.PTR_BITS) ^^^ c ≠ allOnes K := by
  intro h
  rw [xor_eq_iff] at h
  exact hne h

theorem read_eq_no_function {σ : Type} (K : Consts) (T : Transport σ)
    (stream : STREAM) (ts : σ) (maxLength length0 : Int) (flags : Nat)
    (h : FNPTR_GET K stream.netStreamInfo.transportReadFunction = NULL) :
    bufferedTransportRead K T stream ts maxLength length0 flags =
      ⟨K.CRYPT_ERROR_INTERNAL, length0, [], stream, ts, []⟩ := by
  unfold bufferedTransportRead
  dsimp only
  repeat' split
  all_goals rfl

theorem directRead_eq_no_function {σ : Type} (K : Consts) (T : Transport σ)
    (stream : STREAM) (ts : σ) (maxLength length0 : Int)
    (h : FNPTR_GET K stream.netStreamInfo.transportReadFunction = NULL) :
    transportDirectReadFunction K T stream ts maxLength length0 =
      ⟨K.CRYPT_ERROR_INTERNAL, length0, [], stream, ts, []⟩ := by
  unfold transportDirectReadFunction
  repeat' split
  all_goals rfl

theorem write_eq_no_function {σ : Type} (K : Consts) (T : Transport σ)
    (stream : STREAM) (ts : σ) (buffer : List BYTE) (length0 : Int) (flags : Nat)
    (h : FNPTR_GET K stream.netStreamInfo.transportWriteFunction = NULL) :
    bufferedTransportWrite K T stream ts buffer length0 flags =
      ⟨K.CRYPT_ERROR_INTERNAL, length0, stream, ts, []⟩ := by
  unfold bufferedTransportWrite
  dsimp only
  repeat' split
  all_goals rfl

theorem directWrite_eq_no_function {σ : Type} (K : Consts) (T : Transport σ)
    (stream : STREAM) (ts : σ) (buffer : List BYTE) (length0 : Int)
    (h : FNPTR_GET K stream.netStreamInfo.transportWriteFunction = NULL) :
    transportDirectWriteFunction K T stream ts buffer length0 =
      ⟨K.CRYPT_ERROR_INTERNAL, length0, stream, ts, []⟩ := by
  unfold transportDirectWriteFunction
  dsimp only
  repeat' split
  all_goals rfl

/-! ## C25: a pair that does not verify reads as absent -/

/-- C25: `FNPTR_GET` / `DATAPTR_GET` yields `NULL` for every stored pair whose
value, XORed with the check word, is not all-ones.  This is so after any
change to the value word alone or to the check word alone of a pair stored
for a pointer value `v` (one that fits the pointer width), in particular
after the flip of any single bit of either word, and it is so for the
all-zero pair.  On a descriptor whose transport read (write) entry reads as
`NULL`, as in a zero-filled operation table, the buffered and the direct read
(write) return `CRYPT_ERROR_INTERNAL` and leave everything untouched, without
a call to the transport. -/
theorem FNPTR_DATAPTR_get_invalid {σ : Type} (K : Consts) (T : Transport σ) :
    (∀ p : SafePtr, (p.ptr1 % 2 ^ K.PTR_BITS) ^^^ p.ptr2 ≠ allOnes K →
      FNPTR_GET K p = NULL ∧ DATAPTR_GET K p = NULL) ∧
    (∀ v w : Nat, v < 2 ^ K.PTR_BITS → w < 2 ^ K.PTR_BITS → w ≠ v →
      FNPTR_GET K { FNPTR_SET K v with ptr1 := w } = NULL ∧
      DATAPTR_GET K { DATAPTR_SET K v with ptr1 := w } = NULL) ∧
    (∀ v c : Nat, c ≠ (FNPTR_SET K v).ptr2 →
      FNPTR_GET K { FNPTR_SET K v with ptr2 := c } = NULL ∧
      DATAPTR_GET K { DATAPTR_SET K v with ptr2 := c } = NULL) ∧
    (∀ v i : Nat, v < 2 ^ K.PTR_BITS → i < K.PTR_BITS →
      FNPTR_GET K { FNPTR_SET K v with ptr1 := v ^^^ 2 ^ i } = NULL ∧
      FNPTR_GET K
        { FNPTR_SET K v with ptr2 := (FNPTR_SET K v).ptr2 ^^^ 2 ^ i } = NULL ∧
      DATAPTR_GET K { DATAPTR_SET K v with ptr1 := v ^^^ 2 ^ i } = NULL ∧
      DATAPTR_GET K
        { DATAPTR_SET K v with ptr2 := (DATAPTR_SET K v).ptr2 ^^^ 2 ^ i } = NULL) ∧
    (FNPTR_GET K zeroSafePtr = NULL ∧ DATAPTR_GET K zeroSafePtr = NULL) ∧
    (∀ (stream : STREAM) (ts : σ) (maxLength length0 : Int) (flags : Nat),
      FNPTR_GET K stream.netStreamInfo.transportReadFunction = NULL →
      bufferedTransportRead K T stream ts maxLength length0 flags =
        ⟨K.CRYPT_ERROR_INTERNAL, length0, [], stream, ts, []⟩ ∧
      transportDirectReadFunction K T stream ts maxLength length0 =
        ⟨K.CRYPT_ERROR_INTERNAL, length0, [], stream, ts, []⟩) ∧
    (∀ (stream : STREAM) (ts : σ) (buffer : List BYTE) (length0 : Int)
        (flags : Nat),
      FNPTR_GET K stream.netStreamInfo.transportWriteFunction = NULL →
      bufferedTransportWrite K T stream ts buffer length0 flags =
        ⟨K.CRYPT_ERROR_INTERNAL, length0, stream, ts, []⟩ ∧
      transportDirectWriteFunction K T stream ts buffer length0 =
        ⟨K.CRYPT_ERROR_INTERNAL, length0, stream, ts, []⟩) := by
  refine ⟨fun p h => ⟨FNPTR_GET_of_mismatch K p h, DATAPTR_GET_of_mismatch K p h⟩,
    fun v w hv hw hne => ?_, fun v c hne => ?_, fun v i hv hi => ?_,
    ⟨FNPTR_GET_zeroSafePtr K, DATAPTR_GET_zeroSafePtr K⟩,
    fun stream ts maxLength length0 flags h =>
      ⟨read_eq_no_function K T stream ts maxLength length0 flags h,
        directRead_eq_no_function K T stream ts maxLength length0 h⟩,
    fun stream ts buffer length0 flags h =>
      ⟨write_eq_no_function K T stream ts buffer length0 flags h,
        directWrite_eq_no_function K T stream ts buffer length0 h⟩⟩
  · exact ⟨FNPTR_GET_of_mismatch K _ (mismatch_of_value_change K v w hv hw hne),
      DATAPTR_GET_of_mismatch K _ (mismatch_of_value_change K v w hv hw hne)⟩
  · exact ⟨FNPTR_GET_of_mismatch K _ (mismatch_of_check_change K v c hne),
      DATAPTR_GET_of_mismatch K _ (mismatch_of_check_change K v c hne)⟩
  · have hlt : v ^^^ 2 ^ i < 2 ^ K.PTR_BITS :=
      Nat.xor_lt_two_pow hv (Nat.pow_lt_pow_right (by decide) hi)
    exact ⟨FNPTR_GET_of_mismatch K _
        (mismatch_of_value_change K v _ hv hlt (xor_two_pow_ne v i)),
      FNPTR_GET_of_mismatch K _
        (mismatch_of_check_change K v _ (xor_two_pow_ne _ i)),
      DATAPTR_GET_of_mismatch K _
        (mismatch_of_value_change K v _ hv hlt (xor_two_pow_ne v i)),
      DATAPTR_GET_of_mismatch K _
        (mismatch_of_check_change K v _ (xor_two_pow_ne _ i))⟩

set_option maxRecDepth 100000 in
/-- C25, witness: the pair stored for the address 4160 with its lowest value
bit flipped reads as `NULL`, and a buffered read and a direct write on the
stream whose descriptor has a zero-filled operation table fail with
`CRYPT_ERROR_INTERNAL` without a call to the transport. -/
theorem FNPTR_DATAPTR_get_invalid_witness :
    FNPTR_GET sampleConsts
      { FNPTR_SET sampleConsts 4160 with ptr1 := 4160 ^^^ 2 ^ 0 } = NULL ∧
    FNPTR_GET sampleConsts emptyTableNetStream.transportReadFunction = NULL ∧
    (bufferedTransportRead sampleConsts scriptTransport emptyTableStream
      readDemoScript 4 0 0).status = sampleConsts.CRYPT_ERROR_INTERNAL ∧
    (bufferedTransportRead sampleConsts scriptTransport emptyTableStream
      readDemoScript 4 0 0).calls = [] ∧
    (transportDirectWriteFunction sampleConsts scriptTransport emptyTableStream
      readDemoScript [1, 2] 0).status = sampleConsts.CRYPT_ERROR_INTERNAL ∧
    (transportDirectWriteFunction sampleConsts scriptTransport emptyTableStream
      readDemoScript [1, 2] 0).calls = [] :=
  ⟨((FNPTR_DATAPTR_get_invalid sampleConsts scriptTransport).2.2.2.1 4160 0
      (by decide) (by decide)).1,
    by decide,
    by rw [((FNPTR_DATAPTR_get_invalid sampleConsts scriptTransport).2.2.2.2.2.1
      emptyTableStream readDemoScript 4 0 0 (by decide)).1],
    by rw [((FNPTR_DATAPTR_get_invalid sampleConsts scriptTransport).2.2.2.2.2.1
      emptyTableStream readDemoScript 4 0 0 (by decide)).1],
    by rw [((FNPTR_DATAPTR_get_invalid sampleConsts scriptTransport).2.2.2.2.2.2
      emptyTableStream readDemoScript [1, 2] 0 0 (by decide)).2],
    by rw [((FNPTR_DATAPTR_get_invalid sampleConsts scriptTransport).2.2.2.2.2.2
      emptyTableStream readDemoScript [1, 2] 0 0 (by decide)).2]⟩

theorem drain_bounds {σ : Type} (K : Consts) (T : Transport σ) (s : STREAM)
    (ts : σ) (n : Int) (calls : List ReadCall) (hn : 0 < n)
    (h0 : CursorBounds s) :
    CursorBounds (bufferedTransportReadDrain K T s ts n calls).stream ∧
    (bufferedTransportReadDrain K T s ts n calls).stream.bufSize = s.bufSize := by
  obtain ⟨_, _, h3⟩ := h0
  have hmin : 0 ≤ min n s.bufEnd ∧ min n s.bufEnd ≤ s.bufEnd :=
    ⟨le_min (by omega) (by omega), min_le_right _ _⟩
  unfold bufferedTransportReadDrain
  dsimp only
  repeat' split
  all_goals first
    | exact ⟨⟨by assumption, by assumption, by assumption⟩, rfl⟩
    | exact ⟨⟨hmin.1, hmin.2, h3⟩, rfl⟩

theorem refill_bounds {σ : Type} (K : Consts) (T : Transport σ)
    (hT : ReadsWithinRequest T) (s : STREAM) (ts : σ) (n : Int) (hn : 0 < n)
    (h0 : CursorBounds s) :
    CursorBounds (bufferedTransportReadRefill K T s ts n).stream ∧
    (bufferedTransportReadRefill K T s ts n).stream.bufSize = s.bufSize := by
  obtain ⟨h1, h2, h3⟩ := h0
  by_cases hroom : s.bufEnd < s.bufSize
  swap
  · rw [refill_eq_full K T s ts n hroom]
    exact drain_bounds K T s ts n [] hn ⟨h1, h2, h3⟩
  obtain ⟨m, hm⟩ : ∃ m : Int,
      m = if s.bufSize - s.bufEnd > n then n else s.bufSize - s.bufEnd := ⟨_, rfl⟩
  have hmle : m ≤ s.bufSize - s.bufEnd := by rw [hm]; split <;> omega
  have hmpos : 0 < m := by rw [hm]; split <;> omega
  have hl1 := hT ts m K.TRANSPORT_FLAG_BLOCKING hmpos
  by_cases herr : (T.read ts m K.TRANSPORT_FLAG_BLOCKING).1.status < K.CRYPT_OK
  · rw [refill_eq_block_err K T s ts n m hroom hm herr]
    exact ⟨⟨h1, h2, h3⟩, rfl⟩
  by_cases hmore : s.bufEnd + (T.read ts m K.TRANSPORT_FLAG_BLOCKING).1.data.length
      < s.bufSize
  swap
  · rw [refill_eq_block_only K T s ts n m hroom hm herr hmore]
    refine drain_bounds K T _ _ n _ hn ⟨h1, ?_, ?_⟩
    · show s.bufPos ≤ s.bufEnd + _
      omega
    · show s.bufEnd + _ ≤ s.bufSize
      omega
  rw [refill_eq_topup K T s ts n m hroom hm herr hmore _ _ rfl rfl]
  have hl2 := hT (T.read ts m K.TRANSPORT_FLAG_BLOCKING).2
    (s.bufSize - (s.bufEnd + (T.read ts m K.TRANSPORT_FLAG_BLOCKING).1.data.length))
    K.TRANSPORT_FLAG_NONBLOCKING (by omega)
  refine drain_bounds K T _ _ n _ hn ⟨h1, ?_, ?_⟩
  · dsimp only
    split <;> omega
  · dsimp only
    split <;> omega

theorem read_bounds {σ : Type} (K : Consts) (T : Transport σ)
    (hT : ReadsWithinRequest T) (stream : STREAM) (ts : σ)
    (maxLength length0 : Int) (flags : Nat) (h0 : CursorBounds stream) :
    CursorBounds
      (bufferedTransportRead K T stream ts maxLength length0 flags).stream ∧
    (bufferedTransportRead K T stream ts maxLength length0 flags).stream.bufSize =
      stream.bufSize := by
  obtain ⟨h1, h2, h3⟩ := h0
  by_cases hentry : ReadEntryOK K stream maxLength flags
  swap
  · rw [read_eq_entry_fail K T stream ts maxLength length0 flags hentry]
    exact ⟨⟨h1, h2, h3⟩, rfl⟩
  have hn : 0 < maxLength := hentry.2.2.1.1
  by_cases hfit : maxLength ≤ stream.bufEnd - stream.bufPos
  · rw [read_eq_cached K T stream ts maxLength length0 flags hentry hfit]
    refine ⟨⟨?_, ?_, h3⟩, rfl⟩
    · show 0 ≤ stream.bufPos + maxLength
      omega
    · show stream.bufPos + maxLength ≤ stream.bufEnd
      omega
  by_cases hrc : stream.bufPos > 0 ∧ stream.bufEnd - stream.bufPos > 0 ∧
      K.rangeCheck stream.bufPos (stream.bufEnd - stream.bufPos) stream.bufEnd =
        false
  · rw [read_eq_range_fail K T stream ts maxLength length0 flags hentry hfit hrc]
    exact ⟨⟨h1, h2, h3⟩, rfl⟩
  rw [read_eq_refill K T stream ts maxLength length0 flags hentry hfit h1 hrc]
  by_cases hp : stream.bufPos > 0
  · rw [if_pos hp]
    refine refill_bounds K T hT _ ts maxLength hn ⟨le_refl 0, ?_, ?_⟩
    · show (0 : Int) ≤ stream.bufEnd - stream.bufPos
      omega
    · show stream.bufEnd - stream.bufPos ≤ stream.bufSize
      omega
  · rw [if_neg hp]
    exact refill_bounds K T hT _ ts maxLength hn ⟨h1, h2, h3⟩

theorem scriptTransport_readsWithinRequest : ReadsWithinRequest scriptTransport := by
  intro ts n flags hn
  unfold scriptTransport
  dsimp only
  split
  · simp only [List.length_nil, Nat.cast_zero]
    omega
  · simp only [List.length_take]
    omega

/-! ## C26: the cursor invariant of the read-ahead buffer -/

/-- C26: over a transport whose reads return at most the number of bytes
requested, every call of `bufferedTransportRead` on a stream with
`0 ≤ bufPos ≤ bufEnd ≤ bufSize` leaves a stream with
`0 ≤ bufPos ≤ bufEnd ≤ bufSize` and the capacity `bufSize` it had, whatever
the arguments, whatever status the call returns and whichever transport read
fails. -/
theorem bufferedTransportRead_cursor_invariant {σ : Type} (K : Consts)
    (T : Transport σ) (hT : ReadsWithinRequest T) (stream : STREAM) (ts : σ)
    (maxLength length0 : Int) (flags : Nat) (hinv : CursorBounds stream) :
    CursorBounds
        (bufferedTransportRead K T stream ts maxLength length0 flags).stream ∧
    (bufferedTransportRead K T stream ts maxLength length0 flags).stream.bufSize =
      stream.bufSize :=
  read_bounds K T hT stream ts maxLength length0 flags hinv

set_option maxRecDepth 100000 in
/-- C26, witness: a read of 5 bytes from a stream that caches 3 bytes, over a
transport whose blocking refill read fails: the call returns that error and
the cursors are still within bounds. -/
theorem bufferedTransportRead_cursor_invariant_witness :
    ReadsWithinRequest scriptTransport ∧ CursorBounds cachedDemoStream ∧
    (bufferedTransportRead sampleConsts scriptTransport cachedDemoStream
      ⟨[⟨-25, []⟩], []⟩ 5 0 0).status = -25 ∧
    CursorBounds
      (bufferedTransportRead sampleConsts scriptTransport cachedDemoStream
        ⟨[⟨-25, []⟩], []⟩ 5 0 0).stream :=
  ⟨scriptTransport_readsWithinRequest, by unfold CursorBounds; decide, by decide,
    (bufferedTransportRead_cursor_invariant sampleConsts scriptTransport
      scriptTransport_readsWithinRequest cachedDemoStream ⟨[⟨-25, []⟩], []⟩ 5 0 0
      (by unfold CursorBounds; decide)).1⟩

theorem sanityCheckWriteBuffer_iff (K : Consts) (ns : NET_STREAM_INFO) :
    sanityCheckWriteBuffer K ns = true ↔
      (ns.writeBuffer = none ∧ ns.writeBufSize = 0 ∧ ns.writeBufEnd = 0) ∨
      (ns.writeBuffer ≠ none ∧ 0 < ns.writeBufSize ∧
        ns.writeBufSize < K.MAX_BUFFER_SIZE ∧ 0 ≤ ns.writeBufEnd ∧
        ns.writeBufEnd ≤ ns.writeBufSize) := by
  unfold sanityCheckWriteBuffer
  by_cases hb : ns.writeBuffer = none
  · rw [if_pos hb]
    by_cases hz : ns.writeBufSize ≠ 0 ∨ ns.writeBufEnd ≠ 0
    · rw [if_pos hz]
      constructor
      · intro h
        exact Bool.noConfusion h
      · rintro (⟨_, h1, h2⟩ | ⟨h, _⟩)
        · rcases hz with hz | hz
          · exact absurd h1 hz
          · exact absurd h2 hz
        · exact absurd hb h
    · rw [if_neg hz]
      have hz' : ns.writeBufSize = 0 ∧ ns.writeBufEnd = 0 := by
        constructor <;> by_contra h <;> exact hz (by tauto)
      exact ⟨fun _ => Or.inl ⟨hb, hz'⟩, fun _ => rfl⟩
  · rw [if_neg hb]
    by_cases h1 : ns.writeBufSize ≤ 0 ∨ ns.writeBufSize ≥ K.MAX_BUFFER_SIZE
    · rw [if_pos h1]
      constructor
      · intro h
        exact Bool.noConfusion h
      · rintro (⟨h, _⟩ | ⟨_, h2, h3, _⟩)
        · exact absurd h hb
        · omega
    · rw [if_neg h1]
      by_cases h2 : ns.writeBufEnd < 0 ∨ ns.writeBufEnd > ns.writeBufSize
      · rw [if_pos h2]
        constructor
        · intro h
          exact Bool.noConfusion h
        · rintro (⟨h, _⟩ | ⟨_, _, _, h3, h4⟩)
          · exact absurd h hb
          · omega
      · rw [if_neg h2]
        exact ⟨fun _ => Or.inr ⟨hb, by omega, by omega, by omega, by omega⟩,
          fun _ => rfl⟩

theorem sanityCheckWriteBuffer_update (K : Consts) (ns : NET_STREAM_INFO)
    (f : List BYTE → List BYTE) (e : Int)
    (h : sanityCheckWriteBuffer K ns = true)
    (he : (ns.writeBuffer = none ∧ e = 0) ∨
      (ns.writeBuffer ≠ none ∧ 0 ≤ e ∧ e ≤ ns.writeBufSize)) :
    sanityCheckWriteBuffer K
      { ns with writeBuffer := ns.writeBuffer.map f, writeBufEnd := e } = true := by
  rw [sanityCheckWriteBuffer_iff] at h ⊢
  dsimp only
  rcases h with ⟨hb, hs, _⟩ | ⟨hb, h1, h2, _, _⟩
  · rcases he with ⟨_, he⟩ | ⟨hb', _⟩
    · exact Or.inl ⟨by rw [hb]; rfl, hs, he⟩
    · exact absurd hb hb'
  · rcases he with ⟨hb', _⟩ | ⟨_, he1, he2⟩
    · exact absurd hb' hb
    · refine Or.inr ⟨?_, h1, h2, he1, he2⟩
      intro hn
      exact hb (Option.map_eq_none'.mp hn)

theorem writeAssemble_writeBuffer (K : Consts) (ns : NET_STREAM_INFO)
    (buffer : List BYTE) (h : sanityCheckWriteBuffer K ns = true) :
    sanityCheckWriteBuffer K (writeAssemble ns buffer) = true := by
  unfold writeAssemble
  by_cases hc : writeBytesToCopy ns buffer.length > 0
  swap
  · rw [if_neg hc]
    exact h
  rw [if_pos hc]
  have hle : ns.writeBufEnd + writeBytesToCopy ns buffer.length ≤ ns.writeBufSize := by
    unfold writeBytesToCopy
    split <;> omega
  refine sanityCheckWriteBuffer_update K ns _ _ h ?_
  rcases (sanityCheckWriteBuffer_iff K ns).mp h with ⟨_, hs, he⟩ | ⟨hb, _, _, h3, _⟩
  · omega
  · exact Or.inr ⟨hb, by omega, hle⟩

theorem processIncompleteWrite_writeBuffer (K : Consts) (ns : NET_STREAM_INFO)
    (bw c l0 : Int) (h : sanityCheckWriteBuffer K ns = true) :
    sanityCheckWriteBuffer K (processIncompleteWrite K ns bw c l0).netStream =
      true := by
  unfold processIncompleteWrite
  dsimp only
  by_cases h1 : bw > 0 ∧ bw < ns.writeBufEnd ∧ bw < K.MAX_BUFFER_SIZE
  swap
  · rw [if_pos h1]
    exact h
  rw [if_neg (not_not.mpr h1)]
  by_cases h2 : c ≥ 0 ∧ c < K.MAX_BUFFER_SIZE
  swap
  · rw [if_pos h2]
    exact h
  rw [if_neg (not_not.mpr h2)]
  by_cases h3 : K.rangeCheck bw (ns.writeBufEnd - bw) ns.writeBufEnd = false
  · rw [if_pos h3]
    exact h
  rw [if_neg h3]
  refine sanityCheckWriteBuffer_update K ns _ _ h ?_
  rcases (sanityCheckWriteBuffer_iff K ns).mp h with ⟨_, hs, he⟩ | ⟨hb, _, _, h3, _⟩
  · omega
  · exact Or.inr ⟨hb, by omega, by omega⟩

theorem writeDirect_stream {σ : Type} (K : Consts) (T : Transport σ)
    (s : STREAM) (ts : σ) (buffer : List BYTE) (byteCount : Int)
    (calls : List WriteCall) :
    (bufferedTransportWriteDirect K T s ts buffer byteCount calls).stream = s := by
  unfold bufferedTransportWriteDirect
  dsimp only
  repeat' split
  all_goals rfl

theorem write_writeBuffer {σ : Type} (K : Consts) (T : Transport σ)
    (stream : STREAM) (ts : σ) (buffer : List BYTE) (length0 : Int) (flags : Nat)
    (h : sanityCheckWriteBuffer K stream.netStreamInfo = true) :
    sanityCheckWriteBuffer K
      (bufferedTransportWrite K T stream ts buffer length0 flags).stream.netStreamInfo
        = true := by
  have hasm := writeAssemble_writeBuffer K stream.netStreamInfo buffer h
  unfold bufferedTransportWrite
  dsimp only
  by_cases h1 : DATAPTR_GET K stream.netStream = NULL
  · rw [if_pos h1]; exact h
  rw [if_neg h1]
  by_cases h2 : sanityCheckNetStream K stream.netStreamInfo = false
  · rw [if_pos h2]; exact h
  rw [if_neg h2]
  by_cases h3 : (buffer.length : Int) > 0 ∧ (buffer.length : Int) < K.MAX_BUFFER_SIZE
  swap
  · rw [if_pos h3]; exact h
  rw [if_neg (not_not.mpr h3)]
  by_cases h4 : flags ≥ K.TRANSPORT_FLAG_NONE ∧ flags ≤ K.TRANSPORT_FLAG_MAX
  swap
  · rw [if_pos h4]; exact h
  rw [if_neg (not_not.mpr h4)]
  by_cases h5 : FNPTR_GET K stream.netStreamInfo.transportWriteFunction = NULL
  · rw [if_pos h5]; exact h
  rw [if_neg h5]
  by_cases h6 : flags &&& K.TRANSPORT_FLAG_FLUSH = 0 ∧
      stream.netStreamInfo.writeBufEnd + buffer.length ≤
        stream.netStreamInfo.writeBufSize
  · rw [if_pos h6]
    have hnew : sanityCheckWriteBuffer K
        { stream.netStreamInfo with
          writeBuffer := stream.netStreamInfo.writeBuffer.map fun wb =>
            store wb stream.netStreamInfo.writeBufEnd
              (slice buffer 0 buffer.length)
          writeBufEnd := stream.netStreamInfo.writeBufEnd + buffer.length } =
          true := by
      refine sanityCheckWriteBuffer_update K _ _ _ h ?_
      rcases (sanityCheckWriteBuffer_iff K _).mp h with
        ⟨_, hs, he⟩ | ⟨hb, _, _, h3', _⟩
      · omega
      · exact Or.inr ⟨hb, by omega, h6.2⟩
    split <;> exact hnew
  rw [if_neg h6]
  by_cases h7 : stream.netStreamInfo.writeBufEnd > 0
  swap
  · rw [if_neg h7, writeDirect_stream]
    exact h
  rw [if_pos h7]
  split
  · exact hasm
  split
  · have hp := processIncompleteWrite_writeBuffer K
      (writeAssemble stream.netStreamInfo buffer)
      (T.write ts (writeAssemble stream.netStreamInfo buffer).pending
        K.TRANSPORT_FLAG_NONE).1.bytesWritten
      (writeBytesToCopy stream.netStreamInfo buffer.length) 0 hasm
    repeat' split
    all_goals exact hp
  · have hz : sanityCheckWriteBuffer K
        { writeAssemble stream.netStreamInfo buffer with writeBufEnd := 0 } =
          true := by
      rw [sanityCheckWriteBuffer_iff] at hasm ⊢
      dsimp only
      rcases hasm with ⟨hb, hs, _⟩ | ⟨hb, h1', h2', _, _⟩
      · exact Or.inl ⟨hb, hs, rfl⟩
      · exact Or.inr ⟨hb, h1', h2', le_refl 0, by omega⟩
    split
    · split <;> exact hz
    · rw [writeDirect_stream]
      exact hz

/-! ## C27: the write-buffer invariant -/

/-- C27: the write-buffer checks of `sanityCheckNetStream` (no buffer: capacity
and watermark are 0; a buffer: `0 < writeBufSize < MAX_BUFFER_SIZE` and
`0 ≤ writeBufEnd ≤ writeBufSize`) hold after every call of
`bufferedTransportWrite` on a descriptor on which they hold, on every return
path and whatever the transport reports: in particular for a transport whose
writes report between 0 and the number of bytes offered. -/
theorem bufferedTransportWrite_write_buffer_invariant {σ : Type} (K : Consts)
    (T : Transport σ) (stream : STREAM) (ts : σ) (buffer : List BYTE)
    (length0 : Int) (flags : Nat)
    (hinv : sanityCheckWriteBuffer K stream.netStreamInfo = true) :
    sanityCheckWriteBuffer K
      (bufferedTransportWrite K T stream ts buffer length0 flags).stream.netStreamInfo
        = true :=
  write_writeBuffer K T stream ts buffer length0 flags hinv

set_option maxRecDepth 100000 in
/-- C27, witness: 3 bytes are buffered, a flushing write adds 2 bytes and the
transport accepts 4 of the 5 assembled bytes: the write buffer, now holding
1 byte, passes the checks. -/
theorem bufferedTransportWrite_write_buffer_invariant_witness :
    sanityCheckWriteBuffer sampleConsts pendingWriteDemoStream.netStreamInfo =
      true ∧
    (bufferedTransportWrite sampleConsts scriptTransport pendingWriteDemoStream
      shortWriteScript [1, 2] 0 1).stream.netStreamInfo.writeBufEnd = 1 ∧
    sanityCheckWriteBuffer sampleConsts
      (bufferedTransportWrite sampleConsts scriptTransport pendingWriteDemoStream
        shortWriteScript [1, 2] 0 1).stream.netStreamInfo = true :=
  ⟨by decide, by decide,
    bufferedTransportWrite_write_buffer_invariant sampleConsts scriptTransport
      pendingWriteDemoStream shortWriteScript [1, 2] 0 1 (by decide)⟩

/-! ## C28: the timeouts of an accepted descriptor -/

/-- C28 (as amended): a descriptor that `sanityCheckNetStream` accepts has its
active timeout in `[0, MAX_NETWORK_TIMEOUT]` or, when it is a listening
(is-server) stream, equal to `MAX_INTLENGTH`; its saved timeout lies in
`[0, MAX_NETWORK_TIMEOUT]`, for a listening stream too. -/
theorem sanityCheckNetStream_timeouts (K : Consts) (netStream : NET_STREAM_INFO)
    (h : sanityCheckNetStream K netStream = true) :
    ((0 ≤ netStream.timeout ∧ netStream.timeout ≤ K.MAX_NETWORK_TIMEOUT) ∨
      (netStream.nFlags &&& K.STREAM_NFLAG_ISSERVER ≠ 0 ∧
        netStream.timeout = K.MAX_INTLENGTH)) ∧
    (0 ≤ netStream.savedTimeout ∧
      netStream.savedTimeout ≤ K.MAX_NETWORK_TIMEOUT) := by
  unfold sanityCheckNetStream at h
  by_cases h1 : netStream.protocol ≤ K.STREAM_PROTOCOL_NONE ∨
      netStream.protocol ≥ K.STREAM_PROTOCOL_LAST ∨
      netStream.nFlags < K.STREAM_NFLAG_NONE ∨
      netStream.nFlags > K.STREAM_NFLAG_MAX
  · rw [if_pos h1] at h
    exact Bool.noConfusion h
  rw [if_neg h1] at h
  by_cases h2 : (netStream.timeout < 0 ∨
      netStream.timeout > K.MAX_NETWORK_TIMEOUT) ∧
      ¬ (netStream.nFlags &&& K.STREAM_NFLAG_ISSERVER ≠ 0 ∧
          netStream.timeout = K.MAX_INTLENGTH)
  · rw [if_pos h2] at h
    exact Bool.noConfusion h
  rw [if_neg h2] at h
  by_cases h3 : netStream.savedTimeout < 0 ∨
      netStream.savedTimeout > K.MAX_NETWORK_TIMEOUT
  · rw [if_pos h3] at h
    exact Bool.noConfusion h
  refine ⟨?_, by omega⟩
  by_cases hs : netStream.nFlags &&& K.STREAM_NFLAG_ISSERVER ≠ 0 ∧
      netStream.timeout = K.MAX_INTLENGTH
  · exact Or.inr hs
  · refine Or.inl ?_
    have : ¬ (netStream.timeout < 0 ∨ netStream.timeout > K.MAX_NETWORK_TIMEOUT) :=
      fun hc => h2 ⟨hc, hs⟩
    omega

set_option maxRecDepth 100000 in
/-- C28, witness: the listening descriptor with a saved timeout of 30 seconds
is accepted; its active timeout is `MAX_INTLENGTH`. -/
theorem sanityCheckNetStream_timeouts_witness :
    sanityCheckNetStream sampleConsts (listenNetStream 30) = true ∧
    (listenNetStream 30).timeout = sampleConsts.MAX_INTLENGTH ∧
    (0 ≤ (listenNetStream 30).savedTimeout ∧
      (listenNetStream 30).savedTimeout ≤ sampleConsts.MAX_NETWORK_TIMEOUT) :=
  ⟨by decide, by decide,
    (sanityCheckNetStream_timeouts sampleConsts (listenNetStream 30)
      (by decide)).2⟩

set_option maxRecDepth 100000 in
/-- C28, counterexample to the claim as stated: a listening (is-server)
descriptor whose saved timeout is the unbounded value `MAX_INTLENGTH` is
rejected by `sanityCheckNetStream`, although the same descriptor with a saved
timeout of 30 seconds is accepted and its active timeout is `MAX_INTLENGTH`. -/
theorem sanityCheckNetStream_listen_saved_timeout_counterexample :
    (listenNetStream sampleConsts.MAX_INTLENGTH).nFlags &&&
      sampleConsts.STREAM_NFLAG_ISSERVER ≠ 0 ∧
    (listenNetStream sampleConsts.MAX_INTLENGTH).timeout =
      sampleConsts.MAX_INTLENGTH ∧
    (listenNetStream sampleConsts.MAX_INTLENGTH).savedTimeout =
      sampleConsts.MAX_INTLENGTH ∧
    sanityCheckNetStream sampleConsts
      (listenNetStream sampleConsts.MAX_INTLENGTH) = false ∧
    sanityCheckNetStream sampleConsts (listenNetStream 30) = true := by
  decide

/-! ## C29: the routing flag set when an HTTP proxy is found -/

/-- C29 (as amended): when `checkForProxy` finds an HTTP proxy (the target is
not local, the protocol is HTTP and the query for the HTTP proxy succeeds), it
ORs one routing flag into the flags of the descriptor and changes nothing
else of the descriptor: `STREAM_NFLAG_HTTPPROXY` when the connect-options
variant is the named-host one, `STREAM_NFLAG_HTTPTUNNEL` otherwise.  Every
flag bit outside the flag that is set keeps its value. -/
theorem checkForProxy_routing_flag (K : Consts) (kern : Kernel)
    (netStream : NET_STREAM_INFO) (protocol : Int)
    (connectInfo : NET_CONNECT_INFO) (host : List Char)
    (proxyUrlBuffer : List Char) (proxyUrlLen0 : Int)
    (hentry : ProxyEntryOK K protocol proxyUrlBuffer)
    (hnl : ¬ IsLocalSpelling host)
    (hproto : protocol = K.STREAM_PROTOCOL_HTTP)
    (hcfg : (kern.getAttributeS connectInfo.iUserObject
      K.CRYPT_OPTION_NET_HTTP_PROXY proxyUrlBuffer.length).status = K.CRYPT_OK) :
    (connectInfo.options = K.NET_OPTION_HOSTNAME →
      (checkForProxy K kern netStream protocol connectInfo host proxyUrlBuffer
        proxyUrlLen0).netStream =
        { netStream with
          nFlags := netStream.nFlags ||| K.STREAM_NFLAG_HTTPPROXY }) ∧
    (connectInfo.options ≠ K.NET_OPTION_HOSTNAME →
      (checkForProxy K kern netStream protocol connectInfo host proxyUrlBuffer
        proxyUrlLen0).netStream =
        { netStream with
          nFlags := netStream.nFlags ||| K.STREAM_NFLAG_HTTPTUNNEL }) ∧
    (∀ mask : Nat,
      (if connectInfo.options = K.NET_OPTION_HOSTNAME then
        K.STREAM_NFLAG_HTTPPROXY else K.STREAM_NFLAG_HTTPTUNNEL) &&& mask = 0 →
      (checkForProxy K kern netStream protocol connectInfo host proxyUrlBuffer
        proxyUrlLen0).netStream.nFlags &&& mask = netStream.nFlags &&& mask) := by
  rw [checkForProxy_eq_http K kern netStream protocol connectInfo host
    proxyUrlBuffer proxyUrlLen0 hentry hnl hproto hcfg]
  dsimp only
  refine ⟨fun h => ?_, fun h => ?_, fun mask h => ?_⟩
  · rw [if_pos h]
  · rw [if_neg h]
  · rw [Nat.and_distrib_right, h, Nat.or_zero]

set_option maxRecDepth 100000 in
/-- C29, witness: a named-host connect to "example.com" over HTTP with an HTTP
proxy configured: the flags of the descriptor become
`STREAM_NFLAG_HTTPPROXY`. -/
theorem checkForProxy_routing_flag_witness :
    ProxyEntryOK sampleConsts 3 proxyDemoBuffer ∧
    ¬ IsLocalSpelling "example.com".toList ∧
    (sampleConnectInfo "example.com".toList).options =
      sampleConsts.NET_OPTION_HOSTNAME ∧
    (checkForProxy sampleConsts bothProxiesKernel (sampleNetStream [] 0) 3
      (sampleConnectInfo "example.com".toList) "example.com".toList proxyDemoBuffer
      0).netStream =
      { sampleNetStream [] 0 with
        nFlags := (sampleNetStream [] 0).nFlags |||
          sampleConsts.STREAM_NFLAG_HTTPPROXY } :=
  ⟨by unfold ProxyEntryOK; decide, by unfold IsLocalSpelling; decide, rfl,
    (checkForProxy_routing_flag sampleConsts bothProxiesKernel
      (sampleNetStream [] 0) 3 (sampleConnectInfo "example.com".toList)
      "example.com".toList proxyDemoBuffer 0 (by unfold ProxyEntryOK; decide)
      (by unfold IsLocalSpelling; decide) rfl rfl).1 rfl⟩

set_option maxRecDepth 100000 in
/-- C29, counterexample to the claim as stated: for a named-host connect the
HTTP proxy found leaves the HTTP-proxy flag set and the HTTP-tunnel flag
clear; for a connect whose options variant is not the named-host one it is
the HTTP-tunnel flag that is set and the HTTP-proxy flag that stays clear. -/
theorem checkForProxy_named_host_flag_counterexample :
    (sampleConnectInfo "example.com".toList).options =
      sampleConsts.NET_OPTION_HOSTNAME ∧
    (checkForProxy sampleConsts bothProxiesKernel (sampleNetStream [] 0) 3
      (sampleConnectInfo "example.com".toList) "example.com".toList proxyDemoBuffer
      0).status = sampleConsts.OK_SPECIAL ∧
    (checkForProxy sampleConsts bothProxiesKernel (sampleNetStream [] 0) 3
      (sampleConnectInfo "example.com".toList) "example.com".toList proxyDemoBuffer
      0).netStream.nFlags &&& sampleConsts.STREAM_NFLAG_HTTPTUNNEL = 0 ∧
    (checkForProxy sampleConsts bothProxiesKernel (sampleNetStream [] 0) 3
      (sampleConnectInfo "example.com".toList) "example.com".toList proxyDemoBuffer
      0).netStream.nFlags &&& sampleConsts.STREAM_NFLAG_HTTPPROXY ≠ 0 ∧
    (socketConnectInfo false).options ≠ sampleConsts.NET_OPTION_HOSTNAME ∧
    (checkForProxy sampleConsts bothProxiesKernel (sampleNetStream [] 0) 3
      (socketConnectInfo false) "example.com".toList proxyDemoBuffer
      0).netStream.nFlags &&& sampleConsts.STREAM_NFLAG_HTTPTUNNEL ≠ 0 ∧
    (checkForProxy sampleConsts bothProxiesKernel (sampleNetStream [] 0) 3
      (socketConnectInfo false) "example.com".toList proxyDemoBuffer
      0).netStream.nFlags &&& sampleConsts.STREAM_NFLAG_HTTPPROXY = 0 := by
  decide

theorem slice_slice_tail {α : Type} (b : List α) (e k : Int) (hk : 0 ≤ k)
    (hke : k ≤ e) :
    slice (slice b 0 e) k (e - k) = slice b k (e - k) := by
  lift k to ℕ using hk
  lift e to ℕ using (by omega : 0 ≤ e)
  have h1 : ((e : Int) - (k : Int)).toNat = e - k := by omega
  simp only [slice, Int.toNat_natCast, Int.toNat_zero, List.drop_zero, h1]
  rw [List.drop_take, List.take_take, min_self]

theorem slice_eq_drop {α : Type} (b : List α) (k : Int) (hk : 0 ≤ k) :
    slice b k ((b.length : Int) - k) = b.drop k.toNat := by
  lift k to ℕ using hk
  simp only [slice, Int.toNat_natCast]
  apply List.take_of_length_le
  simp only [List.length_drop]
  omega

/-! ## C30: the unwritten tail after a partial write -/

/-- C30: when `bufferedTransportWrite` sends the assembled buffer, of length
`m`, and the transport accepts `k` bytes with `0 < k < m`, the write buffer
afterwards holds, from offset 0 up to the watermark, exactly the bytes
`k .. m - 1` of the assembled content in order, and the watermark is
`m - k`.  The assembled content is the previously buffered bytes followed by
the first `writeBytesToCopy` bytes of the caller's data; it is what the single
transport write carried. -/
theorem bufferedTransportWrite_short_write_tail {σ : Type} (K : Consts)
    (T : Transport σ) (hrc : RangeCheckAccepts K) (s : STREAM) (ts : σ)
    (buffer : List BYTE) (length0 : Int) (flags : Nat) (wb : List BYTE)
    (assembled : List BYTE) (k : Int)
    (hentry : WriteEntryOK K s buffer flags)
    (hwb : s.netStreamInfo.writeBuffer = some wb)
    (hwl : (wb.length : Int) = s.netStreamInfo.writeBufSize)
    (hsend : ¬ (flags &&& K.TRANSPORT_FLAG_FLUSH = 0 ∧
      s.netStreamInfo.writeBufEnd + buffer.length ≤ s.netStreamInfo.writeBufSize))
    (hp : 0 < s.netStreamInfo.writeBufEnd)
    (hasm : assembled = s.netStreamInfo.pending ++
      slice buffer 0 (writeBytesToCopy s.netStreamInfo buffer.length))
    (herr : ¬ (T.write ts assembled K.TRANSPORT_FLAG_NONE).1.status < K.CRYPT_OK)
    (hk : (T.write ts assembled K.TRANSPORT_FLAG_NONE).1.bytesWritten = k)
    (hk0 : 0 < k) (hk1 : k < assembled.length) :
    (bufferedTransportWrite K T s ts buffer length0 flags).calls =
      [⟨assembled, K.TRANSPORT_FLAG_NONE,
        (T.write ts assembled K.TRANSPORT_FLAG_NONE).1⟩] ∧
    (bufferedTransportWrite K T s ts buffer length0
      flags).stream.netStreamInfo.writeBufEnd = assembled.length - k ∧
    (bufferedTransportWrite K T s ts buffer length0
      flags).stream.netStreamInfo.pending = assembled.drop k.toNat ∧
    slice ((bufferedTransportWrite K T s ts buffer length0
      flags).stream.netStreamInfo.writeBuffer.getD []) 0 (assembled.length - k) =
      slice assembled k (assembled.length - k) := by
  have h2 := hentry.2.1
  have h3 := hentry.2.2.1
  have hbnd := sanity_writeBuf_bounds K _ h2
  obtain ⟨hc0, hc1, hc2, _, _⟩ :=
    writeBytesToCopy_bounds K s.netStreamInfo buffer.length h2 h3.1
  have hpend := writeAssemble_pending K s.netStreamInfo buffer wb h2 h3.1 hwb hwl
  obtain ⟨he1, _⟩ := writeAssemble_writeBufEnd K s.netStreamInfo buffer h2 h3.1
  have hlp : ((s.netStreamInfo.pending).length : Int) =
      s.netStreamInfo.writeBufEnd := by
    unfold NET_STREAM_INFO.pending
    rw [hwb]
    exact slice_length _ _ _ (le_refl 0) hbnd.1
      (by simp only [Option.getD_some]; omega)
  have hlc : ((slice buffer 0
      (writeBytesToCopy s.netStreamInfo buffer.length)).length : Int) =
      writeBytesToCopy s.netStreamInfo buffer.length :=
    slice_length _ _ _ (le_refl 0) hc0 (by omega)
  have hm : (assembled.length : Int) =
      (writeAssemble s.netStreamInfo buffer).writeBufEnd := by
    rw [hasm, he1, List.length_append]
    push_cast
    omega
  rw [hasm, ← hpend] at herr hk
  rw [hm] at hk1 ⊢
  rw [hasm, ← hpend]
  have hk0' := hk0
  have hk1' := hk1
  rw [← hk] at hk0' hk1'
  rw [write_eq_asm_short K T hrc s ts buffer length0 flags hentry hsend hp
    (writeAssemble s.netStreamInfo buffer) rfl herr hk0' hk1']
  dsimp only
  rw [hk]
  -- the write buffer of the assembled descriptor
  obtain ⟨wb1, hwb1, hwl1⟩ : ∃ wb1 : List BYTE,
      (writeAssemble s.netStreamInfo buffer).writeBuffer = some wb1 ∧
      (wb1.length : Int) = s.netStreamInfo.writeBufSize := by
    rw [writeAssemble_eq s.netStreamInfo buffer hc0]
    dsimp only
    rw [hwb]
    refine ⟨_, rfl, ?_⟩
    rw [store_length _ _ _ hbnd.1 (by rw [hlc]; omega)]
    exact hwl
  have hp1 : (writeAssemble s.netStreamInfo buffer).pending =
      slice wb1 0 (writeAssemble s.netStreamInfo buffer).writeBufEnd := by
    unfold NET_STREAM_INFO.pending
    rw [hwb1]
    rfl
  have hle1 : (writeAssemble s.netStreamInfo buffer).writeBufEnd ≤ wb1.length := by
    rw [he1, hwl1]
    exact hc2
  obtain ⟨e, he⟩ : ∃ e : Int, e = (writeAssemble s.netStreamInfo buffer).writeBufEnd :=
    ⟨_, rfl⟩
  rw [← he] at hp1 hle1 hk1 hm ⊢
  have htail : ((slice wb1 k (e - k)).length : Int) = e - k :=
    slice_length _ _ _ (by omega) (by omega) (by omega)
  have hstored : slice
      ((Option.map (fun wb => store wb 0 (slice wb k (e - k)))
        (writeAssemble s.netStreamInfo buffer).writeBuffer).getD []) 0 (e - k) =
      slice (writeAssemble s.netStreamInfo buffer).pending k (e - k) := by
    rw [hwb1, hp1, slice_slice_tail wb1 _ _ (le_of_lt hk0) (le_of_lt hk1)]
    have := slice_store_zero wb1 (slice wb1 k (e - k))
    rw [htail] at this
    exact this
  refine ⟨rfl, rfl, ?_, hstored⟩
  have hm' : ((writeAssemble s.netStreamInfo buffer).pending.length : Int) = e := by
    rw [← hm, hasm, hpend]
  have hdrop := slice_eq_drop (writeAssemble s.netStreamInfo buffer).pending k
    (le_of_lt hk0)
  rw [hm'] at hdrop
  rw [← hdrop, ← hstored]
  rfl

set_option maxRecDepth 100000 in
/-- C30, witness: 3 bytes (9, 9, 9) are buffered, a flushing write adds the
bytes 1, 2 and the transport accepts 4 of the 5 assembled bytes: the write
buffer then holds the byte 2 at offset 0 and the watermark is 1. -/
theorem bufferedTransportWrite_short_write_tail_witness :
    RangeCheckAccepts sampleConsts ∧
    WriteEntryOK sampleConsts pendingWriteDemoStream [1, 2] 1 ∧
    (bufferedTransportWrite sampleConsts scriptTransport pendingWriteDemoStream
      shortWriteScript [1, 2] 0 1).stream.netStreamInfo.writeBufEnd = 1 ∧
    (bufferedTransportWrite sampleConsts scriptTransport pendingWriteDemoStream
      shortWriteScript [1, 2] 0 1).stream.netStreamInfo.pending = [2] :=
  ⟨sampleConsts_rangeCheckAccepts, by unfold WriteEntryOK; decide,
    (bufferedTransportWrite_short_write_tail sampleConsts scriptTransport
      sampleConsts_rangeCheckAccepts pendingWriteDemoStream shortWriteScript [1, 2]
      0 1 [9, 9, 9, 0, 0, 0] [9, 9, 9, 1, 2] 4 (by unfold WriteEntryOK; decide)
      rfl (by decide) (by decide) (by decide) (by decide) (by decide) (by decide)
      (by decide) (by decide)).2.1,
    (bufferedTransportWrite_short_write_tail sampleConsts scriptTransport
      sampleConsts_rangeCheckAccepts pendingWriteDemoStream shortWriteScript [1, 2]
      0 1 [9, 9, 9, 0, 0, 0] [9, 9, 9, 1, 2] 4 (by unfold WriteEntryOK; decide)
      rfl (by decide) (by decide) (by decide) (by decide) (by decide) (by decide)
      (by decide) (by decide)).2.2.1⟩

theorem read_compact_of (K : Consts) (s : STREAM) (n length0 : Int)
    (flags : Nat) (hentry : ReadEntryOK K s n flags) (hinv : CursorInv s)
    (hneed : s.bufEnd - s.bufPos < n)
    (hnrc : ¬ (s.bufPos > 0 ∧ s.bufEnd - s.bufPos > 0 ∧
      K.rangeCheck s.bufPos (s.bufEnd - s.bufPos) s.bufEnd = false)) :
    ∃ c : STREAM,
      (∀ (σ : Type) (T : Transport σ) (ts : σ),
        bufferedTransportRead K T s ts n length0 flags =
          bufferedTransportReadRefill K T c ts n) ∧
      c.bufPos = 0 ∧ c.bufEnd = s.bufEnd - s.bufPos ∧ c.bufSize = s.bufSize ∧
      (c.buffer.length : Int) = s.bufSize ∧
      slice c.buffer 0 (s.bufEnd - s.bufPos) = s.cache ∧
      c.netStreamInfo = s.netStreamInfo := by
  obtain ⟨hp, hpe, hes, hlen⟩ := hinv
  refine ⟨_, fun σ T ts =>
    read_eq_refill K T s ts n length0 flags hentry (by omega) hp hnrc, ?_⟩
  by_cases hpz : s.bufPos > 0
  · rw [if_pos hpz]
    dsimp only
    refine ⟨rfl, rfl, rfl, ?_, ?_, rfl⟩
    · by_cases hL : s.bufEnd - s.bufPos > 0
      · rw [if_pos hL, store_length _ _ _ (le_refl 0)
          (by rw [slice_length _ _ _ hp (by omega) (by omega)]; omega)]
        exact hlen
      · rw [if_neg hL]
        exact hlen
    · unfold STREAM.cache
      by_cases hL : s.bufEnd - s.bufPos > 0
      · rw [if_pos hL]
        have hcl : ((slice s.buffer s.bufPos (s.bufEnd - s.bufPos)).length : Int)
            = s.bufEnd - s.bufPos := slice_length _ _ _ hp (by omega) (by omega)
        have := slice_store_zero s.buffer
          (slice s.buffer s.bufPos (s.bufEnd - s.bufPos))
        rw [hcl] at this
        exact this
      · rw [if_neg hL, slice_nil_of_nonpos _ _ _ (by omega),
          slice_nil_of_nonpos _ _ _ (by omega)]
  · rw [if_neg hpz]
    have hp0 : s.bufPos = 0 := by omega
    refine ⟨hp0, by omega, rfl, hlen, ?_, rfl⟩
    unfold STREAM.cache
    rw [hp0]

theorem read_compact {σ : Type} (K : Consts) (T : Transport σ)
    (hrc : RangeCheckAccepts K) (s : STREAM) (ts : σ) (n length0 : Int)
    (flags : Nat) (hentry : ReadEntryOK K s n flags) (hinv : CursorInv s)
    (hneed : s.bufEnd - s.bufPos < n) :
    ∃ c : STREAM,
      bufferedTransportRead K T s ts n length0 flags =
        bufferedTransportReadRefill K T c ts n ∧
      c.bufPos = 0 ∧ c.bufEnd = s.bufEnd - s.bufPos ∧ c.bufSize = s.bufSize ∧
      (c.buffer.length : Int) = s.bufSize ∧
      slice c.buffer 0 (s.bufEnd - s.bufPos) = s.cache ∧
      c.netStreamInfo = s.netStreamInfo := by
  have hnrc : ¬ (s.bufPos > 0 ∧ s.bufEnd - s.bufPos > 0 ∧
      K.rangeCheck s.bufPos (s.bufEnd - s.bufPos) s.bufEnd = false) := by
    rintro ⟨h1, h2, h3⟩
    rw [hrc s.bufPos (s.bufEnd - s.bufPos) s.bufEnd h1 h2 (by omega)] at h3
    exact Bool.noConfusion h3
  obtain ⟨c, hc, hrest⟩ :=
    read_compact_of K s n length0 flags hentry hinv hneed hnrc
  exact ⟨c, hc σ T ts, hrest⟩

theorem drain_frame {σ : Type} (K : Consts) (T : Transport σ) (s : STREAM)
    (ts : σ) (n : Int) (calls : List ReadCall) :
    (bufferedTransportReadDrain K T s ts n calls).stream.buffer = s.buffer ∧
    (bufferedTransportReadDrain K T s ts n calls).stream.bufEnd = s.bufEnd ∧
    ∃ fin : List ReadCall, fin.length ≤ 1 ∧
      (bufferedTransportReadDrain K T s ts n calls).calls = calls ++ fin := by
  unfold bufferedTransportReadDrain
  dsimp only
  repeat' split
  all_goals first
    | exact ⟨rfl, rfl, [], Nat.zero_le 1, (List.append_nil calls).symm⟩
    | exact ⟨rfl, rfl, _, le_refl 1, rfl⟩

theorem min_eq_ite (a n : Int) : min a n = if a > n then n else a := by
  by_cases h : a > n
  · rw [if_pos h, min_eq_right (le_of_lt h)]
  · rw [if_neg h, min_eq_left (by omega)]

theorem le_store_length {α : Type} (b : List α) (e : Int) (d : List α)
    (h0 : 0 ≤ e) (h : e ≤ b.length) :
    e + d.length ≤ (store b e d).length := by
  lift e to ℕ using h0
  simp only [store, Int.toNat_natCast, List.length_append, List.length_take,
    List.length_drop]
  push_cast
  omega


theorem refill_plan {σ : Type} (K : Consts) (T : Transport σ) (c : STREAM)
    (ts : σ) (n : Int) (hp : c.bufPos = 0) (h0 : 0 ≤ c.bufEnd)
    (hlen : (c.buffer.length : Int) = c.bufSize)
    (hroom : c.bufEnd < c.bufSize) :
    (cryptStatusError K (T.read ts (min (c.bufSize - c.bufEnd) n)
        K.TRANSPORT_FLAG_BLOCKING).1.status = true →
      bufferedTransportReadRefill K T c ts n =
        ⟨(T.read ts (min (c.bufSize - c.bufEnd) n)
            K.TRANSPORT_FLAG_BLOCKING).1.status, 0, [],
          { c with
            buffer := store c.buffer c.bufEnd
              (T.read ts (min (c.bufSize - c.bufEnd) n)
                K.TRANSPORT_FLAG_BLOCKING).1.data },
          (T.read ts (min (c.bufSize - c.bufEnd) n) K.TRANSPORT_FLAG_BLOCKING).2,
          [⟨min (c.bufSize - c.bufEnd) n, K.TRANSPORT_FLAG_BLOCKING,
            (T.read ts (min (c.bufSize - c.bufEnd) n)
              K.TRANSPORT_FLAG_BLOCKING).1⟩]⟩) ∧
    (cryptStatusError K (T.read ts (min (c.bufSize - c.bufEnd) n)
        K.TRANSPORT_FLAG_BLOCKING).1.status = false →
      ∃ (c1 : STREAM) (ts1 : σ),
        bufferedTransportReadRefill K T c ts n =
          bufferedTransportReadDrain K T c1 ts1 n
            (⟨min (c.bufSize - c.bufEnd) n, K.TRANSPORT_FLAG_BLOCKING,
                (T.read ts (min (c.bufSize - c.bufEnd) n)
                  K.TRANSPORT_FLAG_BLOCKING).1⟩ ::
              if c.bufEnd + (T.read ts (min (c.bufSize - c.bufEnd) n)
                  K.TRANSPORT_FLAG_BLOCKING).1.data.length < c.bufSize then
                [⟨c.bufSize - (c.bufEnd + (T.read ts (min (c.bufSize - c.bufEnd) n)
                    K.TRANSPORT_FLAG_BLOCKING).1.data.length),
                  K.TRANSPORT_FLAG_NONBLOCKING,
                  (T.read (T.read ts (min (c.bufSize - c.bufEnd) n)
                      K.TRANSPORT_FLAG_BLOCKING).2
                    (c.bufSize - (c.bufEnd +
                      (T.read ts (min (c.bufSize - c.bufEnd) n)
                        K.TRANSPORT_FLAG_BLOCKING).1.data.length))
                    K.TRANSPORT_FLAG_NONBLOCKING).1⟩]
              else []) ∧
        c1.bufPos = 0 ∧
        c.bufEnd + (T.read ts (min (c.bufSize - c.bufEnd) n)
          K.TRANSPORT_FLAG_BLOCKING).1.data.length ≤ c1.bufEnd ∧
        slice c1.buffer 0 (c.bufEnd + (T.read ts (min (c.bufSize - c.bufEnd) n)
            K.TRANSPORT_FLAG_BLOCKING).1.data.length) =
          slice c.buffer 0 c.bufEnd ++
            (T.read ts (min (c.bufSize - c.bufEnd) n)
              K.TRANSPORT_FLAG_BLOCKING).1.data) := by
  obtain ⟨m, hm⟩ : ∃ m : Int, m = min (c.bufSize - c.bufEnd) n := ⟨_, rfl⟩
  rw [← hm]
  have hm1 : m = if c.bufSize - c.bufEnd > n then n else c.bufSize - c.bufEnd := by
    rw [hm]
    exact min_eq_ite _ _
  have hpre1 : slice (store c.buffer c.bufEnd
      (T.read ts m K.TRANSPORT_FLAG_BLOCKING).1.data) 0
      (c.bufEnd + (T.read ts m K.TRANSPORT_FLAG_BLOCKING).1.data.length) =
      slice c.buffer 0 c.bufEnd ++
        (T.read ts m K.TRANSPORT_FLAG_BLOCKING).1.data :=
    slice_store_append _ _ _ h0 (by omega)
  constructor
  · intro herr
    have herr1 : (T.read ts m K.TRANSPORT_FLAG_BLOCKING).1.status < K.CRYPT_OK := by
      unfold cryptStatusError at herr
      exact of_decide_eq_true herr
    exact refill_eq_block_err K T c ts n m hroom hm1 herr1
  · intro herr
    have herr1 : ¬ (T.read ts m K.TRANSPORT_FLAG_BLOCKING).1.status < K.CRYPT_OK := by
      unfold cryptStatusError at herr
      exact of_decide_eq_false herr
    by_cases hmore : c.bufEnd +
        (T.read ts m K.TRANSPORT_FLAG_BLOCKING).1.data.length < c.bufSize
    · rw [if_pos hmore]
      refine ⟨_, _, refill_eq_topup K T c ts n m hroom hm1 herr1 hmore _ _ rfl rfl,
        hp, ?_, ?_⟩
      · dsimp only
        split
        · omega
        · exact le_refl _
      · dsimp only
        rw [slice_store_keep _ _ _ _ (by omega) (le_refl _)
          (le_store_length _ _ _ h0 (by omega)), hpre1]
    · rw [if_neg hmore]
      exact ⟨_, _, refill_eq_block_only K T c ts n m hroom hm1 herr1 hmore,
        hp, le_refl _, hpre1⟩

/-! ## C31: compaction and the refill reads -/

/-- C31: on a call of `bufferedTransportRead` that passes the entry checks,
over a buffer that satisfies the cursor invariant and holds fewer than `n`
unconsumed bytes (`L = bufEnd - bufPos < n`), the call continues as the refill
stage on a compacted stream `c`: `bufPos = 0`, `bufEnd = L`, same capacity,
and the first `L` bytes of the buffer are the unconsumed bytes in their
order.  If `L` is below the capacity, the refill stage issues one blocking
read for `min (capacity - L) n` bytes.  If that read fails, its status is
returned, it is the only transport read, and the stream still has
`bufPos = 0`, `bufEnd = L` and the same `L` cached bytes.  If it succeeds, its
bytes stand directly after the cached ones, the only other read of the refill
stage is one non-blocking read for the capacity still free (issued exactly
when capacity is still free), and the rest of the call is the drain stage,
which adds at most one read of its own. -/
theorem bufferedTransportRead_refill_plan {σ : Type} (K : Consts)
    (T : Transport σ) (hrc : RangeCheckAccepts K) (s : STREAM) (ts : σ)
    (n length0 : Int) (flags : Nat) (hentry : ReadEntryOK K s n flags)
    (hinv : CursorInv s) (hneed : s.bufEnd - s.bufPos < n) :
    ∃ c : STREAM,
      bufferedTransportRead K T s ts n length0 flags =
        bufferedTransportReadRefill K T c ts n ∧
      c.bufPos = 0 ∧ c.bufEnd = s.bufEnd - s.bufPos ∧ c.bufSize = s.bufSize ∧
      slice c.buffer 0 (s.bufEnd - s.bufPos) = s.cache ∧
      (s.bufEnd - s.bufPos < s.bufSize →
        (cryptStatusError K (T.read ts (min (s.bufSize - (s.bufEnd - s.bufPos)) n)
            K.TRANSPORT_FLAG_BLOCKING).1.status = true →
          (bufferedTransportRead K T s ts n length0 flags).status =
            (T.read ts (min (s.bufSize - (s.bufEnd - s.bufPos)) n)
              K.TRANSPORT_FLAG_BLOCKING).1.status ∧
          (bufferedTransportRead K T s ts n length0 flags).calls =
            [⟨min (s.bufSize - (s.bufEnd - s.bufPos)) n,
              K.TRANSPORT_FLAG_BLOCKING,
              (T.read ts (min (s.bufSize - (s.bufEnd - s.bufPos)) n)
                K.TRANSPORT_FLAG_BLOCKING).1⟩] ∧
          (bufferedTransportRead K T s ts n length0 flags).stream.bufPos = 0 ∧
          (bufferedTransportRead K T s ts n length0 flags).stream.bufEnd =
            s.bufEnd - s.bufPos ∧
          (bufferedTransportRead K T s ts n length0 flags).stream.cache =
            s.cache) ∧
        (cryptStatusError K (T.read ts (min (s.bufSize - (s.bufEnd - s.bufPos)) n)
            K.TRANSPORT_FLAG_BLOCKING).1.status = false →
          ∃ (c1 : STREAM) (ts1 : σ) (fin : List ReadCall),
            bufferedTransportRead K T s ts n length0 flags =
              bufferedTransportReadDrain K T c1 ts1 n
                (⟨min (s.bufSize - (s.bufEnd - s.bufPos)) n,
                    K.TRANSPORT_FLAG_BLOCKING,
                    (T.read ts (min (s.bufSize - (s.bufEnd - s.bufPos)) n)
                      K.TRANSPORT_FLAG_BLOCKING).1⟩ ::
                  if s.bufEnd - s.bufPos +
                      (T.read ts (min (s.bufSize - (s.bufEnd - s.bufPos)) n)
                        K.TRANSPORT_FLAG_BLOCKING).1.data.length < s.bufSize then
                    [⟨s.bufSize - (s.bufEnd - s.bufPos +
                        (T.read ts (min (s.bufSize - (s.bufEnd - s.bufPos)) n)
                          K.TRANSPORT_FLAG_BLOCKING).1.data.length),
                      K.TRANSPORT_FLAG_NONBLOCKING,
                      (T.read (T.read ts
                          (min (s.bufSize - (s.bufEnd - s.bufPos)) n)
                          K.TRANSPORT_FLAG_BLOCKING).2
                        (s.bufSize - (s.bufEnd - s.bufPos +
                          (T.read ts (min (s.bufSize - (s.bufEnd - s.bufPos)) n)
                            K.TRANSPORT_FLAG_BLOCKING).1.data.length))
                        K.TRANSPORT_FLAG_NONBLOCKING).1⟩]
                  else []) ∧
            slice c1.buffer 0 (s.bufEnd - s.bufPos +
                (T.read ts (min (s.bufSize - (s.bufEnd - s.bufPos)) n)
                  K.TRANSPORT_FLAG_BLOCKING).1.data.length) =
              s.cache ++ (T.read ts (min (s.bufSize - (s.bufEnd - s.bufPos)) n)
                K.TRANSPORT_FLAG_BLOCKING).1.data ∧
            fin.length ≤ 1 ∧
            (bufferedTransportRead K T s ts n length0 flags).calls =
              (⟨min (s.bufSize - (s.bufEnd - s.bufPos)) n,
                  K.TRANSPORT_FLAG_BLOCKING,
                  (T.read ts (min (s.bufSize - (s.bufEnd - s.bufPos)) n)
                    K.TRANSPORT_FLAG_BLOCKING).1⟩ ::
                if s.bufEnd - s.bufPos +
                    (T.read ts (min (s.bufSize - (s.bufEnd - s.bufPos)) n)
                      K.TRANSPORT_FLAG_BLOCKING).1.data.length < s.bufSize then
                  [⟨s.bufSize - (s.bufEnd - s.bufPos +
                      (T.read ts (min (s.bufSize - (s.bufEnd - s.bufPos)) n)
                        K.TRANSPORT_FLAG_BLOCKING).1.data.length),
                    K.TRANSPORT_FLAG_NONBLOCKING,
                    (T.read (T.read ts
                        (min (s.bufSize - (s.bufEnd - s.bufPos)) n)
                        K.TRANSPORT_FLAG_BLOCKING).2
                      (s.bufSize - (s.bufEnd - s.bufPos +
                        (T.read ts (min (s.bufSize - (s.bufEnd - s.bufPos)) n)
                          K.TRANSPORT_FLAG_BLOCKING).1.data.length))
                      K.TRANSPORT_FLAG_NONBLOCKING).1⟩]
                else []) ++ fin)) := by
  obtain ⟨c, hc, hp, he, hs, hl, hcache, _⟩ :=
    read_compact K T hrc s ts n length0 flags hentry hinv hneed
  have h0 : 0 ≤ c.bufEnd := by
    rw [he]
    exact hentry.2.2.2.1.1
  refine ⟨c, hc, hp, he, hs, hcache, ?_⟩
  rw [hc, ← he, ← hs]
  rw [← he] at hcache
  intro hroom
  obtain ⟨hA, hB⟩ := refill_plan K T c ts n hp h0 (hl.trans hs.symm) hroom
  constructor
  · intro herr
    rw [hA herr]
    refine ⟨rfl, rfl, hp, rfl, ?_⟩
    rw [← hcache]
    unfold STREAM.cache
    dsimp only
    rw [hp, sub_zero, slice_store_keep _ _ _ _ h0 (le_refl _) (by omega)]
  · intro herr
    obtain ⟨c1, ts1, heq, _, _, hsl⟩ := hB herr
    obtain ⟨_, _, fin, hfin, hcalls⟩ := drain_frame K T c1 ts1 n
      (⟨min (c.bufSize - c.bufEnd) n, K.TRANSPORT_FLAG_BLOCKING,
          (T.read ts (min (c.bufSize - c.bufEnd) n)
            K.TRANSPORT_FLAG_BLOCKING).1⟩ ::
        if c.bufEnd + (T.read ts (min (c.bufSize - c.bufEnd) n)
            K.TRANSPORT_FLAG_BLOCKING).1.data.length < c.bufSize then
          [⟨c.bufSize - (c.bufEnd + (T.read ts (min (c.bufSize - c.bufEnd) n)
              K.TRANSPORT_FLAG_BLOCKING).1.data.length),
            K.TRANSPORT_FLAG_NONBLOCKING,
            (T.read (T.read ts (min (c.bufSize - c.bufEnd) n)
                K.TRANSPORT_FLAG_BLOCKING).2
              (c.bufSize - (c.bufEnd +
                (T.read ts (min (c.bufSize - c.bufEnd) n)
                  K.TRANSPORT_FLAG_BLOCKING).1.data.length))
              K.TRANSPORT_FLAG_NONBLOCKING).1⟩]
        else [])
    refine ⟨c1, ts1, fin, heq, ?_, hfin, ?_⟩
    · rw [hsl, hcache]
    · rw [heq, hcalls]

set_option maxRecDepth 100000 in
/-- C31, witness: a buffer of capacity 8 holds the unconsumed bytes 2, 3, 4 at
offsets 1..3 and 6 bytes are requested.  The blocking read asks for
`min (8 - 3) 6 = 5` bytes; when it fails with -25 that status is returned,
that read is the only one, and the cache is still 2, 3, 4, now at offset 0. -/
theorem bufferedTransportRead_refill_plan_witness :
    (bufferedTransportRead sampleConsts scriptTransport cachedDemoStream
      ⟨[⟨-25, []⟩], []⟩ 6 0 0).status = -25 ∧
    (bufferedTransportRead sampleConsts scriptTransport cachedDemoStream
      ⟨[⟨-25, []⟩], []⟩ 6 0 0).calls = [⟨5, 4, ⟨-25, []⟩⟩] ∧
    (bufferedTransportRead sampleConsts scriptTransport cachedDemoStream
      ⟨[⟨-25, []⟩], []⟩ 6 0 0).stream.bufPos = 0 ∧
    (bufferedTransportRead sampleConsts scriptTransport cachedDemoStream
      ⟨[⟨-25, []⟩], []⟩ 6 0 0).stream.bufEnd = 3 ∧
    (bufferedTransportRead sampleConsts scriptTransport cachedDemoStream
      ⟨[⟨-25, []⟩], []⟩ 6 0 0).stream.cache = [2, 3, 4] := by
  obtain ⟨_, _, _, _, _, _, h⟩ := bufferedTransportRead_refill_plan sampleConsts
    scriptTransport sampleConsts_rangeCheckAccepts cachedDemoStream
    ⟨[⟨-25, []⟩], []⟩ 6 0 0 (by unfold ReadEntryOK; decide)
    (by unfold CursorInv; decide) (by decide)
  have h1 := (h (by decide)).1 (by decide)
  exact ⟨h1.1.trans (by decide), h1.2.1.trans (by decide), h1.2.2.1,
    h1.2.2.2.1.trans (by decide), h1.2.2.2.2.trans (by decide)⟩

theorem forgiveTopUp_blocking {σ : Type} (K : Consts) (T : Transport σ)
    (hflags : K.TRANSPORT_FLAG_BLOCKING ≠ K.TRANSPORT_FLAG_NONBLOCKING)
    (st : σ) (n : Int) :
    (forgiveTopUp K T).read st n K.TRANSPORT_FLAG_BLOCKING =
      T.read st n K.TRANSPORT_FLAG_BLOCKING := by
  unfold forgiveTopUp
  dsimp only
  rw [if_neg (fun h => hflags h.1)]

theorem forgiveTopUp_ok {σ : Type} (K : Consts) (T : Transport σ)
    (st : σ) (n : Int)
    (hok : (T.read st n K.TRANSPORT_FLAG_NONBLOCKING).1.status = K.CRYPT_OK) :
    (forgiveTopUp K T).read st n K.TRANSPORT_FLAG_NONBLOCKING =
      T.read st n K.TRANSPORT_FLAG_NONBLOCKING := by
  unfold forgiveTopUp
  dsimp only
  rw [if_neg]
  rintro ⟨_, h⟩
  unfold cryptStatusOK at h
  exact of_decide_eq_false h hok

theorem forgiveTopUp_failed {σ : Type} (K : Consts) (T : Transport σ)
    (st : σ) (n : Int)
    (hok : ¬ (T.read st n K.TRANSPORT_FLAG_NONBLOCKING).1.status = K.CRYPT_OK) :
    (forgiveTopUp K T).read st n K.TRANSPORT_FLAG_NONBLOCKING =
      (⟨K.CRYPT_OK, []⟩, (T.read st n K.TRANSPORT_FLAG_NONBLOCKING).2) := by
  unfold forgiveTopUp
  dsimp only
  rw [if_pos]
  refine ⟨rfl, ?_⟩
  unfold cryptStatusOK
  exact decide_eq_false hok

theorem drain_forgiveTopUp {σ : Type} (K : Consts) (T : Transport σ)
    (hflags : K.TRANSPORT_FLAG_BLOCKING ≠ K.TRANSPORT_FLAG_NONBLOCKING)
    (s : STREAM) (ts : σ) (n : Int) (calls : List ReadCall) :
    bufferedTransportReadDrain K (forgiveTopUp K T) s ts n calls =
      bufferedTransportReadDrain K T s ts n calls := by
  unfold bufferedTransportReadDrain
  dsimp only
  rw [forgiveTopUp_blocking K T hflags]

theorem drain_congr {σ : Type} (K : Consts) (T : Transport σ)
    (s s1 : STREAM) (ts : σ) (n : Int) (calls calls1 : List ReadCall)
    (hns : s1.netStreamInfo = s.netStreamInfo) (hp : s1.bufPos = s.bufPos)
    (he : s1.bufEnd = s.bufEnd)
    (hb : slice s1.buffer 0 (min n s.bufEnd) = slice s.buffer 0 (min n s.bufEnd)) :
    (bufferedTransportReadDrain K T s1 ts n calls1).status =
      (bufferedTransportReadDrain K T s ts n calls).status ∧
    (bufferedTransportReadDrain K T s1 ts n calls1).length =
      (bufferedTransportReadDrain K T s ts n calls).length ∧
    (bufferedTransportReadDrain K T s1 ts n calls1).out =
      (bufferedTransportReadDrain K T s ts n calls).out ∧
    (bufferedTransportReadDrain K T s1 ts n calls1).stream.bufPos =
      (bufferedTransportReadDrain K T s ts n calls).stream.bufPos ∧
    (bufferedTransportReadDrain K T s1 ts n calls1).stream.bufEnd =
      (bufferedTransportReadDrain K T s ts n calls).stream.bufEnd ∧
    (bufferedTransportReadDrain K T s1 ts n calls1).tstate =
      (bufferedTransportReadDrain K T s ts n calls).tstate := by
  unfold bufferedTransportReadDrain
  dsimp only
  rw [hns, he, hb]
  repeat' split
  all_goals first
    | exact ⟨rfl, rfl, rfl, rfl, rfl, rfl⟩
    | exact ⟨rfl, rfl, rfl, hp, he, rfl⟩


theorem refill_forgiveTopUp {σ : Type} (K : Consts) (T : Transport σ)
    (hflags : K.TRANSPORT_FLAG_BLOCKING ≠ K.TRANSPORT_FLAG_NONBLOCKING)
    (c : STREAM) (ts : σ) (n : Int) (h0 : 0 ≤ c.bufEnd)
    (hlen : (c.buffer.length : Int) = c.bufSize) :
    (bufferedTransportReadRefill K (forgiveTopUp K T) c ts n).status =
      (bufferedTransportReadRefill K T c ts n).status ∧
    (bufferedTransportReadRefill K (forgiveTopUp K T) c ts n).length =
      (bufferedTransportReadRefill K T c ts n).length ∧
    (bufferedTransportReadRefill K (forgiveTopUp K T) c ts n).out =
      (bufferedTransportReadRefill K T c ts n).out ∧
    (bufferedTransportReadRefill K (forgiveTopUp K T) c ts n).stream.bufPos =
      (bufferedTransportReadRefill K T c ts n).stream.bufPos ∧
    (bufferedTransportReadRefill K (forgiveTopUp K T) c ts n).stream.bufEnd =
      (bufferedTransportReadRefill K T c ts n).stream.bufEnd ∧
    (bufferedTransportReadRefill K (forgiveTopUp K T) c ts n).tstate =
      (bufferedTransportReadRefill K T c ts n).tstate := by
  by_cases hroom : c.bufEnd < c.bufSize
  · obtain ⟨m, hm⟩ : ∃ m : Int,
        m = if c.bufSize - c.bufEnd > n then n else c.bufSize - c.bufEnd := ⟨_, rfl⟩
    have hb1 := forgiveTopUp_blocking K T hflags ts m
    by_cases herr : (T.read ts m K.TRANSPORT_FLAG_BLOCKING).1.status < K.CRYPT_OK
    · rw [refill_eq_block_err K (forgiveTopUp K T) c ts n m hroom hm
          (by rw [hb1]; exact herr),
        refill_eq_block_err K T c ts n m hroom hm herr, hb1]
      exact ⟨rfl, rfl, rfl, rfl, rfl, rfl⟩
    · by_cases hmore : c.bufEnd +
          (T.read ts m K.TRANSPORT_FLAG_BLOCKING).1.data.length < c.bufSize
      · obtain ⟨e2, he2⟩ : ∃ e2 : Int, e2 = c.bufEnd +
            (T.read ts m K.TRANSPORT_FLAG_BLOCKING).1.data.length := ⟨_, rfl⟩
        obtain ⟨ts1, hts1⟩ : ∃ ts1 : σ,
            ts1 = (T.read ts m K.TRANSPORT_FLAG_BLOCKING).2 := ⟨_, rfl⟩
        rw [refill_eq_topup K (forgiveTopUp K T) c ts n m hroom hm
            (by rw [hb1]; exact herr) (by rw [hb1]; exact hmore) e2 ts1
            (by rw [hb1]; exact he2) (by rw [hb1]; exact hts1),
          refill_eq_topup K T c ts n m hroom hm herr hmore e2 ts1 he2 hts1,
          hb1, drain_forgiveTopUp K T hflags]
        by_cases hok2 : (T.read ts1 (c.bufSize - e2)
            K.TRANSPORT_FLAG_NONBLOCKING).1.status = K.CRYPT_OK
        · rw [forgiveTopUp_ok K T ts1 (c.bufSize - e2) hok2]
          exact drain_congr K T _ _ _ n _ _ rfl rfl rfl rfl
        · rw [forgiveTopUp_failed K T ts1 (c.bufSize - e2) hok2]
          have he2pos : 0 ≤ e2 := by omega
          have hle : e2 ≤ ((store c.buffer c.bufEnd
              (T.read ts m K.TRANSPORT_FLAG_BLOCKING).1.data).length : Int) := by
            rw [he2]
            exact le_store_length _ _ _ h0 (by omega)
          refine drain_congr K T _ _ _ n _ _ rfl rfl ?_ ?_
          · dsimp only
            rw [if_pos rfl, if_neg hok2]
            simp
          · dsimp only
            rw [if_neg hok2]
            rw [slice_store_keep _ _ _ _ he2pos (min_le_right _ _) hle,
              slice_store_keep _ _ _ _ he2pos (min_le_right _ _) hle]
      · rw [refill_eq_block_only K (forgiveTopUp K T) c ts n m hroom hm
            (by rw [hb1]; exact herr) (by rw [hb1]; exact hmore),
          refill_eq_block_only K T c ts n m hroom hm herr hmore, hb1,
          drain_forgiveTopUp K T hflags]
        exact ⟨rfl, rfl, rfl, rfl, rfl, rfl⟩
  · rw [refill_eq_full K (forgiveTopUp K T) c ts n hroom,
      refill_eq_full K T c ts n hroom, drain_forgiveTopUp K T hflags]
    exact ⟨rfl, rfl, rfl, rfl, rfl, rfl⟩

/-! ## C32: a failed top-up read leaves no trace in the outcome -/

/-- C32: over a buffer that satisfies the cursor invariant, a call of
`bufferedTransportRead` over a transport `T` and the same call over
`forgiveTopUp K T`, the transport in which a failed non-blocking read is a
successful read of zero bytes, return the same status, report the same
length, store the same bytes for the caller, and leave the same `bufPos`,
the same `bufEnd` and the same transport state.  The only non-blocking read
the function issues is the top-up read. -/
theorem bufferedTransportRead_top_up_failure_ignored {σ : Type} (K : Consts)
    (T : Transport σ)
    (hflags : K.TRANSPORT_FLAG_BLOCKING ≠ K.TRANSPORT_FLAG_NONBLOCKING)
    (s : STREAM) (ts : σ) (n length0 : Int) (flags : Nat)
    (hinv : CursorInv s) :
    (bufferedTransportRead K T s ts n length0 flags).status =
      (bufferedTransportRead K (forgiveTopUp K T) s ts n length0 flags).status ∧
    (bufferedTransportRead K T s ts n length0 flags).length =
      (bufferedTransportRead K (forgiveTopUp K T) s ts n length0 flags).length ∧
    (bufferedTransportRead K T s ts n length0 flags).returned =
      (bufferedTransportRead K (forgiveTopUp K T) s ts n length0 flags).returned ∧
    (bufferedTransportRead K T s ts n length0 flags).stream.bufPos =
      (bufferedTransportRead K (forgiveTopUp K T) s ts n length0
        flags).stream.bufPos ∧
    (bufferedTransportRead K T s ts n length0 flags).stream.bufEnd =
      (bufferedTransportRead K (forgiveTopUp K T) s ts n length0
        flags).stream.bufEnd ∧
    (bufferedTransportRead K T s ts n length0 flags).tstate =
      (bufferedTransportRead K (forgiveTopUp K T) s ts n length0 flags).tstate := by
  have key : (bufferedTransportRead K (forgiveTopUp K T) s ts n length0 flags).status =
        (bufferedTransportRead K T s ts n length0 flags).status ∧
      (bufferedTransportRead K (forgiveTopUp K T) s ts n length0 flags).length =
        (bufferedTransportRead K T s ts n length0 flags).length ∧
      (bufferedTransportRead K (forgiveTopUp K T) s ts n length0 flags).out =
        (bufferedTransportRead K T s ts n length0 flags).out ∧
      (bufferedTransportRead K (forgiveTopUp K T) s ts n length0
        flags).stream.bufPos =
        (bufferedTransportRead K T s ts n length0 flags).stream.bufPos ∧
      (bufferedTransportRead K (forgiveTopUp K T) s ts n length0
        flags).stream.bufEnd =
        (bufferedTransportRead K T s ts n length0 flags).stream.bufEnd ∧
      (bufferedTransportRead K (forgiveTopUp K T) s ts n length0 flags).tstate =
        (bufferedTransportRead K T s ts n length0 flags).tstate := by
    by_cases hentry : ReadEntryOK K s n flags
    · by_cases hfit : n ≤ s.bufEnd - s.bufPos
      · rw [read_eq_cached K (forgiveTopUp K T) s ts n length0 flags hentry hfit,
          read_eq_cached K T s ts n length0 flags hentry hfit]
        exact ⟨rfl, rfl, rfl, rfl, rfl, rfl⟩
      · by_cases hrc : s.bufPos > 0 ∧ s.bufEnd - s.bufPos > 0 ∧
            K.rangeCheck s.bufPos (s.bufEnd - s.bufPos) s.bufEnd = false
        · rw [read_eq_range_fail K (forgiveTopUp K T) s ts n length0 flags hentry
              hfit hrc,
            read_eq_range_fail K T s ts n length0 flags hentry hfit hrc]
          exact ⟨rfl, rfl, rfl, rfl, rfl, rfl⟩
        · obtain ⟨c, hc, _, he, hs, hl, _, _⟩ :=
            read_compact_of K s n length0 flags hentry hinv (by omega) hrc
          rw [hc σ (forgiveTopUp K T) ts, hc σ T ts]
          exact refill_forgiveTopUp K T hflags c ts n
            (by rw [he]; exact hentry.2.2.2.1.1) (hl.trans hs.symm)
    · rw [read_eq_entry_fail K (forgiveTopUp K T) s ts n length0 flags hentry,
        read_eq_entry_fail K T s ts n length0 flags hentry]
      exact ⟨rfl, rfl, rfl, rfl, rfl, rfl⟩
  obtain ⟨h1, h2, h3, h4, h5, h6⟩ := key
  refine ⟨h1.symm, h2.symm, ?_, h4.symm, h5.symm, h6.symm⟩
  unfold ReadOutcome.returned
  rw [h2, h3]


set_option maxRecDepth 100000 in
/-- C32, witness: the buffer holds 2, 3, 4 and 6 bytes are requested.  The
blocking read delivers 7, the top-up read fails with -25 (and hands over the
bytes 8, 8), the final read delivers 9, 9.  Over the transport whose top-up
read succeeds with zero bytes the call has the outcome evaluated here for the
scripted transport: status 0, 6 bytes 2, 3, 4, 7, 9, 9, `bufPos = bufEnd = 4`. -/
theorem bufferedTransportRead_top_up_failure_ignored_witness :
    (bufferedTransportRead sampleConsts scriptTransport cachedDemoStream
      ⟨[⟨0, [7]⟩, ⟨-25, [8, 8]⟩, ⟨0, [9, 9]⟩], []⟩ 6 0 0).calls =
      [⟨5, 4, ⟨0, [7]⟩⟩, ⟨4, 2, ⟨-25, [8, 8]⟩⟩, ⟨2, 4, ⟨0, [9, 9]⟩⟩] ∧
    (bufferedTransportRead sampleConsts
      (forgiveTopUp sampleConsts scriptTransport) cachedDemoStream
      ⟨[⟨0, [7]⟩, ⟨-25, [8, 8]⟩, ⟨0, [9, 9]⟩], []⟩ 6 0 0).status = 0 ∧
    (bufferedTransportRead sampleConsts
      (forgiveTopUp sampleConsts scriptTransport) cachedDemoStream
      ⟨[⟨0, [7]⟩, ⟨-25, [8, 8]⟩, ⟨0, [9, 9]⟩], []⟩ 6 0 0).length = 6 ∧
    (bufferedTransportRead sampleConsts
      (forgiveTopUp sampleConsts scriptTransport) cachedDemoStream
      ⟨[⟨0, [7]⟩, ⟨-25, [8, 8]⟩, ⟨0, [9, 9]⟩], []⟩ 6 0 0).returned =
      [2, 3, 4, 7, 9, 9] ∧
    (bufferedTransportRead sampleConsts
      (forgiveTopUp sampleConsts scriptTransport) cachedDemoStream
      ⟨[⟨0, [7]⟩, ⟨-25, [8, 8]⟩, ⟨0, [9, 9]⟩], []⟩ 6 0 0).stream.bufPos = 4 ∧
    (bufferedTransportRead sampleConsts
      (forgiveTopUp sampleConsts scriptTransport) cachedDemoStream
      ⟨[⟨0, [7]⟩, ⟨-25, [8, 8]⟩, ⟨0, [9, 9]⟩], []⟩ 6 0 0).stream.bufEnd = 4 := by
  obtain ⟨h1, h2, h3, h4, h5, _⟩ :=
    bufferedTransportRead_top_up_failure_ignored sampleConsts scriptTransport
      (by decide) cachedDemoStream ⟨[⟨0, [7]⟩, ⟨-25, [8, 8]⟩, ⟨0, [9, 9]⟩], []⟩
      6 0 0 (by unfold CursorInv; decide)
  exact ⟨by decide, h1.symm.trans (by decide), h2.symm.trans (by decide),
    h3.symm.trans (by decide), h4.symm.trans (by decide),
    h5.symm.trans (by decide)⟩

theorem drain_error_shape {σ : Type} (K : Consts) (T : Transport σ) (s : STREAM)
    (ts : σ) (n : Int) (calls : List ReadCall)
    (herr : cryptStatusError K
      (bufferedTransportReadDrain K T s ts n calls).status = true)
    (hsane : sanityCheckNetStream K s.netStreamInfo = true) :
    (∃ c, (bufferedTransportReadDrain K T s ts n calls).calls.getLast? = some c ∧
      (bufferedTransportReadDrain K T s ts n calls).status = c.reply.status) ∧
    (bufferedTransportReadDrain K T s ts n calls).length =
      (bufferedTransportReadDrain K T s ts n calls).stream.bufPos ∧
    (bufferedTransportReadDrain K T s ts n calls).length =
      (bufferedTransportReadDrain K T s ts n calls).stream.bufEnd := by
  by_cases hcase : n ≤ s.bufEnd
  · rw [drain_eq_cached K T s ts n calls hsane hcase, cryptStatusError_OK] at herr
    exact Bool.noConfusion herr
  by_cases hfail : (T.read ts (n - s.bufEnd) K.TRANSPORT_FLAG_BLOCKING).1.status
      < K.CRYPT_OK
  · rw [drain_eq_direct_err K T s ts n calls hsane (by omega) hfail]
    dsimp only
    exact ⟨⟨⟨n - s.bufEnd, K.TRANSPORT_FLAG_BLOCKING,
      (T.read ts (n - s.bufEnd) K.TRANSPORT_FLAG_BLOCKING).1⟩,
      List.getLast?_concat _, rfl⟩, rfl, rfl⟩
  · rw [drain_eq_direct_ok K T s ts n calls hsane (by omega) hfail,
      cryptStatusError_OK] at herr
    exact Bool.noConfusion herr

theorem refill_error_shape {σ : Type} (K : Consts) (T : Transport σ)
    (s : STREAM) (ts : σ) (n : Int)
    (hsane : sanityCheckNetStream K s.netStreamInfo = true)
    (hpos : s.bufPos = 0)
    (herr : cryptStatusError K
      (bufferedTransportReadRefill K T s ts n).status = true) :
    (∃ c, (bufferedTransportReadRefill K T s ts n).calls.getLast? = some c ∧
      (bufferedTransportReadRefill K T s ts n).status = c.reply.status) ∧
    (bufferedTransportReadRefill K T s ts n).length =
      (bufferedTransportReadRefill K T s ts n).stream.bufPos ∧
    ((bufferedTransportReadRefill K T s ts n).length = 0 ∨
      (bufferedTransportReadRefill K T s ts n).length =
        (bufferedTransportReadRefill K T s ts n).stream.bufEnd) := by
  by_cases hroom : s.bufEnd < s.bufSize
  swap
  · rw [refill_eq_full K T s ts n hroom] at herr ⊢
    obtain ⟨h1, h2, h3⟩ := drain_error_shape K T s ts n [] herr hsane
    exact ⟨h1, h2, Or.inr h3⟩
  obtain ⟨m, hm⟩ : ∃ m : Int,
      m = if s.bufSize - s.bufEnd > n then n else s.bufSize - s.bufEnd := ⟨_, rfl⟩
  by_cases hfail : (T.read ts m K.TRANSPORT_FLAG_BLOCKING).1.status < K.CRYPT_OK
  · rw [refill_eq_block_err K T s ts n m hroom hm hfail]
    dsimp only
    exact ⟨⟨⟨m, K.TRANSPORT_FLAG_BLOCKING,
      (T.read ts m K.TRANSPORT_FLAG_BLOCKING).1⟩, rfl, rfl⟩, hpos.symm,
      Or.inl rfl⟩
  by_cases hmore : s.bufEnd + (T.read ts m K.TRANSPORT_FLAG_BLOCKING).1.data.length
      < s.bufSize
  swap
  · rw [refill_eq_block_only K T s ts n m hroom hm hfail hmore] at herr ⊢
    obtain ⟨h1, h2, h3⟩ := drain_error_shape K T _ _ n _ herr hsane
    exact ⟨h1, h2, Or.inr h3⟩
  rw [refill_eq_topup K T s ts n m hroom hm hfail hmore _ _ rfl rfl] at herr ⊢
  obtain ⟨h1, h2, h3⟩ := drain_error_shape K T _ _ n _ herr hsane
  exact ⟨h1, h2, Or.inr h3⟩

theorem read_eq_negative_pos {σ : Type} (K : Consts) (T : Transport σ)
    (s : STREAM) (ts : σ) (n length0 : Int) (flags : Nat)
    (hentry : ReadEntryOK K s n flags) (hfit : ¬ n ≤ s.bufEnd - s.bufPos)
    (hneg : s.bufPos < 0) :
    bufferedTransportRead K T s ts n length0 flags =
      ⟨K.CRYPT_ERROR_INTERNAL, 0, [], s, ts, []⟩ := by
  obtain ⟨h1, h2, h3, h4, h5, h6⟩ := hentry
  have hp : ¬ s.bufPos > 0 := by omega
  have hne : s.bufPos ≠ 0 := by omega
  unfold bufferedTransportRead
  dsimp only
  rw [if_neg h1, if_neg (by rw [h2]; decide), if_neg (not_not.mpr h3),
    if_neg (not_not.mpr h4), if_neg (not_not.mpr h5), if_neg h6, if_neg hfit,
    if_neg (fun h => hp h.1), if_neg hp, if_pos hne]

theorem read_error_shape {σ : Type} (K : Consts) (T : Transport σ)
    (s : STREAM) (ts : σ) (n length0 : Int) (flags : Nat)
    (herr : cryptStatusError K
      (bufferedTransportRead K T s ts n length0 flags).status = true)
    (hcalls : (bufferedTransportRead K T s ts n length0 flags).calls ≠ []) :
    (∃ c, (bufferedTransportRead K T s ts n length0 flags).calls.getLast? =
        some c ∧
      (bufferedTransportRead K T s ts n length0 flags).status = c.reply.status) ∧
    (bufferedTransportRead K T s ts n length0 flags).length =
      (bufferedTransportRead K T s ts n length0 flags).stream.bufPos ∧
    ((bufferedTransportRead K T s ts n length0 flags).length = 0 ∨
      (bufferedTransportRead K T s ts n length0 flags).length =
        (bufferedTransportRead K T s ts n length0 flags).stream.bufEnd) := by
  by_cases hentry : ReadEntryOK K s n flags
  swap
  · rw [read_eq_entry_fail K T s ts n length0 flags hentry] at hcalls
    exact absurd rfl hcalls
  by_cases hfit : n ≤ s.bufEnd - s.bufPos
  · rw [read_eq_cached K T s ts n length0 flags hentry hfit] at hcalls
    exact absurd rfl hcalls
  by_cases hrc : s.bufPos > 0 ∧ s.bufEnd - s.bufPos > 0 ∧
      K.rangeCheck s.bufPos (s.bufEnd - s.bufPos) s.bufEnd = false
  · rw [read_eq_range_fail K T s ts n length0 flags hentry hfit hrc] at hcalls
    exact absurd rfl hcalls
  by_cases hneg : s.bufPos < 0
  · rw [read_eq_negative_pos K T s ts n length0 flags hentry hfit hneg] at hcalls
    exact absurd rfl hcalls
  rw [read_eq_refill K T s ts n length0 flags hentry hfit (by omega) hrc]
    at herr ⊢
  by_cases hp : s.bufPos > 0
  · rw [if_pos hp] at herr ⊢
    exact refill_error_shape K T _ ts n hentry.2.1 rfl herr
  · rw [if_neg hp] at herr ⊢
    exact refill_error_shape K T s ts n hentry.2.1 (by omega) herr

/-! ## C33: the length reported next to a transport error -/

/-- C33 (as amended): whenever `bufferedTransportRead` returns an error status
after it called the transport, that status is the status of the last
transport read, and the length reported is the number of cached bytes the
call copied to the caller's buffer, which is the value of `bufPos`
afterwards: it is 0 or it is `bufEnd`.  When the read that failed is the
final blocking read into the caller's buffer, reached with the stream `s`,
the length reported is `s.bufEnd`, the number of bytes that were cached. -/
theorem bufferedTransportRead_error_length {σ : Type} (K : Consts)
    (T : Transport σ) (stream : STREAM) (ts : σ) (maxLength length0 : Int)
    (flags : Nat)
    (herr : cryptStatusError K
      (bufferedTransportRead K T stream ts maxLength length0 flags).status = true)
    (hcalls : (bufferedTransportRead K T stream ts maxLength length0
      flags).calls ≠ []) :
    (∃ c, (bufferedTransportRead K T stream ts maxLength length0
        flags).calls.getLast? = some c ∧
      (bufferedTransportRead K T stream ts maxLength length0 flags).status =
        c.reply.status) ∧
    (bufferedTransportRead K T stream ts maxLength length0 flags).length =
      (bufferedTransportRead K T stream ts maxLength length0
        flags).stream.bufPos ∧
    ((bufferedTransportRead K T stream ts maxLength length0 flags).length = 0 ∨
      (bufferedTransportRead K T stream ts maxLength length0 flags).length =
        (bufferedTransportRead K T stream ts maxLength length0
          flags).stream.bufEnd) ∧
    (∀ (s : STREAM) (ts1 : σ) (calls : List ReadCall),
      bufferedTransportRead K T stream ts maxLength length0 flags =
        bufferedTransportReadDrain K T s ts1 maxLength calls →
      sanityCheckNetStream K s.netStreamInfo = true →
      s.bufEnd < maxLength →
      cryptStatusError K
        (T.read ts1 (maxLength - s.bufEnd) K.TRANSPORT_FLAG_BLOCKING).1.status =
          true →
      (bufferedTransportRead K T stream ts maxLength length0 flags).length =
        s.bufEnd) := by
  obtain ⟨h1, h2, h3⟩ := read_error_shape K T stream ts maxLength length0 flags
    herr hcalls
  refine ⟨h1, h2, h3, ?_⟩
  intro s ts1 calls hreach hsane hmore hfail
  have hlt : (T.read ts1 (maxLength - s.bufEnd)
      K.TRANSPORT_FLAG_BLOCKING).1.status < K.CRYPT_OK := by
    unfold cryptStatusError at hfail
    exact of_decide_eq_true hfail
  rw [hreach, drain_eq_direct_err K T s ts1 maxLength calls hsane hmore hlt]

set_option maxRecDepth 100000 in
/-- C33, witness: the stream caches 3 bytes and 5 bytes are asked for; the
blocking refill read fails with status -25: the length reported is 0, the
value of `bufPos`. -/
theorem bufferedTransportRead_error_length_witness :
    cryptStatusError sampleConsts
      (bufferedTransportRead sampleConsts scriptTransport cachedDemoStream
        ⟨[⟨-25, []⟩], []⟩ 5 0 0).status = true ∧
    (bufferedTransportRead sampleConsts scriptTransport cachedDemoStream
      ⟨[⟨-25, []⟩], []⟩ 5 0 0).calls ≠ [] ∧
    (bufferedTransportRead sampleConsts scriptTransport cachedDemoStream
      ⟨[⟨-25, []⟩], []⟩ 5 0 0).length = 0 ∧
    (bufferedTransportRead sampleConsts scriptTransport cachedDemoStream
      ⟨[⟨-25, []⟩], []⟩ 5 0 0).stream.bufPos = 0 := by
  have h := (bufferedTransportRead_error_length sampleConsts scriptTransport
    cachedDemoStream ⟨[⟨-25, []⟩], []⟩ 5 0 0 (by decide) (by decide)).2.1
  exact ⟨by decide, by decide, by decide, h.symm.trans (by decide)⟩

set_option maxRecDepth 100000 in
/-- C33, counterexample to the claim as stated: the stream caches the bytes
2, 3, 4 and 6 bytes are asked for.  The refill reads bring nothing and the
final read of the 3 missing bytes fails with status -25: the call returns the
transport error -25 and reports the length 3. -/
theorem bufferedTransportRead_error_length_counterexample :
    (bufferedTransportRead sampleConsts scriptTransport cachedDemoStream
      ⟨[⟨0, []⟩, ⟨0, []⟩, ⟨-25, []⟩], []⟩ 6 0 0).status = -25 ∧
    cryptStatusError sampleConsts
      (bufferedTransportRead sampleConsts scriptTransport cachedDemoStream
        ⟨[⟨0, []⟩, ⟨0, []⟩, ⟨-25, []⟩], []⟩ 6 0 0).status = true ∧
    (bufferedTransportRead sampleConsts scriptTransport cachedDemoStream
      ⟨[⟨0, []⟩, ⟨0, []⟩, ⟨-25, []⟩], []⟩ 6 0 0).calls =
      [⟨5, 4, ⟨0, []⟩⟩, ⟨5, 2, ⟨0, []⟩⟩, ⟨3, 4, ⟨-25, []⟩⟩] ∧
    (bufferedTransportRead sampleConsts scriptTransport cachedDemoStream
      ⟨[⟨0, []⟩, ⟨0, []⟩, ⟨-25, []⟩], []⟩ 6 0 0).length = 3 := by
  decide

/-! ## C34: a failed write of the assembled buffer -/

/-- C34 (as amended): when `bufferedTransportWrite` sends the assembled buffer
and that transport write fails, the call returns the error of the transport
and reports 0 bytes.  The write buffer is left as assembled: it holds the
bytes buffered on entry followed by the first `writeBytesToCopy` bytes of the
caller's data, and the watermark is the one on entry plus `writeBytesToCopy`;
it is the watermark on entry only when the buffer was full on entry. -/
theorem bufferedTransportWrite_failed_flush {σ : Type} (K : Consts)
    (T : Transport σ) (s : STREAM) (ts : σ) (buffer : List BYTE)
    (length0 : Int) (flags : Nat) (wb : List BYTE)
    (hentry : WriteEntryOK K s buffer flags)
    (hwb : s.netStreamInfo.writeBuffer = some wb)
    (hwl : (wb.length : Int) = s.netStreamInfo.writeBufSize)
    (hsend : ¬ (flags &&& K.TRANSPORT_FLAG_FLUSH = 0 ∧
      s.netStreamInfo.writeBufEnd + buffer.length ≤ s.netStreamInfo.writeBufSize))
    (hp : 0 < s.netStreamInfo.writeBufEnd)
    (herr : (T.write ts (s.netStreamInfo.pending ++
      slice buffer 0 (writeBytesToCopy s.netStreamInfo buffer.length))
      K.TRANSPORT_FLAG_NONE).1.status < K.CRYPT_OK) :
    (bufferedTransportWrite K T s ts buffer length0 flags).status =
      (T.write ts (s.netStreamInfo.pending ++
        slice buffer 0 (writeBytesToCopy s.netStreamInfo buffer.length))
        K.TRANSPORT_FLAG_NONE).1.status ∧
    (bufferedTransportWrite K T s ts buffer length0 flags).length = 0 ∧
    (bufferedTransportWrite K T s ts buffer length0
      flags).stream.netStreamInfo.pending =
      s.netStreamInfo.pending ++
        slice buffer 0 (writeBytesToCopy s.netStreamInfo buffer.length) ∧
    (bufferedTransportWrite K T s ts buffer length0
      flags).stream.netStreamInfo.writeBufEnd =
      s.netStreamInfo.writeBufEnd +
        writeBytesToCopy s.netStreamInfo buffer.length ∧
    ((bufferedTransportWrite K T s ts buffer length0
      flags).stream.netStreamInfo.writeBufEnd = s.netStreamInfo.writeBufEnd ↔
      s.netStreamInfo.writeBufEnd = s.netStreamInfo.writeBufSize) := by
  have h2 := hentry.2.1
  have h3 := hentry.2.2.1
  have hpend := writeAssemble_pending K s.netStreamInfo buffer wb h2 h3.1 hwb hwl
  obtain ⟨he1, _⟩ := writeAssemble_writeBufEnd K s.netStreamInfo buffer h2 h3.1
  obtain ⟨hc0, hc1, hc2, hc3, hc4⟩ :=
    writeBytesToCopy_bounds K s.netStreamInfo buffer.length h2 h3.1
  rw [← hpend] at herr ⊢
  rw [write_eq_asm_err K T s ts buffer length0 flags hentry hsend hp
    (writeAssemble s.netStreamInfo buffer) rfl herr]
  dsimp only
  refine ⟨rfl, rfl, rfl, he1, ?_⟩
  rw [he1]
  constructor
  · intro h
    by_cases hfit : s.netStreamInfo.writeBufEnd + buffer.length ≤
        s.netStreamInfo.writeBufSize
    · have := hc3 hfit
      omega
    · have := hc4 hfit
      omega
  · intro h
    by_cases hfit : s.netStreamInfo.writeBufEnd + buffer.length ≤
        s.netStreamInfo.writeBufSize
    · have := hc3 hfit
      omega
    · have := hc4 hfit
      omega

set_option maxRecDepth 100000 in
/-- C34, witness: 3 bytes are buffered in a buffer of 6, a flushing write adds
2 bytes and the transport write fails with status -25: the call returns -25
and reports 0, the write buffer holds 5 bytes. -/
theorem bufferedTransportWrite_failed_flush_witness :
    WriteEntryOK sampleConsts pendingWriteDemoStream [1, 2] 1 ∧
    (bufferedTransportWrite sampleConsts scriptTransport pendingWriteDemoStream
      failingWriteScript [1, 2] 0 1).status = -25 ∧
    (bufferedTransportWrite sampleConsts scriptTransport pendingWriteDemoStream
      failingWriteScript [1, 2] 0 1).stream.netStreamInfo.writeBufEnd = 5 := by
  have h := bufferedTransportWrite_failed_flush sampleConsts scriptTransport
    pendingWriteDemoStream failingWriteScript [1, 2] 0 1 [9, 9, 9, 0, 0, 0]
    (by unfold WriteEntryOK; decide) rfl (by decide) (by decide) (by decide)
    (by decide)
  exact ⟨by unfold WriteEntryOK; decide, h.1.trans (by decide),
    h.2.2.2.1.trans (by decide)⟩

set_option maxRecDepth 100000 in
/-- C34, counterexample to the claim as stated: the write buffer holds the 3
bytes 9, 9, 9 with the watermark 3; a flushing write of the bytes 1, 2 whose
transport write fails with status -25 returns -25 and reports 0, and leaves
the write buffer holding 9, 9, 9, 1, 2 with the watermark 5. -/
theorem bufferedTransportWrite_failed_flush_counterexample :
    pendingWriteDemoStream.netStreamInfo.writeBufEnd = 3 ∧
    pendingWriteDemoStream.netStreamInfo.pending = [9, 9, 9] ∧
    (bufferedTransportWrite sampleConsts scriptTransport pendingWriteDemoStream
      failingWriteScript [1, 2] 0 1).status = -25 ∧
    (bufferedTransportWrite sampleConsts scriptTransport pendingWriteDemoStream
      failingWriteScript [1, 2] 0 1).length = 0 ∧
    (bufferedTransportWrite sampleConsts scriptTransport pendingWriteDemoStream
      failingWriteScript [1, 2] 0 1).calls =
      [⟨[9, 9, 9, 1, 2], 0, ⟨-25, 0⟩⟩] ∧
    (bufferedTransportWrite sampleConsts scriptTransport pendingWriteDemoStream
      failingWriteScript [1, 2] 0 1).stream.netStreamInfo.writeBufEnd = 5 ∧
    (bufferedTransportWrite sampleConsts scriptTransport pendingWriteDemoStream
      failingWriteScript [1, 2] 0 1).stream.netStreamInfo.pending =
      [9, 9, 9, 1, 2] := by
  decide

theorem write_eq_asm_stalled {σ : Type} (K : Consts) (T : Transport σ)
    (s : STREAM) (ts : σ) (buffer : List BYTE) (length0 : Int) (flags : Nat)
    (hinternal : K.CRYPT_ERROR_INTERNAL < K.CRYPT_OK)
    (hentry : WriteEntryOK K s buffer flags)
    (hsend : ¬ (flags &&& K.TRANSPORT_FLAG_FLUSH = 0 ∧
      s.netStreamInfo.writeBufEnd + buffer.length ≤ s.netStreamInfo.writeBufSize))
    (hp : s.netStreamInfo.writeBufEnd > 0)
    (ns1 : NET_STREAM_INFO) (hns1 : ns1 = writeAssemble s.netStreamInfo buffer)
    (herr : ¬ (T.write ts ns1.pending K.TRANSPORT_FLAG_NONE).1.status < K.CRYPT_OK)
    (hk0 : (T.write ts ns1.pending K.TRANSPORT_FLAG_NONE).1.bytesWritten ≤ 0) :
    bufferedTransportWrite K T s ts buffer length0 flags =
      ⟨K.CRYPT_ERROR_INTERNAL, 0, { s with netStreamInfo := ns1 },
        (T.write ts ns1.pending K.TRANSPORT_FLAG_NONE).2,
        [⟨ns1.pending, K.TRANSPORT_FLAG_NONE,
          (T.write ts ns1.pending K.TRANSPORT_FLAG_NONE).1⟩]⟩ := by
  obtain ⟨h1, h2, h3, h4, h5⟩ := hentry
  have h2' : ¬ sanityCheckNetStream K s.netStreamInfo = false := by rw [h2]; decide
  obtain ⟨he1, _⟩ := writeAssemble_writeBufEnd K s.netStreamInfo buffer h2 h3.1
  obtain ⟨hc0, _, _, _, _⟩ :=
    writeBytesToCopy_bounds K s.netStreamInfo buffer.length h2 h3.1
  subst hns1
  have hk1 : (T.write ts (writeAssemble s.netStreamInfo buffer).pending
      K.TRANSPORT_FLAG_NONE).1.bytesWritten <
      (writeAssemble s.netStreamInfo buffer).writeBufEnd := by
    rw [he1]
    omega
  have hpi : processIncompleteWrite K (writeAssemble s.netStreamInfo buffer)
      (T.write ts (writeAssemble s.netStreamInfo buffer).pending
        K.TRANSPORT_FLAG_NONE).1.bytesWritten
      (writeBytesToCopy s.netStreamInfo buffer.length) 0 =
      ⟨K.CRYPT_ERROR_INTERNAL, 0, writeAssemble s.netStreamInfo buffer⟩ := by
    unfold processIncompleteWrite
    dsimp only
    rw [if_pos (fun h => absurd h.1 (by omega))]
  unfold bufferedTransportWrite
  dsimp only
  rw [if_neg h1, if_neg h2', if_neg (not_not.mpr h3), if_neg (not_not.mpr h4),
    if_neg h5, if_neg hsend, if_pos hp]
  simp only [cryptStatusError, herr, decide_False, Bool.false_eq_true, if_false,
    hk1, if_true, hpi, hinternal, decide_True]

/-! ## C35: the transport accepts nothing of the assembled buffer -/

/-- C35: when `bufferedTransportWrite` sends the assembled buffer and the
transport reports success but 0 bytes written, the call returns
`CRYPT_ERROR_INTERNAL` (an error status) and reports 0 bytes; the write buffer
holds the whole assembled content, the bytes buffered on entry followed by
the `writeBytesToCopy` new bytes, with the watermark past them. -/
theorem bufferedTransportWrite_nothing_written {σ : Type} (K : Consts)
    (T : Transport σ) (s : STREAM) (ts : σ) (buffer : List BYTE)
    (length0 : Int) (flags : Nat) (wb : List BYTE)
    (hinternal : K.CRYPT_ERROR_INTERNAL < K.CRYPT_OK)
    (hentry : WriteEntryOK K s buffer flags)
    (hwb : s.netStreamInfo.writeBuffer = some wb)
    (hwl : (wb.length : Int) = s.netStreamInfo.writeBufSize)
    (hsend : ¬ (flags &&& K.TRANSPORT_FLAG_FLUSH = 0 ∧
      s.netStreamInfo.writeBufEnd + buffer.length ≤ s.netStreamInfo.writeBufSize))
    (hp : 0 < s.netStreamInfo.writeBufEnd)
    (herr : ¬ (T.write ts (s.netStreamInfo.pending ++
      slice buffer 0 (writeBytesToCopy s.netStreamInfo buffer.length))
      K.TRANSPORT_FLAG_NONE).1.status < K.CRYPT_OK)
    (hk0 : (T.write ts (s.netStreamInfo.pending ++
      slice buffer 0 (writeBytesToCopy s.netStreamInfo buffer.length))
      K.TRANSPORT_FLAG_NONE).1.bytesWritten = 0) :
    (bufferedTransportWrite K T s ts buffer length0 flags).status =
      K.CRYPT_ERROR_INTERNAL ∧
    cryptStatusError K
      (bufferedTransportWrite K T s ts buffer length0 flags).status = true ∧
    (bufferedTransportWrite K T s ts buffer length0 flags).length = 0 ∧
    (bufferedTransportWrite K T s ts buffer length0
      flags).stream.netStreamInfo.pending =
      s.netStreamInfo.pending ++
        slice buffer 0 (writeBytesToCopy s.netStreamInfo buffer.length) ∧
    (bufferedTransportWrite K T s ts buffer length0
      flags).stream.netStreamInfo.writeBufEnd =
      s.netStreamInfo.writeBufEnd +
        writeBytesToCopy s.netStreamInfo buffer.length := by
  have h2 := hentry.2.1
  have h3 := hentry.2.2.1
  have hpend := writeAssemble_pending K s.netStreamInfo buffer wb h2 h3.1 hwb hwl
  obtain ⟨he1, _⟩ := writeAssemble_writeBufEnd K s.netStreamInfo buffer h2 h3.1
  rw [← hpend] at herr hk0 ⊢
  rw [write_eq_asm_stalled K T s ts buffer length0 flags hinternal hentry hsend hp
    (writeAssemble s.netStreamInfo buffer) rfl herr (le_of_eq hk0)]
  exact ⟨rfl, cryptStatusError_of_lt K _ hinternal, rfl, rfl, he1⟩

set_option maxRecDepth 100000 in
/-- C35, witness: 3 bytes are buffered, a flushing write adds 2 bytes and the
transport reports success with 0 bytes written: the call returns
`CRYPT_ERROR_INTERNAL`, reports 0, and the write buffer holds all 5 bytes. -/
theorem bufferedTransportWrite_nothing_written_witness :
    WriteEntryOK sampleConsts pendingWriteDemoStream [1, 2] 1 ∧
    (bufferedTransportWrite sampleConsts scriptTransport pendingWriteDemoStream
      stalledWriteScript [1, 2] 0 1).status = sampleConsts.CRYPT_ERROR_INTERNAL ∧
    (bufferedTransportWrite sampleConsts scriptTransport pendingWriteDemoStream
      stalledWriteScript [1, 2] 0 1).length = 0 ∧
    (bufferedTransportWrite sampleConsts scriptTransport pendingWriteDemoStream
      stalledWriteScript [1, 2] 0 1).stream.netStreamInfo.pending =
      [9, 9, 9, 1, 2] := by
  have h := bufferedTransportWrite_nothing_written sampleConsts scriptTransport
    pendingWriteDemoStream stalledWriteScript [1, 2] 0 1 [9, 9, 9, 0, 0, 0]
    (by decide) (by unfold WriteEntryOK; decide) rfl (by decide) (by decide)
    (by decide) (by decide) (by decide)
  exact ⟨by unfold WriteEntryOK; decide, h.1, h.2.2.1, h.2.2.2.1.trans (by decide)⟩

theorem sane_unbuffered (K : Consts) (ns : NET_STREAM_INFO)
    (h : sanityCheckNetStream K ns = true) (hnone : ns.writeBuffer = none) :
    ns.writeBufSize = 0 ∧ ns.writeBufEnd = 0 := by
  rw [sanity_split, Bool.and_eq_true] at h
  obtain ⟨_, hb⟩ := h
  unfold sanityCheckBuffers at hb
  rw [if_pos hnone] at hb
  by_cases hz : ns.writeBufSize ≠ 0 ∨ ns.writeBufEnd ≠ 0
  · rw [if_pos hz] at hb
    exact Bool.noConfusion hb
  · constructor
    · by_contra h1
      exact hz (Or.inl h1)
    · by_contra h1
      exact hz (Or.inr h1)

theorem pending_of_empty (ns : NET_STREAM_INFO) (h : ns.writeBufEnd = 0) :
    ns.pending = [] := by
  unfold NET_STREAM_INFO.pending
  rw [h]
  exact slice_nil_of_nonpos _ _ _ (le_refl 0)

theorem handedOver_append (a b : List WriteCall) :
    handedOver (a ++ b) = handedOver a ++ handedOver b := by
  unfold handedOver
  rw [List.map_append, concatAll_append]

theorem handedOver_single (c : WriteCall) : handedOver [c] = c.payload := by
  simp [handedOver, concatAll]

theorem handedOver_nil : handedOver [] = [] := rfl

theorem pending_length (K : Consts) (ns : NET_STREAM_INFO) (wb : List BYTE)
    (h : sanityCheckNetStream K ns = true) (hwb : ns.writeBuffer = some wb)
    (hwl : (wb.length : Int) = ns.writeBufSize) :
    (ns.pending.length : Int) = ns.writeBufEnd := by
  have hb := sanity_writeBuf_bounds K _ h
  unfold NET_STREAM_INFO.pending
  rw [hwb]
  exact slice_length _ _ _ (le_refl 0) hb.1 (by simp only [Option.getD_some]; omega)


theorem writeDirect_full {σ : Type} (K : Consts) (T : Transport σ)
    (hT : WritesAccepted K T) (s : STREAM) (ts : σ) (buffer : List BYTE)
    (byteCount : Int) (calls : List WriteCall)
    (hz : s.netStreamInfo.writeBufEnd = 0)
    (hsane : sanityCheckNetStream K s.netStreamInfo = true)
    (h0 : 0 ≤ byteCount) (h1 : byteCount ≤ buffer.length) :
    bufferedTransportWriteDirect K T s ts buffer byteCount calls =
      ⟨K.CRYPT_OK, buffer.length, s,
        (T.write ts (slice buffer (buffer.length - byteCount) byteCount)
          K.TRANSPORT_FLAG_NONE).2,
        calls ++ [⟨slice buffer (buffer.length - byteCount) byteCount,
          K.TRANSPORT_FLAG_NONE,
          (T.write ts (slice buffer (buffer.length - byteCount) byteCount)
            K.TRANSPORT_FLAG_NONE).1⟩]⟩ := by
  obtain ⟨hst, hbw⟩ := hT ts (slice buffer (buffer.length - byteCount) byteCount)
    K.TRANSPORT_FLAG_NONE
  have hl : ((slice buffer (buffer.length - byteCount) byteCount).length : Int) =
      byteCount := slice_length _ _ _ (by omega) h0 (by omega)
  rw [writeDirect_eq_ok K T s ts buffer byteCount calls hz hsane _ rfl
    (by rw [hst]; exact lt_irrefl _)]
  rw [if_neg (by rw [hbw, hl]; exact lt_irrefl _)]

theorem writeAssemble_writeFunction (K : Consts) (ns : NET_STREAM_INFO)
    (buffer : List BYTE) (h : sanityCheckNetStream K ns = true)
    (hn : 0 < (buffer.length : Int)) :
    (writeAssemble ns buffer).transportWriteFunction =
      ns.transportWriteFunction ∧
    (writeAssemble ns buffer).writeBuffer =
      ns.writeBuffer.map fun wb =>
        store wb ns.writeBufEnd
          (slice buffer 0 (writeBytesToCopy ns buffer.length)) := by
  obtain ⟨h0, _, _, _, _⟩ := writeBytesToCopy_bounds K ns buffer.length h hn
  rw [writeAssemble_eq ns buffer h0]
  exact ⟨rfl, rfl⟩

theorem write_step_full {σ : Type} (K : Consts) (T : Transport σ)
    (hT : WritesAccepted K T) (s : STREAM) (ts : σ) (buffer : List BYTE)
    (length0 : Int) (flags : Nat) (hready : WriteReady K s)
    (hvalid : ((buffer.length : Int) > 0 ∧
        (buffer.length : Int) < K.MAX_BUFFER_SIZE) ∧
      (flags ≥ K.TRANSPORT_FLAG_NONE ∧ flags ≤ K.TRANSPORT_FLAG_MAX)) :
    (bufferedTransportWrite K T s ts buffer length0 flags).status = K.CRYPT_OK ∧
    (bufferedTransportWrite K T s ts buffer length0 flags).length =
      buffer.length ∧
    WriteReady K (bufferedTransportWrite K T s ts buffer length0 flags).stream ∧
    handedOver (bufferedTransportWrite K T s ts buffer length0 flags).calls ++
        (bufferedTransportWrite K T s ts buffer length0
          flags).stream.netStreamInfo.pending =
      s.netStreamInfo.pending ++ buffer ∧
    (flags &&& K.TRANSPORT_FLAG_FLUSH ≠ 0 →
      (bufferedTransportWrite K T s ts buffer length0
        flags).stream.netStreamInfo.writeBufEnd = 0) := by
  obtain ⟨h1, h2, h5, hlen⟩ := hready
  have hentry : WriteEntryOK K s buffer flags := ⟨h1, h2, hvalid.1, hvalid.2, h5⟩
  have hb := sanity_writeBuf_bounds K _ h2
  have hn := hvalid.1.1
  have hall_buf : slice buffer 0 (buffer.length : Int) = buffer :=
    slice_all _ _ (le_refl _)
  by_cases habs : flags &&& K.TRANSPORT_FLAG_FLUSH = 0 ∧
      s.netStreamInfo.writeBufEnd + buffer.length ≤ s.netStreamInfo.writeBufSize
  · rw [write_eq_absorb K T s ts buffer length0 flags hentry habs.1 habs.2]
    cases hwb : s.netStreamInfo.writeBuffer with
    | none =>
      obtain ⟨hz1, hz2⟩ := sane_unbuffered K _ h2 hwb
      exfalso
      have := habs.2
      omega
    | some wb =>
      have hwl := hlen wb hwb
      have hs1 := sanity_writeBuf_update K s.netStreamInfo
        (fun wb => store wb s.netStreamInfo.writeBufEnd
          (slice buffer 0 buffer.length))
        (s.netStreamInfo.writeBufEnd + buffer.length) h2 (by omega) habs.2
      rw [hwb] at hs1
      refine ⟨rfl, rfl, ⟨h1, hs1, h5, ?_⟩, ?_, fun hf => absurd habs.1 hf⟩
      · intro wb1 hwb1
        dsimp only at hwb1 ⊢
        simp only [Option.map_some', Option.some.injEq] at hwb1
        subst hwb1
        rw [store_length _ _ _ hb.1 (by rw [hall_buf]; omega)]
        exact hwl
      · dsimp only
        rw [handedOver_nil, List.nil_append]
        unfold NET_STREAM_INFO.pending
        dsimp only
        rw [hwb]
        simp only [Option.map_some', Option.getD_some]
        rw [hall_buf]
        exact slice_store_append wb _ buffer hb.1 (by omega)
  · by_cases hp : s.netStreamInfo.writeBufEnd > 0
    · cases hwb : s.netStreamInfo.writeBuffer with
      | none =>
        obtain ⟨hz1, hz2⟩ := sane_unbuffered K _ h2 hwb
        exfalso
        omega
      | some wb =>
        have hwl := hlen wb hwb
        obtain ⟨hc0, hc1, hc2, hc3, hc4⟩ :=
          writeBytesToCopy_bounds K s.netStreamInfo buffer.length h2 hn
        obtain ⟨ns1, hns1⟩ : ∃ ns1, ns1 = writeAssemble s.netStreamInfo buffer :=
          ⟨_, rfl⟩
        have hsane1 : sanityCheckNetStream K ns1 = true := by
          rw [hns1]
          exact writeAssemble_sane K s.netStreamInfo buffer h2 hn
        have hpend : ns1.pending = s.netStreamInfo.pending ++
            slice buffer 0 (writeBytesToCopy s.netStreamInfo buffer.length) := by
          rw [hns1]
          exact writeAssemble_pending K _ buffer wb h2 hn hwb hwl
        obtain ⟨he1, hsz1⟩ :=
          writeAssemble_writeBufEnd K s.netStreamInfo buffer h2 hn
        obtain ⟨hfn1, hwb1⟩ :=
          writeAssemble_writeFunction K s.netStreamInfo buffer h2 hn
        rw [← hns1] at he1 hsz1 hfn1 hwb1
        rw [hwb] at hwb1
        simp only [Option.map_some'] at hwb1
        have hcl : ((slice buffer 0
            (writeBytesToCopy s.netStreamInfo buffer.length)).length : Int) =
            writeBytesToCopy s.netStreamInfo buffer.length :=
          slice_length _ _ _ (le_refl 0) hc0 (by omega)
        have hwl1 : ((store wb s.netStreamInfo.writeBufEnd (slice buffer 0
            (writeBytesToCopy s.netStreamInfo buffer.length))).length : Int) =
            ns1.writeBufSize := by
          rw [store_length _ _ _ hb.1 (by rw [hcl]; omega), hsz1]
          exact hwl
        have hplen : (ns1.pending.length : Int) = ns1.writeBufEnd :=
          pending_length K ns1 _ hsane1 hwb1 hwl1
        obtain ⟨hst, hbw⟩ := hT ts ns1.pending K.TRANSPORT_FLAG_NONE
        have herr : ¬ (T.write ts ns1.pending K.TRANSPORT_FLAG_NONE).1.status <
            K.CRYPT_OK := by
          rw [hst]
          exact lt_irrefl _
        have hall : ¬ (T.write ts ns1.pending
            K.TRANSPORT_FLAG_NONE).1.bytesWritten < ns1.writeBufEnd := by
          rw [hbw, hplen]
          exact lt_irrefl _
        have hb1 := sanity_writeBuf_bounds K _ hsane1
        have hs2 : sanityCheckNetStream K { ns1 with writeBufEnd := 0 } = true :=
          sanity_writeBufEnd_update K ns1 0 hsane1 (le_refl 0) (by omega)
        have hready2 : WriteReady K
            { s with netStreamInfo := { ns1 with writeBufEnd := 0 } } := by
          refine ⟨h1, hs2, ?_, ?_⟩
          · show FNPTR_GET K ns1.transportWriteFunction ≠ NULL
            rw [hfn1]
            exact h5
          · intro wb2 hwb2
            have hwb2' : ns1.writeBuffer = some wb2 := hwb2
            rw [hwb1] at hwb2'
            simp only [Option.some.injEq] at hwb2'
            subst hwb2'
            exact hwl1
        by_cases hfit : s.netStreamInfo.writeBufEnd + buffer.length ≤
            s.netStreamInfo.writeBufSize
        · rw [write_eq_asm_done K T s ts buffer length0 flags hentry habs hp ns1
            hns1 herr hall hfit]
          refine ⟨rfl, rfl, hready2, ?_, fun _ => rfl⟩
          dsimp only
          rw [handedOver_single,
            pending_of_empty { ns1 with writeBufEnd := 0 } rfl, List.append_nil]
          dsimp only
          rw [hpend, hc3 hfit, hall_buf]
        · rw [write_eq_asm_direct K T s ts buffer length0 flags hentry hp ns1
            hns1 herr hall hfit]
          rw [writeDirect_full K T hT _ _ buffer _ _ rfl hs2 (by omega) (by omega)]
          refine ⟨rfl, rfl, hready2, ?_, fun _ => rfl⟩
          dsimp only
          rw [handedOver_append, handedOver_single, handedOver_single,
            pending_of_empty { ns1 with writeBufEnd := 0 } rfl, List.append_nil]
          dsimp only
          rw [hpend, List.append_assoc]
          have hoff : (buffer.length : Int) - ((buffer.length : Int) -
              writeBytesToCopy s.netStreamInfo buffer.length) =
              0 + writeBytesToCopy s.netStreamInfo buffer.length := by omega
          rw [hoff, slice_split buffer 0 _ buffer.length (le_refl 0) hc0 hc1,
            hall_buf]
    · have hz : s.netStreamInfo.writeBufEnd = 0 := by omega
      rw [write_eq_direct K T s ts buffer length0 flags hentry habs hp,
        writeDirect_full K T hT s ts buffer _ [] hz h2 (by omega) (le_refl _)]
      refine ⟨rfl, rfl, ⟨h1, h2, h5, hlen⟩, ?_, fun _ => hz⟩
      dsimp only
      rw [List.nil_append, handedOver_single, pending_of_empty _ hz,
        List.append_nil, List.nil_append]
      dsimp only
      rw [sub_self, hall_buf]


theorem writeSeq_spec {σ : Type} (K : Consts) (T : Transport σ)
    (hT : WritesAccepted K T) (reqs : List WriteRequest) :
    ∀ (s : STREAM) (ts : σ), WriteReady K s →
      (∀ r ∈ reqs, ValidWrite K r) →
      (bufferedTransportWriteSeq K T s ts reqs).length = reqs.length ∧
      (∀ p ∈ List.zip reqs (bufferedTransportWriteSeq K T s ts reqs),
        p.2.status = K.CRYPT_OK ∧ p.2.length = p.1.buffer.length ∧
        (p.1.flags &&& K.TRANSPORT_FLAG_FLUSH ≠ 0 →
          p.2.stream.netStreamInfo.writeBufEnd = 0 ∧
          p.2.stream.netStreamInfo.pending = [])) ∧
      handedOver (concatAll
          ((bufferedTransportWriteSeq K T s ts reqs).map WriteOutcome.calls)) ++
        (lastWriteStream s
          (bufferedTransportWriteSeq K T s ts reqs)).netStreamInfo.pending =
      s.netStreamInfo.pending ++ concatAll (reqs.map WriteRequest.buffer) := by
  induction reqs with
  | nil =>
    intro s ts _ _
    simp [bufferedTransportWriteSeq, lastWriteStream, concatAll, handedOver]
  | cons r rs ih =>
    intro s ts hready hvalid
    have hv : ValidWrite K r := hvalid r (List.mem_cons_self r rs)
    have hvs : ∀ q ∈ rs, ValidWrite K q :=
      fun q hq => hvalid q (List.mem_cons_of_mem r hq)
    obtain ⟨hs1, hs2, hs3, hs4, hs5⟩ :=
      write_step_full K T hT s ts r.buffer r.length0 r.flags hready hv
    obtain ⟨ih1, ih2, ih3⟩ := ih _ _ hs3 hvs
    simp only [bufferedTransportWriteSeq, lastWriteStream, List.map_cons,
      concatAll, List.length_cons, List.zip_cons_cons, List.mem_cons,
      forall_eq_or_imp]
    refine ⟨by rw [ih1], ⟨⟨hs1, hs2, fun hf => ⟨hs5 hf,
      pending_of_empty _ (hs5 hf)⟩⟩, ih2⟩, ?_⟩
    rw [handedOver_append, List.append_assoc, ih3, ← List.append_assoc, hs4,
      List.append_assoc]

theorem acceptAllTransport_writesAccepted :
    WritesAccepted sampleConsts acceptAllTransport := by
  intro ts payload flags
  exact ⟨rfl, rfl⟩

theorem emptyWriteDemoStream_ready : WriteReady sampleConsts emptyWriteDemoStream := by
  refine ⟨by decide, by decide, by decide, ?_⟩
  intro wb hwb
  have h : some [0, 0, 0, 0, 0, 0] = some wb := hwb
  cases h
  decide

/-! ## C36: sequences of writes over a transport that accepts everything -/

/-- C36: over a transport that accepts every write in full, for a stream that
`bufferedTransportWrite` accepts and whose write buffer is empty, and for
every sequence of calls whose arguments pass the entry checks (any mix of
flushing and non-flushing calls, any sizes): there is one outcome per call,
each call returns `CRYPT_OK` and reports all of its bytes accepted; after
each call (for every number `k` of calls made so far) the bytes handed to the
transport, concatenated in call order, followed by the write-buffer contents,
equal the concatenation of the payloads written so far; and after every
flushing call the write buffer is empty. -/
theorem bufferedTransportWrite_sequence_conservation {σ : Type} (K : Consts)
    (T : Transport σ) (hT : WritesAccepted K T) (s : STREAM) (ts : σ)
    (reqs : List WriteRequest) (hready : WriteReady K s)
    (hempty : s.netStreamInfo.writeBufEnd = 0)
    (hvalid : ∀ r ∈ reqs, ValidWrite K r) :
    (bufferedTransportWriteSeq K T s ts reqs).length = reqs.length ∧
    (∀ p ∈ List.zip reqs (bufferedTransportWriteSeq K T s ts reqs),
      p.2.status = K.CRYPT_OK ∧ p.2.length = p.1.buffer.length) ∧
    (∀ k : Nat,
      handedOver (concatAll
          ((bufferedTransportWriteSeq K T s ts (reqs.take k)).map
            WriteOutcome.calls)) ++
        (lastWriteStream s
          (bufferedTransportWriteSeq K T s ts
            (reqs.take k))).netStreamInfo.pending =
      concatAll ((reqs.take k).map WriteRequest.buffer)) ∧
    (∀ p ∈ List.zip reqs (bufferedTransportWriteSeq K T s ts reqs),
      p.1.flags &&& K.TRANSPORT_FLAG_FLUSH ≠ 0 →
        p.2.stream.netStreamInfo.writeBufEnd = 0 ∧
        p.2.stream.netStreamInfo.pending = []) := by
  obtain ⟨h1, h2, _⟩ := writeSeq_spec K T hT reqs s ts hready hvalid
  refine ⟨h1, fun p hp => ⟨(h2 p hp).1, (h2 p hp).2.1⟩, ?_,
    fun p hp => (h2 p hp).2.2⟩
  intro k
  obtain ⟨_, _, h3⟩ := writeSeq_spec K T hT (reqs.take k) s ts hready
    (fun r hr => hvalid r (List.mem_of_mem_take hr))
  rw [h3, pending_of_empty _ hempty, List.nil_append]

set_option maxRecDepth 100000 in
/-- C36, witness: five writes (2, 3, 9, 1 bytes without flush, then 1 byte
with flush) into an empty 6-byte write buffer over a transport that accepts
everything.  After the third call the transport has been handed the bytes
1..14 and the buffer is empty; after the fifth it has been handed the bytes
1..16 in three transport writes, and the buffer is empty again. -/
theorem bufferedTransportWrite_sequence_conservation_witness :
    WritesAccepted sampleConsts acceptAllTransport ∧
    WriteReady sampleConsts emptyWriteDemoStream ∧
    (∀ r ∈ writeDemoRequests, ValidWrite sampleConsts r) ∧
    handedOver (concatAll
        ((bufferedTransportWriteSeq sampleConsts acceptAllTransport
          emptyWriteDemoStream () (writeDemoRequests.take 5)).map
          WriteOutcome.calls)) ++
      (lastWriteStream emptyWriteDemoStream
        (bufferedTransportWriteSeq sampleConsts acceptAllTransport
          emptyWriteDemoStream ()
          (writeDemoRequests.take 5))).netStreamInfo.pending =
      [1, 2, 3, 4, 5, 6, 7, 8, 9, 10, 11, 12, 13, 14, 15, 16] ∧
    (concatAll ((bufferedTransportWriteSeq sampleConsts acceptAllTransport
        emptyWriteDemoStream () writeDemoRequests).map
        WriteOutcome.calls)).map WriteCall.payload =
      [[1, 2, 3, 4, 5, 6], [7, 8, 9, 10, 11, 12, 13, 14], [15, 16]] :=
  ⟨acceptAllTransport_writesAccepted, emptyWriteDemoStream_ready,
    by unfold ValidWrite; decide,
    ((bufferedTransportWrite_sequence_conservation sampleConsts
      acceptAllTransport acceptAllTransport_writesAccepted emptyWriteDemoStream
      () writeDemoRequests emptyWriteDemoStream_ready (by decide)
      (by unfold ValidWrite; decide)).2.2.1 5).trans (by decide),
    by decide⟩

theorem initStream_events_kernel {σ : Type} (K : Consts) (env : NetEnv σ)
    (stream : STREAM) (netStream : NET_STREAM_INFO) (protocol : Int)
    (connectInfo : NET_CONNECT_INFO) (isServer : Bool) :
    ∀ e ∈ (initStream K env stream netStream protocol connectInfo
      isServer).events,
      e.isAlloc = false ∧ e.isTransportOperation = false := by
  intro e he
  by_cases hp : protocol > K.STREAM_PROTOCOL_NONE ∧
      protocol < K.STREAM_PROTOCOL_LAST
  · rw [initStream_eq K env stream netStream protocol connectInfo isServer hp]
      at he
    simp only [List.mem_append] at he
    rcases he with he | he
    · split at he
      · exact absurd he (List.not_mem_nil e)
      · simp only [List.mem_singleton] at he
        subst he
        exact ⟨rfl, rfl⟩
    · split at he
      · exact absurd he (List.not_mem_nil e)
      · simp only [List.mem_singleton] at he
        subst he
        exact ⟨rfl, rfl⟩
  · rw [initStream_eq_entry_fail K env stream netStream protocol connectInfo
      isServer hp] at he
    exact absurd he (List.not_mem_nil e)

theorem processConnectOptions_session {σ : Type} (K : Consts) (env : NetEnv σ)
    (stream : STREAM) (netStream : NET_STREAM_INFO)
    (connectInfo : NET_CONNECT_INFO) (errorInfo : ERROR_INFO)
    (htype : stream.type = K.STREAM_TYPE_NETWORK)
    (hopt : connectInfo.options = K.NET_OPTION_TRANSPORTSESSION) :
    processConnectOptions K env stream netStream none connectInfo errorInfo =
      ⟨K.CRYPT_ERROR_NOTAVAIL,
        { netStream with iTransportSession := connectInfo.iCryptSession },
        none, errorInfo, []⟩ := by
  unfold processConnectOptions
  dsimp only
  rw [if_neg (not_not.mpr htype), if_neg (not_not.mpr (Or.inl ⟨Or.inl hopt, rfl⟩)),
    if_pos hopt]
  rfl

theorem session_not_hostname_connect (K : Consts) (protocol : Int)
    (connectInfo : NET_CONNECT_INFO)
    (hopt : connectInfo.options = K.NET_OPTION_TRANSPORTSESSION)
    (hentry : sNetConnectRequires K protocol connectInfo) :
    ¬ connectInfo.options = K.NET_OPTION_HOSTNAME := by
  obtain ⟨_, _, r3, r4, _⟩ := hentry
  intro hhost
  rcases r3 with r3 | ⟨_, _, _, hs, _⟩
  · exact r3 hhost
  · rcases r4 with r4 | ⟨_, _, _, _, _, hs1, _⟩
    · exact r4 hopt
    · exact hs1 hs

theorem session_not_hostname_listen (K : Consts) (protocol : Int)
    (connectInfo : NET_CONNECT_INFO)
    (hopt : connectInfo.options = K.NET_OPTION_TRANSPORTSESSION)
    (hentry : sNetListenRequires K protocol connectInfo) :
    ¬ connectInfo.options = K.NET_OPTION_HOSTNAME := by
  obtain ⟨_, _, r3, r4, _⟩ := hentry
  intro hhost
  rcases r3 with r3 | ⟨_, hs, _⟩
  · exact r3 hhost
  · rcases r4 with r4 | ⟨_, _, _, hs1, _⟩
    · exact r4 hopt
    · exact hs1 hs

theorem sNetConnect_eq_session {σ : Type} (K : Consts) (env : NetEnv σ)
    (stream : STREAM) (ts : σ) (protocol : Int) (connectInfo : NET_CONNECT_INFO)
    (errorInfo : ERROR_INFO)
    (hnotavail : K.CRYPT_ERROR_NOTAVAIL < K.CRYPT_OK)
    (hprotocol : protocol > K.STREAM_PROTOCOL_NONE ∧
      protocol < K.STREAM_PROTOCOL_LAST)
    (hopt : connectInfo.options = K.NET_OPTION_TRANSPORTSESSION)
    (hentry : sNetConnectRequires K protocol connectInfo) :
    sNetConnect K env stream ts protocol connectInfo errorInfo =
      ⟨K.CRYPT_ERROR_NOTAVAIL, { zeroStream with type := K.STREAM_TYPE_NETWORK },
        zeroErrorInfo, ts,
        (initStream K env stream zeroNetStreamInfo protocol connectInfo
          false).events ++ []⟩ := by
  rw [sNetConnect_eq_body K env stream ts protocol connectInfo errorInfo hentry,
    body_eq_options K env stream ts protocol connectInfo hprotocol]
  unfold sNetConnectOptions
  dsimp only
  have hurl : (if connectInfo.options = K.NET_OPTION_HOSTNAME then
      some zeroUrlInfo else none) = none :=
    if_neg (session_not_hostname_connect K protocol connectInfo hopt hentry)
  rw [hurl,
    processConnectOptions_session K env _ _ connectInfo zeroErrorInfo rfl hopt]
  dsimp only
  rw [if_pos (cryptStatusError_of_lt K _ hnotavail)]

theorem sNetListen_eq_session {σ : Type} (K : Consts) (env : NetEnv σ)
    (stream : STREAM) (ts : σ) (protocol : Int) (connectInfo : NET_CONNECT_INFO)
    (errorInfo : ERROR_INFO)
    (hnotavail : K.CRYPT_ERROR_NOTAVAIL < K.CRYPT_OK)
    (hprotocol : protocol > K.STREAM_PROTOCOL_NONE ∧
      protocol < K.STREAM_PROTOCOL_LAST)
    (hopt : connectInfo.options = K.NET_OPTION_TRANSPORTSESSION)
    (hentry : sNetListenRequires K protocol connectInfo) :
    sNetListen K env stream ts protocol connectInfo errorInfo =
      ⟨K.CRYPT_ERROR_NOTAVAIL, { zeroStream with type := K.STREAM_TYPE_NETWORK },
        zeroErrorInfo, ts,
        (initStream K env stream zeroNetStreamInfo protocol connectInfo
          true).events ++ []⟩ := by
  obtain ⟨h1, h2, _⟩ := initStream_fields K env stream zeroNetStreamInfo
    protocol connectInfo true hprotocol
  rw [sNetListen_eq_body K env stream ts protocol connectInfo errorInfo hentry]
  unfold sNetListenBody
  dsimp only
  have hurl : (if connectInfo.options = K.NET_OPTION_HOSTNAME ∧
      connectInfo.interface ≠ none then some zeroUrlInfo else none) = none :=
    if_neg (fun h => session_not_hostname_listen K protocol connectInfo hopt
      hentry h.1)
  rw [if_neg (by rw [h1, cryptStatusError_OK]; decide), h2, hurl,
    processConnectOptions_session K env _ _ connectInfo zeroErrorInfo rfl hopt]
  dsimp only
  rw [if_pos (cryptStatusError_of_lt K _ hnotavail)]

/-! ## C37: the external-session option is not available -/

/-- C37: for every protocol and every session handle, a call of `sNetConnect`
and a call of `sNetListen` with the external-session option
(`NET_OPTION_TRANSPORTSESSION`) that passes the entry checks returns
`CRYPT_ERROR_NOTAVAIL`, an error status.  The call has made no allocation and
invoked no transport operation (its only calls are the timeout queries of
`initStream`), the transport state is untouched, and the stream is the one
`initStream` left, with no descriptor attached: the call ended before the
access method and the stream layer were selected. -/
theorem sNetConnect_sNetListen_session_not_available {σ : Type} (K : Consts)
    (env : NetEnv σ) (stream : STREAM) (ts : σ) (protocol : Int)
    (connectInfo : NET_CONNECT_INFO) (errorInfo : ERROR_INFO)
    (hnotavail : K.CRYPT_ERROR_NOTAVAIL < K.CRYPT_OK)
    (hprotocol : protocol > K.STREAM_PROTOCOL_NONE ∧
      protocol < K.STREAM_PROTOCOL_LAST)
    (hopt : connectInfo.options = K.NET_OPTION_TRANSPORTSESSION) :
    (sNetConnectRequires K protocol connectInfo →
      (sNetConnect K env stream ts protocol connectInfo errorInfo).status =
        K.CRYPT_ERROR_NOTAVAIL ∧
      cryptStatusError K
        (sNetConnect K env stream ts protocol connectInfo errorInfo).status =
        true ∧
      (sNetConnect K env stream ts protocol connectInfo errorInfo).stream =
        { zeroStream with type := K.STREAM_TYPE_NETWORK } ∧
      DATAPTR_GET K (sNetConnect K env stream ts protocol connectInfo
        errorInfo).stream.netStream = NULL ∧
      (sNetConnect K env stream ts protocol connectInfo errorInfo).tstate = ts ∧
      (sNetConnect K env stream ts protocol connectInfo errorInfo).events =
        (initStream K env stream zeroNetStreamInfo protocol connectInfo
          false).events ∧
      ∀ e ∈ (sNetConnect K env stream ts protocol connectInfo errorInfo).events,
        e.isAlloc = false ∧ e.isTransportOperation = false) ∧
    (sNetListenRequires K protocol connectInfo →
      (sNetListen K env stream ts protocol connectInfo errorInfo).status =
        K.CRYPT_ERROR_NOTAVAIL ∧
      cryptStatusError K
        (sNetListen K env stream ts protocol connectInfo errorInfo).status =
        true ∧
      (sNetListen K env stream ts protocol connectInfo errorInfo).stream =
        { zeroStream with type := K.STREAM_TYPE_NETWORK } ∧
      DATAPTR_GET K (sNetListen K env stream ts protocol connectInfo
        errorInfo).stream.netStream = NULL ∧
      (sNetListen K env stream ts protocol connectInfo errorInfo).tstate = ts ∧
      (sNetListen K env stream ts protocol connectInfo errorInfo).events =
        (initStream K env stream zeroNetStreamInfo protocol connectInfo
          true).events ∧
      ∀ e ∈ (sNetListen K env stream ts protocol connectInfo errorInfo).events,
        e.isAlloc = false ∧ e.isTransportOperation = false) := by
  constructor
  · intro hentry
    rw [sNetConnect_eq_session K env stream ts protocol connectInfo errorInfo
      hnotavail hprotocol hopt hentry]
    refine ⟨rfl, cryptStatusError_of_lt K _ hnotavail, rfl,
      DATAPTR_GET_zeroStream K, rfl, List.append_nil _, ?_⟩
    intro e he
    dsimp only at he
    rw [List.append_nil] at he
    exact initStream_events_kernel K env stream zeroNetStreamInfo protocol
      connectInfo false e he
  · intro hentry
    rw [sNetListen_eq_session K env stream ts protocol connectInfo errorInfo
      hnotavail hprotocol hopt hentry]
    refine ⟨rfl, cryptStatusError_of_lt K _ hnotavail, rfl,
      DATAPTR_GET_zeroStream K, rfl, List.append_nil _, ?_⟩
    intro e he
    dsimp only at he
    rw [List.append_nil] at he
    exact initStream_events_kernel K env stream zeroNetStreamInfo protocol
      connectInfo true e he

set_option maxRecDepth 100000 in
/-- C37, witness: an HTTP connect and an HTTP listen over the external session
with handle 17 return -20 (`CRYPT_ERROR_NOTAVAIL`) after the two timeout
queries of `initStream`, with the transport state still 0. -/
theorem sNetConnect_sNetListen_session_not_available_witness :
    ((sNetConnect sampleConsts (scenarioEnv plainScenario) zeroStream 0 3
        (sessionConnectInfo 17) zeroErrorInfo).status = -20 ∧
      (sNetConnect sampleConsts (scenarioEnv plainScenario) zeroStream 0 3
        (sessionConnectInfo 17) zeroErrorInfo).tstate = 0 ∧
      (sNetConnect sampleConsts (scenarioEnv plainScenario) zeroStream 0 3
        (sessionConnectInfo 17) zeroErrorInfo).events.length = 2) ∧
    ((sNetListen sampleConsts (scenarioEnv plainScenario) zeroStream 0 3
        (sessionConnectInfo 17) zeroErrorInfo).status = -20 ∧
      (sNetListen sampleConsts (scenarioEnv plainScenario) zeroStream 0 3
        (sessionConnectInfo 17) zeroErrorInfo).tstate = 0 ∧
      (sNetListen sampleConsts (scenarioEnv plainScenario) zeroStream 0 3
        (sessionConnectInfo 17) zeroErrorInfo).events.length = 2) := by
  obtain ⟨hc, hl⟩ := sNetConnect_sNetListen_session_not_available sampleConsts
    (scenarioEnv plainScenario) zeroStream 0 3 (sessionConnectInfo 17)
    zeroErrorInfo (by decide) (by decide) rfl
  obtain ⟨c1, _, _, _, c5, c6, _⟩ := hc (by decide)
  obtain ⟨l1, _, _, _, l5, l6, _⟩ := hl (by decide)
  exact ⟨⟨c1, c5, (congrArg List.length c6).trans (by decide)⟩,
    ⟨l1, l5, (congrArg List.length l6).trans (by decide)⟩⟩

theorem sNetDisconnect_eq_detached {σ : Type} (K : Consts) (env : NetEnv σ)
    (stream : STREAM) (ts : σ)
    (h1 : DATAPTR_GET K stream.netStream = NULL) :
    sNetDisconnect K env stream ts =
      ⟨K.CRYPT_ERROR_INTERNAL, stream, ts, []⟩ := by
  unfold sNetDisconnect
  rw [if_pos h1]

theorem sNetDisconnect_zeroes {σ : Type} (K : Consts) (env : NetEnv σ)
    (stream : STREAM) (ts : σ)
    (hattached : DATAPTR_GET K stream.netStream ≠ NULL)
    (hsane : sanityCheckNetStream K stream.netStreamInfo = true)
    (hpresent : stream.netStreamInfo.nFlags &&& K.STREAM_NFLAG_USERSOCKET = 0 →
      FNPTR_GET K stream.netStreamInfo.transportDisconnectFunction ≠ NULL) :
    (sNetDisconnect K env stream ts).status = K.CRYPT_OK ∧
    (sNetDisconnect K env stream ts).stream = zeroStream := by
  rw [sNetDisconnect_eq K env stream ts hattached hsane]
  by_cases hown : stream.netStreamInfo.nFlags &&& K.STREAM_NFLAG_USERSOCKET = 0
  · rw [cleanupStream_eq_disconnect K env stream ts hattached hsane hown
      (hpresent hown)]
    exact ⟨rfl, rfl⟩
  · rw [cleanupStream_eq_keep K env stream ts true hattached hsane
      (fun h => hown h.2)]
    exact ⟨rfl, rfl⟩

/-! ## C38: a second sNetDisconnect on the same handle -/

/-- C38, where the operation table is intact: on a stream whose descriptor is
attached, passes the sanity check and, when the socket was not
caller-supplied, has its transport disconnect operation present,
`sNetDisconnect` returns `CRYPT_OK` and leaves the caller's stream handle
all-zero.  A second `sNetDisconnect` on that
handle finds no descriptor: it returns `CRYPT_ERROR_INTERNAL`, an error
status, makes no call at all (no transport operation, no zeroing, no
release) and leaves the handle and the transport state as they were. -/
theorem sNetDisconnect_twice {σ : Type} (K : Consts) (env : NetEnv σ)
    (stream : STREAM) (ts : σ)
    (hinternal : K.CRYPT_ERROR_INTERNAL < K.CRYPT_OK)
    (hattached : DATAPTR_GET K stream.netStream ≠ NULL)
    (hsane : sanityCheckNetStream K stream.netStreamInfo = true)
    (hpresent : stream.netStreamInfo.nFlags &&& K.STREAM_NFLAG_USERSOCKET = 0 →
      FNPTR_GET K stream.netStreamInfo.transportDisconnectFunction ≠ NULL) :
    (sNetDisconnect K env stream ts).status = K.CRYPT_OK ∧
    (sNetDisconnect K env stream ts).stream = zeroStream ∧
    DATAPTR_GET K (sNetDisconnect K env stream ts).stream.netStream = NULL ∧
    (sNetDisconnect K env (sNetDisconnect K env stream ts).stream
      (sNetDisconnect K env stream ts).tstate).status =
      K.CRYPT_ERROR_INTERNAL ∧
    cryptStatusError K
      (sNetDisconnect K env (sNetDisconnect K env stream ts).stream
        (sNetDisconnect K env stream ts).tstate).status = true ∧
    (sNetDisconnect K env (sNetDisconnect K env stream ts).stream
      (sNetDisconnect K env stream ts).tstate).events = [] ∧
    (sNetDisconnect K env (sNetDisconnect K env stream ts).stream
      (sNetDisconnect K env stream ts).tstate).stream = zeroStream ∧
    (sNetDisconnect K env (sNetDisconnect K env stream ts).stream
      (sNetDisconnect K env stream ts).tstate).tstate =
      (sNetDisconnect K env stream ts).tstate := by
  obtain ⟨h1, h2⟩ := sNetDisconnect_zeroes K env stream ts hattached hsane
    hpresent
  have h3 : DATAPTR_GET K (sNetDisconnect K env stream ts).stream.netStream =
      NULL := by
    rw [h2]
    exact DATAPTR_GET_zeroStream K
  rw [sNetDisconnect_eq_detached K env _ _ h3]
  exact ⟨h1, h2, h3, rfl, cryptStatusError_of_lt K _ hinternal, rfl, h2, rfl⟩

set_option maxRecDepth 100000 in
/-- C38, an instance with the operation table intact: a TCP stream that owns
its socket is disconnected twice.
The first call returns 0 and zeroes the handle, the second returns -16
(`CRYPT_ERROR_INTERNAL`) and makes no call. -/
theorem sNetDisconnect_twice_witness :
    (sNetDisconnect sampleConsts (scenarioEnv plainScenario) (tcpStream false)
      0).status = 0 ∧
    (sNetDisconnect sampleConsts (scenarioEnv plainScenario) (tcpStream false)
      0).stream = zeroStream ∧
    (sNetDisconnect sampleConsts (scenarioEnv plainScenario)
      (sNetDisconnect sampleConsts (scenarioEnv plainScenario) (tcpStream false)
        0).stream
      (sNetDisconnect sampleConsts (scenarioEnv plainScenario) (tcpStream false)
        0).tstate).status = -16 ∧
    (sNetDisconnect sampleConsts (scenarioEnv plainScenario)
      (sNetDisconnect sampleConsts (scenarioEnv plainScenario) (tcpStream false)
        0).stream
      (sNetDisconnect sampleConsts (scenarioEnv plainScenario) (tcpStream false)
        0).tstate).events = [] := by
  obtain ⟨h1, h2, _, h4, _, h6, _⟩ := sNetDisconnect_twice sampleConsts
    (scenarioEnv plainScenario) (tcpStream false) 0 (by decide) (by decide)
    (by decide) (fun _ => by decide)
  exact ⟨h1, h2, h4, h6⟩

set_option maxRecDepth 100000 in
/-- C38, the failing input: the descriptor of `emptyTableStream` is unbuffered
and its operation table is empty, yet it passes `sanityCheckNetStream`, which
returns `TRUE` for an unbuffered stream before it reaches the check of the
access functions; the socket is not caller-supplied.  The first
`sNetDisconnect` returns `CRYPT_OK` without having made any call, and the
handle is not all-zero: it still has its descriptor attached.  The second
`sNetDisconnect` on the same handle finds the descriptor and returns
`CRYPT_OK` again, not an error. -/
theorem sNetDisconnect_twice_empty_table_not_zeroed :
    sanityCheckNetStream sampleConsts emptyTableStream.netStreamInfo = true ∧
    FNPTR_GET sampleConsts
      emptyTableStream.netStreamInfo.transportDisconnectFunction = NULL ∧
    (sNetDisconnect sampleConsts (scenarioEnv plainScenario) emptyTableStream
      0).status = sampleConsts.CRYPT_OK ∧
    (sNetDisconnect sampleConsts (scenarioEnv plainScenario) emptyTableStream
      0).events = [] ∧
    (sNetDisconnect sampleConsts (scenarioEnv plainScenario) emptyTableStream
      0).stream ≠ zeroStream ∧
    DATAPTR_GET sampleConsts
      (sNetDisconnect sampleConsts (scenarioEnv plainScenario) emptyTableStream
        0).stream.netStream ≠ NULL ∧
    (sNetDisconnect sampleConsts (scenarioEnv plainScenario)
      (sNetDisconnect sampleConsts (scenarioEnv plainScenario) emptyTableStream
        0).stream
      (sNetDisconnect sampleConsts (scenarioEnv plainScenario) emptyTableStream
        0).tstate).status = sampleConsts.CRYPT_OK ∧
    cryptStatusError sampleConsts
      (sNetDisconnect sampleConsts (scenarioEnv plainScenario)
        (sNetDisconnect sampleConsts (scenarioEnv plainScenario)
          emptyTableStream 0).stream
        (sNetDisconnect sampleConsts (scenarioEnv plainScenario)
          emptyTableStream 0).tstate).status = false := by
  decide

theorem sanityCheckNetStream_buffered_table (K : Consts)
    (netStream : NET_STREAM_INFO) (hbuffered : netStream.writeBuffer ≠ none)
    (hsane : sanityCheckNetStream K netStream = true) :
    FNPTR_GET K netStream.writeFunction ≠ NULL ∧
    FNPTR_GET K netStream.readFunction ≠ NULL ∧
    FNPTR_GET K netStream.transportConnectFunction ≠ NULL ∧
    FNPTR_GET K netStream.transportDisconnectFunction ≠ NULL ∧
    FNPTR_GET K netStream.transportReadFunction ≠ NULL ∧
    FNPTR_GET K netStream.transportWriteFunction ≠ NULL ∧
    FNPTR_GET K netStream.transportOKFunction ≠ NULL ∧
    FNPTR_GET K netStream.transportCheckFunction ≠ NULL := by
  unfold sanityCheckNetStream at hsane
  simp_all

/-! ## C39: the sanity check and the operation table -/

set_option maxRecDepth 100000 in
/-- C39, the failing input: the unbuffered descriptor `emptyTableNetStream`
(no write buffer, write-buffer size and watermark 0) is accepted by
`sanityCheckNetStream`, although every entry of its operation table is absent
(each reads back as `NULL`).  The check returns `TRUE` for an unbuffered
stream before it reaches "Check the network stream access functions". -/
theorem sanityCheckNetStream_unbuffered_skips_table :
    emptyTableNetStream.writeBuffer = none ∧
    sanityCheckNetStream sampleConsts emptyTableNetStream = true ∧
    FNPTR_GET sampleConsts emptyTableNetStream.writeFunction = NULL ∧
    FNPTR_GET sampleConsts emptyTableNetStream.readFunction = NULL ∧
    FNPTR_GET sampleConsts emptyTableNetStream.transportConnectFunction = NULL ∧
    FNPTR_GET sampleConsts emptyTableNetStream.transportDisconnectFunction =
      NULL ∧
    FNPTR_GET sampleConsts emptyTableNetStream.transportReadFunction = NULL ∧
    FNPTR_GET sampleConsts emptyTableNetStream.transportWriteFunction = NULL ∧
    FNPTR_GET sampleConsts emptyTableNetStream.transportOKFunction = NULL ∧
    FNPTR_GET sampleConsts emptyTableNetStream.transportCheckFunction = NULL := by
  decide

end Cryptlib
